import Mathlib

/-!
# DW3000 driver: register transport, sleep/wake state machine, bring-up

A shallow embedding of `dw1000_dev.c`, `dw1000_phy.c`, `dw1000_otp.c` and
`dw1000_gpio.c` (package `uwb_dw3000-c0`).

* Machine integers are `Nat`, reduced with an explicit `%` where C truncates.
* The driver's calls on its external collaborators (bus HAL, mutex, semaphore,
  delay, MAC layer, reset callbacks) are recorded, oldest first, in a trace of
  `Event`s; what the collaborators answer is given by an `Env`, a family of
  functions of the trace so far, so every chip behaviour is an `Env`.
* A failed `assert` aborts: the driver monad `M` ends in `Res.fault`.
* The constants of the header `dw3000_regs.h` and the `MYNEWT_VAL` settings are
  not part of the package sources; they are the fields of `dw3000_regs` and
  `syscfg`.
* Single-precision arithmetic is a parameter (`float32_ops`) of the PHY helpers
  that use it; the examples evaluate them with exact dyadic arithmetic.
-/

namespace DW3000

/-! ## Constants taken as parameters -/

/-- Constants of `dw3000_regs.h` (register file ids, sub-addresses, bit masks)
and of `dw3000_gpio.h`, used by the modelled functions. -/
structure dw3000_regs where
  DEV_ID_ID : Nat
  DWT_DEVICE_ID : Nat
  PMSC_ID : Nat
  PMSC_CTRL0_OFFSET : Nat
  PMSC_CTRL0_SYSCLKS_19M : Nat
  PMSC_CTRL0_SYSCLKS_125M : Nat
  PMSC_CTRL0_GPDCE : Nat
  PMSC_CTRL0_KHZCLEN : Nat
  PMSC_CTRL1_OFFSET : Nat
  PMSC_CTRL1_PKTSEQ_DISABLE : Nat
  PMSC_CTRL0_SOFTRESET_OFFSET : Nat
  PMSC_CTRL0_RESET_ALL : Nat
  PMSC_CTRL0_RESET_RX : Nat
  PMSC_CTRL0_RESET_CLEAR : Nat
  PMSC_LEDC_OFFSET : Nat
  PMSC_LEDC_BLNKEN : Nat
  PMSC_LEDC_BLINK_TIME_DEF : Nat
  PMSC_LEDC_BLINK_NOW_ALL : Nat
  AON_ID : Nat
  AON_WCFG_OFFSET : Nat
  AON_WCFG_ONW_RADC : Nat
  AON_CFG0_OFFSET : Nat
  AON_CFG1_OFFSET : Nat
  AON_CFG1_SMXX : Nat
  AON_CTRL_OFFSET : Nat
  AON_CTRL_SAVE : Nat
  SYS_CFG_ID : Nat
  SYS_STATUS_ID : Nat
  SYS_STATUS_SLP2INIT : Nat
  SYS_STATUS_ALL_RX_ERR : Nat
  SYS_STATUS_ALL_TX : Nat
  SYS_STATUS_ALL_RX_TO : Nat
  SYS_STATUS_ALL_RX_GOOD : Nat
  SYS_STATUS_TXBERR : Nat
  SYS_MASK_ID : Nat
  SYS_CTRL_ID : Nat
  SYS_CTRL_OFFSET : Nat
  SYS_CTRL_TRXOFF : Nat
  LDE_IF_ID : Nat
  LDE_RXANTD_OFFSET : Nat
  TX_ANTD_ID : Nat
  TX_ANTD_OFFSET : Nat
  EXT_SYNC_ID : Nat
  EC_CTRL_OFFSET : Nat
  EC_CTRL_PLLLCK : Nat
  OTP_IF_ID : Nat
  OTP_ADDR : Nat
  OTP_CTRL : Nat
  OTP_CTRL_OTPREAD : Nat
  OTP_CTRL_OTPRDEN : Nat
  OTP_CTRL_LDELOAD : Nat
  OTP_RDAT : Nat
  OTP_SF : Nat
  OTP_SF_LDO_KICK : Nat
  OTP_XTRIM_ADDRESS : Nat
  OTP_LDOTUNE_ADDRESS : Nat
  OTP_PARTID_ADDRESS : Nat
  OTP_LOTID_ADDRESS : Nat
  OTP_VBAT_ADDRESS : Nat
  OTP_VTEMP_ADDRESS : Nat
  FS_CTRL_ID : Nat
  FS_XTALT_OFFSET : Nat
  FS_XTALT_MASK : Nat
  TX_CAL_ID : Nat
  TC_PGDELAY_OFFSET : Nat
  TX_POWER_ID : Nat
  GPIO_CTRL_ID : Nat
  GPIO_MODE_OFFSET : Nat
  GPIO_MSGP2_MASK : Nat
  GPIO_MSGP3_MASK : Nat
  GPIO_MSGP5_MASK : Nat
  GPIO_MSGP6_MASK : Nat
  GPIO_PIN2_RXLED : Nat
  GPIO_PIN3_TXLED : Nat
  GPIO_PIN5_EXTTXE : Nat
  GPIO_PIN6_EXTRXE : Nat
  DWT_LEDS_ENABLE : Nat
  DWT_LEDS_INIT_BLINK : Nat
  AON_WCFG_ONW_L64P : Nat
  AON_WCFG_ONW_LDC : Nat
  AON_WCFG_ONW_LLDE : Nat
  AON_WCFG_ONW_LLDO : Nat
  AON_WCFG_ONW_RX : Nat
  AON_CFG0_WAKE_SPI : Nat
  AON_CFG0_WAKE_PIN : Nat
  AON_CFG0_WAKE_CNT : Nat
  AON_CFG0_SLEEP_EN : Nat
  DIG_DIAG_ID : Nat
  EVC_PHE_OFFSET : Nat
  EVC_RSE_MASK : Nat
  EVC_PHE_MASK : Nat
  EVC_FCE_MASK : Nat
  EVC_FCG_MASK : Nat
  EVC_OVR_MASK : Nat
  EVC_FFR_MASK : Nat
  EVC_PTO_MASK : Nat
  EVC_STO_MASK : Nat
  EVC_TXFS_MASK : Nat
  EVC_FWTO_MASK : Nat
  EVC_TPW_MASK : Nat
  EVC_HPW_MASK : Nat
  PMSC_CTRL0_GPCE : Nat
  PMSC_CTRL0_GPRN : Nat
  GPIO_DIR_OFFSET : Nat
  GPIO_DIR_LEN : Nat
  GPIO_DOUT_OFFSET : Nat
  GPIO_DOUT_LEN : Nat

/-- Build settings read through `MYNEWT_VAL`, and the width of `size_t`.
`RXTX_GPIO_enabled` stands for `MYNEWT_VAL(DW3000_RXTX_GPIO)`. -/
structure syscfg where
  DW3000_DEVICE_SPI_RD_MAX_NOBLOCK : Nat
  PANID : Nat
  DW_DEVICE_ID_0 : Nat
  DW_DEVICE_ID_1 : Nat
  DW_DEVICE_ID_2 : Nat
  DW3000_RXTX_LEDS : Bool
  RXTX_GPIO_enabled : Bool
  size_t_bits : Nat

/-! ## Device instance -/

/-- The flags of `struct uwb_dev_status` this driver layer reads or writes;
`other` stands for the remaining flags of the structure. -/
structure uwb_dev_status where
  selfmalloc : Bool
  initialized : Bool
  sleeping : Bool
  LDE_enabled : Bool
  LDO_enabled : Bool
  sleep_enabled : Bool
  mtx_error : Bool
  sem_force_released : Bool
  other : Nat
deriving DecidableEq

/-- The flags of `inst->control` used here; `other` stands for the rest. -/
structure dw3000_dev_control_t where
  wait4resp_enabled : Bool
  rxauto_disable : Bool
  abs_timeout : Bool
  sleep_after_tx : Bool
  sleep_after_rx : Bool
  other : Nat
deriving DecidableEq

/-- The fields `PGdly` and `power` of `struct uwb_dev_txrf_config`. -/
structure uwb_dev_txrf_config where
  PGdly : Nat
  power : Nat
deriving DecidableEq

/-- The fields of `struct uwb_dev_config` used here (`rx_xtalTrim` is
`config.rx.xtalTrim`). -/
structure uwb_dev_config where
  blocking_spi_transfers : Bool
  dblbuffon_enabled : Bool
  wakeup_rx_enable : Bool
  sleep_enable : Bool
  LDE_enable : Bool
  rx_xtalTrim : Nat
  txrf : uwb_dev_txrf_config
deriving DecidableEq

/-- Calls on external collaborators, as recorded in the trace. A bus transfer
records the transmitted header (the first `len` bytes of the header array) and
the payload: the bytes received for a read, the bytes sent for a write. -/
inductive Event where
  | hal_dw3000_read (header : List Nat) (data : List Nat)
  | hal_dw3000_read_noblock (header : List Nat) (data : List Nat)
  | hal_dw3000_write (header : List Nat) (data : List Nat)
  | hal_dw3000_write_noblock (header : List Nat) (data : List Nat)
  | hal_dw3000_rw_noblock_wait
  | hal_dw3000_wakeup
  | hal_dw3000_reset
  | hal_spi_disable
  | hal_spi_config (baudrate : Nat)
  | hal_spi_enable
  | dpl_mutex_pend
  | dpl_mutex_release
  | dpl_sem_release
  | dpl_cputime_delay_usecs (usecs : Nat)
  | reset_cb (id : Nat)
  | dw3000_sync_rxbufptrs
  | dw3000_mac_init
  | dw3000_set_panid (pan_id : Nat)
  | dw3000_set_eui (euid : Nat)
  | dw3000_set_address16 (uid : Nat)
deriving DecidableEq

/-- Return codes of the OS layer: `DPL_OK`, `DPL_TIMEOUT`, and any other
error. -/
inductive dpl_error_t where
  | DPL_OK
  | DPL_TIMEOUT
  | DPL_ERROR
deriving DecidableEq

/-- One entry of the list `interface_cbs`: an identifier for the trace and the
optional `reset_cb`, whose return value may depend on everything that happened
before the call. -/
structure uwb_mac_interface where
  id : Nat
  reset_cb : Option (List Event → Bool)

/-- The fields of `dw3000_dev_instance_t` (with its embedded `uwb_dev`) used
here. -/
structure dw3000_dev_instance_t where
  status : uwb_dev_status
  control : dw3000_dev_control_t
  config : uwb_dev_config
  device_id : Nat
  pan_id : Nat
  uid : Nat
  euid : Nat
  rx_antenna_delay : Nat
  tx_antenna_delay : Nat
  spi_baudrate : Nat
  spi_baudrate_low : Nat
  spi_settings_baudrate : Nat
  part_id : Nat
  lot_id : Nat
  otp_rev : Nat
  otp_vbat : Nat
  otp_temp : Nat
  otp_xtal_trim : Nat
  sys_cfg_reg : Nat
  interface_cbs : List uwb_mac_interface

/-- What the collaborators answer, as functions of the trace so far:
the bytes the chip shifts out for a read with the given header and length,
the results of `dpl_mutex_pend`, `dpl_mutex_release`, `dpl_sem_release`,
and the return code of the `hal_spi_*` calls. -/
structure Env where
  spi_rx : List Event → List Nat → Nat → List Nat
  mutex_pend : List Event → dpl_error_t
  mutex_release : List Event → dpl_error_t
  sem_release : List Event → dpl_error_t
  spi_rc : List Event → Int

/-- Everything fixed during a run: the constants, the build settings, the
environment, and the index `i` for which `inst == hal_dw3000_inst(i)`, if
any. -/
structure Ctx where
  regs : dw3000_regs
  cfg : syscfg
  env : Env
  hal_inst : Option Nat

/-- The mutable state: the instance, the trace, the nesting level of the
instance mutex and the count of the TX semaphore. -/
structure World where
  inst : dw3000_dev_instance_t
  trace : List Event
  mutex_level : Nat
  tx_sem : Nat

/-- Outcome of a driver call: a value and the new state, or an abort on a
failed `assert` with the state at that point. -/
inductive Res (α : Type) where
  | ok (a : α) (w : World)
  | fault (w : World)

/-- State of the world when the call returned or aborted. -/
def Res.world {α : Type} : Res α → World
  | .ok _ w => w
  | .fault w => w

/-- Whether the call aborted. -/
def Res.isFault {α : Type} : Res α → Bool
  | .ok _ _ => false
  | .fault _ => true

/-- The returned value, if the call returned. -/
def Res.value {α : Type} : Res α → Option α
  | .ok a _ => some a
  | .fault _ => none

/-- The driver monad: state passing with abort. -/
def M (α : Type) : Type := World → Res α

/-- Sequencing: an abort ends the run. -/
def M.bind {α β : Type} (m : M α) (f : α → M β) : M β := fun w =>
  match m w with
  | .ok a w' => f a w'
  | .fault w' => .fault w'

instance : Monad M where
  pure a := fun w => .ok a w
  bind := M.bind

/-- C `assert`: abort when the condition is false. -/
def c_assert (p : Prop) [Decidable p] : M Unit := fun w =>
  if p then .ok () w else .fault w

/-- Append one event to the trace. -/
def emit (ev : Event) : M Unit := fun w =>
  .ok () { w with trace := w.trace ++ [ev] }

/-- Read the instance. -/
def get_inst : M dw3000_dev_instance_t := fun w => .ok w.inst w

/-- Update the instance. -/
def modify_inst (f : dw3000_dev_instance_t → dw3000_dev_instance_t) : M Unit := fun w =>
  .ok () { w with inst := f w.inst }

/-! ## Bus HAL (external): blocking and non-blocking transfers -/

/-- The `length` bytes a read leaves in the buffer, from the chip's answer. -/
def rx_bytes (length : Nat) (resp : List Nat) : List Nat :=
  (List.range length).map (fun i => resp.getD i 0 % 256)

/-- The first `length` bytes of a caller buffer. -/
def tx_bytes (length : Nat) (buffer : List Nat) : List Nat :=
  (List.range length).map (fun i => buffer.getD i 0 % 256)

/-- Little-endian value of a byte array (the `union _buffer` view). -/
def le_value : List Nat → Nat
  | [] => 0
  | b :: bs => b + 256 * le_value bs

/-- The first `nbytes` little-endian bytes of a 64-bit value. -/
def le_bytes (val nbytes : Nat) : List Nat :=
  (List.range nbytes).map (fun i => (val % 2 ^ 64) / 256 ^ i % 256)

/-- `hal_dw3000_read`: blocking read of `length` bytes after a `len`-byte header. -/
def hal_dw3000_read (c : Ctx) (header : List Nat) (len length : Nat) : M (List Nat) := fun w =>
  let data := rx_bytes length (c.env.spi_rx w.trace (header.take len) length)
  .ok data { w with trace := w.trace ++ [Event.hal_dw3000_read (header.take len) data] }

/-- `hal_dw3000_read_noblock`: the same transfer through the non-blocking
primitive (its completion is not modelled separately). -/
def hal_dw3000_read_noblock (c : Ctx) (header : List Nat) (len length : Nat) : M (List Nat) := fun w =>
  let data := rx_bytes length (c.env.spi_rx w.trace (header.take len) length)
  .ok data { w with trace := w.trace ++ [Event.hal_dw3000_read_noblock (header.take len) data] }

/-- `hal_dw3000_write`: blocking write. -/
def hal_dw3000_write (header : List Nat) (len : Nat) (buffer : List Nat) (length : Nat) : M Unit :=
  emit (Event.hal_dw3000_write (header.take len) (tx_bytes length buffer))

/-- `hal_dw3000_write_noblock`: non-blocking write. -/
def hal_dw3000_write_noblock (header : List Nat) (len : Nat) (buffer : List Nat) (length : Nat) : M Unit :=
  emit (Event.hal_dw3000_write_noblock (header.take len) (tx_bytes length buffer))

/-! ## Register transport (`dw1000_dev.c`) -/

/-- The bit-field descriptor `dw3000_cmd_t`. -/
structure dw3000_cmd_t where
  reg : Nat
  subindex : Nat
  operation : Nat
  extended : Nat
  subaddress : Nat

/-- The initialiser of `cmd`, identical in the four transport functions: each
bit-field keeps the low bits of what is assigned to it. -/
def mk_cmd (reg subaddress operation : Nat) : dw3000_cmd_t where
  reg := reg % 2 ^ 6
  subindex := if subaddress ≠ 0 then 1 else 0
  operation := operation % 2
  extended := if subaddress > 0x7F then 1 else 0
  subaddress := subaddress % 2 ^ 15

/-- The three-byte array `header[]`, identical in the four functions. -/
def mk_header (cmd : dw3000_cmd_t) (subaddress : Nat) : List Nat :=
  [ ((cmd.operation <<< 7) ||| (cmd.subindex <<< 6) ||| cmd.reg) % 256,
    ((cmd.extended <<< 7) ||| (subaddress % 256)) % 256,
    (subaddress >>> 7) % 256 ]

/-- The header length `len = cmd.subaddress?(cmd.extended?3:2):1`. -/
def mk_len (cmd : dw3000_cmd_t) : Nat :=
  if cmd.subaddress ≠ 0 then (if cmd.extended ≠ 0 then 3 else 2) else 1

/-- `dw3000_read`: returns the status snapshot and the bytes read. -/
def dw3000_read (c : Ctx) (reg subaddress length : Nat) : M (uwb_dev_status × List Nat) := do
  let cmd := mk_cmd reg subaddress 0
  let header := mk_header cmd subaddress
  let len := mk_len cmd
  c_assert (reg ≤ 0x3F)
  c_assert (subaddress ≤ 0x7FFF ∧ subaddress + length ≤ 0x7FFF)
  let inst ← get_inst
  let buffer ←
    if length < c.cfg.DW3000_DEVICE_SPI_RD_MAX_NOBLOCK ∨ inst.config.blocking_spi_transfers = true then
      hal_dw3000_read c header len length
    else
      hal_dw3000_read_noblock c header len length
  let inst ← get_inst
  pure (inst.status, buffer)

/-- `dw3000_write`. -/
def dw3000_write (c : Ctx) (reg subaddress : Nat) (buffer : List Nat) (length : Nat) : M uwb_dev_status := do
  let cmd := mk_cmd reg subaddress 1
  let header := mk_header cmd subaddress
  let len := mk_len cmd
  c_assert (reg ≤ 0x3F)
  c_assert (subaddress ≤ 0x7FFF ∧ subaddress + length ≤ 0x7FFF)
  let inst ← get_inst
  if len + length < c.cfg.DW3000_DEVICE_SPI_RD_MAX_NOBLOCK ∨ inst.config.blocking_spi_transfers = true then
    hal_dw3000_write header len buffer length
  else
    hal_dw3000_write_noblock header len buffer length
  let inst ← get_inst
  pure inst.status

/-- `dw3000_read_reg`: `nbytes` is a `size_t`, so `subaddress + nbytes` and
`len + nbytes` are computed modulo `2 ^ size_t_bits`. -/
def dw3000_read_reg (c : Ctx) (reg subaddress nbytes : Nat) : M Nat := do
  let cmd := mk_cmd reg subaddress 0
  let header := mk_header cmd subaddress
  let len := mk_len cmd
  c_assert (reg ≤ 0x3F)
  c_assert (subaddress ≤ 0x7FFF ∧ (subaddress + nbytes) % 2 ^ c.cfg.size_t_bits ≤ 0x7FFF)
  c_assert (nbytes ≤ 8)
  let inst ← get_inst
  let array ←
    if (len + nbytes) % 2 ^ c.cfg.size_t_bits < c.cfg.DW3000_DEVICE_SPI_RD_MAX_NOBLOCK
        ∨ inst.config.blocking_spi_transfers = true then
      hal_dw3000_read c header len nbytes
    else
      hal_dw3000_read_noblock c header len nbytes
  pure (le_value array)

/-- `dw3000_write_reg`. -/
def dw3000_write_reg (c : Ctx) (reg subaddress val nbytes : Nat) : M Unit := do
  let cmd := mk_cmd reg subaddress 1
  let header := mk_header cmd subaddress
  let len := mk_len cmd
  let array := le_bytes val 8
  c_assert (nbytes ≤ 8)
  c_assert (reg ≤ 0x3F)
  c_assert (subaddress ≤ 0x7FFF ∧ (subaddress + nbytes) % 2 ^ c.cfg.size_t_bits ≤ 0x7FFF)
  let inst ← get_inst
  if (len + nbytes) % 2 ^ c.cfg.size_t_bits < c.cfg.DW3000_DEVICE_SPI_RD_MAX_NOBLOCK
      ∨ inst.config.blocking_spi_transfers = true then
    hal_dw3000_write header len array nbytes
  else do
    hal_dw3000_write_noblock header len array nbytes
    emit Event.hal_dw3000_rw_noblock_wait

/-! ## OS and HAL primitives (external) -/

/-- `dpl_mutex_pend(&inst->mutex, DPL_WAIT_FOREVER)`. -/
def dpl_mutex_pend (c : Ctx) : M dpl_error_t := fun w =>
  let err := c.env.mutex_pend w.trace
  .ok err { w with
    trace := w.trace ++ [Event.dpl_mutex_pend]
    mutex_level := if err = dpl_error_t.DPL_OK then w.mutex_level + 1 else w.mutex_level }

/-- `dpl_mutex_release(&inst->mutex)`. -/
def dpl_mutex_release (c : Ctx) : M dpl_error_t := fun w =>
  let err := c.env.mutex_release w.trace
  .ok err { w with
    trace := w.trace ++ [Event.dpl_mutex_release]
    mutex_level := if err = dpl_error_t.DPL_OK then w.mutex_level - 1 else w.mutex_level }

/-- `dpl_sem_get_count(&inst->tx_sem)`. -/
def dpl_sem_get_count : M Nat := fun w => .ok w.tx_sem w

/-- `dpl_sem_release(&inst->tx_sem)`. -/
def dpl_sem_release (c : Ctx) : M dpl_error_t := fun w =>
  let err := c.env.sem_release w.trace
  .ok err { w with
    trace := w.trace ++ [Event.dpl_sem_release]
    tx_sem := if err = dpl_error_t.DPL_OK then w.tx_sem + 1 else w.tx_sem }

/-- `dpl_cputime_delay_usecs`. -/
def dpl_cputime_delay_usecs (usecs : Nat) : M Unit :=
  emit (Event.dpl_cputime_delay_usecs usecs)

/-- `hal_dw3000_wakeup`: the physical wake pulse. -/
def hal_dw3000_wakeup : M Unit := emit Event.hal_dw3000_wakeup

/-- `hal_dw3000_reset`: the physical reset. -/
def hal_dw3000_reset : M Unit := emit Event.hal_dw3000_reset

/-- `hal_spi_disable`. -/
def hal_spi_disable (c : Ctx) : M Int := fun w =>
  .ok (c.env.spi_rc w.trace) { w with trace := w.trace ++ [Event.hal_spi_disable] }

/-- `hal_spi_config` with the baud rate of `inst->spi_settings`. -/
def hal_spi_config (c : Ctx) (baudrate : Nat) : M Int := fun w =>
  .ok (c.env.spi_rc w.trace) { w with trace := w.trace ++ [Event.hal_spi_config baudrate] }

/-- `hal_spi_enable`. -/
def hal_spi_enable (c : Ctx) : M Int := fun w =>
  .ok (c.env.spi_rc w.trace) { w with trace := w.trace ++ [Event.hal_spi_enable] }

/-- Bitwise complement within 8 bits: `(uint8_t)~x`. -/
def u8_not (x : Nat) : Nat := 0xFF ^^^ (x % 256)

/-- Bitwise complement within 32 bits: `~x` as a `uint32_t`. -/
def u32_not (x : Nat) : Nat := 0xFFFFFFFF ^^^ (x % 2 ^ 32)

/-! ## Clock selection (`dw1000_phy.c`) -/

/-- `dw3000_phy_sysclk_XTAL`. -/
def dw3000_phy_sysclk_XTAL (c : Ctx) : M Unit := do
  let reg := (← dw3000_read_reg c c.regs.PMSC_ID c.regs.PMSC_CTRL0_OFFSET 1) % 256
  let reg := reg &&& (u8_not c.regs.PMSC_CTRL0_SYSCLKS_19M &&& u8_not c.regs.PMSC_CTRL0_SYSCLKS_125M)
  let reg := (reg ||| (c.regs.PMSC_CTRL0_SYSCLKS_19M % 256)) % 256
  dw3000_write_reg c c.regs.PMSC_ID c.regs.PMSC_CTRL0_OFFSET reg 1

/-- `dw3000_phy_sysclk_PLL`. -/
def dw3000_phy_sysclk_PLL (c : Ctx) : M Unit := do
  let reg := (← dw3000_read_reg c c.regs.PMSC_ID c.regs.PMSC_CTRL0_OFFSET 1) % 256
  let reg := reg &&& (u8_not c.regs.PMSC_CTRL0_SYSCLKS_19M &&& u8_not c.regs.PMSC_CTRL0_SYSCLKS_125M)
  let reg := (reg ||| (c.regs.PMSC_CTRL0_SYSCLKS_125M % 256)) % 256
  dw3000_write_reg c c.regs.PMSC_ID c.regs.PMSC_CTRL0_OFFSET reg 1

/-- `dw3000_phy_sysclk_LDE`. -/
def dw3000_phy_sysclk_LDE (c : Ctx) : M Unit := do
  dw3000_write_reg c c.regs.PMSC_ID c.regs.PMSC_CTRL0_OFFSET 0x01 1
  dw3000_write_reg c c.regs.PMSC_ID (c.regs.PMSC_CTRL0_OFFSET + 1) 0x03 1

/-- `dw3000_phy_sysclk_SEQ`. -/
def dw3000_phy_sysclk_SEQ (c : Ctx) : M Unit := do
  let reg := (← dw3000_read_reg c c.regs.PMSC_ID c.regs.PMSC_CTRL0_OFFSET 1) % 256
  let reg := reg &&& (u8_not c.regs.PMSC_CTRL0_SYSCLKS_19M &&& u8_not c.regs.PMSC_CTRL0_SYSCLKS_125M)
  dw3000_write_reg c c.regs.PMSC_ID c.regs.PMSC_CTRL0_OFFSET reg 1

/-! ## Soft reset, sleep and wake-up (`dw1000_dev.c`) -/

/-- `dw3000_softreset`. -/
def dw3000_softreset (c : Ctx) : M Unit := do
  dw3000_phy_sysclk_XTAL c
  dw3000_write_reg c c.regs.PMSC_ID c.regs.PMSC_CTRL1_OFFSET c.regs.PMSC_CTRL1_PKTSEQ_DISABLE 2
  dw3000_write_reg c c.regs.AON_ID c.regs.AON_WCFG_OFFSET 0x0 2
  dw3000_write_reg c c.regs.AON_ID c.regs.AON_CFG0_OFFSET 0x0 1
  dw3000_write_reg c c.regs.AON_ID c.regs.AON_CTRL_OFFSET 0x0 1
  dw3000_write_reg c c.regs.AON_ID c.regs.AON_CTRL_OFFSET c.regs.AON_CTRL_SAVE 1
  dw3000_write_reg c c.regs.PMSC_ID c.regs.PMSC_CTRL0_SOFTRESET_OFFSET c.regs.PMSC_CTRL0_RESET_ALL 1
  dpl_cputime_delay_usecs 10
  dw3000_write_reg c c.regs.PMSC_ID c.regs.PMSC_CTRL0_SOFTRESET_OFFSET c.regs.PMSC_CTRL0_RESET_CLEAR 1

/-- `dw3000_dev_enter_sleep`. -/
def dw3000_dev_enter_sleep (c : Ctx) : M uwb_dev_status := do
  let err ← dpl_mutex_pend c
  if err ≠ dpl_error_t.DPL_OK then
    modify_inst (fun i => { i with status := { i.status with mtx_error := true } })
  else do
    dw3000_write_reg c c.regs.AON_ID c.regs.AON_CTRL_OFFSET 0x0 2
    dw3000_write_reg c c.regs.AON_ID c.regs.AON_CTRL_OFFSET c.regs.AON_CTRL_SAVE 2
    modify_inst (fun i => { i with status := { i.status with sleeping := true } })
    let err ← dpl_mutex_release c
    c_assert (err = dpl_error_t.DPL_OK)
  let inst ← get_inst
  pure inst.status

/-- The loop `while (devid != 0xDECA0130 && --timeout)` of `dw3000_dev_wakeup`,
entered with `timeout` and the device id read so far; `timeout` starts at 5 and
the loop is left when the decremented value is 0. -/
def wakeup_poll (c : Ctx) : Nat → Nat → M Nat
  | 0, devid => pure devid
  | timeout + 1, devid =>
    if devid ≠ 0xDECA0130 ∧ timeout ≠ 0 then do
      hal_dw3000_wakeup
      let devid := (← dw3000_read_reg c c.regs.DEV_ID_ID 0 4) % 2 ^ 32
      wakeup_poll c timeout devid
    else
      pure devid

/-- `dw3000_dev_wakeup`. -/
def dw3000_dev_wakeup (c : Ctx) : M uwb_dev_status := do
  let err ← dpl_mutex_pend c
  if err ≠ dpl_error_t.DPL_OK then
    modify_inst (fun i => { i with status := { i.status with mtx_error := true } })
  else do
    modify_inst (fun i => { i with status := { i.status with sleeping := false } })
    let devid := (← dw3000_read_reg c c.regs.DEV_ID_ID 0 4) % 2 ^ 32
    let devid ← wakeup_poll c 5 devid
    modify_inst (fun i => { i with status :=
      { i.status with sleeping := decide (devid ≠ c.regs.DWT_DEVICE_ID) } })
    dw3000_write_reg c c.regs.SYS_STATUS_ID 0 c.regs.SYS_STATUS_SLP2INIT 4
    dw3000_write_reg c c.regs.SYS_STATUS_ID 0 c.regs.SYS_STATUS_ALL_RX_ERR 4
    let inst ← get_inst
    dw3000_write_reg c c.regs.LDE_IF_ID c.regs.LDE_RXANTD_OFFSET inst.rx_antenna_delay 2
    let inst ← get_inst
    dw3000_write_reg c c.regs.TX_ANTD_ID c.regs.TX_ANTD_OFFSET inst.tx_antenna_delay 2
    let err ← dpl_mutex_release c
    c_assert (err = dpl_error_t.DPL_OK)
    if (← dpl_sem_get_count) = 0 then do
      let _ ← dpl_sem_release c
      pure ()
  let inst ← get_inst
  pure inst.status

/-! ## Receiver reset, force-off, interrupt mask (`dw1000_phy.c`) -/

/-- `dw3000_phy_rx_reset`. -/
def dw3000_phy_rx_reset (c : Ctx) : M Unit := do
  let err ← dpl_mutex_pend c
  if err ≠ dpl_error_t.DPL_OK then
    modify_inst (fun i => { i with status := { i.status with mtx_error := true } })
  else do
    dw3000_write_reg c c.regs.PMSC_ID c.regs.PMSC_CTRL0_SOFTRESET_OFFSET c.regs.PMSC_CTRL0_RESET_RX 1
    dw3000_write_reg c c.regs.PMSC_ID c.regs.PMSC_CTRL0_SOFTRESET_OFFSET c.regs.PMSC_CTRL0_RESET_CLEAR 1
    let err ← dpl_mutex_release c
    c_assert (err = dpl_error_t.DPL_OK)

/-- Calling `cbs->reset_cb((struct uwb_dev*)inst, cbs)`: the call is recorded
and the callback's return value handed back. -/
def call_reset_cb (id : Nat) (cb : List Event → Bool) : M Bool := fun w =>
  .ok (cb w.trace) { w with trace := w.trace ++ [Event.reset_cb id] }

/-- The loop `SLIST_FOREACH(cbs, &inst->uwb_dev.interface_cbs, next)` of
`dw3000_phy_forcetrxoff`; the `continue` after a truthy return value and the
end of the loop body both go on with the next entry. -/
def forcetrxoff_reset_cbs : List uwb_mac_interface → M Unit
  | [] => pure ()
  | cbs :: next => do
    match cbs.reset_cb with
    | some cb =>
      if (← call_reset_cb cbs.id cb) then pure () else pure ()
    | none => pure ()
    forcetrxoff_reset_cbs next

/-- `dw3000_phy_forcetrxoff`. -/
def dw3000_phy_forcetrxoff (c : Ctx) : M Unit := do
  let mask := (← dw3000_read_reg c c.regs.SYS_MASK_ID 0 4) % 2 ^ 32
  let err ← dpl_mutex_pend c
  if err ≠ dpl_error_t.DPL_OK then
    modify_inst (fun i => { i with status := { i.status with mtx_error := true } })
  else do
    dw3000_write_reg c c.regs.SYS_MASK_ID 0 0 4
    dw3000_write_reg c c.regs.SYS_CTRL_ID c.regs.SYS_CTRL_OFFSET c.regs.SYS_CTRL_TRXOFF 1
    dw3000_write_reg c c.regs.SYS_STATUS_ID 0
      (c.regs.SYS_STATUS_ALL_TX ||| c.regs.SYS_STATUS_ALL_RX_ERR ||| c.regs.SYS_STATUS_ALL_RX_TO
        ||| c.regs.SYS_STATUS_ALL_RX_GOOD ||| c.regs.SYS_STATUS_TXBERR) 4
    if (← get_inst).config.dblbuffon_enabled = true then
      emit Event.dw3000_sync_rxbufptrs
    dw3000_write_reg c c.regs.SYS_MASK_ID 0 mask 4
    forcetrxoff_reset_cbs (← get_inst).interface_cbs
    let err ← dpl_mutex_release c
    c_assert (err = dpl_error_t.DPL_OK)
    modify_inst (fun i => { i with control :=
      { i.control with wait4resp_enabled := false, rxauto_disable := false, abs_timeout := false } })
    if (← dpl_sem_get_count) = 0 then do
      let err ← dpl_sem_release c
      c_assert (err = dpl_error_t.DPL_OK)
      modify_inst (fun i => { i with status := { i.status with sem_force_released := true } })

/-- `dw3000_phy_interrupt_mask`. -/
def dw3000_phy_interrupt_mask (c : Ctx) (bitmask enable : Nat) : M Unit := do
  let err ← dpl_mutex_pend c
  if err ≠ dpl_error_t.DPL_OK then
    modify_inst (fun i => { i with status := { i.status with mtx_error := true } })
  else do
    let mask := (← dw3000_read_reg c c.regs.SYS_MASK_ID 0 4) % 2 ^ 32
    let mask := if enable ≠ 0 then (mask ||| bitmask) % 2 ^ 32 else mask &&& u32_not bitmask
    dw3000_write_reg c c.regs.SYS_MASK_ID 0 mask 4
    let err ← dpl_mutex_release c
    c_assert (err = dpl_error_t.DPL_OK)

/-! ## OTP word read (`dw1000_otp.c`) -/

/-- `_dw3000_otp_read`: the parameter `address` is a `uint16_t`. -/
def _dw3000_otp_read (c : Ctx) (address : Nat) : M Nat := do
  let address := address % 2 ^ 16
  dw3000_write_reg c c.regs.OTP_IF_ID c.regs.OTP_ADDR address 2
  dw3000_write_reg c c.regs.OTP_IF_ID c.regs.OTP_CTRL
    (c.regs.OTP_CTRL_OTPREAD ||| c.regs.OTP_CTRL_OTPRDEN) 1
  dw3000_write_reg c c.regs.OTP_IF_ID c.regs.OTP_CTRL 0x0 1
  dpl_cputime_delay_usecs 1
  pure ((← dw3000_read_reg c c.regs.OTP_IF_ID c.regs.OTP_RDAT 4) % 2 ^ 32)

/-! ## GPIO helpers used by the PHY initialisation (`dw1000_gpio.c`) -/

/-- `dw3000_gpio5_config_ext_txe`. -/
def dw3000_gpio5_config_ext_txe (c : Ctx) : M Unit := do
  let reg := (← dw3000_read_reg c c.regs.GPIO_CTRL_ID c.regs.GPIO_MODE_OFFSET 4) % 2 ^ 32
  let reg := reg &&& u32_not c.regs.GPIO_MSGP5_MASK
  let reg := (reg ||| c.regs.GPIO_PIN5_EXTTXE) % 2 ^ 32
  dw3000_write_reg c c.regs.GPIO_CTRL_ID c.regs.GPIO_MODE_OFFSET reg 4

/-- `dw3000_gpio6_config_ext_rxe`. -/
def dw3000_gpio6_config_ext_rxe (c : Ctx) : M Unit := do
  let reg := (← dw3000_read_reg c c.regs.GPIO_CTRL_ID c.regs.GPIO_MODE_OFFSET 4) % 2 ^ 32
  let reg := reg &&& u32_not c.regs.GPIO_MSGP6_MASK
  let reg := (reg ||| c.regs.GPIO_PIN6_EXTRXE) % 2 ^ 32
  dw3000_write_reg c c.regs.GPIO_CTRL_ID c.regs.GPIO_MODE_OFFSET reg 4

/-- `dw3000_gpio_config_leds`. -/
def dw3000_gpio_config_leds (c : Ctx) (mode : Nat) : M Unit := do
  if mode &&& c.regs.DWT_LEDS_ENABLE ≠ 0 then do
    let reg := (← dw3000_read_reg c c.regs.GPIO_CTRL_ID c.regs.GPIO_MODE_OFFSET 4) % 2 ^ 32
    let reg := reg &&& u32_not (c.regs.GPIO_MSGP2_MASK ||| c.regs.GPIO_MSGP3_MASK)
    let reg := (reg ||| (c.regs.GPIO_PIN2_RXLED ||| c.regs.GPIO_PIN3_TXLED)) % 2 ^ 32
    dw3000_write_reg c c.regs.GPIO_CTRL_ID c.regs.GPIO_MODE_OFFSET reg 4
    let reg := (← dw3000_read_reg c c.regs.PMSC_ID c.regs.PMSC_CTRL0_OFFSET 4) % 2 ^ 32
    let reg := (reg ||| (c.regs.PMSC_CTRL0_GPDCE ||| c.regs.PMSC_CTRL0_KHZCLEN)) % 2 ^ 32
    dw3000_write_reg c c.regs.PMSC_ID c.regs.PMSC_CTRL0_OFFSET reg 4
    dw3000_write_reg c c.regs.PMSC_ID c.regs.PMSC_LEDC_OFFSET
      (c.regs.PMSC_LEDC_BLNKEN ||| c.regs.PMSC_LEDC_BLINK_TIME_DEF) 4
    if mode &&& c.regs.DWT_LEDS_INIT_BLINK ≠ 0 then do
      let reg := (← dw3000_read_reg c c.regs.PMSC_ID c.regs.PMSC_LEDC_OFFSET 4) % 2 ^ 32
      let reg := (reg ||| c.regs.PMSC_LEDC_BLINK_NOW_ALL) % 2 ^ 32
      dw3000_write_reg c c.regs.PMSC_ID c.regs.PMSC_LEDC_OFFSET reg 4
      let reg := reg &&& u32_not c.regs.PMSC_LEDC_BLINK_NOW_ALL
      dpl_cputime_delay_usecs 10
      dw3000_write_reg c c.regs.PMSC_ID c.regs.PMSC_LEDC_OFFSET reg 4
  else do
    let reg := (← dw3000_read_reg c c.regs.GPIO_CTRL_ID c.regs.GPIO_MODE_OFFSET 4) % 2 ^ 32
    let reg := reg &&& u32_not (c.regs.GPIO_MSGP2_MASK ||| c.regs.GPIO_MSGP3_MASK)
    dw3000_write_reg c c.regs.GPIO_CTRL_ID c.regs.GPIO_MODE_OFFSET reg 4

/-! ## PHY initialisation (`dw1000_phy.c`) -/

/-- `_dw3000_phy_load_microcode`. -/
def _dw3000_phy_load_microcode (c : Ctx) : M Unit := do
  dw3000_phy_sysclk_LDE c
  dw3000_write_reg c c.regs.OTP_IF_ID c.regs.OTP_CTRL c.regs.OTP_CTRL_LDELOAD 2
  dpl_cputime_delay_usecs 120
  dw3000_phy_sysclk_SEQ c
  modify_inst (fun i => { i with status := { i.status with LDE_enabled := true } })

/-- `dw3000_phy_config_txrf`. -/
def dw3000_phy_config_txrf (c : Ctx) (config : uwb_dev_txrf_config) : M Unit := do
  dw3000_write_reg c c.regs.TX_CAL_ID c.regs.TC_PGDELAY_OFFSET config.PGdly 1
  dw3000_write_reg c c.regs.TX_POWER_ID 0 config.power 4

/-- `dw3000_phy_init`; `txrf_config = none` is the `NULL` argument. -/
def dw3000_phy_init (c : Ctx) (txrf_config : Option uwb_dev_txrf_config) : M uwb_dev_status := do
  (match txrf_config with
    | none => pure ()
    | some t => modify_inst (fun i => { i with config := { i.config with txrf := t } }))
  let txrf_config := (← get_inst).config.txrf
  dw3000_softreset c
  dw3000_phy_sysclk_XTAL c
  (if c.cfg.DW3000_RXTX_LEDS = true then
    dw3000_gpio_config_leds c (c.regs.DWT_LEDS_ENABLE ||| c.regs.DWT_LEDS_INIT_BLINK)
  else pure ())
  (if c.cfg.RXTX_GPIO_enabled = true then
    (do dw3000_gpio5_config_ext_txe c
        dw3000_gpio6_config_ext_rxe c)
  else pure ())
  let reg := (← dw3000_read_reg c c.regs.EXT_SYNC_ID c.regs.EC_CTRL_OFFSET 1) % 256
  let reg := (reg ||| c.regs.EC_CTRL_PLLLCK) % 256
  dw3000_write_reg c c.regs.EXT_SYNC_ID c.regs.EC_CTRL_OFFSET reg 1
  let otp_addr := (← _dw3000_otp_read c c.regs.OTP_XTRIM_ADDRESS) &&& 0xffff
  modify_inst (fun i => { i with otp_rev := (otp_addr >>> 8) &&& 0xff })
  let ldo_tune ← _dw3000_otp_read c c.regs.OTP_LDOTUNE_ADDRESS
  (if ldo_tune &&& 0xFF ≠ 0 then
    (do dw3000_write_reg c c.regs.OTP_IF_ID c.regs.OTP_SF c.regs.OTP_SF_LDO_KICK 1
        modify_inst (fun i => { i with status := { i.status with LDO_enabled := true } }))
  else pure ())
  let part_id ← _dw3000_otp_read c c.regs.OTP_PARTID_ADDRESS
  modify_inst (fun i => { i with part_id := part_id })
  let lot_id ← _dw3000_otp_read c c.regs.OTP_LOTID_ADDRESS
  modify_inst (fun i => { i with lot_id := lot_id })
  let otp_vbat ← _dw3000_otp_read c c.regs.OTP_VBAT_ADDRESS
  modify_inst (fun i => { i with otp_vbat := otp_vbat })
  let otp_temp ← _dw3000_otp_read c c.regs.OTP_VTEMP_ADDRESS
  modify_inst (fun i => { i with otp_temp := otp_temp })
  modify_inst (fun i => { i with otp_xtal_trim := otp_addr &&& 0x1F })
  modify_inst (fun i =>
    if i.otp_xtal_trim ≠ 0 ∧ i.config.rx_xtalTrim = 0xff then
      { i with config := { i.config with rx_xtalTrim := i.otp_xtal_trim } }
    else i)
  let reg := ((3 <<< 5) ||| ((← get_inst).config.rx_xtalTrim &&& c.regs.FS_XTALT_MASK)) % 256
  dw3000_write_reg c c.regs.FS_CTRL_ID c.regs.FS_XTALT_OFFSET reg 1
  let inst ← get_inst
  (if inst.config.LDE_enable = true then _dw3000_phy_load_microcode c else pure ())
  dw3000_phy_sysclk_SEQ c
  let reg := (← dw3000_read_reg c c.regs.AON_ID c.regs.AON_CFG1_OFFSET 1) % 256
  let reg := reg ||| u8_not c.regs.AON_CFG1_SMXX
  dw3000_write_reg c c.regs.AON_ID c.regs.AON_CFG1_OFFSET reg 1
  dw3000_write_reg c c.regs.AON_ID c.regs.AON_WCFG_OFFSET c.regs.AON_WCFG_ONW_RADC 2
  dw3000_write_reg c c.regs.LDE_IF_ID c.regs.LDE_RXANTD_OFFSET (← get_inst).rx_antenna_delay 2
  dw3000_write_reg c c.regs.TX_ANTD_ID c.regs.TX_ANTD_OFFSET (← get_inst).tx_antenna_delay 2
  dw3000_phy_config_txrf c txrf_config
  let sys_cfg_reg := (← dw3000_read_reg c c.regs.SYS_CFG_ID 0 4) % 2 ^ 32
  modify_inst (fun i => { i with sys_cfg_reg := sys_cfg_reg })
  pure (← get_inst).status

/-! ## Device bring-up (`dw1000_dev.c`) -/

/-- The statements of `dw3000_dev_config` from the label `retry` to the
assignment of `status.initialized`: low baud rate, physical reset, bus
reconfiguration, one read of the device-ID register. -/
def dev_config_probe (c : Ctx) : M Unit := do
  modify_inst (fun i => { i with spi_settings_baudrate := i.spi_baudrate_low })
  hal_dw3000_reset
  let rc ← hal_spi_disable c
  c_assert (rc = 0)
  let rc ← hal_spi_config c (← get_inst).spi_settings_baudrate
  c_assert (rc = 0)
  let rc ← hal_spi_enable c
  c_assert (rc = 0)
  let device_id := (← dw3000_read_reg c c.regs.DEV_ID_ID 0 4) % 2 ^ 32
  modify_inst (fun i => { i with device_id := device_id })
  modify_inst (fun i => { i with status :=
    { i.status with initialized := decide (i.device_id = c.regs.DWT_DEVICE_ID) } })

/-- The retry loop of `dw3000_dev_config` (`goto retry`), entered with
`timeout`, which starts at 3: after a mismatch, if the decremented `timeout` is
not 0, wake the chip up and probe again. -/
def dev_config_retry (c : Ctx) : Nat → M Unit
  | 0 => pure ()
  | timeout + 1 => do
    dev_config_probe c
    if (← get_inst).status.initialized = false ∧ timeout ≠ 0 then do
      let _ ← dw3000_dev_wakeup c
      dev_config_retry c timeout
    else
      pure ()

/-- The statements of `dw3000_dev_config` after a matching device id: PHY
initialisation, full baud rate, identity assignment. -/
def dev_config_finish (c : Ctx) : M dpl_error_t := do
  let _ ← dw3000_phy_init c none
  modify_inst (fun i => { i with spi_settings_baudrate := i.spi_baudrate })
  let rc ← hal_spi_disable c
  c_assert (rc = 0)
  let rc ← hal_spi_config c (← get_inst).spi_settings_baudrate
  c_assert (rc = 0)
  let rc ← hal_spi_enable c
  c_assert (rc = 0)
  modify_inst (fun i => { i with pan_id := c.cfg.PANID % 2 ^ 16 })
  modify_inst (fun i => { i with uid := (i.part_id &&& 0xffff) % 2 ^ 16 })
  (if c.hal_inst = some 0 then
    (if c.cfg.DW_DEVICE_ID_0 ≠ 0 then
      modify_inst (fun i => { i with uid := c.cfg.DW_DEVICE_ID_0 % 2 ^ 16 })
    else pure ())
  else if c.hal_inst = some 1 then
    (if c.cfg.DW_DEVICE_ID_1 ≠ 0 then
      modify_inst (fun i => { i with uid := c.cfg.DW_DEVICE_ID_1 % 2 ^ 16 })
    else pure ())
  else if c.hal_inst = some 2 then
    (if c.cfg.DW_DEVICE_ID_2 ≠ 0 then
      modify_inst (fun i => { i with uid := c.cfg.DW_DEVICE_ID_2 % 2 ^ 16 })
    else pure ())
  else pure ())
  modify_inst (fun i => { i with euid := ((i.lot_id <<< 32) + i.part_id) % 2 ^ 64 })
  emit Event.dw3000_mac_init
  let inst ← get_inst
  (if inst.uid = 0 ∨ inst.uid = 0xFFFF then
    modify_inst (fun i => { i with uid := 0x1 })
  else pure ())
  emit (Event.dw3000_set_panid (← get_inst).pan_id)
  emit (Event.dw3000_set_eui (← get_inst).euid)
  emit (Event.dw3000_set_address16 (← get_inst).uid)
  pure dpl_error_t.DPL_OK

/-- `dw3000_dev_config`. -/
def dw3000_dev_config (c : Ctx) : M dpl_error_t := do
  dev_config_retry c 3
  if (← get_inst).status.initialized = false then
    pure dpl_error_t.DPL_TIMEOUT
  else
    dev_config_finish c

/-! ## Vocabulary for the statements -/

/-- The transmitted header of a bus transfer event. -/
def Event.bus_header : Event → Option (List Nat)
  | .hal_dw3000_read h _ => some h
  | .hal_dw3000_read_noblock h _ => some h
  | .hal_dw3000_write h _ => some h
  | .hal_dw3000_write_noblock h _ => some h
  | _ => none

/-- Header and payload of a register write (blocking or not). -/
def Event.reg_write : Event → Option (List Nat × List Nat)
  | .hal_dw3000_write h d => some (h, d)
  | .hal_dw3000_write_noblock h d => some (h, d)
  | _ => none

/-- Header and received bytes of a register read (blocking or not). -/
def Event.reg_read : Event → Option (List Nat × List Nat)
  | .hal_dw3000_read h d => some (h, d)
  | .hal_dw3000_read_noblock h d => some (h, d)
  | _ => none

/-- The headers of the bus transfers of a trace, in order. -/
def bus_headers (t : List Event) : List (List Nat) := t.filterMap Event.bus_header

/-- The register writes of a trace, in order. -/
def reg_writes (t : List Event) : List (List Nat × List Nat) := t.filterMap Event.reg_write

/-- The register reads of a trace, in order. -/
def reg_reads (t : List Event) : List (List Nat × List Nat) := t.filterMap Event.reg_read

/-- The header transmitted for an access to `reg`/`subaddress`; `operation` is
0 for a read and 1 for a write. -/
def tx_header (operation reg subaddress : Nat) : List Nat :=
  (mk_header (mk_cmd reg subaddress operation) subaddress).take
    (mk_len (mk_cmd reg subaddress operation))

/-- The access `reg`/`subaddress` of `nbytes` bytes passes the assertions of
the transport functions. -/
def valid_access (reg subaddress nbytes : Nat) : Prop :=
  reg ≤ 0x3F ∧ subaddress + nbytes ≤ 0x7FFF

instance (reg subaddress nbytes : Nat) : Decidable (valid_access reg subaddress nbytes) := by
  unfold valid_access; infer_instance

/-- The events `dw3000_write_reg` adds to the trace when its assertions hold;
`blocking` is `inst->uwb_dev.config.blocking_spi_transfers`. -/
def write_reg_events (c : Ctx) (blocking : Bool) (reg subaddress val nbytes : Nat) :
    List Event :=
  if (mk_len (mk_cmd reg subaddress 1) + nbytes) % 2 ^ c.cfg.size_t_bits
        < c.cfg.DW3000_DEVICE_SPI_RD_MAX_NOBLOCK ∨ blocking = true then
    [Event.hal_dw3000_write (tx_header 1 reg subaddress) (tx_bytes nbytes (le_bytes val 8))]
  else
    [Event.hal_dw3000_write_noblock (tx_header 1 reg subaddress) (tx_bytes nbytes (le_bytes val 8)),
     Event.hal_dw3000_rw_noblock_wait]

/-- The bytes `dw3000_read_reg` receives when called after the trace `t`. -/
def read_reg_data (c : Ctx) (t : List Event) (reg subaddress nbytes : Nat) : List Nat :=
  rx_bytes nbytes (c.env.spi_rx t (tx_header 0 reg subaddress) nbytes)

/-- The event `dw3000_read_reg` adds to the trace when its assertions hold. -/
def read_reg_event (c : Ctx) (t : List Event) (blocking : Bool) (reg subaddress nbytes : Nat) :
    Event :=
  if (mk_len (mk_cmd reg subaddress 0) + nbytes) % 2 ^ c.cfg.size_t_bits
        < c.cfg.DW3000_DEVICE_SPI_RD_MAX_NOBLOCK ∨ blocking = true then
    Event.hal_dw3000_read (tx_header 0 reg subaddress) (read_reg_data c t reg subaddress nbytes)
  else
    Event.hal_dw3000_read_noblock (tx_header 0 reg subaddress) (read_reg_data c t reg subaddress nbytes)

/-- The event `dw3000_read` adds to the trace when its assertions hold. -/
def read_event (c : Ctx) (t : List Event) (blocking : Bool) (reg subaddress length : Nat) : Event :=
  if length < c.cfg.DW3000_DEVICE_SPI_RD_MAX_NOBLOCK ∨ blocking = true then
    Event.hal_dw3000_read (tx_header 0 reg subaddress) (read_reg_data c t reg subaddress length)
  else
    Event.hal_dw3000_read_noblock (tx_header 0 reg subaddress) (read_reg_data c t reg subaddress length)

/-- The event `dw3000_write` adds to the trace when its assertions hold. -/
def write_event (c : Ctx) (blocking : Bool) (reg subaddress : Nat) (buffer : List Nat)
    (length : Nat) : Event :=
  if mk_len (mk_cmd reg subaddress 1) + length < c.cfg.DW3000_DEVICE_SPI_RD_MAX_NOBLOCK
      ∨ blocking = true then
    Event.hal_dw3000_write (tx_header 1 reg subaddress) (tx_bytes length buffer)
  else
    Event.hal_dw3000_write_noblock (tx_header 1 reg subaddress) (tx_bytes length buffer)

/-! ## A concrete setting for the examples -/

/-- An example register map: every access made by the driver passes the
assertions of the transport functions. -/
def example_regs : dw3000_regs where
  DEV_ID_ID := 0x00
  DWT_DEVICE_ID := 0xDECA0130
  PMSC_ID := 0x36
  PMSC_CTRL0_OFFSET := 0x00
  PMSC_CTRL0_SYSCLKS_19M := 0x01
  PMSC_CTRL0_SYSCLKS_125M := 0x02
  PMSC_CTRL0_GPDCE := 0x00040000
  PMSC_CTRL0_KHZCLEN := 0x00800000
  PMSC_CTRL1_OFFSET := 0x04
  PMSC_CTRL1_PKTSEQ_DISABLE := 0x00
  PMSC_CTRL0_SOFTRESET_OFFSET := 0x03
  PMSC_CTRL0_RESET_ALL := 0x00
  PMSC_CTRL0_RESET_RX := 0xE0
  PMSC_CTRL0_RESET_CLEAR := 0xF0
  PMSC_LEDC_OFFSET := 0x28
  PMSC_LEDC_BLNKEN := 0x0100
  PMSC_LEDC_BLINK_TIME_DEF := 0x10
  PMSC_LEDC_BLINK_NOW_ALL := 0x000F0000
  AON_ID := 0x2C
  AON_WCFG_OFFSET := 0x00
  AON_WCFG_ONW_RADC := 0x0001
  AON_CFG0_OFFSET := 0x06
  AON_CFG1_OFFSET := 0x0A
  AON_CFG1_SMXX := 0x0002
  AON_CTRL_OFFSET := 0x02
  AON_CTRL_SAVE := 0x02
  SYS_CFG_ID := 0x04
  SYS_STATUS_ID := 0x0F
  SYS_STATUS_SLP2INIT := 0x00800000
  SYS_STATUS_ALL_RX_ERR := 0x24059000
  SYS_STATUS_ALL_TX := 0x000000F8
  SYS_STATUS_ALL_RX_TO := 0x00220000
  SYS_STATUS_ALL_RX_GOOD := 0x00006F00
  SYS_STATUS_TXBERR := 0x10000000
  SYS_MASK_ID := 0x0E
  SYS_CTRL_ID := 0x0D
  SYS_CTRL_OFFSET := 0x00
  SYS_CTRL_TRXOFF := 0x40
  LDE_IF_ID := 0x2E
  LDE_RXANTD_OFFSET := 0x1804
  TX_ANTD_ID := 0x18
  TX_ANTD_OFFSET := 0x00
  EXT_SYNC_ID := 0x24
  EC_CTRL_OFFSET := 0x00
  EC_CTRL_PLLLCK := 0x04
  OTP_IF_ID := 0x2D
  OTP_ADDR := 0x04
  OTP_CTRL := 0x06
  OTP_CTRL_OTPREAD := 0x0002
  OTP_CTRL_OTPRDEN := 0x0001
  OTP_CTRL_LDELOAD := 0x8000
  OTP_RDAT := 0x0A
  OTP_SF := 0x12
  OTP_SF_LDO_KICK := 0x02
  OTP_XTRIM_ADDRESS := 0x1E
  OTP_LDOTUNE_ADDRESS := 0x04
  OTP_PARTID_ADDRESS := 0x06
  OTP_LOTID_ADDRESS := 0x07
  OTP_VBAT_ADDRESS := 0x08
  OTP_VTEMP_ADDRESS := 0x09
  FS_CTRL_ID := 0x2B
  FS_XTALT_OFFSET := 0x0E
  FS_XTALT_MASK := 0x1F
  TX_CAL_ID := 0x2A
  TC_PGDELAY_OFFSET := 0x0B
  TX_POWER_ID := 0x1E
  GPIO_CTRL_ID := 0x26
  GPIO_MODE_OFFSET := 0x00
  GPIO_MSGP2_MASK := 0x00000C00
  GPIO_MSGP3_MASK := 0x00003000
  GPIO_MSGP5_MASK := 0x00030000
  GPIO_MSGP6_MASK := 0x000C0000
  GPIO_PIN2_RXLED := 0x00000400
  GPIO_PIN3_TXLED := 0x00001000
  GPIO_PIN5_EXTTXE := 0x00010000
  GPIO_PIN6_EXTRXE := 0x00040000
  DWT_LEDS_ENABLE := 0x01
  DWT_LEDS_INIT_BLINK := 0x02
  AON_WCFG_ONW_L64P := 0x0080
  AON_WCFG_ONW_LDC := 0x0040
  AON_WCFG_ONW_LLDE := 0x0800
  AON_WCFG_ONW_LLDO := 0x1000
  AON_WCFG_ONW_RX := 0x0002
  AON_CFG0_WAKE_SPI := 0x04
  AON_CFG0_WAKE_PIN := 0x02
  AON_CFG0_WAKE_CNT := 0x08
  AON_CFG0_SLEEP_EN := 0x01
  DIG_DIAG_ID := 0x2F
  EVC_PHE_OFFSET := 0x04
  EVC_RSE_MASK := 0x0FFF
  EVC_PHE_MASK := 0x0FFF
  EVC_FCE_MASK := 0x0FFF
  EVC_FCG_MASK := 0x0FFF
  EVC_OVR_MASK := 0x0FFF
  EVC_FFR_MASK := 0x0FFF
  EVC_PTO_MASK := 0x0FFF
  EVC_STO_MASK := 0x0FFF
  EVC_TXFS_MASK := 0x0FFF
  EVC_FWTO_MASK := 0x0FFF
  EVC_TPW_MASK := 0x0FFF
  EVC_HPW_MASK := 0x0FFF
  PMSC_CTRL0_GPCE := 0x00010000
  PMSC_CTRL0_GPRN := 0x00020000
  GPIO_DIR_OFFSET := 0x08
  GPIO_DIR_LEN := 3
  GPIO_DOUT_OFFSET := 0x0C
  GPIO_DOUT_LEN := 3

/-- Example build settings. -/
def example_cfg : syscfg where
  DW3000_DEVICE_SPI_RD_MAX_NOBLOCK := 9
  PANID := 0xDECA
  DW_DEVICE_ID_0 := 0
  DW_DEVICE_ID_1 := 0
  DW_DEVICE_ID_2 := 0
  DW3000_RXTX_LEDS := true
  RXTX_GPIO_enabled := false
  size_t_bits := 32

/-- An example environment: the chip answers every read with the bytes
30 01 CA DE (the value 0xDECA0130 for a 4-byte read), and every OS and HAL
call succeeds. -/
def example_env : Env where
  spi_rx := fun _ _ _ => [0x30, 0x01, 0xCA, 0xDE]
  mutex_pend := fun _ => dpl_error_t.DPL_OK
  mutex_release := fun _ => dpl_error_t.DPL_OK
  sem_release := fun _ => dpl_error_t.DPL_OK
  spi_rc := fun _ => 0

/-- The example environment with a mutex that cannot be acquired. -/
def example_env_mutex_fails : Env :=
  { example_env with mutex_pend := fun _ => dpl_error_t.DPL_TIMEOUT }

/-- An example environment whose chip answers every read with zero bytes. -/
def example_env_silent : Env :=
  { example_env with spi_rx := fun _ _ _ => [] }

/-- Example context. -/
def example_ctx : Ctx where
  regs := example_regs
  cfg := example_cfg
  env := example_env
  hal_inst := some 0

/-- Example context in which acquiring the mutex fails. -/
def example_ctx_mutex_fails : Ctx :=
  { example_ctx with env := example_env_mutex_fails }

/-- Example context with a chip that does not answer. -/
def example_ctx_silent : Ctx :=
  { example_ctx with env := example_env_silent }

/-- An example instance: nothing initialised, antenna delays 0x4050 and
0x4051, one registered interface with a reset callback. -/
def example_inst : dw3000_dev_instance_t where
  status :=
    { selfmalloc := false, initialized := false, sleeping := false, LDE_enabled := false,
      LDO_enabled := false, sleep_enabled := false, mtx_error := false,
      sem_force_released := false, other := 0 }
  control :=
    { wait4resp_enabled := true, rxauto_disable := true, abs_timeout := true,
      sleep_after_tx := false, sleep_after_rx := false, other := 0 }
  config :=
    { blocking_spi_transfers := false, dblbuffon_enabled := false, wakeup_rx_enable := false,
      sleep_enable := false, LDE_enable := true, rx_xtalTrim := 0xff,
      txrf := { PGdly := 0xC5, power := 0x15355575 } }
  device_id := 0
  pan_id := 0
  uid := 0
  euid := 0
  rx_antenna_delay := 0x4050
  tx_antenna_delay := 0x4051
  spi_baudrate := 8000
  spi_baudrate_low := 2000
  spi_settings_baudrate := 0
  part_id := 0
  lot_id := 0
  otp_rev := 0
  otp_vbat := 0
  otp_temp := 0
  otp_xtal_trim := 0
  sys_cfg_reg := 0
  interface_cbs := [{ id := 7, reset_cb := some (fun _ => true) }]

/-- An example state: empty trace, mutex free, TX semaphore at 0. -/
def example_world : World where
  inst := example_inst
  trace := []
  mutex_level := 0
  tx_sem := 0

/-- What an event is for the wake-up polling: a read with the value it
returned (`some v`), a wake pulse (`none`), or neither. -/
def Event.poll_step : Event → Option (Option Nat)
  | .hal_dw3000_read _ d => some (some (le_value d))
  | .hal_dw3000_read_noblock _ d => some (some (le_value d))
  | .hal_dw3000_wakeup => some none
  | _ => none

/-- The reads (with their values) and wake pulses of a trace, in order. -/
def poll_steps (t : List Event) : List (Option Nat) := t.filterMap Event.poll_step

/-- For each value: a wake pulse, then a read returning it. -/
def pulses_then_reads : List Nat → List (Option Nat)
  | [] => []
  | i :: ids => none :: some i :: pulses_then_reads ids

/-- The last element of `devid :: ids`. -/
def last_or (devid : Nat) : List Nat → Nat
  | [] => devid
  | i :: ids => last_or i ids

/-- The value `dw3000_read_reg(inst, DEV_ID_ID, 0, sizeof(uint32_t))` returns
when called after the trace `t`. -/
def devid_read (c : Ctx) (t : List Event) : Nat :=
  le_value (read_reg_data c t c.regs.DEV_ID_ID 0 4)

/-- The accesses of `dw3000_dev_wakeup` pass the transport assertions. -/
def wakeup_regs_ok (k : dw3000_regs) : Prop :=
  valid_access k.DEV_ID_ID 0 4 ∧ valid_access k.SYS_STATUS_ID 0 4
  ∧ valid_access k.LDE_IF_ID k.LDE_RXANTD_OFFSET 2 ∧ valid_access k.TX_ANTD_ID k.TX_ANTD_OFFSET 2

instance (k : dw3000_regs) : Decidable (wakeup_regs_ok k) := by
  unfold wakeup_regs_ok; infer_instance

/-- The last statement of `dw3000_dev_wakeup`: release the TX semaphore once
if its count is 0. -/
def wakeup_sem_step (c : Ctx) (w : World) : World :=
  if w.tx_sem = 0 then (dpl_sem_release c w).world else w

/-- The device ids read inside the polling loop of `dw3000_dev_wakeup` when it
is entered with `timeout` and `devid` after the trace `t` (proof device: the
loop itself is `wakeup_poll`). -/
def poll_ids (c : Ctx) (blocking : Bool) : Nat → Nat → List Event → List Nat
  | 0, _, _ => []
  | timeout + 1, devid, t =>
    if devid ≠ 0xDECA0130 ∧ timeout ≠ 0 then
      devid_read c (t ++ [Event.hal_dw3000_wakeup])
        :: poll_ids c blocking timeout (devid_read c (t ++ [Event.hal_dw3000_wakeup]))
            (t ++ [Event.hal_dw3000_wakeup,
              read_reg_event c (t ++ [Event.hal_dw3000_wakeup]) blocking c.regs.DEV_ID_ID 0 4])
    else []

/-- The events of the polling loop of `dw3000_dev_wakeup` (proof device). -/
def poll_evs (c : Ctx) (blocking : Bool) : Nat → Nat → List Event → List Event
  | 0, _, _ => []
  | timeout + 1, devid, t =>
    if devid ≠ 0xDECA0130 ∧ timeout ≠ 0 then
      [Event.hal_dw3000_wakeup,
        read_reg_event c (t ++ [Event.hal_dw3000_wakeup]) blocking c.regs.DEV_ID_ID 0 4]
      ++ poll_evs c blocking timeout (devid_read c (t ++ [Event.hal_dw3000_wakeup]))
          (t ++ [Event.hal_dw3000_wakeup,
            read_reg_event c (t ++ [Event.hal_dw3000_wakeup]) blocking c.regs.DEV_ID_ID 0 4])
    else []

/-- The device ids `dw3000_dev_wakeup` reads, in order, when it is called
after the trace `t` and acquires the mutex (proof device). -/
def wakeup_ids (c : Ctx) (blocking : Bool) (t : List Event) : List Nat :=
  devid_read c (t ++ [Event.dpl_mutex_pend])
    :: poll_ids c blocking 5 (devid_read c (t ++ [Event.dpl_mutex_pend]))
        (t ++ [Event.dpl_mutex_pend,
          read_reg_event c (t ++ [Event.dpl_mutex_pend]) blocking c.regs.DEV_ID_ID 0 4])

/-- The reads and wake pulses of that polling (proof device). -/
def wakeup_poll_events (c : Ctx) (blocking : Bool) (t : List Event) : List Event :=
  read_reg_event c (t ++ [Event.dpl_mutex_pend]) blocking c.regs.DEV_ID_ID 0 4
    :: poll_evs c blocking 5 (devid_read c (t ++ [Event.dpl_mutex_pend]))
        (t ++ [Event.dpl_mutex_pend,
          read_reg_event c (t ++ [Event.dpl_mutex_pend]) blocking c.regs.DEV_ID_ID 0 4])

/-- The device id left in `devid` when the polling ends (proof device). -/
def wakeup_last (c : Ctx) (blocking : Bool) (t : List Event) : Nat :=
  last_or (devid_read c (t ++ [Event.dpl_mutex_pend]))
    (poll_ids c blocking 5 (devid_read c (t ++ [Event.dpl_mutex_pend]))
      (t ++ [Event.dpl_mutex_pend,
        read_reg_event c (t ++ [Event.dpl_mutex_pend]) blocking c.regs.DEV_ID_ID 0 4]))

/-- The value `dw3000_dev_wakeup` stores in `status.sleeping` after the polling:
`devid != DWT_DEVICE_ID` (proof device). -/
def wakeup_sleeping (c : Ctx) (blocking : Bool) (t : List Event) : Bool :=
  decide (wakeup_last c blocking t ≠ c.regs.DWT_DEVICE_ID)

/-- The four register writes that end the locked part of `dw3000_dev_wakeup`,
as events. -/
def wakeup_write_events (c : Ctx) (inst : dw3000_dev_instance_t) : List Event :=
  write_reg_events c inst.config.blocking_spi_transfers
      c.regs.SYS_STATUS_ID 0 c.regs.SYS_STATUS_SLP2INIT 4
  ++ write_reg_events c inst.config.blocking_spi_transfers
      c.regs.SYS_STATUS_ID 0 c.regs.SYS_STATUS_ALL_RX_ERR 4
  ++ write_reg_events c inst.config.blocking_spi_transfers
      c.regs.LDE_IF_ID c.regs.LDE_RXANTD_OFFSET inst.rx_antenna_delay 2
  ++ write_reg_events c inst.config.blocking_spi_transfers
      c.regs.TX_ANTD_ID c.regs.TX_ANTD_OFFSET inst.tx_antenna_delay 2

/-- Number of wake pulses (`hal_dw3000_wakeup`) in a trace. -/
def wake_pulses (t : List Event) : Nat :=
  t.countP (fun e => decide (e = Event.hal_dw3000_wakeup))

/-- The state `w` with `status.mtx_error` set and the events `evs` added to the
trace, everything else unchanged. -/
def mtx_error_world (w : World) (evs : List Event) : World :=
  { w with
    inst := { w.inst with status := { w.inst.status with mtx_error := true } }
    trace := w.trace ++ evs }

/-- The accesses of `dw3000_phy_forcetrxoff` pass the transport assertions. -/
def forcetrxoff_regs_ok (k : dw3000_regs) : Prop :=
  valid_access k.SYS_MASK_ID 0 4 ∧ valid_access k.SYS_CTRL_ID k.SYS_CTRL_OFFSET 1
  ∧ valid_access k.SYS_STATUS_ID 0 4

instance (k : dw3000_regs) : Decidable (forcetrxoff_regs_ok k) := by
  unfold forcetrxoff_regs_ok; infer_instance

/-- One `reset_cb` call for each registered interface that has the callback,
in list order. -/
def reset_cb_events (ifs : List uwb_mac_interface) : List Event :=
  ifs.filterMap (fun cbs => cbs.reset_cb.map (fun _ => Event.reset_cb cbs.id))

/-- The value `dw3000_phy_forcetrxoff` reads from the interrupt-mask register
at entry, when called after the trace `t`. -/
def entry_mask (c : Ctx) (t : List Event) : Nat :=
  le_value (read_reg_data c t c.regs.SYS_MASK_ID 0 4)

/-- The events of `dw3000_phy_forcetrxoff` up to the release of the mutex, when
the mutex is acquired (proof device). -/
def forcetrxoff_locked_events (c : Ctx) (inst : dw3000_dev_instance_t) (t : List Event) :
    List Event :=
  [read_reg_event c t inst.config.blocking_spi_transfers c.regs.SYS_MASK_ID 0 4]
  ++ [Event.dpl_mutex_pend]
  ++ write_reg_events c inst.config.blocking_spi_transfers c.regs.SYS_MASK_ID 0 0 4
  ++ write_reg_events c inst.config.blocking_spi_transfers
      c.regs.SYS_CTRL_ID c.regs.SYS_CTRL_OFFSET c.regs.SYS_CTRL_TRXOFF 1
  ++ write_reg_events c inst.config.blocking_spi_transfers c.regs.SYS_STATUS_ID 0
      (c.regs.SYS_STATUS_ALL_TX ||| c.regs.SYS_STATUS_ALL_RX_ERR ||| c.regs.SYS_STATUS_ALL_RX_TO
        ||| c.regs.SYS_STATUS_ALL_RX_GOOD ||| c.regs.SYS_STATUS_TXBERR) 4
  ++ (if inst.config.dblbuffon_enabled = true then [Event.dw3000_sync_rxbufptrs] else [])
  ++ write_reg_events c inst.config.blocking_spi_transfers c.regs.SYS_MASK_ID 0 (entry_mask c t) 4
  ++ reset_cb_events inst.interface_cbs
  ++ [Event.dpl_mutex_release]

/-- The end of `dw3000_phy_forcetrxoff`: if the count of the TX semaphore is 0,
release it and set `status.sem_force_released` (the release is asserted to
succeed). -/
def forcetrxoff_sem_step (w : World) : World :=
  if w.tx_sem = 0 then
    { w with
      inst := { w.inst with status := { w.inst.status with sem_force_released := true } }
      trace := w.trace ++ [Event.dpl_sem_release]
      tx_sem := w.tx_sem + 1 }
  else w

/-- The payload of the last write with header `header` in the trace, if any. -/
def last_write (header : List Nat) (t : List Event) : Option (List Nat) :=
  (((reg_writes t).filter (fun x => decide (x.1 = header))).getLast?).map Prod.snd

/-- An example environment whose chip reads back, for every read, the payload
last written with the write header of register file 0x0E, sub-address 0 (the
interrupt mask of the example register map), and 80 00 00 00 before any such
write. -/
def example_env_mask : Env :=
  { example_env with
    spi_rx := fun t _ _ => (last_write (tx_header 1 0x0E 0) t).getD [0x80, 0x00, 0x00, 0x00] }

/-- Example context with the chip that reads the interrupt mask back. -/
def example_ctx_mask : Ctx :=
  { example_ctx with env := example_env_mask }

/-- The accesses of `dw3000_phy_init` pass the transport assertions. -/
structure phy_init_regs_ok (k : dw3000_regs) : Prop where
  pmsc_ctrl0 : valid_access k.PMSC_ID k.PMSC_CTRL0_OFFSET 4
  pmsc_ctrl0_hi : valid_access k.PMSC_ID (k.PMSC_CTRL0_OFFSET + 1) 1
  pmsc_ctrl1 : valid_access k.PMSC_ID k.PMSC_CTRL1_OFFSET 2
  pmsc_softreset : valid_access k.PMSC_ID k.PMSC_CTRL0_SOFTRESET_OFFSET 1
  pmsc_ledc : valid_access k.PMSC_ID k.PMSC_LEDC_OFFSET 4
  aon_wcfg : valid_access k.AON_ID k.AON_WCFG_OFFSET 2
  aon_cfg0 : valid_access k.AON_ID k.AON_CFG0_OFFSET 1
  aon_cfg1 : valid_access k.AON_ID k.AON_CFG1_OFFSET 1
  aon_ctrl : valid_access k.AON_ID k.AON_CTRL_OFFSET 1
  gpio_mode : valid_access k.GPIO_CTRL_ID k.GPIO_MODE_OFFSET 4
  ec_ctrl : valid_access k.EXT_SYNC_ID k.EC_CTRL_OFFSET 1
  otp_addr : valid_access k.OTP_IF_ID k.OTP_ADDR 2
  otp_ctrl : valid_access k.OTP_IF_ID k.OTP_CTRL 2
  otp_rdat : valid_access k.OTP_IF_ID k.OTP_RDAT 4
  otp_sf : valid_access k.OTP_IF_ID k.OTP_SF 1
  fs_xtalt : valid_access k.FS_CTRL_ID k.FS_XTALT_OFFSET 1
  lde_rxantd : valid_access k.LDE_IF_ID k.LDE_RXANTD_OFFSET 2
  tx_antd : valid_access k.TX_ANTD_ID k.TX_ANTD_OFFSET 2
  tc_pgdelay : valid_access k.TX_CAL_ID k.TC_PGDELAY_OFFSET 1
  tx_power : valid_access k.TX_POWER_ID 0 4
  sys_cfg : valid_access k.SYS_CFG_ID 0 4

/-- The accesses of `dw3000_dev_config` pass the transport assertions. -/
def dev_config_regs_ok (k : dw3000_regs) : Prop :=
  wakeup_regs_ok k ∧ phy_init_regs_ok k

/-- The state `w'` has the same `status.initialized` as `w`. -/
def same_initialized (w w' : World) : Prop :=
  w'.inst.status.initialized = w.inst.status.initialized

/-- The action returns from every state, without abort, and leaves
`status.initialized` as it was. -/
def runs_ok {α : Type} (m : M α) : Prop :=
  ∀ w, ∃ a w', m w = Res.ok a w' ∧ same_initialized w w'

/-- The action returns from every state, without abort, leaves
`status.initialized` as it was, and its value satisfies `Q`. -/
def runs_with {α : Type} (m : M α) (Q : α → Prop) : Prop :=
  ∀ w, ∃ a w', m w = Res.ok a w' ∧ same_initialized w w' ∧ Q a

/-- Events that `dw3000_dev_config` produces only after a matching device id:
the delays of the PHY initialisation (soft reset, microcode load, LED blink),
the MAC initialisation and the programming of PAN id, extended id and short
address. -/
def Event.after_probe : Event → Bool
  | .dpl_cputime_delay_usecs _ => true
  | .dw3000_mac_init => true
  | .dw3000_set_panid _ => true
  | .dw3000_set_eui _ => true
  | .dw3000_set_address16 _ => true
  | _ => false

/-- What a wake-up leaves alone: `status.initialized`, the baud rates and
`device_id`; and it adds to the trace no event of the kind `after_probe`. -/
def wake_frame (w w' : World) : Prop :=
  w'.inst.status.initialized = w.inst.status.initialized
  ∧ w'.inst.spi_baudrate_low = w.inst.spi_baudrate_low
  ∧ w'.inst.spi_settings_baudrate = w.inst.spi_settings_baudrate
  ∧ w'.inst.device_id = w.inst.device_id
  ∧ ∃ evs, w'.trace = w.trace ++ evs ∧ ∀ e ∈ evs, e.after_probe = false

/-- The events of one probe of `dw3000_dev_config` before its device-ID read:
physical reset and bus reconfiguration at the baud rate `baudrate`. -/
def probe_events (baudrate : Nat) : List Event :=
  [Event.hal_dw3000_reset, Event.hal_spi_disable, Event.hal_spi_config baudrate,
   Event.hal_spi_enable]

/-- The device id configured for this instance (`DW_DEVICE_ID_0`, `_1` or `_2`
for the first, second or third chip; 0 means not set). -/
def configured_device_id (c : Ctx) : Nat :=
  if c.hal_inst = some 0 then c.cfg.DW_DEVICE_ID_0
  else if c.hal_inst = some 1 then c.cfg.DW_DEVICE_ID_1
  else if c.hal_inst = some 2 then c.cfg.DW_DEVICE_ID_2
  else 0

/-- The short address derived for the instance: the configured device id if
set, otherwise the low 16 bits of the factory part id; as a 16-bit value. -/
def derived_address (c : Ctx) (part_id : Nat) : Nat :=
  if configured_device_id c ≠ 0 then configured_device_id c % 2 ^ 16 else part_id % 2 ^ 16

/-- The short address after the validity check of `dw3000_dev_config`. -/
def valid_address (derived : Nat) : Nat :=
  if derived = 0 ∨ derived = 0xFFFF then 1 else derived

/-- Example context whose configured device id is 0xFFFF. -/
def example_ctx_broadcast_id : Ctx :=
  { example_ctx with cfg := { example_cfg with DW_DEVICE_ID_0 := 0xFFFF } }

/-- Every state in which the action returns satisfies `Q`. -/
def ensures {α : Type} (m : M α) (Q : World → Prop) : Prop :=
  ∀ w a w', m w = Res.ok a w' → Q w'

/-! ## Single-precision arithmetic (external) -/

/-- The single-precision operations the PHY helpers use, over a carrier `F` of
float values. They stand for the `DPL_FLOAT32_*` macros of the dpl headers,
which are not part of the package sources, and for the C operations the
userspace build uses in their place: `DPL_FLOAT32_INT` is the conversion to
`int`, `DPL_FLOAT32_INIT_2` is `DPL_FLOAT32_INIT(2.0f)`. -/
structure float32_ops (F : Type) where
  DPL_FLOAT32_I32_TO_F32 : Int → F
  DPL_FLOAT32_MUL : F → F → F
  DPL_FLOAT32_ADD : F → F → F
  DPL_FLOAT32_CEIL : F → F
  DPL_FLOAT32_INT : F → Int
  DPL_FLOAT32_INIT_2 : F

/-- Conversion of an `int` to `uint16_t`. -/
def to_uint16 (x : Int) : Nat := (x % 2 ^ 16).toNat

/-- Conversion of an `int` to `uint8_t`. -/
def to_uint8 (x : Int) : Nat := (x % 2 ^ 8).toNat

/-- Wrap-around of 32-bit signed arithmetic. -/
def wrap_int32 (x : Int) : Int := (x + 2 ^ 31) % 2 ^ 32 - 2 ^ 31

/-! ## TX power encoding (`dw3000_phy.h`, `dw1000_phy.c`) -/

/-- `DW3000_txrf_config_18db` of `coarse_power_levels_t`. -/
def DW3000_txrf_config_18db : Int := 0
/-- `DW3000_txrf_config_15db`. -/
def DW3000_txrf_config_15db : Int := 1
/-- `DW3000_txrf_config_12db`. -/
def DW3000_txrf_config_12db : Int := 2
/-- `DW3000_txrf_config_9db`. -/
def DW3000_txrf_config_9db : Int := 3
/-- `DW3000_txrf_config_6db`. -/
def DW3000_txrf_config_6db : Int := 4
/-- `DW3000_txrf_config_3db`. -/
def DW3000_txrf_config_3db : Int := 5
/-- `DW3000_txrf_config_0db`. -/
def DW3000_txrf_config_0db : Int := 6

/-- The macro `dw3000_power_valuef(COARSE,FINE)`, an `int`:
`(COARSE<<5) + (0xFFFFF & (uint16_t)(DPL_FLOAT32_INT(fine * 2.0f)))`. The macro
body names the variable `fine` of the calling function. -/
def dw3000_power_valuef {F : Type} (ops : float32_ops F) (COARSE : Int) (fine : F) : Int :=
  COARSE * 2 ^ 5
    + ((0xFFFFF &&& to_uint16 (ops.DPL_FLOAT32_INT
        (ops.DPL_FLOAT32_MUL fine ops.DPL_FLOAT32_INIT_2)) : Nat) : Int)

/-- `dw3000_phy_txrf_power_value`. The target `reg` is `none` for a null
pointer and `some b` for a pointer to a byte holding `b`; the result is the
returned flag and the target after the call. -/
def dw3000_phy_txrf_power_value {F : Type} (ops : float32_ops F) (reg : Option Nat)
    (coarse fine : F) : Bool × Option Nat :=
  let c := ops.DPL_FLOAT32_INT coarse
  match reg with
  | none => (false, none)
  | some b =>
    if ops.DPL_FLOAT32_INT fine < 0 ∨ ops.DPL_FLOAT32_INT fine > 32 then (false, some b)
    else if c = 18 then
      (true, some (to_uint8 (dw3000_power_valuef ops DW3000_txrf_config_18db fine)))
    else if c = 15 then
      (true, some (to_uint8 (dw3000_power_valuef ops DW3000_txrf_config_15db fine)))
    else if c = 12 then
      (true, some (to_uint8 (dw3000_power_valuef ops DW3000_txrf_config_12db fine)))
    else if c = 9 then
      (true, some (to_uint8 (dw3000_power_valuef ops DW3000_txrf_config_9db fine)))
    else if c = 6 then
      (true, some (to_uint8 (dw3000_power_valuef ops DW3000_txrf_config_6db fine)))
    else if c = 3 then
      (true, some (to_uint8 (dw3000_power_valuef ops DW3000_txrf_config_3db fine)))
    else if c = 0 then
      (true, some (to_uint8 (dw3000_power_valuef ops DW3000_txrf_config_0db fine)))
    else (false, some b)

/-! ## Frame durations (`dw1000_phy.c`) -/

/-- The fields of `struct uwb_phy_attributes` the duration formulas read. -/
structure uwb_phy_attributes (F : Type) where
  Tpsym : F
  Tbsym : F
  Tdsym : F
  nsfd : Nat
  nsync : Nat
  nphr : Nat

/-- `dw3000_phy_SHR_duration`: the result is a `uint16_t`. -/
def dw3000_phy_SHR_duration {F : Type} (ops : float32_ops F) (attrib : uwb_phy_attributes F) :
    Nat :=
  to_uint16 (ops.DPL_FLOAT32_INT (ops.DPL_FLOAT32_CEIL
    (ops.DPL_FLOAT32_MUL attrib.Tpsym
      (ops.DPL_FLOAT32_I32_TO_F32 ((attrib.nsync + attrib.nsfd : Nat) : Int)))))

/-- The local `parity_data_bits` of `dw3000_phy_data_duration` after
`parity_data_bits += ((8*(nlen+2))/330) * 48`, in `int32_t` arithmetic; `nlen`
is a `uint16_t`. -/
def data_duration_parity_data_bits (nlen : Nat) : Int :=
  wrap_int32 (48 + wrap_int32
    (Int.tdiv (wrap_int32 (8 * wrap_int32 (((nlen % 2 ^ 16 : Nat) : Int) + 2))) 330 * 48))

/-- The local `total_payload_bits` of `dw3000_phy_data_duration`:
`8*(nlen+2) + parity_data_bits`. -/
def data_duration_total_payload_bits (nlen : Nat) : Int :=
  wrap_int32 (wrap_int32 (8 * wrap_int32 (((nlen % 2 ^ 16 : Nat) : Int) + 2))
    + data_duration_parity_data_bits nlen)

/-- `dw3000_phy_data_duration`: the result is a `uint16_t`. -/
def dw3000_phy_data_duration {F : Type} (ops : float32_ops F) (attrib : uwb_phy_attributes F)
    (nlen : Nat) : Nat :=
  to_uint16 (ops.DPL_FLOAT32_INT (ops.DPL_FLOAT32_CEIL
    (ops.DPL_FLOAT32_ADD
      (ops.DPL_FLOAT32_MUL attrib.Tbsym (ops.DPL_FLOAT32_I32_TO_F32 (attrib.nphr : Int)))
      (ops.DPL_FLOAT32_MUL attrib.Tdsym
        (ops.DPL_FLOAT32_I32_TO_F32 (data_duration_total_payload_bits nlen))))))

/-- `dw3000_phy_frame_duration`: the `int` sum of the two results, returned as
a `uint16_t`. -/
def dw3000_phy_frame_duration {F : Type} (ops : float32_ops F) (attrib : uwb_phy_attributes F)
    (nlen : Nat) : Nat :=
  (dw3000_phy_SHR_duration ops attrib + dw3000_phy_data_duration ops attrib nlen) % 2 ^ 16

/-! ## Exact arithmetic for the examples -/

/-- A dyadic rational `num / 2 ^ exp`: every finite single-precision value is
one. -/
structure dyadic where
  num : Int
  exp : Nat
deriving DecidableEq

/-- Exact arithmetic on dyadic rationals, with the conversion to `int`
truncating toward zero as a C cast does. It gives what single-precision
arithmetic gives whenever the single-precision result is exact. -/
def exact_float_ops : float32_ops dyadic where
  DPL_FLOAT32_I32_TO_F32 := fun i => ⟨i, 0⟩
  DPL_FLOAT32_MUL := fun a b => ⟨a.num * b.num, a.exp + b.exp⟩
  DPL_FLOAT32_ADD := fun a b => ⟨a.num * 2 ^ b.exp + b.num * 2 ^ a.exp, a.exp + b.exp⟩
  DPL_FLOAT32_CEIL := fun a => ⟨-((-a.num) / 2 ^ a.exp), 0⟩
  DPL_FLOAT32_INT := fun a => Int.tdiv a.num (2 ^ a.exp)
  DPL_FLOAT32_INIT_2 := ⟨2, 0⟩

/-- The float with the value `k / 2`, a whole number of half-dB steps. -/
def half_steps (k : Int) : dyadic := ⟨k, 1⟩

/-- Example attributes: 1 us per preamble symbol, 4096 + 64 preamble and SFD
symbols, 1 us per base-rate symbol, 21 header symbols, 1 us per data bit. -/
def example_attrib : uwb_phy_attributes dyadic where
  Tpsym := ⟨1, 0⟩
  Tbsym := ⟨1, 0⟩
  Tdsym := ⟨1, 0⟩
  nsfd := 64
  nsync := 4096
  nphr := 21

/-- The index in `coarse_power_levels_t` of a coarse level in dB: 0 for 18,
1 for 15, ..., 6 for 0; none for any other level. -/
def coarse_index (c : Int) : Option Nat :=
  if c = 18 then some 0
  else if c = 15 then some 1
  else if c = 12 then some 2
  else if c = 9 then some 3
  else if c = 6 then some 4
  else if c = 3 then some 5
  else if c = 0 then some 6
  else none

/-! ## Event counters (`dw1000_phy.c`) -/

/-- The words `event_count0` .. `event_count5` of `struct uwb_dev_evcnt`. The
structure is declared in the uwb headers, outside the package sources: these
are its first six 32-bit words, at byte offsets 0, 4, .., 20, so that
`offsetof(struct uwb_dev_evcnt, event_count6)` is 24; the words after them are
not touched by this layer. -/
structure uwb_dev_evcnt where
  event_count0 : Nat
  event_count1 : Nat
  event_count2 : Nat
  event_count3 : Nat
  event_count4 : Nat
  event_count5 : Nat
deriving DecidableEq

/-- The 32-bit word at index `i` of a byte buffer (little-endian host). -/
def buffer_word (buffer : List Nat) (i : Nat) : Nat :=
  le_value ((buffer.drop (4 * i)).take 4)

/-- `dw3000_phy_event_cnt_read`: `res` is `none` for a null pointer; the result
is the status snapshot and the structure behind `res` after the call. -/
def dw3000_phy_event_cnt_read (c : Ctx) (res : Option uwb_dev_evcnt) :
    M (uwb_dev_status × Option uwb_dev_evcnt) := do
  match res with
  | none => pure ((← get_inst).status, none)
  | some _ =>
    let (_, buffer) ← dw3000_read c c.regs.DIG_DIAG_ID c.regs.EVC_PHE_OFFSET 24
    let res : uwb_dev_evcnt :=
      { event_count0 := buffer_word buffer 0
          &&& (((c.regs.EVC_RSE_MASK <<< 16) ||| c.regs.EVC_PHE_MASK) % 2 ^ 32)
        event_count1 := buffer_word buffer 1
          &&& (((c.regs.EVC_FCE_MASK <<< 16) ||| c.regs.EVC_FCG_MASK) % 2 ^ 32)
        event_count2 := buffer_word buffer 2
          &&& (((c.regs.EVC_OVR_MASK <<< 16) ||| c.regs.EVC_FFR_MASK) % 2 ^ 32)
        event_count3 := buffer_word buffer 3
          &&& (((c.regs.EVC_PTO_MASK <<< 16) ||| c.regs.EVC_STO_MASK) % 2 ^ 32)
        event_count4 := buffer_word buffer 4
          &&& (((c.regs.EVC_TXFS_MASK <<< 16) ||| c.regs.EVC_FWTO_MASK) % 2 ^ 32)
        event_count5 := buffer_word buffer 5
          &&& (((c.regs.EVC_TPW_MASK <<< 16) ||| c.regs.EVC_HPW_MASK) % 2 ^ 32) }
    pure ((← get_inst).status, some res)

/-- The raw 32-bit content of event-counter register `i`, as the chip answers
the burst read issued after the trace `t`. -/
def evc_raw (c : Ctx) (t : List Event) (i : Nat) : Nat :=
  buffer_word (read_reg_data c t c.regs.DIG_DIAG_ID c.regs.EVC_PHE_OFFSET 24) i

/-- The mask of a counter register from the masks of its two fields:
`(high << 16) | low`. -/
def evc_mask (high low : Nat) : Nat := (high <<< 16) ||| low

/-- An example environment whose chip answers every read with bytes 0xFF. -/
def example_env_ones : Env :=
  { example_env with spi_rx := fun _ _ n => List.replicate n 0xFF }

/-- Example context with the chip that answers 0xFF bytes. -/
def example_ctx_ones : Ctx :=
  { example_ctx with env := example_env_ones }

/-- An event-counter structure with every word 5. -/
def example_evcnt : uwb_dev_evcnt :=
  { event_count0 := 5, event_count1 := 5, event_count2 := 5, event_count3 := 5,
    event_count4 := 5, event_count5 := 5 }

/-! ## Vocabulary for the clock selection -/

/-- The byte `dw3000_phy_sysclk_XTAL` writes back after reading `r`. -/
def sysclk_XTAL_value (k : dw3000_regs) (r : Nat) : Nat :=
  (((r % 256) &&& (u8_not k.PMSC_CTRL0_SYSCLKS_19M &&& u8_not k.PMSC_CTRL0_SYSCLKS_125M))
    ||| (k.PMSC_CTRL0_SYSCLKS_19M % 256)) % 256

/-- The byte `dw3000_phy_sysclk_PLL` writes back after reading `r`. -/
def sysclk_PLL_value (k : dw3000_regs) (r : Nat) : Nat :=
  (((r % 256) &&& (u8_not k.PMSC_CTRL0_SYSCLKS_19M &&& u8_not k.PMSC_CTRL0_SYSCLKS_125M))
    ||| (k.PMSC_CTRL0_SYSCLKS_125M % 256)) % 256

/-- The byte `dw3000_phy_sysclk_SEQ` writes back after reading `r`. -/
def sysclk_SEQ_value (k : dw3000_regs) (r : Nat) : Nat :=
  (r % 256) &&& (u8_not k.PMSC_CTRL0_SYSCLKS_19M &&& u8_not k.PMSC_CTRL0_SYSCLKS_125M)

/-- The value a one-byte read of the low byte of `PMSC_CTRL0` returns after the
trace `t`. -/
def pmsc_ctrl0_read (c : Ctx) (t : List Event) : Nat :=
  le_value (read_reg_data c t c.regs.PMSC_ID c.regs.PMSC_CTRL0_OFFSET 1)

/-- The events of a clock selection called after the trace `t`: the read of the
low byte of `PMSC_CTRL0` and the write of `value` applied to the byte read. -/
def sysclk_events (c : Ctx) (blocking : Bool) (t : List Event) (value : Nat → Nat) :
    List Event :=
  [read_reg_event c t blocking c.regs.PMSC_ID c.regs.PMSC_CTRL0_OFFSET 1]
    ++ write_reg_events c blocking c.regs.PMSC_ID c.regs.PMSC_CTRL0_OFFSET
        (value (pmsc_ctrl0_read c t)) 1

/-! ## Sleep configuration (`dw1000_dev.c`) -/

/-- Bitwise complement as seen by a `uint16_t`: `reg &= ~x` keeps the bits of
`reg` that are not in `x`. -/
def u16_not (x : Nat) : Nat := 0xFFFF ^^^ (x % 2 ^ 16)

/-- `dw3000_dev_configure_sleep`: `reg` is a `uint16_t`. -/
def dw3000_dev_configure_sleep (c : Ctx) : M Unit := do
  let reg := (← dw3000_read_reg c c.regs.AON_ID c.regs.AON_WCFG_OFFSET 2) % 2 ^ 16
  let reg := (reg ||| (c.regs.AON_WCFG_ONW_L64P ||| c.regs.AON_WCFG_ONW_LDC)) % 2 ^ 16
  let inst ← get_inst
  let reg := if inst.status.LDE_enabled = true then (reg ||| c.regs.AON_WCFG_ONW_LLDE) % 2 ^ 16
    else reg &&& u16_not c.regs.AON_WCFG_ONW_LLDE
  let reg := if inst.status.LDO_enabled = true then (reg ||| c.regs.AON_WCFG_ONW_LLDO) % 2 ^ 16
    else reg &&& u16_not c.regs.AON_WCFG_ONW_LLDO
  let reg := if inst.config.wakeup_rx_enable = true then (reg ||| c.regs.AON_WCFG_ONW_RX) % 2 ^ 16
    else reg &&& u16_not c.regs.AON_WCFG_ONW_RX
  dw3000_write_reg c c.regs.AON_ID c.regs.AON_WCFG_OFFSET reg 2
  let reg := (← dw3000_read_reg c c.regs.AON_ID c.regs.AON_CFG0_OFFSET 2) % 2 ^ 16
  let reg := (reg ||| (c.regs.AON_CFG0_WAKE_SPI ||| c.regs.AON_CFG0_WAKE_PIN)) % 2 ^ 16
  modify_inst (fun i => { i with status := { i.status with sleep_enabled := i.config.sleep_enable } })
  let inst ← get_inst
  let reg := if inst.status.sleep_enabled = true then
      (reg ||| (c.regs.AON_CFG0_WAKE_CNT ||| c.regs.AON_CFG0_SLEEP_EN)) % 2 ^ 16
    else reg &&& u16_not (c.regs.AON_CFG0_WAKE_CNT ||| c.regs.AON_CFG0_SLEEP_EN)
  dw3000_write_reg c c.regs.AON_ID c.regs.AON_CFG0_OFFSET reg 2

/-- The value `dw3000_dev_configure_sleep` writes to `AON_WCFG` after reading
the 16-bit value `r`, for the flags of `inst`. -/
def configure_sleep_wcfg (k : dw3000_regs) (inst : dw3000_dev_instance_t) (r : Nat) : Nat :=
  let reg := (r % 2 ^ 16 ||| (k.AON_WCFG_ONW_L64P ||| k.AON_WCFG_ONW_LDC)) % 2 ^ 16
  let reg := if inst.status.LDE_enabled = true then (reg ||| k.AON_WCFG_ONW_LLDE) % 2 ^ 16
    else reg &&& u16_not k.AON_WCFG_ONW_LLDE
  let reg := if inst.status.LDO_enabled = true then (reg ||| k.AON_WCFG_ONW_LLDO) % 2 ^ 16
    else reg &&& u16_not k.AON_WCFG_ONW_LLDO
  if inst.config.wakeup_rx_enable = true then (reg ||| k.AON_WCFG_ONW_RX) % 2 ^ 16
    else reg &&& u16_not k.AON_WCFG_ONW_RX

/-- The value `dw3000_dev_configure_sleep` writes to `AON_CFG0` after reading
the 16-bit value `r`, for the configuration of `inst`. -/
def configure_sleep_cfg0 (k : dw3000_regs) (inst : dw3000_dev_instance_t) (r : Nat) : Nat :=
  let reg := (r % 2 ^ 16 ||| (k.AON_CFG0_WAKE_SPI ||| k.AON_CFG0_WAKE_PIN)) % 2 ^ 16
  if inst.config.sleep_enable = true then
    (reg ||| (k.AON_CFG0_WAKE_CNT ||| k.AON_CFG0_SLEEP_EN)) % 2 ^ 16
  else reg &&& u16_not (k.AON_CFG0_WAKE_CNT ||| k.AON_CFG0_SLEEP_EN)

/-- The events of the first half of `dw3000_dev_configure_sleep` called after
the trace `t`: the read of `AON_WCFG` and the write of the new value. -/
def configure_sleep_wcfg_events (c : Ctx) (inst : dw3000_dev_instance_t) (t : List Event) :
    List Event :=
  [read_reg_event c t inst.config.blocking_spi_transfers c.regs.AON_ID c.regs.AON_WCFG_OFFSET 2]
    ++ write_reg_events c inst.config.blocking_spi_transfers c.regs.AON_ID c.regs.AON_WCFG_OFFSET
        (configure_sleep_wcfg c.regs inst
          (le_value (read_reg_data c t c.regs.AON_ID c.regs.AON_WCFG_OFFSET 2))) 2

/-- The events of the second half, called after the trace `t`: the read of
`AON_CFG0` and the write of the new value. -/
def configure_sleep_cfg0_events (c : Ctx) (inst : dw3000_dev_instance_t) (t : List Event) :
    List Event :=
  [read_reg_event c t inst.config.blocking_spi_transfers c.regs.AON_ID c.regs.AON_CFG0_OFFSET 2]
    ++ write_reg_events c inst.config.blocking_spi_transfers c.regs.AON_ID c.regs.AON_CFG0_OFFSET
        (configure_sleep_cfg0 c.regs inst
          (le_value (read_reg_data c t c.regs.AON_ID c.regs.AON_CFG0_OFFSET 2))) 2

/-- The accesses of `dw3000_dev_configure_sleep` pass the transport assertions
and its two registers are different. -/
def configure_sleep_regs_ok (k : dw3000_regs) : Prop :=
  valid_access k.AON_ID k.AON_WCFG_OFFSET 2 ∧ valid_access k.AON_ID k.AON_CFG0_OFFSET 2
    ∧ k.AON_WCFG_OFFSET ≠ k.AON_CFG0_OFFSET

instance (k : dw3000_regs) : Decidable (configure_sleep_regs_ok k) := by
  unfold configure_sleep_regs_ok; infer_instance

/-- After the trace `t`, the chip answers a read of `nbytes` bytes of the
register `reg`/`subaddress` with the payload last written to it, if any. -/
def reads_back (c : Ctx) (t : List Event) (reg subaddress nbytes : Nat) : Prop :=
  ∀ d, last_write (tx_header 1 reg subaddress) t = some d →
    read_reg_data c t reg subaddress nbytes = d

/-- The header of the write that goes with a read header: bit 7 of the first
byte set. -/
def write_header_of (header : List Nat) : List Nat :=
  match header with
  | [] => []
  | b :: rest => (b ||| 0x80) :: rest

/-- An example environment whose chip answers a read with the payload last
written to the same register, and with zero bytes before any write. -/
def example_env_memory : Env :=
  { example_env with
    spi_rx := fun t header n => (last_write (write_header_of header) t).getD (List.replicate n 0) }

/-- Example context with the chip that reads back what was written. -/
def example_ctx_memory : Ctx :=
  { example_ctx with env := example_env_memory }

instance (c : Ctx) (t : List Event) (reg subaddress nbytes : Nat) :
    Decidable (reads_back c t reg subaddress nbytes) := by
  unfold reads_back; infer_instance

/-! ## OTP block read (`dw1000_otp.c`) -/

/-- The loop `for(i=0; i<length; i++) buffer[i] = _dw3000_otp_read(inst, address + i)`
of `dw3000_phy_otp_read`, from index `i` with `remaining` iterations to go; the
result lists the words stored in `buffer[i]`, `buffer[i+1]`, ... The sum
`address + i` is a `uint32_t`. -/
def otp_read_loop (c : Ctx) (address : Nat) : Nat → Nat → M (List Nat)
  | _, 0 => pure []
  | i, remaining + 1 => do
    let word ← _dw3000_otp_read c ((address % 2 ^ 32 + i) % 2 ^ 32)
    let rest ← otp_read_loop c address (i + 1) remaining
    pure (word :: rest)

/-- `dw3000_phy_otp_read`: `address` is a `uint32_t`, `length` a `uint16_t`; the
result lists the words stored in `buffer[0]` .. `buffer[length-1]`. -/
def dw3000_phy_otp_read (c : Ctx) (address length : Nat) : M (List Nat) := do
  dw3000_phy_sysclk_XTAL c
  let buffer ← otp_read_loop c address 0 (length % 2 ^ 16)
  dw3000_phy_sysclk_SEQ c
  pure buffer

/-- The events of `_dw3000_otp_read` before its data read, for the 16-bit
address `a`: address write, read command, command clear, delay. -/
def otp_word_setup (c : Ctx) (blocking : Bool) (a : Nat) : List Event :=
  write_reg_events c blocking c.regs.OTP_IF_ID c.regs.OTP_ADDR a 2
    ++ (write_reg_events c blocking c.regs.OTP_IF_ID c.regs.OTP_CTRL
          (c.regs.OTP_CTRL_OTPREAD ||| c.regs.OTP_CTRL_OTPRDEN) 1
    ++ (write_reg_events c blocking c.regs.OTP_IF_ID c.regs.OTP_CTRL 0x0 1
    ++ [Event.dpl_cputime_delay_usecs 1]))

/-- The events of one `_dw3000_otp_read` of the 16-bit address `a`, called after
the trace `t`. -/
def otp_word_events (c : Ctx) (blocking : Bool) (t : List Event) (a : Nat) : List Event :=
  otp_word_setup c blocking a
    ++ [read_reg_event c (t ++ otp_word_setup c blocking a) blocking
          c.regs.OTP_IF_ID c.regs.OTP_RDAT 4]

/-- The word that `_dw3000_otp_read` of the 16-bit address `a` returns when
called after the trace `t`. -/
def otp_word (c : Ctx) (blocking : Bool) (t : List Event) (a : Nat) : Nat :=
  le_value (read_reg_data c (t ++ otp_word_setup c blocking a) c.regs.OTP_IF_ID c.regs.OTP_RDAT 4)
    % 2 ^ 32

/-- The events of the loop of `dw3000_phy_otp_read` from index `i`, with
`remaining` iterations to go, entered after the trace `t`. -/
def otp_loop_events (c : Ctx) (blocking : Bool) (address : Nat) :
    Nat → Nat → List Event → List Event
  | _, 0, _ => []
  | i, remaining + 1, t =>
    otp_word_events c blocking t ((address % 2 ^ 32 + i) % 2 ^ 32 % 2 ^ 16)
      ++ otp_loop_events c blocking address (i + 1) remaining
          (t ++ otp_word_events c blocking t ((address % 2 ^ 32 + i) % 2 ^ 32 % 2 ^ 16))

/-- The words the loop stores, in order. -/
def otp_loop_words (c : Ctx) (blocking : Bool) (address : Nat) :
    Nat → Nat → List Event → List Nat
  | _, 0, _ => []
  | i, remaining + 1, t =>
    otp_word c blocking t ((address % 2 ^ 32 + i) % 2 ^ 32 % 2 ^ 16)
      :: otp_loop_words c blocking address (i + 1) remaining
          (t ++ otp_word_events c blocking t ((address % 2 ^ 32 + i) % 2 ^ 32 % 2 ^ 16))

/-- The register writes of one single-word OTP read at the 16-bit address `a`:
the address, the read command, the command clear. -/
def otp_read_writes (k : dw3000_regs) (a : Nat) : List (List Nat × List Nat) :=
  [(tx_header 1 k.OTP_IF_ID k.OTP_ADDR, le_bytes a 2),
   (tx_header 1 k.OTP_IF_ID k.OTP_CTRL, le_bytes (k.OTP_CTRL_OTPREAD ||| k.OTP_CTRL_OTPRDEN) 1),
   (tx_header 1 k.OTP_IF_ID k.OTP_CTRL, le_bytes 0x0 1)]

/-- The accesses of `dw3000_phy_otp_read` pass the transport assertions. -/
def otp_read_regs_ok (k : dw3000_regs) : Prop :=
  valid_access k.PMSC_ID k.PMSC_CTRL0_OFFSET 1 ∧ valid_access k.OTP_IF_ID k.OTP_ADDR 2
    ∧ valid_access k.OTP_IF_ID k.OTP_CTRL 1 ∧ valid_access k.OTP_IF_ID k.OTP_RDAT 4

instance (k : dw3000_regs) : Decidable (otp_read_regs_ok k) := by
  unfold otp_read_regs_ok; infer_instance

/-! ## Vocabulary for the soft reset -/

/-- A register write (header and payload) or a delay (microseconds), for the
order of writes and delays in a trace. -/
def Event.write_or_delay : Event → Option ((List Nat × List Nat) ⊕ Nat)
  | .hal_dw3000_write h d => some (Sum.inl (h, d))
  | .hal_dw3000_write_noblock h d => some (Sum.inl (h, d))
  | .dpl_cputime_delay_usecs usecs => some (Sum.inr usecs)
  | _ => none

/-- The register writes and delays of a trace, in order. -/
def writes_and_delays (t : List Event) : List ((List Nat × List Nat) ⊕ Nat) :=
  t.filterMap Event.write_or_delay

/-- The events of `dw3000_softreset` called after the trace `t`. -/
def softreset_events (c : Ctx) (blocking : Bool) (t : List Event) : List Event :=
  sysclk_events c blocking t (sysclk_XTAL_value c.regs)
    ++ (write_reg_events c blocking c.regs.PMSC_ID c.regs.PMSC_CTRL1_OFFSET
          c.regs.PMSC_CTRL1_PKTSEQ_DISABLE 2
    ++ (write_reg_events c blocking c.regs.AON_ID c.regs.AON_WCFG_OFFSET 0x0 2
    ++ (write_reg_events c blocking c.regs.AON_ID c.regs.AON_CFG0_OFFSET 0x0 1
    ++ (write_reg_events c blocking c.regs.AON_ID c.regs.AON_CTRL_OFFSET 0x0 1
    ++ (write_reg_events c blocking c.regs.AON_ID c.regs.AON_CTRL_OFFSET c.regs.AON_CTRL_SAVE 1
    ++ (write_reg_events c blocking c.regs.PMSC_ID c.regs.PMSC_CTRL0_SOFTRESET_OFFSET
          c.regs.PMSC_CTRL0_RESET_ALL 1
    ++ ([Event.dpl_cputime_delay_usecs 10]
    ++ write_reg_events c blocking c.regs.PMSC_ID c.regs.PMSC_CTRL0_SOFTRESET_OFFSET
          c.regs.PMSC_CTRL0_RESET_CLEAR 1)))))))

/-- The accesses of `dw3000_softreset` pass the transport assertions. -/
def softreset_regs_ok (k : dw3000_regs) : Prop :=
  valid_access k.PMSC_ID k.PMSC_CTRL0_OFFSET 1 ∧ valid_access k.PMSC_ID k.PMSC_CTRL1_OFFSET 2
    ∧ valid_access k.AON_ID k.AON_WCFG_OFFSET 2 ∧ valid_access k.AON_ID k.AON_CFG0_OFFSET 1
    ∧ valid_access k.AON_ID k.AON_CTRL_OFFSET 1
    ∧ valid_access k.PMSC_ID k.PMSC_CTRL0_SOFTRESET_OFFSET 1

instance (k : dw3000_regs) : Decidable (softreset_regs_ok k) := by
  unfold softreset_regs_ok; infer_instance

/-! ## GPIO direction and output value (`dw1000_gpio.c`) -/

/-- The `uint32_t` local `command` of `dw3000_gpio_set_direction` and
`dw3000_gpio_set_value` for the pin `gpioNum` and the `uint8_t` `value` (the
direction or the output level): `Mask | Value`. -/
def gpio_command (gpioNum value : Nat) : Nat :=
  if gpioNum < 4 then ((1 <<< (gpioNum + 4)) ||| (value <<< gpioNum)) % 2 ^ 32
  else if gpioNum < 8 then ((1 <<< (gpioNum + 4 + 8)) ||| (value <<< (gpioNum + 8))) % 2 ^ 32
  else ((1 <<< (gpioNum + 4 + 12)) ||| (value <<< (gpioNum + 12))) % 2 ^ 32

/-- The three elements of `buf` the two functions assign:
`command & 0xff`, `(command >> 8) & 0xff`, `(command >> 16) & 0xff`. -/
def gpio_command_buf (command : Nat) : List Nat :=
  [command &&& 0xff, (command >>> 8) &&& 0xff, (command >>> 16) &&& 0xff]

/-- `dw3000_gpio_set_direction`: `gpioNum` and `direction` are `uint8_t`. The
array `buf` has `GPIO_DIR_LEN` elements, of which the source assigns the first
three; the transfer sends `GPIO_DIR_LEN` bytes of it. -/
def dw3000_gpio_set_direction (c : Ctx) (gpioNum direction : Nat) : M Unit := do
  let gpioNum := gpioNum % 256
  let direction := direction % 256
  c_assert (gpioNum < 9)
  let reg := (← dw3000_read_reg c c.regs.PMSC_ID c.regs.PMSC_CTRL0_OFFSET 4) % 2 ^ 32
  (if reg &&& c.regs.PMSC_CTRL0_GPCE = 0 ∨ reg &&& c.regs.PMSC_CTRL0_GPRN = 0 then
    dw3000_write_reg c c.regs.PMSC_ID c.regs.PMSC_CTRL0_OFFSET
      (reg ||| c.regs.PMSC_CTRL0_GPCE ||| c.regs.PMSC_CTRL0_GPRN) 4
  else pure ())
  let command := gpio_command gpioNum direction
  let buf := gpio_command_buf command
  let _ ← dw3000_write c c.regs.GPIO_CTRL_ID c.regs.GPIO_DIR_OFFSET buf c.regs.GPIO_DIR_LEN

/-- `dw3000_gpio_set_value`: `gpioNum` and `value` are `uint8_t`; `buf` has
`GPIO_DOUT_LEN` elements, of which the source assigns the first three. -/
def dw3000_gpio_set_value (c : Ctx) (gpioNum value : Nat) : M Unit := do
  let gpioNum := gpioNum % 256
  let value := value % 256
  c_assert (gpioNum < 9)
  let command := gpio_command gpioNum value
  let buf := gpio_command_buf command
  let _ ← dw3000_write c c.regs.GPIO_CTRL_ID c.regs.GPIO_DOUT_OFFSET buf c.regs.GPIO_DOUT_LEN

/-- The position of the value bit of pin `p` in the command word. -/
def gpio_value_bit (p : Nat) : Nat :=
  if p < 4 then p else if p < 8 then p + 8 else p + 12

/-- The position of the mask bit of pin `p` in the command word. -/
def gpio_mask_bit (p : Nat) : Nat :=
  if p < 4 then p + 4 else if p < 8 then p + 12 else p + 16

/-- The events `dw3000_gpio_set_direction` adds before its command write: the
read of `PMSC_CTRL0` and, when the GPIO clock or reset bit is clear in the
value read, the write that sets both. -/
def gpio_clock_events (c : Ctx) (blocking : Bool) (t : List Event) : List Event :=
  [read_reg_event c t blocking c.regs.PMSC_ID c.regs.PMSC_CTRL0_OFFSET 4]
    ++ (if le_value (read_reg_data c t c.regs.PMSC_ID c.regs.PMSC_CTRL0_OFFSET 4) % 2 ^ 32
            &&& c.regs.PMSC_CTRL0_GPCE = 0
          ∨ le_value (read_reg_data c t c.regs.PMSC_ID c.regs.PMSC_CTRL0_OFFSET 4) % 2 ^ 32
            &&& c.regs.PMSC_CTRL0_GPRN = 0 then
        write_reg_events c blocking c.regs.PMSC_ID c.regs.PMSC_CTRL0_OFFSET
          (le_value (read_reg_data c t c.regs.PMSC_ID c.regs.PMSC_CTRL0_OFFSET 4) % 2 ^ 32
            ||| c.regs.PMSC_CTRL0_GPCE ||| c.regs.PMSC_CTRL0_GPRN) 4
      else [])

/-- The accesses of the two GPIO functions pass the transport assertions, and
the command arrays have three bytes. -/
def gpio_regs_ok (k : dw3000_regs) : Prop :=
  valid_access k.PMSC_ID k.PMSC_CTRL0_OFFSET 4 ∧ valid_access k.GPIO_CTRL_ID k.GPIO_DIR_OFFSET 3
    ∧ valid_access k.GPIO_CTRL_ID k.GPIO_DOUT_OFFSET 3
    ∧ k.GPIO_DIR_LEN = 3 ∧ k.GPIO_DOUT_LEN = 3

instance (k : dw3000_regs) : Decidable (gpio_regs_ok k) := by
  unfold gpio_regs_ok; infer_instance

/-! ## GPIO mode (`dw1000_gpio.c`) -/

/-- The value `dw3000_gpio_set_mode` writes back after reading the 32-bit value
`reg`: `reg &= ~(0x3UL << (6+gpioNum*2)); reg |= (mode << (6+gpioNum*2))`. -/
def gpio_mode_value (gpioNum mode reg : Nat) : Nat :=
  ((reg % 2 ^ 32 &&& u32_not (0x3 <<< (6 + gpioNum * 2))) ||| (mode <<< (6 + gpioNum * 2)))
    % 2 ^ 32

/-- The value `dw3000_gpio_get_mode` returns after reading the 32-bit value
`reg`: `reg &= (0x3UL << (6+gpioNum*2)); reg >>= (6+gpioNum*2); (uint8_t)(reg&0x3)`. -/
def gpio_mode_field (gpioNum reg : Nat) : Nat :=
  (((reg % 2 ^ 32 &&& ((0x3 <<< (6 + gpioNum * 2)) % 2 ^ 32)) >>> (6 + gpioNum * 2)) &&& 0x3)
    % 256

/-- `dw3000_gpio_set_mode`: `gpioNum` and `mode` are `uint8_t`, `reg` a
`uint32_t`. The shifts are defined in C for the pins 0..8. -/
def dw3000_gpio_set_mode (c : Ctx) (gpioNum mode : Nat) : M Unit := do
  let gpioNum := gpioNum % 256
  let mode := mode % 256
  let reg := (← dw3000_read_reg c c.regs.GPIO_CTRL_ID c.regs.GPIO_MODE_OFFSET 4) % 2 ^ 32
  let reg := reg &&& u32_not (0x3 <<< (6 + gpioNum * 2))
  let reg := (reg ||| (mode <<< (6 + gpioNum * 2))) % 2 ^ 32
  dw3000_write_reg c c.regs.GPIO_CTRL_ID c.regs.GPIO_MODE_OFFSET reg 4

/-- `dw3000_gpio_get_mode`. -/
def dw3000_gpio_get_mode (c : Ctx) (gpioNum : Nat) : M Nat := do
  let gpioNum := gpioNum % 256
  let reg := (← dw3000_read_reg c c.regs.GPIO_CTRL_ID c.regs.GPIO_MODE_OFFSET 4) % 2 ^ 32
  let reg := reg &&& ((0x3 <<< (6 + gpioNum * 2)) % 2 ^ 32)
  let reg := reg >>> (6 + gpioNum * 2)
  pure ((reg &&& 0x3) % 256)

/-! ## Projections for callbacks, mutex and semaphore calls -/

/-- The identifier of the interface whose `reset_cb` the event records, if it
records one. -/
def Event.reset_cb_id : Event → Option Nat
  | .reset_cb id => some id
  | _ => none

/-- The interfaces whose `reset_cb` was called, in the order of the calls. -/
def reset_cb_calls (t : List Event) : List Nat := t.filterMap Event.reset_cb_id

/-- Whether the event is a call of `dpl_mutex_pend` or `dpl_mutex_release`. -/
def Event.mutex_call : Event → Bool
  | .dpl_mutex_pend => true
  | .dpl_mutex_release => true
  | _ => false

/-- The calls of `dpl_mutex_pend` and `dpl_mutex_release` in a trace, in order. -/
def mutex_calls (t : List Event) : List Event := t.filter Event.mutex_call

/-- Whether the event is a call of `dpl_sem_release`. -/
def Event.sem_call : Event → Bool
  | .dpl_sem_release => true
  | _ => false

/-- The calls of `dpl_sem_release` in a trace. -/
def sem_calls (t : List Event) : List Event := t.filter Event.sem_call

/-- The example state with four registered interfaces: the first and the last
have a reset callback returning true, the second has none, the third has one
returning false. -/
def example_world_cbs : World :=
  { example_world with
    inst := { example_inst with
      interface_cbs := [{ id := 1, reset_cb := some (fun _ => true) },
                        { id := 2, reset_cb := none },
                        { id := 3, reset_cb := some (fun _ => false) },
                        { id := 4, reset_cb := some (fun _ => true) }] } }

/-- The masks `dw3000_dev_configure_sleep` uses fit the 16-bit registers, and
masks of different settings share no bit: in `AON_WCFG` the always-set pair
`AON_WCFG_ONW_L64P | AON_WCFG_ONW_LDC` and the three conditional masks, in
`AON_CFG0` the always-set pair `AON_CFG0_WAKE_SPI | AON_CFG0_WAKE_PIN` and the
conditional pair `AON_CFG0_WAKE_CNT | AON_CFG0_SLEEP_EN`. -/
def configure_sleep_masks_ok (k : dw3000_regs) : Prop :=
  (k.AON_WCFG_ONW_L64P < 2 ^ 16 ∧ k.AON_WCFG_ONW_LDC < 2 ^ 16 ∧ k.AON_WCFG_ONW_LLDE < 2 ^ 16
    ∧ k.AON_WCFG_ONW_LLDO < 2 ^ 16 ∧ k.AON_WCFG_ONW_RX < 2 ^ 16)
  ∧ ((k.AON_WCFG_ONW_L64P ||| k.AON_WCFG_ONW_LDC) &&& k.AON_WCFG_ONW_LLDE = 0
    ∧ (k.AON_WCFG_ONW_L64P ||| k.AON_WCFG_ONW_LDC) &&& k.AON_WCFG_ONW_LLDO = 0
    ∧ (k.AON_WCFG_ONW_L64P ||| k.AON_WCFG_ONW_LDC) &&& k.AON_WCFG_ONW_RX = 0
    ∧ k.AON_WCFG_ONW_LLDE &&& k.AON_WCFG_ONW_LLDO = 0
    ∧ k.AON_WCFG_ONW_LLDE &&& k.AON_WCFG_ONW_RX = 0
    ∧ k.AON_WCFG_ONW_LLDO &&& k.AON_WCFG_ONW_RX = 0)
  ∧ (k.AON_CFG0_WAKE_SPI < 2 ^ 16 ∧ k.AON_CFG0_WAKE_PIN < 2 ^ 16 ∧ k.AON_CFG0_WAKE_CNT < 2 ^ 16
    ∧ k.AON_CFG0_SLEEP_EN < 2 ^ 16)
  ∧ (k.AON_CFG0_WAKE_SPI ||| k.AON_CFG0_WAKE_PIN)
      &&& (k.AON_CFG0_WAKE_CNT ||| k.AON_CFG0_SLEEP_EN) = 0

instance (k : dw3000_regs) : Decidable (configure_sleep_masks_ok k) := by
  unfold configure_sleep_masks_ok; infer_instance

/-- The idiom `if (flag) reg |= m; else reg &= ~m;` on a `uint16_t` (proof
device). -/
def mask_step (flag : Bool) (reg m : Nat) : Nat :=
  if flag = true then (reg ||| m) % 2 ^ 16 else reg &&& u16_not m

/-! ## The statements of `dw3000_phy_init` in blocks

Each block copies a run of consecutive statements of `dw3000_phy_init`; the
function is their composition (`dw3000_phy_init_blocks`). -/

/-- The start of `dw3000_phy_init`, up to the CPLL lock-detect write; the value
is the `txrf_config` used at the end. -/
def phy_init_setup (c : Ctx) (txrf_config : Option uwb_dev_txrf_config) :
    M uwb_dev_txrf_config := do
  (match txrf_config with
    | none => pure ()
    | some t => modify_inst (fun i => { i with config := { i.config with txrf := t } }))
  let txrf_config := (← get_inst).config.txrf
  dw3000_softreset c
  dw3000_phy_sysclk_XTAL c
  (if c.cfg.DW3000_RXTX_LEDS = true then
    dw3000_gpio_config_leds c (c.regs.DWT_LEDS_ENABLE ||| c.regs.DWT_LEDS_INIT_BLINK)
  else pure ())
  (if c.cfg.RXTX_GPIO_enabled = true then
    (do dw3000_gpio5_config_ext_txe c
        dw3000_gpio6_config_ext_rxe c)
  else pure ())
  let reg := (← dw3000_read_reg c c.regs.EXT_SYNC_ID c.regs.EC_CTRL_OFFSET 1) % 256
  let reg := (reg ||| c.regs.EC_CTRL_PLLLCK) % 256
  dw3000_write_reg c c.regs.EXT_SYNC_ID c.regs.EC_CTRL_OFFSET reg 1
  pure txrf_config

/-- The read of the OTP crystal-trim word and the assignment of `otp_rev`; the
value is `otp_addr`. -/
def phy_init_otp_rev (c : Ctx) : M Nat := do
  let otp_addr := (← _dw3000_otp_read c c.regs.OTP_XTRIM_ADDRESS) &&& 0xffff
  modify_inst (fun i => { i with otp_rev := (otp_addr >>> 8) &&& 0xff })
  pure otp_addr

/-- The read of the OTP LDO-tune word and the conditional LDO kick. -/
def phy_init_ldo (c : Ctx) : M Unit := do
  let ldo_tune ← _dw3000_otp_read c c.regs.OTP_LDOTUNE_ADDRESS
  (if ldo_tune &&& 0xFF ≠ 0 then
    (do dw3000_write_reg c c.regs.OTP_IF_ID c.regs.OTP_SF c.regs.OTP_SF_LDO_KICK 1
        modify_inst (fun i => { i with status := { i.status with LDO_enabled := true } }))
  else pure ())

/-- The reads of part id, lot id, battery and temperature words from OTP. -/
def phy_init_ids (c : Ctx) : M Unit := do
  let part_id ← _dw3000_otp_read c c.regs.OTP_PARTID_ADDRESS
  modify_inst (fun i => { i with part_id := part_id })
  let lot_id ← _dw3000_otp_read c c.regs.OTP_LOTID_ADDRESS
  modify_inst (fun i => { i with lot_id := lot_id })
  let otp_vbat ← _dw3000_otp_read c c.regs.OTP_VBAT_ADDRESS
  modify_inst (fun i => { i with otp_vbat := otp_vbat })
  let otp_temp ← _dw3000_otp_read c c.regs.OTP_VTEMP_ADDRESS
  modify_inst (fun i => { i with otp_temp := otp_temp })

/-- The crystal-trim statements: `otp_xtal_trim`, the choice of the trim and
the write of the trim register. -/
def phy_init_xtal (c : Ctx) (otp_addr : Nat) : M Unit := do
  modify_inst (fun i => { i with otp_xtal_trim := otp_addr &&& 0x1F })
  modify_inst (fun i =>
    if i.otp_xtal_trim ≠ 0 ∧ i.config.rx_xtalTrim = 0xff then
      { i with config := { i.config with rx_xtalTrim := i.otp_xtal_trim } }
    else i)
  let reg := ((3 <<< 5) ||| ((← get_inst).config.rx_xtalTrim &&& c.regs.FS_XTALT_MASK)) % 256
  dw3000_write_reg c c.regs.FS_CTRL_ID c.regs.FS_XTALT_OFFSET reg 1

/-- The optional microcode load and the switch to the sequencing clock. -/
def phy_init_lde (c : Ctx) : M Unit := do
  let inst ← get_inst
  (if inst.config.LDE_enable = true then _dw3000_phy_load_microcode c else pure ())
  dw3000_phy_sysclk_SEQ c

/-- The read-modify-write of `AON_CFG1`. -/
def phy_init_aon_cfg1 (c : Ctx) : M Unit := do
  let reg := (← dw3000_read_reg c c.regs.AON_ID c.regs.AON_CFG1_OFFSET 1) % 256
  let reg := reg ||| u8_not c.regs.AON_CFG1_SMXX
  dw3000_write_reg c c.regs.AON_ID c.regs.AON_CFG1_OFFSET reg 1

/-- The end of `dw3000_phy_init`, from the on-wake SAR write. -/
def phy_init_tail (c : Ctx) (txrf_config : uwb_dev_txrf_config) : M uwb_dev_status := do
  dw3000_write_reg c c.regs.AON_ID c.regs.AON_WCFG_OFFSET c.regs.AON_WCFG_ONW_RADC 2
  dw3000_write_reg c c.regs.LDE_IF_ID c.regs.LDE_RXANTD_OFFSET (← get_inst).rx_antenna_delay 2
  dw3000_write_reg c c.regs.TX_ANTD_ID c.regs.TX_ANTD_OFFSET (← get_inst).tx_antenna_delay 2
  dw3000_phy_config_txrf c txrf_config
  let sys_cfg_reg := (← dw3000_read_reg c c.regs.SYS_CFG_ID 0 4) % 2 ^ 32
  modify_inst (fun i => { i with sys_cfg_reg := sys_cfg_reg })
  pure (← get_inst).status

/-- The state `w'` continues `w`: the trace is extended, and
`status.LDO_enabled` and `config.rx.xtalTrim` are as before. -/
def phy_frame (w w' : World) : Prop :=
  (∃ evs, w'.trace = w.trace ++ evs)
  ∧ w'.inst.status.LDO_enabled = w.inst.status.LDO_enabled
  ∧ w'.inst.config.rx_xtalTrim = w.inst.config.rx_xtalTrim

/-- The action returns from every state, without abort, in a state that
continues the one it started from. -/
def keeps_frame {α : Type} (m : M α) : Prop :=
  ∀ w, ∃ a w', m w = Res.ok a w' ∧ phy_frame w w'

/-- The value of `otp_addr` in `dw3000_phy_init` when the crystal-trim word is
read in the state `u`: the low 16 bits of the OTP word. -/
def phy_init_otp_addr (c : Ctx) (u : World) : Nat :=
  otp_word c u.inst.config.blocking_spi_transfers u.trace (c.regs.OTP_XTRIM_ADDRESS % 2 ^ 16)
    &&& 0xffff

/-- The state after `phy_init_otp_rev` run in the state `u`. -/
def otp_rev_world (c : Ctx) (u : World) : World :=
  { u with
    inst := { u.inst with otp_rev := (phy_init_otp_addr c u >>> 8) &&& 0xff }
    trace := (u.trace ++ otp_word_events c u.inst.config.blocking_spi_transfers u.trace
      (c.regs.OTP_XTRIM_ADDRESS % 2 ^ 16)) }

/-- The LDO-tune word `dw3000_phy_init` reads from OTP in the state `u`. -/
def phy_init_ldo_tune (c : Ctx) (u : World) : Nat :=
  otp_word c u.inst.config.blocking_spi_transfers u.trace (c.regs.OTP_LDOTUNE_ADDRESS % 2 ^ 16)

/-- The events of `phy_init_ldo` run in the state `u`: the OTP read, then the
LDO-kick write if the low byte of the word read is not 0. -/
def ldo_events (c : Ctx) (u : World) : List Event :=
  otp_word_events c u.inst.config.blocking_spi_transfers u.trace
      (c.regs.OTP_LDOTUNE_ADDRESS % 2 ^ 16)
    ++ (if phy_init_ldo_tune c u &&& 0xFF ≠ 0 then
          write_reg_events c u.inst.config.blocking_spi_transfers c.regs.OTP_IF_ID c.regs.OTP_SF
            c.regs.OTP_SF_LDO_KICK 1
        else [])

/-- The state after `phy_init_ldo` run in the state `u`. -/
def ldo_world (c : Ctx) (u : World) : World :=
  { u with
    inst := { u.inst with status := { u.inst.status with
      LDO_enabled := if phy_init_ldo_tune c u &&& 0xFF ≠ 0 then true
        else u.inst.status.LDO_enabled } }
    trace := (u.trace ++ ldo_events c u) }

/-- The crystal trim in `config.rx.xtalTrim` after the choice in
`dw3000_phy_init`: the OTP trim `otp_addr & 0x1F` if it is not 0 and the
configured trim is 0xff, else the configured trim. -/
def xtal_trim_choice (otp_addr xtalTrim : Nat) : Nat :=
  if otp_addr &&& 0x1F ≠ 0 ∧ xtalTrim = 0xff then otp_addr &&& 0x1F else xtalTrim

/-- The byte `dw3000_phy_init` writes to the crystal-trim register for the trim
`xtalTrim`. -/
def xtal_trim_byte (k : dw3000_regs) (xtalTrim : Nat) : Nat :=
  ((3 <<< 5) ||| (xtalTrim &&& k.FS_XTALT_MASK)) % 256

/-- The state after `phy_init_xtal` run with `otp_addr` in the state `u`. -/
def xtal_world (c : Ctx) (otp_addr : Nat) (u : World) : World :=
  { u with
    inst := { u.inst with
      otp_xtal_trim := otp_addr &&& 0x1F
      config := { u.inst.config with
        rx_xtalTrim := xtal_trim_choice otp_addr u.inst.config.rx_xtalTrim } }
    trace := (u.trace ++ write_reg_events c u.inst.config.blocking_spi_transfers
      c.regs.FS_CTRL_ID c.regs.FS_XTALT_OFFSET
      (xtal_trim_byte c.regs (xtal_trim_choice otp_addr u.inst.config.rx_xtalTrim)) 1) }

/-- The byte `dw3000_phy_init` writes to `AON_CFG1` after reading `r`:
`reg |= ~AON_CFG1_SMXX` on a `uint8_t`. -/
def aon_cfg1_value (k : dw3000_regs) (r : Nat) : Nat :=
  r % 256 ||| u8_not k.AON_CFG1_SMXX

/-- The events of `phy_init_aon_cfg1` run in the state `u`. -/
def aon_cfg1_events (c : Ctx) (u : World) : List Event :=
  [read_reg_event c u.trace u.inst.config.blocking_spi_transfers
      c.regs.AON_ID c.regs.AON_CFG1_OFFSET 1]
    ++ write_reg_events c u.inst.config.blocking_spi_transfers
        c.regs.AON_ID c.regs.AON_CFG1_OFFSET
        (aon_cfg1_value c.regs (le_value (read_reg_data c u.trace
          c.regs.AON_ID c.regs.AON_CFG1_OFFSET 1))) 1

/-- The state after `phy_init_aon_cfg1` run in the state `u`. -/
def aon_cfg1_world (c : Ctx) (u : World) : World :=
  { u with trace := (u.trace ++ aon_cfg1_events c u) }

/-- An example environment whose chip answers every read with the bytes
00 01 00 00: every 32-bit word read is 0x100. -/
def example_env_word_0x100 : Env :=
  { example_env with spi_rx := fun _ _ _ => [0x00, 0x01, 0x00, 0x00] }

/-- Example context with the chip whose words read 0x100. -/
def example_ctx_word_0x100 : Ctx :=
  { example_ctx with env := example_env_word_0x100 }

/-- What a call that returned did with the instance mutex, for an operation
started in the state `w` that calls `dpl_mutex_pend` after the trace `t0`: it
called `dpl_mutex_pend` once, then `dpl_mutex_release` once if the mutex was
acquired and not at all if it was not, and the nesting level of the mutex is
what it was at entry. -/
def mutex_balanced {α : Type} (c : Ctx) (w : World) (t0 : List Event) (r : Res α) : Prop :=
  r.isFault = false →
    mutex_calls (r.world.trace.drop w.trace.length)
        = Event.dpl_mutex_pend
          :: (if c.env.mutex_pend t0 = dpl_error_t.DPL_OK then [Event.dpl_mutex_release] else [])
    ∧ r.world.mutex_level = w.mutex_level

/-- The accesses of `dw3000_phy_rx_reset` pass the transport assertions. -/
def rx_reset_regs_ok (k : dw3000_regs) : Prop :=
  valid_access k.PMSC_ID k.PMSC_CTRL0_SOFTRESET_OFFSET 1

instance (k : dw3000_regs) : Decidable (rx_reset_regs_ok k) := by
  unfold rx_reset_regs_ok; infer_instance

theorem M_bind_apply {α β : Type} (m : M α) (f : α → M β) (w : World) :
    (m >>= f) w = match m w with
      | .ok a w' => f a w'
      | .fault w' => .fault w' := rfl

theorem M_pure_apply {α : Type} (a : α) (w : World) : (pure a : M α) w = .ok a w := rfl

set_option maxRecDepth 100000 in
theorem header_byte0_decode : ∀ op < 2, ∀ si < 2, ∀ r < 64,
    (((op <<< 7) ||| (si <<< 6) ||| r) % 256) % 64 = r
    ∧ ((((op <<< 7) ||| (si <<< 6) ||| r) % 256).testBit 6 = decide (si = 1))
    ∧ ((((op <<< 7) ||| (si <<< 6) ||| r) % 256).testBit 7 = decide (op = 1)) := by
  decide

set_option maxRecDepth 100000 in
theorem header_byte1_decode : ∀ e < 2, ∀ s < 256,
    ((((e <<< 7) ||| s) % 256) &&& 0x7F = s % 128)
    ∧ ((((e <<< 7) ||| s) % 256).testBit 7 = decide (e = 1 ∨ 128 ≤ s)) := by
  decide

theorem mk_len_eq (reg subaddress operation : Nat) (hsub : subaddress ≤ 0x7FFF) :
    mk_len (mk_cmd reg subaddress operation)
      = if subaddress = 0 then 1 else if subaddress ≤ 0x7F then 2 else 3 := by
  have h : subaddress % 2 ^ 15 = subaddress := Nat.mod_eq_of_lt (by omega)
  unfold mk_len mk_cmd
  simp only [h]
  by_cases h0 : subaddress = 0
  · simp [h0]
  · by_cases h1 : subaddress ≤ 0x7F
    · have : ¬ (subaddress > 0x7F) := by omega
      simp [h0, h1, this]
    · have : subaddress > 0x7F := by omega
      simp [h0, h1, this]

theorem dw3000_write_reg_eq (c : Ctx) (w : World) (reg subaddress val nbytes : Nat)
    (hn : nbytes ≤ 8) (hv : valid_access reg subaddress nbytes) :
    dw3000_write_reg c reg subaddress val nbytes w
      = Res.ok () { w with trace := w.trace
          ++ write_reg_events c w.inst.config.blocking_spi_transfers reg subaddress val nbytes } := by
  obtain ⟨hreg, hsub⟩ := hv
  have h1 : subaddress ≤ 0x7FFF := by omega
  have h2 : (subaddress + nbytes) % 2 ^ c.cfg.size_t_bits ≤ 0x7FFF :=
    le_trans (Nat.mod_le _ _) hsub
  unfold dw3000_write_reg write_reg_events
  simp only [M_bind_apply, c_assert, hn, hreg, h1, h2, and_self, if_true, get_inst, bind_assoc]
  split <;> simp [hal_dw3000_write, hal_dw3000_write_noblock, emit, tx_header, M_bind_apply]

theorem dw3000_read_reg_eq (c : Ctx) (w : World) (reg subaddress nbytes : Nat)
    (hn : nbytes ≤ 8) (hv : valid_access reg subaddress nbytes) :
    dw3000_read_reg c reg subaddress nbytes w
      = Res.ok (le_value (read_reg_data c w.trace reg subaddress nbytes))
          { w with trace := w.trace
              ++ [read_reg_event c w.trace w.inst.config.blocking_spi_transfers reg subaddress nbytes] } := by
  obtain ⟨hreg, hsub⟩ := hv
  have h1 : subaddress ≤ 0x7FFF := by omega
  have h2 : (subaddress + nbytes) % 2 ^ c.cfg.size_t_bits ≤ 0x7FFF :=
    le_trans (Nat.mod_le _ _) hsub
  unfold dw3000_read_reg read_reg_event read_reg_data
  simp only [M_bind_apply, c_assert, hn, hreg, h1, h2, and_self, if_true, get_inst]
  split <;> simp [hal_dw3000_read, hal_dw3000_read_noblock, tx_header, M_bind_apply, M_pure_apply,
    get_inst]

theorem dw3000_read_eq (c : Ctx) (w : World) (reg subaddress length : Nat)
    (hv : valid_access reg subaddress length) :
    dw3000_read c reg subaddress length w
      = Res.ok (w.inst.status, read_reg_data c w.trace reg subaddress length)
          { w with trace := w.trace
              ++ [read_event c w.trace w.inst.config.blocking_spi_transfers reg subaddress length] } := by
  obtain ⟨hreg, hsub⟩ := hv
  have h1 : subaddress ≤ 0x7FFF := by omega
  unfold dw3000_read read_event read_reg_data
  simp only [M_bind_apply, c_assert, hreg, h1, hsub, and_self, if_true, get_inst]
  split <;> simp [hal_dw3000_read, hal_dw3000_read_noblock, tx_header, M_bind_apply, M_pure_apply,
    get_inst]

theorem dw3000_write_eq (c : Ctx) (w : World) (reg subaddress : Nat) (buffer : List Nat)
    (length : Nat) (hv : valid_access reg subaddress length) :
    dw3000_write c reg subaddress buffer length w
      = Res.ok w.inst.status
          { w with trace := w.trace
              ++ [write_event c w.inst.config.blocking_spi_transfers reg subaddress buffer length] } := by
  obtain ⟨hreg, hsub⟩ := hv
  have h1 : subaddress ≤ 0x7FFF := by omega
  unfold dw3000_write write_event
  simp only [M_bind_apply, c_assert, hreg, h1, hsub, and_self, if_true, get_inst]
  split <;> simp [hal_dw3000_write, hal_dw3000_write_noblock, emit, tx_header, M_bind_apply,
    M_pure_apply, get_inst]

theorem bus_headers_append (t u : List Event) :
    bus_headers (t ++ u) = bus_headers t ++ bus_headers u := by
  simp [bus_headers]

theorem bus_headers_write_reg_events (c : Ctx) (blocking : Bool)
    (reg subaddress val nbytes : Nat) :
    bus_headers (write_reg_events c blocking reg subaddress val nbytes)
      = [tx_header 1 reg subaddress] := by
  unfold write_reg_events bus_headers
  split <;> simp [Event.bus_header]

theorem bus_header_read_reg_event (c : Ctx) (t : List Event) (blocking : Bool)
    (reg subaddress nbytes : Nat) :
    (read_reg_event c t blocking reg subaddress nbytes).bus_header
      = some (tx_header 0 reg subaddress) := by
  unfold read_reg_event
  split <;> simp [Event.bus_header]

theorem bus_header_read_event (c : Ctx) (t : List Event) (blocking : Bool)
    (reg subaddress length : Nat) :
    (read_event c t blocking reg subaddress length).bus_header
      = some (tx_header 0 reg subaddress) := by
  unfold read_event
  split <;> simp [Event.bus_header]

theorem bus_header_write_event (c : Ctx) (blocking : Bool) (reg subaddress : Nat)
    (buffer : List Nat) (length : Nat) :
    (write_event c blocking reg subaddress buffer length).bus_header
      = some (tx_header 1 reg subaddress) := by
  unfold write_event
  split <;> simp [Event.bus_header]

theorem tx_header_length (operation reg subaddress : Nat) (hsub : subaddress ≤ 0x7FFF) :
    (tx_header operation reg subaddress).length
      = if subaddress = 0 then 1 else if subaddress ≤ 0x7F then 2 else 3 := by
  unfold tx_header
  rw [mk_len_eq reg subaddress operation hsub]
  simp only [mk_header, List.length_take, List.length_cons, List.length_nil]
  split
  · rfl
  · split <;> rfl

theorem header_extended_bit (operation reg subaddress : Nat) (hsub : subaddress ≤ 0x7FFF) :
    ((mk_header (mk_cmd reg subaddress operation) subaddress).getD 1 0).testBit 7
      = decide (0x7F < subaddress) := by
  simp only [mk_header, mk_cmd, List.getD_cons_succ, List.getD_cons_zero]
  by_cases h : subaddress > 0x7F
  · have := (header_byte1_decode 1 (by omega) (subaddress % 256) (Nat.mod_lt _ (by omega))).2
    simp only [h, if_true]
    rw [this]
    simp
  · have := (header_byte1_decode 0 (by omega) (subaddress % 256) (Nat.mod_lt _ (by omega))).2
    simp only [h, if_false]
    rw [this]
    simp
    omega

/-- C1: for a register id of at most 0x3F and `subaddress + length ≤ 0x7FFF`,
the header the four transport functions hand to the bus has length 1 when the
sub-address is 0, 2 when it is in 1..0x7F and 3 above, bit 7 of the second
header byte is set exactly when that length is 3, and each function issues
exactly one bus transfer, carrying that header (the `_reg` variants for a
length of at most 8 bytes, which they assert). -/
theorem header_length_by_subaddress (c : Ctx) (w : World) (reg subaddress length val : Nat)
    (buffer : List Nat) (hreg : reg ≤ 0x3F) (hlen : subaddress + length ≤ 0x7FFF) :
    (∀ op, op ≤ 1 →
      (tx_header op reg subaddress).length = mk_len (mk_cmd reg subaddress op)
      ∧ (subaddress = 0 → (tx_header op reg subaddress).length = 1)
      ∧ (0 < subaddress ∧ subaddress ≤ 0x7F → (tx_header op reg subaddress).length = 2)
      ∧ (0x7F < subaddress → (tx_header op reg subaddress).length = 3)
      ∧ (((mk_header (mk_cmd reg subaddress op) subaddress).getD 1 0).testBit 7 = true
          ↔ (tx_header op reg subaddress).length = 3)
      ∧ (((tx_header op reg subaddress).getD 1 0).testBit 7 = true
          ↔ (tx_header op reg subaddress).length = 3))
    ∧ bus_headers (dw3000_read c reg subaddress length w).world.trace
        = bus_headers w.trace ++ [tx_header 0 reg subaddress]
    ∧ bus_headers (dw3000_write c reg subaddress buffer length w).world.trace
        = bus_headers w.trace ++ [tx_header 1 reg subaddress]
    ∧ (length ≤ 8 →
        bus_headers (dw3000_read_reg c reg subaddress length w).world.trace
          = bus_headers w.trace ++ [tx_header 0 reg subaddress]
        ∧ bus_headers (dw3000_write_reg c reg subaddress val length w).world.trace
          = bus_headers w.trace ++ [tx_header 1 reg subaddress]) := by
  have hsub : subaddress ≤ 0x7FFF := by omega
  have hv : valid_access reg subaddress length := ⟨hreg, hlen⟩
  refine ⟨?_, ?_, ?_, ?_⟩
  · intro op _
    have hl := tx_header_length op reg subaddress hsub
    have hb := header_extended_bit op reg subaddress hsub
    have hm := mk_len_eq reg subaddress op hsub
    refine ⟨by rw [hl, hm], ?_, ?_, ?_, ?_, ?_⟩
    · intro h0; rw [hl]; simp [h0]
    · intro h1
      have : subaddress ≠ 0 := by omega
      rw [hl]; simp [this, h1.2]
    · intro h2
      have h3 : subaddress ≠ 0 := by omega
      have h4 : ¬ subaddress ≤ 0x7F := by omega
      rw [hl]; simp [h3, h4]
    · rw [hb, hl]
      by_cases h0 : subaddress = 0
      · simp [h0]
      · by_cases h1 : subaddress ≤ 0x7F
        · simp [h0, h1]
        · simp [h0, h1]; omega
    · rw [hl]
      by_cases h0 : subaddress = 0
      · subst h0
        simp [tx_header, mk_header, mk_len, mk_cmd]
      · by_cases h1 : subaddress ≤ 0x7F
        · have hb1 : ((tx_header op reg subaddress).getD 1 0)
              = (mk_header (mk_cmd reg subaddress op) subaddress).getD 1 0 := by
            unfold tx_header
            rw [hm]
            simp [h0, h1, mk_header]
          rw [hb1, hb]
          simp [h0, h1]
        · have hb1 : ((tx_header op reg subaddress).getD 1 0)
              = (mk_header (mk_cmd reg subaddress op) subaddress).getD 1 0 := by
            unfold tx_header
            rw [hm]
            simp [h0, h1, mk_header]
          rw [hb1, hb]
          simp [h0, h1]; omega
  · rw [dw3000_read_eq c w reg subaddress length hv]
    simp [Res.world, bus_headers_append, bus_headers, bus_header_read_event]
  · rw [dw3000_write_eq c w reg subaddress buffer length hv]
    simp [Res.world, bus_headers_append, bus_headers, bus_header_write_event]
  · intro h8
    rw [dw3000_read_reg_eq c w reg subaddress length h8 hv,
      dw3000_write_reg_eq c w reg subaddress val length h8 hv]
    constructor
    · simp [Res.world, bus_headers_append, bus_headers, bus_header_read_reg_event]
    · simp only [Res.world, bus_headers_append, bus_headers_write_reg_events]

theorem dw3000_read_fault (c : Ctx) (w : World) (reg subaddress length : Nat)
    (hv : ¬ valid_access reg subaddress length) :
    dw3000_read c reg subaddress length w = Res.fault w := by
  unfold valid_access at hv
  unfold dw3000_read
  simp only [M_bind_apply, c_assert]
  by_cases hreg : reg ≤ 0x3F
  · have : ¬ (subaddress ≤ 0x7FFF ∧ subaddress + length ≤ 0x7FFF) := by omega
    simp [hreg, this]
  · simp [hreg]

theorem dw3000_write_fault (c : Ctx) (w : World) (reg subaddress : Nat) (buffer : List Nat)
    (length : Nat) (hv : ¬ valid_access reg subaddress length) :
    dw3000_write c reg subaddress buffer length w = Res.fault w := by
  unfold valid_access at hv
  unfold dw3000_write
  simp only [M_bind_apply, c_assert]
  by_cases hreg : reg ≤ 0x3F
  · have : ¬ (subaddress ≤ 0x7FFF ∧ subaddress + length ≤ 0x7FFF) := by omega
    simp [hreg, this]
  · simp [hreg]

theorem size_t_mod_small (bits x : Nat) (hsz : 16 ≤ bits) (hx : x < 2 ^ 16) :
    x % 2 ^ bits = x :=
  Nat.mod_eq_of_lt (lt_of_lt_of_le hx (Nat.pow_le_pow_right (by decide) hsz))

theorem dw3000_read_reg_fault (c : Ctx) (w : World) (reg subaddress nbytes : Nat)
    (hsz : 16 ≤ c.cfg.size_t_bits) (hv : ¬ (valid_access reg subaddress nbytes ∧ nbytes ≤ 8)) :
    dw3000_read_reg c reg subaddress nbytes w = Res.fault w := by
  unfold valid_access at hv
  unfold dw3000_read_reg
  simp only [M_bind_apply, c_assert]
  by_cases hreg : reg ≤ 0x3F
  · by_cases hn : nbytes ≤ 8
    · have hs : 0x7FFF < subaddress + nbytes := by omega
      by_cases h1 : subaddress ≤ 0x7FFF
      · have hm := size_t_mod_small c.cfg.size_t_bits (subaddress + nbytes) hsz (by omega)
        have : ¬ (subaddress ≤ 0x7FFF ∧ (subaddress + nbytes) % 2 ^ c.cfg.size_t_bits ≤ 0x7FFF) := by
          rw [hm]; omega
        simp [hreg, this]
      · simp [hreg, h1]
    · by_cases h2 : subaddress ≤ 0x7FFF ∧ (subaddress + nbytes) % 2 ^ c.cfg.size_t_bits ≤ 0x7FFF
      · simp [hreg, hn, h2]
      · simp [hreg, h2]
  · simp [hreg]

theorem dw3000_write_reg_fault (c : Ctx) (w : World) (reg subaddress val nbytes : Nat)
    (hsz : 16 ≤ c.cfg.size_t_bits) (hv : ¬ (valid_access reg subaddress nbytes ∧ nbytes ≤ 8)) :
    dw3000_write_reg c reg subaddress val nbytes w = Res.fault w := by
  unfold valid_access at hv
  unfold dw3000_write_reg
  simp only [M_bind_apply, c_assert]
  by_cases hn : nbytes ≤ 8
  · by_cases hreg : reg ≤ 0x3F
    · have hs : 0x7FFF < subaddress + nbytes := by omega
      by_cases h1 : subaddress ≤ 0x7FFF
      · have hm := size_t_mod_small c.cfg.size_t_bits (subaddress + nbytes) hsz (by omega)
        have : ¬ (subaddress ≤ 0x7FFF ∧ (subaddress + nbytes) % 2 ^ c.cfg.size_t_bits ≤ 0x7FFF) := by
          rw [hm]; omega
        simp [hreg, hn, this]
      · simp [hreg, hn, h1]
    · simp [hreg, hn]
  · simp [hn]

/-- C2: each of the four transport functions aborts exactly when the register
id exceeds 0x3F, or the sub-address exceeds 0x7FFF, or sub-address plus length
exceeds 0x7FFF (the `_reg` variants also when the length exceeds 8); and when
one aborts, the state, with its trace of bus transfers, is the one it was
called in. `size_t` has at least 16 bits. -/
theorem transport_fault_iff (c : Ctx) (w : World) (reg subaddress length val : Nat)
    (buffer : List Nat) (hsz : 16 ≤ c.cfg.size_t_bits) :
    ((dw3000_read c reg subaddress length w).isFault = true
        ↔ (0x3F < reg ∨ 0x7FFF < subaddress ∨ 0x7FFF < subaddress + length))
    ∧ ((dw3000_write c reg subaddress buffer length w).isFault = true
        ↔ (0x3F < reg ∨ 0x7FFF < subaddress ∨ 0x7FFF < subaddress + length))
    ∧ ((dw3000_read_reg c reg subaddress length w).isFault = true
        ↔ (0x3F < reg ∨ 0x7FFF < subaddress ∨ 0x7FFF < subaddress + length ∨ 8 < length))
    ∧ ((dw3000_write_reg c reg subaddress val length w).isFault = true
        ↔ (0x3F < reg ∨ 0x7FFF < subaddress ∨ 0x7FFF < subaddress + length ∨ 8 < length))
    ∧ ((dw3000_read c reg subaddress length w).isFault = true
        → (dw3000_read c reg subaddress length w).world = w)
    ∧ ((dw3000_write c reg subaddress buffer length w).isFault = true
        → (dw3000_write c reg subaddress buffer length w).world = w)
    ∧ ((dw3000_read_reg c reg subaddress length w).isFault = true
        → (dw3000_read_reg c reg subaddress length w).world = w)
    ∧ ((dw3000_write_reg c reg subaddress val length w).isFault = true
        → (dw3000_write_reg c reg subaddress val length w).world = w) := by
  by_cases hv : valid_access reg subaddress length
  · have hv' := hv
    obtain ⟨h1, h2⟩ := hv'
    rw [dw3000_read_eq c w reg subaddress length hv, dw3000_write_eq c w reg subaddress buffer length hv]
    by_cases h8 : length ≤ 8
    · rw [dw3000_read_reg_eq c w reg subaddress length h8 hv,
        dw3000_write_reg_eq c w reg subaddress val length h8 hv]
      simp only [Res.isFault]
      refine ⟨?_, ?_, ?_, ?_, ?_, ?_, ?_, ?_⟩ <;> simp <;> omega
    · rw [dw3000_read_reg_fault c w reg subaddress length hsz (by tauto),
        dw3000_write_reg_fault c w reg subaddress val length hsz (by tauto)]
      simp only [Res.isFault, Res.world]
      refine ⟨?_, ?_, ?_, ?_, ?_, ?_, ?_, ?_⟩ <;> simp <;> omega
  · rw [dw3000_read_fault c w reg subaddress length hv,
      dw3000_write_fault c w reg subaddress buffer length hv,
      dw3000_read_reg_fault c w reg subaddress length hsz (by tauto),
      dw3000_write_reg_fault c w reg subaddress val length hsz (by tauto)]
    unfold valid_access at hv
    simp only [Res.isFault, Res.world]
    refine ⟨?_, ?_, ?_, ?_, ?_, ?_, ?_, ?_⟩ <;> simp <;> omega

theorem tx_header_byte0 (op reg subaddress : Nat) :
    (tx_header op reg subaddress).getD 0 0
      = (((op % 2) <<< 7) ||| ((if subaddress ≠ 0 then 1 else 0) <<< 6) ||| (reg % 2 ^ 6)) % 256 := by
  unfold tx_header mk_len
  simp only [mk_header, mk_cmd]
  split
  · split <;> simp
  · simp

theorem tx_header_byte1 (op reg subaddress : Nat) (hsub : subaddress ≤ 0x7FFF) :
    (tx_header op reg subaddress).getD 1 0 &&& 0x7F = subaddress % 128 := by
  unfold tx_header
  rw [mk_len_eq reg subaddress op hsub]
  by_cases h0 : subaddress = 0
  · subst h0; simp [mk_header]
  · have hb : ∀ e, e < 2 →
        (((e <<< 7) ||| (subaddress % 256)) % 256) &&& 0x7F = subaddress % 128 := by
      intro e he
      have := (header_byte1_decode e he (subaddress % 256) (Nat.mod_lt _ (by omega))).1
      rw [this]; omega
    by_cases h1 : subaddress ≤ 0x7F
    · have h2 : ¬ subaddress > 0x7F := by omega
      simp only [h0, h1, if_false, if_true, mk_header, mk_cmd, h2]
      simpa using hb 0 (by omega)
    · have h2 : subaddress > 0x7F := by omega
      simp only [h0, h1, if_false, if_true, mk_header, mk_cmd, h2]
      simpa using hb 1 (by omega)

theorem tx_header_byte2 (op reg subaddress : Nat) (hsub : subaddress ≤ 0x7FFF) :
    (tx_header op reg subaddress).getD 2 0 = subaddress / 128 := by
  unfold tx_header
  rw [mk_len_eq reg subaddress op hsub]
  by_cases h0 : subaddress = 0
  · subst h0; simp [mk_header]
  · by_cases h1 : subaddress ≤ 0x7F
    · simp only [h0, h1, if_false, if_true, mk_header]
      simp
      omega
    · simp only [h0, h1, if_false, if_true, mk_header]
      simp [Nat.shiftRight_eq_div_pow]
      omega

theorem tx_header_decode (op reg subaddress : Nat) (hreg : reg ≤ 0x3F)
    (hsub : subaddress ≤ 0x7FFF) (hop : op ≤ 1) :
    (tx_header op reg subaddress).getD 0 0 % 64 = reg
    ∧ (((tx_header op reg subaddress).getD 0 0).testBit 6 = true ↔ subaddress ≠ 0)
    ∧ (((tx_header op reg subaddress).getD 0 0).testBit 7 = true ↔ op = 1)
    ∧ subaddress = ((tx_header op reg subaddress).getD 1 0 &&& 0x7F)
        + 128 * (tx_header op reg subaddress).getD 2 0 := by
  have hr : reg % 2 ^ 6 = reg := Nat.mod_eq_of_lt (by omega)
  have ho : op % 2 = op := Nat.mod_eq_of_lt (by omega)
  rw [tx_header_byte0, tx_header_byte1 op reg subaddress hsub,
    tx_header_byte2 op reg subaddress hsub, hr, ho]
  have hb := header_byte0_decode op (by omega) (if subaddress ≠ 0 then 1 else 0)
    (by split <;> omega) reg (by omega)
  refine ⟨hb.1, ?_, ?_, by omega⟩
  · rw [hb.2.1]
    by_cases h0 : subaddress = 0 <;> simp [h0]
  · rw [hb.2.2]
    simp

/-- C3: for a register id of at most 0x3F, a sub-address of at most 0x7FFF and
an operation (0 read, 1 write), the transmitted header gives the command back:
the low 6 bits of byte 0 are the register id, bit 6 of byte 0 is set exactly
when the sub-address is not 0, bit 7 of byte 0 is set exactly for a write, and
the sub-address is (byte 1 AND 0x7F) + 128 * byte 2, an absent byte counting as
0; so two different commands never give the same transmitted header. -/
theorem header_determines_command (op reg subaddress : Nat) (hreg : reg ≤ 0x3F)
    (hsub : subaddress ≤ 0x7FFF) (hop : op ≤ 1) :
    (tx_header op reg subaddress).getD 0 0 % 64 = reg
    ∧ (((tx_header op reg subaddress).getD 0 0).testBit 6 = true ↔ subaddress ≠ 0)
    ∧ (((tx_header op reg subaddress).getD 0 0).testBit 7 = true ↔ op = 1)
    ∧ subaddress = ((tx_header op reg subaddress).getD 1 0 &&& 0x7F)
        + 128 * (tx_header op reg subaddress).getD 2 0
    ∧ ∀ op' reg' subaddress', reg' ≤ 0x3F → subaddress' ≤ 0x7FFF → op' ≤ 1 →
        tx_header op' reg' subaddress' = tx_header op reg subaddress →
        reg' = reg ∧ subaddress' = subaddress ∧ op' = op := by
  obtain ⟨d0, d1, d2, d3⟩ := tx_header_decode op reg subaddress hreg hsub hop
  refine ⟨d0, d1, d2, d3, ?_⟩
  intro op' reg' subaddress' hreg' hsub' hop' heq
  obtain ⟨e0, e1, e2, e3⟩ := tx_header_decode op' reg' subaddress' hreg' hsub' hop'
  rw [heq] at e0 e1 e2 e3
  refine ⟨?_, ?_, ?_⟩
  · rw [← e0, d0]
  · rw [e3]; exact d3.symm
  · have h7 : op' = 1 ↔ op = 1 := by rw [← e2, d2]
    omega

/-- Example for C1: the register 0x36 at sub-address 0x28 is addressed with a
two-byte header. -/
theorem header_length_by_subaddress_witness : (tx_header 0 0x36 0x28).length = 2 :=
  ((header_length_by_subaddress example_ctx example_world 0x36 0x28 4 0 []
    (by decide) (by decide)).1 0 (by decide)).2.2.1 ⟨by decide, by decide⟩

/-- Example for C2: with a 32-bit `size_t`, a 9-byte register read aborts. -/
theorem transport_fault_iff_witness :
    (dw3000_read_reg example_ctx 0x36 0x28 9 example_world).isFault = true :=
  (transport_fault_iff example_ctx example_world 0x36 0x28 9 0 [] (by decide)).2.2.1.mpr
    (by decide)

/-- Example for C3: the write header of register 0x2E at sub-address 0x1804
carries the register id in the low 6 bits of its first byte. -/
theorem header_determines_command_witness : (tx_header 1 0x2E 0x1804).getD 0 0 % 64 = 0x2E :=
  (header_determines_command 1 0x2E 0x1804 (by decide) (by decide) (by decide)).1

theorem tx_bytes_le_bytes (val nbytes : Nat) (hn : nbytes ≤ 8) :
    tx_bytes nbytes (le_bytes val 8) = le_bytes val nbytes := by
  unfold tx_bytes le_bytes
  apply List.map_congr_left
  intro i hi
  have hi8 : i < 8 := lt_of_lt_of_le (List.mem_range.mp hi) hn
  rw [List.getD_eq_getElem _ _ (by simpa using hi8)]
  simp

theorem reg_writes_append (t u : List Event) :
    reg_writes (t ++ u) = reg_writes t ++ reg_writes u := by
  simp [reg_writes]

theorem reg_writes_write_reg_events (c : Ctx) (blocking : Bool)
    (reg subaddress val nbytes : Nat) (hn : nbytes ≤ 8) :
    reg_writes (write_reg_events c blocking reg subaddress val nbytes)
      = [(tx_header 1 reg subaddress, le_bytes val nbytes)] := by
  unfold write_reg_events reg_writes
  rw [tx_bytes_le_bytes val nbytes hn]
  split <;> simp [Event.reg_write]

theorem dw3000_dev_enter_sleep_acquired (c : Ctx) (w : World)
    (hv : valid_access c.regs.AON_ID c.regs.AON_CTRL_OFFSET 2)
    (hp : c.env.mutex_pend w.trace = dpl_error_t.DPL_OK)
    (hr : ∀ t, c.env.mutex_release t = dpl_error_t.DPL_OK) :
    dw3000_dev_enter_sleep c w
      = Res.ok { w.inst.status with sleeping := true }
          { inst := { w.inst with status := { w.inst.status with sleeping := true } }
            trace := w.trace ++ [Event.dpl_mutex_pend]
              ++ write_reg_events c w.inst.config.blocking_spi_transfers
                  c.regs.AON_ID c.regs.AON_CTRL_OFFSET 0 2
              ++ write_reg_events c w.inst.config.blocking_spi_transfers
                  c.regs.AON_ID c.regs.AON_CTRL_OFFSET c.regs.AON_CTRL_SAVE 2
              ++ [Event.dpl_mutex_release]
            mutex_level := w.mutex_level
            tx_sem := w.tx_sem } := by
  have h8 : (2 : Nat) ≤ 8 := by decide
  simp only [dw3000_dev_enter_sleep, M_bind_apply, dpl_mutex_pend, hp, ne_eq, not_true_eq_false,
    if_false, if_true, dw3000_write_reg_eq _ _ _ _ _ _ h8 hv, modify_inst, dpl_mutex_release, hr,
    c_assert, get_inst, M_pure_apply, Nat.add_sub_cancel, List.append_assoc]

theorem le_value_rx_bytes_4 (resp : List Nat) : le_value (rx_bytes 4 resp) < 2 ^ 32 := by
  have h0 := Nat.mod_lt (resp.getD 0 0) (show 256 > 0 by decide)
  have h1 := Nat.mod_lt (resp.getD 1 0) (show 256 > 0 by decide)
  have h2 := Nat.mod_lt (resp.getD 2 0) (show 256 > 0 by decide)
  have h3 := Nat.mod_lt (resp.getD 3 0) (show 256 > 0 by decide)
  simp only [rx_bytes, List.range_succ, List.range_zero, List.nil_append, List.cons_append,
    List.map_cons, List.map_nil, le_value]
  omega

theorem devid_read_lt (c : Ctx) (t : List Event) : devid_read c t < 2 ^ 32 :=
  le_value_rx_bytes_4 _

theorem read_reg_data_4_mod (c : Ctx) (t : List Event) (reg subaddress : Nat) :
    le_value (read_reg_data c t reg subaddress 4) % 2 ^ 32
      = le_value (read_reg_data c t reg subaddress 4) :=
  Nat.mod_eq_of_lt (le_value_rx_bytes_4 _)

theorem poll_steps_append (t u : List Event) :
    poll_steps (t ++ u) = poll_steps t ++ poll_steps u := by
  simp [poll_steps]

theorem reg_reads_append (t u : List Event) :
    reg_reads (t ++ u) = reg_reads t ++ reg_reads u := by
  simp [reg_reads]

theorem poll_step_read_reg_event (c : Ctx) (t : List Event) (blocking : Bool)
    (reg subaddress nbytes : Nat) :
    (read_reg_event c t blocking reg subaddress nbytes).poll_step
      = some (some (le_value (read_reg_data c t reg subaddress nbytes))) := by
  unfold read_reg_event
  split <;> rfl

theorem reg_read_read_reg_event (c : Ctx) (t : List Event) (blocking : Bool)
    (reg subaddress nbytes : Nat) :
    (read_reg_event c t blocking reg subaddress nbytes).reg_read
      = some (tx_header 0 reg subaddress, read_reg_data c t reg subaddress nbytes) := by
  unfold read_reg_event
  split <;> rfl

theorem reg_write_read_reg_event (c : Ctx) (t : List Event) (blocking : Bool)
    (reg subaddress nbytes : Nat) :
    (read_reg_event c t blocking reg subaddress nbytes).reg_write = none := by
  unfold read_reg_event
  split <;> rfl

theorem wakeup_poll_eq (c : Ctx) (hv : valid_access c.regs.DEV_ID_ID 0 4) :
    ∀ (timeout devid : Nat) (w : World),
      wakeup_poll c timeout devid w
        = Res.ok (last_or devid (poll_ids c w.inst.config.blocking_spi_transfers timeout devid w.trace))
            { w with trace := w.trace
                ++ poll_evs c w.inst.config.blocking_spi_transfers timeout devid w.trace } := by
  intro timeout
  induction timeout with
  | zero =>
    intro devid w
    simp [wakeup_poll, M_pure_apply, last_or, poll_ids, poll_evs]
  | succ t ih =>
    intro devid w
    have h4 : (4 : Nat) ≤ 8 := by decide
    by_cases hc : devid ≠ 0xDECA0130 ∧ t ≠ 0
    · rw [wakeup_poll, if_pos hc, poll_ids, if_pos hc, poll_evs, if_pos hc]
      simp only [M_bind_apply, hal_dw3000_wakeup, emit, dw3000_read_reg_eq _ _ _ _ _ h4 hv,
        read_reg_data_4_mod, ih, last_or, devid_read, List.append_assoc, List.singleton_append,
        List.cons_append, List.nil_append]
    · rw [wakeup_poll, if_neg hc, poll_ids, if_neg hc, poll_evs, if_neg hc]
      simp [M_pure_apply, last_or]

theorem poll_spec (c : Ctx) (blocking : Bool) :
    ∀ (timeout devid : Nat) (t : List Event),
      (poll_ids c blocking timeout devid t).length ≤ timeout - 1
      ∧ poll_steps (poll_evs c blocking timeout devid t)
          = pulses_then_reads (poll_ids c blocking timeout devid t)
      ∧ (reg_reads (poll_evs c blocking timeout devid t)).map (fun r => le_value r.2)
          = poll_ids c blocking timeout devid t
      ∧ (∀ r ∈ reg_reads (poll_evs c blocking timeout devid t),
          r.1 = tx_header 0 c.regs.DEV_ID_ID 0)
      ∧ (∀ e ∈ poll_evs c blocking timeout devid t,
          e = Event.hal_dw3000_wakeup ∨ e.reg_read.isSome = true)
      ∧ (∀ x ∈ (devid :: poll_ids c blocking timeout devid t).dropLast, x ≠ 0xDECA0130)
      ∧ ((poll_ids c blocking timeout devid t).length + 1 < timeout →
          last_or devid (poll_ids c blocking timeout devid t) = 0xDECA0130) := by
  intro timeout
  induction timeout with
  | zero =>
    intro devid t
    simp [poll_ids, poll_evs, poll_steps, pulses_then_reads, reg_reads]
  | succ n ih =>
    intro devid t
    by_cases hc : devid ≠ 0xDECA0130 ∧ n ≠ 0
    · obtain ⟨hlen, hsteps, hvals, hhdr, honly, hdrop, hlast⟩ :=
        ih (devid_read c (t ++ [Event.hal_dw3000_wakeup]))
          (t ++ [Event.hal_dw3000_wakeup,
            read_reg_event c (t ++ [Event.hal_dw3000_wakeup]) blocking c.regs.DEV_ID_ID 0 4])
      rw [poll_ids, if_pos hc, poll_evs, if_pos hc]
      refine ⟨?_, ?_, ?_, ?_, ?_, ?_, ?_⟩
      · simp only [List.length_cons]; omega
      · have hw : Event.hal_dw3000_wakeup.poll_step = some none := rfl
        rw [poll_steps_append, hsteps]
        simp only [poll_steps, List.filterMap_cons, List.filterMap_nil, hw,
          poll_step_read_reg_event, pulses_then_reads, devid_read, List.cons_append,
          List.nil_append]
      · have hw : Event.hal_dw3000_wakeup.reg_read = none := rfl
        rw [reg_reads_append, List.map_append, hvals]
        simp only [reg_reads, List.filterMap_cons, List.filterMap_nil, hw,
          reg_read_read_reg_event, devid_read, List.map_cons, List.map_nil, List.cons_append,
          List.nil_append]
      · intro r hr
        have hw : Event.hal_dw3000_wakeup.reg_read = none := rfl
        simp only [reg_reads_append, List.mem_append] at hr
        rcases hr with hr | hr
        · simp only [reg_reads, List.filterMap_cons, List.filterMap_nil, hw,
            reg_read_read_reg_event, List.mem_singleton] at hr
          rw [hr]
        · exact hhdr r hr
      · intro e he
        simp only [List.mem_append, List.mem_cons, List.mem_singleton, List.not_mem_nil,
          or_false] at he
        rcases he with (he | he) | he
        · exact Or.inl he
        · right; rw [he, reg_read_read_reg_event]; rfl
        · exact honly e he
      · intro x hx
        rw [List.dropLast_cons₂] at hx
        rcases List.mem_cons.mp hx with hx | hx
        · rw [hx]; exact hc.1
        · exact hdrop x hx
      · intro hl
        simp only [List.length_cons] at hl
        exact hlast (by omega)
    · rw [poll_ids, if_neg hc, poll_evs, if_neg hc]
      refine ⟨by simp, rfl, rfl, by simp [reg_reads], by simp, by simp, ?_⟩
      intro hl
      simp only [List.length_nil] at hl
      simp only [last_or]
      by_contra hne
      exact hc ⟨hne, by omega⟩

theorem wakeup_sem_step_inst (c : Ctx) (w : World) : (wakeup_sem_step c w).inst = w.inst := by
  unfold wakeup_sem_step
  split <;> simp [dpl_sem_release, Res.world]

theorem dw3000_dev_wakeup_acquired (c : Ctx) (w : World) (hv : wakeup_regs_ok c.regs)
    (hp : c.env.mutex_pend w.trace = dpl_error_t.DPL_OK)
    (hr : ∀ t, c.env.mutex_release t = dpl_error_t.DPL_OK) :
    dw3000_dev_wakeup c w
      = Res.ok
          { w.inst.status with
            sleeping := wakeup_sleeping c w.inst.config.blocking_spi_transfers w.trace }
          (wakeup_sem_step c
            { inst := { w.inst with status := { w.inst.status with
                sleeping := wakeup_sleeping c w.inst.config.blocking_spi_transfers w.trace } }
              trace := w.trace ++ [Event.dpl_mutex_pend]
                ++ wakeup_poll_events c w.inst.config.blocking_spi_transfers w.trace
                ++ wakeup_write_events c w.inst
                ++ [Event.dpl_mutex_release]
              mutex_level := w.mutex_level
              tx_sem := w.tx_sem }) := by
  obtain ⟨hv1, hv2, hv3, hv4⟩ := hv
  have h4 : (4 : Nat) ≤ 8 := by decide
  have h2 : (2 : Nat) ≤ 8 := by decide
  simp only [dw3000_dev_wakeup, M_bind_apply, dpl_mutex_pend, hp, ne_eq, not_true_eq_false,
    if_false, if_true, modify_inst, dw3000_read_reg_eq _ _ _ _ _ h4 hv1, read_reg_data_4_mod,
    wakeup_poll_eq c hv1, dw3000_write_reg_eq _ _ _ _ _ _ h4 hv2,
    dw3000_write_reg_eq _ _ _ _ _ _ h2 hv3, dw3000_write_reg_eq _ _ _ _ _ _ h2 hv4, get_inst,
    dpl_mutex_release, hr, c_assert, dpl_sem_get_count, Nat.add_sub_cancel, wakeup_sem_step,
    wakeup_sleeping, wakeup_last, wakeup_poll_events, wakeup_write_events, devid_read]
  by_cases hs : w.tx_sem = 0
  · simp only [hs, if_true, M_bind_apply, dpl_sem_release, M_pure_apply, get_inst, Res.world,
      List.append_assoc, List.singleton_append, List.cons_append, List.nil_append]
  · simp only [hs, if_false, M_bind_apply, M_pure_apply, get_inst,
      List.append_assoc, List.singleton_append, List.cons_append, List.nil_append]

theorem wakeup_sem_step_trace (c : Ctx) (w : World) :
    (wakeup_sem_step c w).trace
      = w.trace ++ (if w.tx_sem = 0 then [Event.dpl_sem_release] else []) := by
  unfold wakeup_sem_step
  split <;> simp [dpl_sem_release, Res.world]

theorem poll_steps_write_reg_events (c : Ctx) (blocking : Bool) (reg subaddress val nbytes : Nat) :
    poll_steps (write_reg_events c blocking reg subaddress val nbytes) = [] := by
  unfold write_reg_events poll_steps
  split <;> simp [Event.poll_step]

theorem reg_reads_write_reg_events (c : Ctx) (blocking : Bool) (reg subaddress val nbytes : Nat) :
    reg_reads (write_reg_events c blocking reg subaddress val nbytes) = [] := by
  unfold write_reg_events reg_reads
  split <;> simp [Event.reg_read]

theorem poll_steps_wakeup_write_events (c : Ctx) (inst : dw3000_dev_instance_t) :
    poll_steps (wakeup_write_events c inst) = [] := by
  simp [wakeup_write_events, poll_steps_append, poll_steps_write_reg_events]

theorem reg_reads_wakeup_write_events (c : Ctx) (inst : dw3000_dev_instance_t) :
    reg_reads (wakeup_write_events c inst) = [] := by
  simp [wakeup_write_events, reg_reads_append, reg_reads_write_reg_events]

theorem reg_writes_wakeup_write_events (c : Ctx) (inst : dw3000_dev_instance_t) :
    reg_writes (wakeup_write_events c inst)
      = [(tx_header 1 c.regs.SYS_STATUS_ID 0, le_bytes c.regs.SYS_STATUS_SLP2INIT 4),
         (tx_header 1 c.regs.SYS_STATUS_ID 0, le_bytes c.regs.SYS_STATUS_ALL_RX_ERR 4),
         (tx_header 1 c.regs.LDE_IF_ID c.regs.LDE_RXANTD_OFFSET, le_bytes inst.rx_antenna_delay 2),
         (tx_header 1 c.regs.TX_ANTD_ID c.regs.TX_ANTD_OFFSET, le_bytes inst.tx_antenna_delay 2)] := by
  simp [wakeup_write_events, reg_writes_append, reg_writes_write_reg_events]

theorem reg_writes_of_reads_and_pulses (evs : List Event)
    (h : ∀ e ∈ evs, e = Event.hal_dw3000_wakeup ∨ e.reg_read.isSome = true) :
    reg_writes evs = [] := by
  unfold reg_writes
  rw [List.filterMap_eq_nil_iff]
  intro e he
  rcases h e he with h1 | h1
  · rw [h1]; rfl
  · cases e <;> simp_all [Event.reg_read, Event.reg_write]

theorem pulses_then_reads_eq_intersperse (ids : List Nat) :
    ∀ d : Nat, some d :: pulses_then_reads ids = List.intersperse none ((d :: ids).map some) := by
  induction ids with
  | nil => intro d; rfl
  | cons i ids ih =>
    intro d
    simp only [pulses_then_reads, List.map_cons, List.intersperse_cons₂]
    rw [ih i]
    simp

theorem getLast?_cons_eq_last_or (ids : List Nat) :
    ∀ d : Nat, (d :: ids).getLast? = some (last_or d ids) := by
  induction ids with
  | nil => intro d; rfl
  | cons i ids ih =>
    intro d
    rw [List.getLast?_cons_cons, ih i]
    rfl

theorem last_or_mem (ids : List Nat) : ∀ d : Nat, last_or d ids ∈ d :: ids := by
  induction ids with
  | nil => intro d; simp [last_or]
  | cons i ids ih =>
    intro d
    simp only [last_or]
    exact List.mem_cons_of_mem _ (ih i)

theorem wake_pulses_append (t u : List Event) :
    wake_pulses (t ++ u) = wake_pulses t + wake_pulses u := by
  simp [wake_pulses]

theorem wake_pulses_write_reg_events (c : Ctx) (blocking : Bool) (reg subaddress val nbytes : Nat) :
    wake_pulses (write_reg_events c blocking reg subaddress val nbytes) = 0 := by
  unfold write_reg_events wake_pulses
  split <;> simp

theorem wake_pulses_read_reg_event (c : Ctx) (t : List Event) (blocking : Bool)
    (reg subaddress nbytes : Nat) :
    wake_pulses [read_reg_event c t blocking reg subaddress nbytes] = 0 := by
  unfold read_reg_event wake_pulses
  split <;> simp

theorem wake_pulses_poll_evs (c : Ctx) (blocking : Bool) :
    ∀ (timeout devid : Nat) (t : List Event),
      wake_pulses (poll_evs c blocking timeout devid t)
        = (poll_ids c blocking timeout devid t).length := by
  intro timeout
  induction timeout with
  | zero => intro devid t; simp [poll_ids, poll_evs, wake_pulses]
  | succ n ih =>
    intro devid t
    by_cases hc : devid ≠ 0xDECA0130 ∧ n ≠ 0
    · rw [poll_ids, if_pos hc, poll_evs, if_pos hc, wake_pulses_append, ih]
      have h1 : wake_pulses [Event.hal_dw3000_wakeup,
          read_reg_event c (t ++ [Event.hal_dw3000_wakeup]) blocking c.regs.DEV_ID_ID 0 4] = 1 := by
        have := wake_pulses_read_reg_event c (t ++ [Event.hal_dw3000_wakeup]) blocking
          c.regs.DEV_ID_ID 0 4
        simp only [wake_pulses, List.countP_cons, List.countP_nil] at this ⊢
        simp at this ⊢
        exact this
      rw [h1]
      simp only [List.length_cons]
      omega
    · rw [poll_ids, if_neg hc, poll_evs, if_neg hc]
      rfl

/-- C5: with the mutex acquired, `dw3000_dev_wakeup` returns; it reads the
device-ID register between 1 and 5 times and issues one wake pulse between
each two consecutive reads and none elsewhere, hence at most 4; every read
before the last one differs from the expected identifier, the last read is the
expected identifier unless 5 reads were made, and `status.sleeping` is true
when all reads mismatch. The expected identifier `DWT_DEVICE_ID` is the value
0xDECA0130 the loop polls for. -/
theorem wakeup_polling_bounded (c : Ctx) (w : World) (hv : wakeup_regs_ok c.regs)
    (hid : c.regs.DWT_DEVICE_ID = 0xDECA0130)
    (hp : c.env.mutex_pend w.trace = dpl_error_t.DPL_OK)
    (hr : ∀ t, c.env.mutex_release t = dpl_error_t.DPL_OK) :
    ∃ (ids : List Nat) (evs : List Event),
      (dw3000_dev_wakeup c w).isFault = false
      ∧ (dw3000_dev_wakeup c w).world.trace = w.trace ++ evs
      ∧ (reg_reads evs).map (fun r => le_value r.2) = ids
      ∧ (∀ r ∈ reg_reads evs, r.1 = tx_header 0 c.regs.DEV_ID_ID 0)
      ∧ 1 ≤ ids.length ∧ ids.length ≤ 5
      ∧ wake_pulses evs = ids.length - 1 ∧ wake_pulses evs ≤ 4
      ∧ poll_steps evs = List.intersperse none (ids.map some)
      ∧ (∀ x ∈ ids.dropLast, x ≠ c.regs.DWT_DEVICE_ID)
      ∧ (ids.length < 5 → ids.getLast? = some c.regs.DWT_DEVICE_ID)
      ∧ (dw3000_dev_wakeup c w).world.inst.status.sleeping
          = decide (ids.getLast? ≠ some c.regs.DWT_DEVICE_ID)
      ∧ ((∀ x ∈ ids, x ≠ c.regs.DWT_DEVICE_ID) →
          (dw3000_dev_wakeup c w).world.inst.status.sleeping = true) := by
  have hv1 := hv.1
  rw [dw3000_dev_wakeup_acquired c w hv hp hr]
  obtain ⟨hlen, hsteps, hvals, hhdr, honly, hdrop, hlast⟩ :=
    poll_spec c w.inst.config.blocking_spi_transfers 5
      (devid_read c (w.trace ++ [Event.dpl_mutex_pend]))
      (w.trace ++ [Event.dpl_mutex_pend,
        read_reg_event c (w.trace ++ [Event.dpl_mutex_pend]) w.inst.config.blocking_spi_transfers
          c.regs.DEV_ID_ID 0 4])
  have hpulses := wake_pulses_poll_evs c w.inst.config.blocking_spi_transfers 5
      (devid_read c (w.trace ++ [Event.dpl_mutex_pend]))
      (w.trace ++ [Event.dpl_mutex_pend,
        read_reg_event c (w.trace ++ [Event.dpl_mutex_pend]) w.inst.config.blocking_spi_transfers
          c.regs.DEV_ID_ID 0 4])
  have hlen5 : (wakeup_ids c w.inst.config.blocking_spi_transfers w.trace).length ≤ 5 := by
    simp only [wakeup_ids, List.length_cons]; omega
  have hwp : wake_pulses ([Event.dpl_mutex_pend]
      ++ wakeup_poll_events c w.inst.config.blocking_spi_transfers w.trace
      ++ wakeup_write_events c w.inst ++ [Event.dpl_mutex_release]
      ++ (if w.tx_sem = 0 then [Event.dpl_sem_release] else []))
      = (wakeup_ids c w.inst.config.blocking_spi_transfers w.trace).length - 1 := by
    have h1 : wake_pulses [Event.dpl_mutex_pend] = 0 := rfl
    have h2 : wake_pulses [Event.dpl_mutex_release] = 0 := rfl
    have h3 : wake_pulses (if w.tx_sem = 0 then [Event.dpl_sem_release] else []) = 0 := by
      split <;> rfl
    have h4 : wake_pulses (wakeup_write_events c w.inst) = 0 := by
      simp [wakeup_write_events, wake_pulses_append, wake_pulses_write_reg_events]
    have h5 : wake_pulses (wakeup_poll_events c w.inst.config.blocking_spi_transfers w.trace)
        = (poll_ids c w.inst.config.blocking_spi_transfers 5
            (devid_read c (w.trace ++ [Event.dpl_mutex_pend]))
            (w.trace ++ [Event.dpl_mutex_pend,
              read_reg_event c (w.trace ++ [Event.dpl_mutex_pend])
                w.inst.config.blocking_spi_transfers c.regs.DEV_ID_ID 0 4])).length := by
      rw [← hpulses]
      have := wake_pulses_read_reg_event c (w.trace ++ [Event.dpl_mutex_pend])
        w.inst.config.blocking_spi_transfers c.regs.DEV_ID_ID 0 4
      unfold wakeup_poll_events
      rw [← List.singleton_append, wake_pulses_append, this, Nat.zero_add]
    rw [wake_pulses_append, wake_pulses_append, wake_pulses_append, wake_pulses_append,
      h1, h2, h3, h4, h5]
    simp [wakeup_ids]
  refine ⟨wakeup_ids c w.inst.config.blocking_spi_transfers w.trace,
    [Event.dpl_mutex_pend] ++ wakeup_poll_events c w.inst.config.blocking_spi_transfers w.trace
      ++ wakeup_write_events c w.inst ++ [Event.dpl_mutex_release]
      ++ (if w.tx_sem = 0 then [Event.dpl_sem_release] else []),
    rfl, ?_, ?_, ?_, ?_, hlen5, hwp, ?_, ?_, ?_, ?_, ?_, ?_⟩
  · simp only [Res.world, wakeup_sem_step_trace, List.append_assoc]
  · have hsem : reg_reads (if w.tx_sem = 0 then [Event.dpl_sem_release] else []) = [] := by
      split <;> rfl
    have h1 : reg_reads [Event.dpl_mutex_pend] = [] := rfl
    have h2 : reg_reads [Event.dpl_mutex_release] = [] := rfl
    simp only [reg_reads_append, hsem, h1, h2, reg_reads_wakeup_write_events, List.append_nil,
      List.nil_append]
    unfold wakeup_poll_events wakeup_ids
    rw [← List.singleton_append, reg_reads_append, List.map_append, hvals]
    simp only [reg_reads, List.filterMap_cons, List.filterMap_nil, reg_read_read_reg_event,
      List.map_cons, List.map_nil, devid_read, List.singleton_append]
  · intro r hr'
    have hsem : reg_reads (if w.tx_sem = 0 then [Event.dpl_sem_release] else []) = [] := by
      split <;> rfl
    have h1 : reg_reads [Event.dpl_mutex_pend] = [] := rfl
    have h2 : reg_reads [Event.dpl_mutex_release] = [] := rfl
    simp only [reg_reads_append, hsem, h1, h2, reg_reads_wakeup_write_events, List.append_nil,
      List.nil_append] at hr'
    unfold wakeup_poll_events at hr'
    rw [← List.singleton_append, reg_reads_append, List.mem_append] at hr'
    rcases hr' with hr' | hr'
    · simp only [reg_reads, List.filterMap_cons, List.filterMap_nil, reg_read_read_reg_event,
        List.mem_singleton] at hr'
      rw [hr']
    · exact hhdr r hr'
  · simp [wakeup_ids]
  · rw [hwp]; omega
  · have hsem : poll_steps (if w.tx_sem = 0 then [Event.dpl_sem_release] else []) = [] := by
      split <;> rfl
    have h1 : poll_steps [Event.dpl_mutex_pend] = [] := rfl
    have h2 : poll_steps [Event.dpl_mutex_release] = [] := rfl
    simp only [poll_steps_append, hsem, h1, h2, poll_steps_wakeup_write_events, List.append_nil,
      List.nil_append]
    unfold wakeup_poll_events wakeup_ids
    rw [← pulses_then_reads_eq_intersperse, ← List.singleton_append, poll_steps_append, hsteps]
    simp only [poll_steps, List.filterMap_cons, List.filterMap_nil, poll_step_read_reg_event,
      devid_read, List.singleton_append]
  · intro x hx
    rw [hid]
    exact hdrop x hx
  · intro hl
    unfold wakeup_ids at hl ⊢
    simp only [List.length_cons] at hl
    rw [getLast?_cons_eq_last_or, hid, hlast (by omega)]
  · simp only [Res.world, wakeup_sem_step_inst, wakeup_sleeping, wakeup_last, wakeup_ids,
      getLast?_cons_eq_last_or]
    simp
  · intro hall
    simp only [Res.world, wakeup_sem_step_inst, wakeup_sleeping, wakeup_last, decide_eq_true_eq]
    exact hall _ (last_or_mem _ _)

/-- C6: with the mutex acquired, `dw3000_dev_enter_sleep` returns; its register
writes are the write of 0 and then the write of `AON_CTRL_SAVE` to the
always-on control register, and no other; `status.sleeping` is set, the mutex
is released as the last action, and the returned snapshot has `sleeping` set. -/
theorem enter_sleep_sequence (c : Ctx) (w : World)
    (hv : valid_access c.regs.AON_ID c.regs.AON_CTRL_OFFSET 2)
    (hp : c.env.mutex_pend w.trace = dpl_error_t.DPL_OK)
    (hr : ∀ t, c.env.mutex_release t = dpl_error_t.DPL_OK) :
    (dw3000_dev_enter_sleep c w).isFault = false
    ∧ reg_writes (dw3000_dev_enter_sleep c w).world.trace
        = reg_writes w.trace
          ++ [(tx_header 1 c.regs.AON_ID c.regs.AON_CTRL_OFFSET, le_bytes 0 2),
              (tx_header 1 c.regs.AON_ID c.regs.AON_CTRL_OFFSET, le_bytes c.regs.AON_CTRL_SAVE 2)]
    ∧ (dw3000_dev_enter_sleep c w).world.inst.status.sleeping = true
    ∧ (dw3000_dev_enter_sleep c w).world.trace.getLast? = some Event.dpl_mutex_release
    ∧ (dw3000_dev_enter_sleep c w).world.mutex_level = w.mutex_level
    ∧ (dw3000_dev_enter_sleep c w).value = some { w.inst.status with sleeping := true } := by
  rw [dw3000_dev_enter_sleep_acquired c w hv hp hr]
  have h1 : reg_writes [Event.dpl_mutex_pend] = [] := rfl
  have h2 : reg_writes [Event.dpl_mutex_release] = [] := rfl
  refine ⟨rfl, ?_, rfl, ?_, rfl, rfl⟩
  · simp only [Res.world, reg_writes_append, h1, h2,
      reg_writes_write_reg_events _ _ _ _ _ _ (show 2 ≤ 8 by decide), List.append_nil,
      List.append_assoc, List.nil_append]
    simp only [List.singleton_append]
  · simp only [Res.world]
    exact List.getLast?_concat _

/-- Example for C6 in the example setting. -/
theorem enter_sleep_sequence_witness :
    (dw3000_dev_enter_sleep example_ctx example_world).world.inst.status.sleeping = true :=
  (enter_sleep_sequence example_ctx example_world (by decide) rfl (fun _ => rfl)).2.2.1

/-- Example for C5 in the example setting: the wake-up returns. -/
theorem wakeup_polling_bounded_witness :
    ∃ (ids : List Nat) (evs : List Event),
      (dw3000_dev_wakeup example_ctx example_world).world.trace = example_world.trace ++ evs
      ∧ ids.length ≤ 5 ∧ wake_pulses evs ≤ 4 := by
  obtain ⟨ids, evs, _, h2, _, _, _, h6, _, h8, _⟩ :=
    wakeup_polling_bounded example_ctx example_world (by decide) rfl rfl (fun _ => rfl)
  exact ⟨ids, evs, h2, h6, h8⟩

/-- C7: when `dpl_mutex_pend` fails, each of the five mutex-guarded operations
returns with `status.mtx_error` set and nothing else changed: the trace gains
the `dpl_mutex_pend` call only (for `dw3000_phy_forcetrxoff`, preceded by its
read of the interrupt mask), so there is no register write, no wake pulse, no
callback and no semaphore release, and the mutex level and the semaphore count
are untouched. -/
theorem mutex_failure_skips (c : Ctx) (w : World) (bitmask enable : Nat)
    (hv : valid_access c.regs.SYS_MASK_ID 0 4) :
    (c.env.mutex_pend w.trace ≠ dpl_error_t.DPL_OK →
      dw3000_dev_enter_sleep c w
        = Res.ok { w.inst.status with mtx_error := true }
            (mtx_error_world w [Event.dpl_mutex_pend])
      ∧ dw3000_dev_wakeup c w
        = Res.ok { w.inst.status with mtx_error := true }
            (mtx_error_world w [Event.dpl_mutex_pend])
      ∧ dw3000_phy_rx_reset c w = Res.ok () (mtx_error_world w [Event.dpl_mutex_pend])
      ∧ dw3000_phy_interrupt_mask c bitmask enable w
        = Res.ok () (mtx_error_world w [Event.dpl_mutex_pend]))
    ∧ (c.env.mutex_pend (w.trace
          ++ [read_reg_event c w.trace w.inst.config.blocking_spi_transfers c.regs.SYS_MASK_ID 0 4])
        ≠ dpl_error_t.DPL_OK →
      dw3000_phy_forcetrxoff c w
        = Res.ok () (mtx_error_world w
            [read_reg_event c w.trace w.inst.config.blocking_spi_transfers c.regs.SYS_MASK_ID 0 4,
             Event.dpl_mutex_pend])
      ∧ reg_writes (dw3000_phy_forcetrxoff c w).world.trace = reg_writes w.trace) := by
  have h4 : (4 : Nat) ≤ 8 := by decide
  constructor
  · intro hp
    refine ⟨?_, ?_, ?_, ?_⟩
    · simp only [dw3000_dev_enter_sleep, M_bind_apply, dpl_mutex_pend, hp, ne_eq,
        not_false_eq_true, if_true, if_false, modify_inst, get_inst, M_pure_apply,
        mtx_error_world]
    · simp only [dw3000_dev_wakeup, M_bind_apply, dpl_mutex_pend, hp, ne_eq,
        not_false_eq_true, if_true, if_false, modify_inst, get_inst, M_pure_apply,
        mtx_error_world]
    · simp only [dw3000_phy_rx_reset, M_bind_apply, dpl_mutex_pend, hp, ne_eq,
        not_false_eq_true, if_true, if_false, modify_inst, mtx_error_world]
    · simp only [dw3000_phy_interrupt_mask, M_bind_apply, dpl_mutex_pend, hp, ne_eq,
        not_false_eq_true, if_true, if_false, modify_inst, mtx_error_world]
  · intro hp
    have heq : dw3000_phy_forcetrxoff c w
        = Res.ok () (mtx_error_world w
            [read_reg_event c w.trace w.inst.config.blocking_spi_transfers c.regs.SYS_MASK_ID 0 4,
             Event.dpl_mutex_pend]) := by
      simp only [dw3000_phy_forcetrxoff, M_bind_apply, dw3000_read_reg_eq _ _ _ _ _ h4 hv,
        dpl_mutex_pend, hp, ne_eq, not_false_eq_true, if_true, if_false, modify_inst,
        mtx_error_world, List.append_assoc, List.singleton_append]
    refine ⟨heq, ?_⟩
    rw [heq]
    have h1 : reg_writes [Event.dpl_mutex_pend] = [] := rfl
    simp only [Res.world, mtx_error_world, reg_writes_append]
    rw [show [read_reg_event c w.trace w.inst.config.blocking_spi_transfers c.regs.SYS_MASK_ID 0 4,
        Event.dpl_mutex_pend]
      = [read_reg_event c w.trace w.inst.config.blocking_spi_transfers c.regs.SYS_MASK_ID 0 4]
        ++ [Event.dpl_mutex_pend] from rfl, reg_writes_append, h1]
    simp only [reg_writes, List.filterMap_cons, List.filterMap_nil, reg_write_read_reg_event,
      List.append_nil]

/-- Example for C7: in the example setting with a mutex that cannot be
acquired, `dw3000_dev_enter_sleep` only sets `mtx_error`, and
`dw3000_phy_forcetrxoff` writes no register. -/
theorem mutex_failure_skips_witness :
    dw3000_dev_enter_sleep example_ctx_mutex_fails example_world
      = Res.ok { example_world.inst.status with mtx_error := true }
          (mtx_error_world example_world [Event.dpl_mutex_pend])
    ∧ reg_writes (dw3000_phy_forcetrxoff example_ctx_mutex_fails example_world).world.trace
      = reg_writes example_world.trace :=
  ⟨((mutex_failure_skips example_ctx_mutex_fails example_world 0 0 (by decide)).1
      (by decide)).1,
   ((mutex_failure_skips example_ctx_mutex_fails example_world 0 0 (by decide)).2
      (by decide)).2⟩

theorem mem_dropLast_or_last (ids : List Nat) (d x : Nat) (hx : x ∈ d :: ids) :
    x ∈ (d :: ids).dropLast ∨ x = last_or d ids := by
  have h := List.dropLast_append_getLast? (last_or d ids)
    (by rw [getLast?_cons_eq_last_or]; exact rfl : last_or d ids ∈ (d :: ids).getLast?)
  rw [← h] at hx
  rcases List.mem_append.mp hx with h1 | h1
  · exact Or.inl h1
  · exact Or.inr (List.mem_singleton.mp h1)

theorem wakeup_events_reads (c : Ctx) (blocking : Bool) (t sem : List Event)
    (inst : dw3000_dev_instance_t) (hsem : reg_reads sem = []) :
    (reg_reads ([Event.dpl_mutex_pend] ++ wakeup_poll_events c blocking t
        ++ wakeup_write_events c inst ++ [Event.dpl_mutex_release] ++ sem)).map
      (fun r => le_value r.2) = wakeup_ids c blocking t := by
  have h1 : reg_reads [Event.dpl_mutex_pend] = [] := rfl
  have h2 : reg_reads [Event.dpl_mutex_release] = [] := rfl
  have hvals := (poll_spec c blocking 5 (devid_read c (t ++ [Event.dpl_mutex_pend]))
      (t ++ [Event.dpl_mutex_pend,
        read_reg_event c (t ++ [Event.dpl_mutex_pend]) blocking c.regs.DEV_ID_ID 0 4])).2.2.1
  simp only [reg_reads_append, hsem, h1, h2, reg_reads_wakeup_write_events, List.append_nil,
    List.nil_append]
  unfold wakeup_poll_events wakeup_ids
  rw [← List.singleton_append, reg_reads_append, List.map_append, hvals]
  simp only [reg_reads, List.filterMap_cons, List.filterMap_nil, reg_read_read_reg_event,
    List.map_cons, List.map_nil, devid_read, List.singleton_append]

theorem wakeup_events_writes (c : Ctx) (blocking : Bool) (t sem : List Event)
    (inst : dw3000_dev_instance_t) (hsem : reg_writes sem = []) :
    reg_writes ([Event.dpl_mutex_pend] ++ wakeup_poll_events c blocking t
        ++ wakeup_write_events c inst ++ [Event.dpl_mutex_release] ++ sem)
      = [(tx_header 1 c.regs.SYS_STATUS_ID 0, le_bytes c.regs.SYS_STATUS_SLP2INIT 4),
         (tx_header 1 c.regs.SYS_STATUS_ID 0, le_bytes c.regs.SYS_STATUS_ALL_RX_ERR 4),
         (tx_header 1 c.regs.LDE_IF_ID c.regs.LDE_RXANTD_OFFSET, le_bytes inst.rx_antenna_delay 2),
         (tx_header 1 c.regs.TX_ANTD_ID c.regs.TX_ANTD_OFFSET, le_bytes inst.tx_antenna_delay 2)] := by
  have h1 : reg_writes [Event.dpl_mutex_pend] = [] := rfl
  have h2 : reg_writes [Event.dpl_mutex_release] = [] := rfl
  have honly := (poll_spec c blocking 5 (devid_read c (t ++ [Event.dpl_mutex_pend]))
      (t ++ [Event.dpl_mutex_pend,
        read_reg_event c (t ++ [Event.dpl_mutex_pend]) blocking c.regs.DEV_ID_ID 0 4])).2.2.2.2.1
  have h3 : reg_writes (wakeup_poll_events c blocking t) = [] := by
    unfold wakeup_poll_events
    rw [← List.singleton_append, reg_writes_append, reg_writes_of_reads_and_pulses _ honly]
    simp only [reg_writes, List.filterMap_cons, List.filterMap_nil, reg_write_read_reg_event,
      List.append_nil]
  simp only [reg_writes_append, hsem, h1, h2, h3, reg_writes_wakeup_write_events, List.append_nil,
    List.nil_append]

/-- C4: `dw3000_dev_enter_sleep` followed by `dw3000_dev_wakeup`, the mutex
acquired in both: both return, and if one of the device-ID reads of the wake-up
returned the expected identifier, `status.sleeping` is false in the instance
and in the returned snapshot; the register writes of the wake-up end with the
stored `rx_antenna_delay` to the RX antenna-delay register and the stored
`tx_antenna_delay` to the TX antenna-delay register. The expected identifier
`DWT_DEVICE_ID` is the value 0xDECA0130 the loop polls for. -/
theorem sleep_then_wakeup_restores (c : Ctx) (w : World)
    (hva : valid_access c.regs.AON_ID c.regs.AON_CTRL_OFFSET 2) (hv : wakeup_regs_ok c.regs)
    (hid : c.regs.DWT_DEVICE_ID = 0xDECA0130)
    (hr : ∀ t, c.env.mutex_release t = dpl_error_t.DPL_OK)
    (hp1 : c.env.mutex_pend w.trace = dpl_error_t.DPL_OK)
    (hp2 : c.env.mutex_pend (dw3000_dev_enter_sleep c w).world.trace = dpl_error_t.DPL_OK)
    (hmatch : ∃ r ∈ reg_reads
        ((dw3000_dev_wakeup c (dw3000_dev_enter_sleep c w).world).world.trace.drop
          (dw3000_dev_enter_sleep c w).world.trace.length),
        le_value r.2 = c.regs.DWT_DEVICE_ID) :
    (dw3000_dev_enter_sleep c w).isFault = false
    ∧ (dw3000_dev_wakeup c (dw3000_dev_enter_sleep c w).world).isFault = false
    ∧ (dw3000_dev_wakeup c (dw3000_dev_enter_sleep c w).world).world.inst.status.sleeping = false
    ∧ (∃ st, (dw3000_dev_wakeup c (dw3000_dev_enter_sleep c w).world).value = some st
        ∧ st.sleeping = false)
    ∧ reg_writes ((dw3000_dev_wakeup c (dw3000_dev_enter_sleep c w).world).world.trace.drop
          (dw3000_dev_enter_sleep c w).world.trace.length)
      = [(tx_header 1 c.regs.SYS_STATUS_ID 0, le_bytes c.regs.SYS_STATUS_SLP2INIT 4),
         (tx_header 1 c.regs.SYS_STATUS_ID 0, le_bytes c.regs.SYS_STATUS_ALL_RX_ERR 4),
         (tx_header 1 c.regs.LDE_IF_ID c.regs.LDE_RXANTD_OFFSET,
            le_bytes w.inst.rx_antenna_delay 2),
         (tx_header 1 c.regs.TX_ANTD_ID c.regs.TX_ANTD_OFFSET,
            le_bytes w.inst.tx_antenna_delay 2)] := by
  have hes := dw3000_dev_enter_sleep_acquired c w hva hp1 hr
  have hfault : (dw3000_dev_enter_sleep c w).isFault = false := by rw [hes]; rfl
  have hrx : (dw3000_dev_enter_sleep c w).world.inst.rx_antenna_delay = w.inst.rx_antenna_delay := by
    rw [hes]; rfl
  have htx : (dw3000_dev_enter_sleep c w).world.inst.tx_antenna_delay = w.inst.tx_antenna_delay := by
    rw [hes]; rfl
  refine ⟨hfault, ?_⟩
  generalize (dw3000_dev_enter_sleep c w).world = w1 at hp2 hmatch hrx htx ⊢
  have hw := dw3000_dev_wakeup_acquired c w1 hv hp2 hr
  have hsem1 : reg_reads (if w1.tx_sem = 0 then [Event.dpl_sem_release] else []) = [] := by
    split <;> rfl
  have hsem2 : reg_writes (if w1.tx_sem = 0 then [Event.dpl_sem_release] else []) = [] := by
    split <;> rfl
  have htrace : (dw3000_dev_wakeup c w1).world.trace.drop w1.trace.length
      = [Event.dpl_mutex_pend] ++ wakeup_poll_events c w1.inst.config.blocking_spi_transfers w1.trace
        ++ wakeup_write_events c w1.inst ++ [Event.dpl_mutex_release]
        ++ (if w1.tx_sem = 0 then [Event.dpl_sem_release] else []) := by
    rw [hw]
    simp only [Res.world, wakeup_sem_step_trace, List.append_assoc, List.drop_left]
  rw [htrace] at hmatch
  rw [htrace, wakeup_events_writes c _ _ _ _ hsem2, hrx, htx]
  obtain ⟨r, hr1, hr2⟩ := hmatch
  have hmem : le_value r.2 ∈ wakeup_ids c w1.inst.config.blocking_spi_transfers w1.trace := by
    rw [← wakeup_events_reads c w1.inst.config.blocking_spi_transfers w1.trace _ w1.inst hsem1]
    exact List.mem_map.mpr ⟨r, hr1, rfl⟩
  have hdrop := (poll_spec c w1.inst.config.blocking_spi_transfers 5
      (devid_read c (w1.trace ++ [Event.dpl_mutex_pend]))
      (w1.trace ++ [Event.dpl_mutex_pend,
        read_reg_event c (w1.trace ++ [Event.dpl_mutex_pend])
          w1.inst.config.blocking_spi_transfers c.regs.DEV_ID_ID 0 4])).2.2.2.2.2.1
  have hlast : wakeup_last c w1.inst.config.blocking_spi_transfers w1.trace
      = c.regs.DWT_DEVICE_ID := by
    rcases mem_dropLast_or_last _ _ _ hmem with h1 | h1
    · exact absurd (hr2.trans hid) (hdrop _ h1)
    · rw [← hr2, h1]; rfl
  have hsl : wakeup_sleeping c w1.inst.config.blocking_spi_transfers w1.trace = false := by
    simp [wakeup_sleeping, hlast]
  rw [hw]
  refine ⟨rfl, ?_, ⟨_, rfl, ?_⟩, rfl⟩
  · simp only [Res.world, wakeup_sem_step_inst, hsl]
  · simp only [hsl]

/-- Example for C4 in the example setting, whose chip answers 0xDECA0130. -/
theorem sleep_then_wakeup_restores_witness :
    (dw3000_dev_wakeup example_ctx
      (dw3000_dev_enter_sleep example_ctx example_world).world).world.inst.status.sleeping
      = false :=
  (sleep_then_wakeup_restores example_ctx example_world (by decide) (by decide) rfl
    (fun _ => rfl) rfl rfl (by decide)).2.2.1

theorem forcetrxoff_reset_cbs_eq (ifs : List uwb_mac_interface) :
    ∀ w : World, forcetrxoff_reset_cbs ifs w
      = Res.ok () { w with trace := w.trace ++ reset_cb_events ifs } := by
  induction ifs with
  | nil => intro w; simp [forcetrxoff_reset_cbs, reset_cb_events, M_pure_apply]
  | cons cbs next ih =>
    intro w
    rw [forcetrxoff_reset_cbs]
    cases hcb : cbs.reset_cb with
    | none =>
      simp only [M_bind_apply, M_pure_apply, ih, reset_cb_events, List.filterMap_cons, hcb,
        Option.map_none']
    | some cb =>
      simp only [M_bind_apply, M_pure_apply, call_reset_cb, ih, reset_cb_events,
        List.filterMap_cons, hcb, Option.map_some', ite_self, List.append_assoc,
        List.singleton_append]

theorem dw3000_phy_forcetrxoff_acquired (c : Ctx) (w : World) (hv : forcetrxoff_regs_ok c.regs)
    (hp : c.env.mutex_pend (w.trace
        ++ [read_reg_event c w.trace w.inst.config.blocking_spi_transfers c.regs.SYS_MASK_ID 0 4])
      = dpl_error_t.DPL_OK)
    (hr : ∀ t, c.env.mutex_release t = dpl_error_t.DPL_OK)
    (hs : ∀ t, c.env.sem_release t = dpl_error_t.DPL_OK) :
    dw3000_phy_forcetrxoff c w
      = Res.ok () (forcetrxoff_sem_step
          { inst := { w.inst with control := { w.inst.control with
                wait4resp_enabled := false, rxauto_disable := false, abs_timeout := false } }
            trace := w.trace ++ forcetrxoff_locked_events c w.inst w.trace
            mutex_level := w.mutex_level
            tx_sem := w.tx_sem }) := by
  obtain ⟨hv1, hv2, hv3⟩ := hv
  have h4 : (4 : Nat) ≤ 8 := by decide
  have h1 : (1 : Nat) ≤ 8 := by decide
  simp only [dw3000_phy_forcetrxoff, M_bind_apply, dw3000_read_reg_eq _ _ _ _ _ h4 hv1,
    read_reg_data_4_mod, dpl_mutex_pend, hp, ne_eq, not_true_eq_false, if_false, if_true,
    dw3000_write_reg_eq _ _ _ _ _ _ h4 hv1, dw3000_write_reg_eq _ _ _ _ _ _ h1 hv2,
    dw3000_write_reg_eq _ _ _ _ _ _ h4 hv3, get_inst]
  by_cases hd : w.inst.config.dblbuffon_enabled = true
  · by_cases h0 : w.tx_sem = 0
    · simp only [hd, if_true, emit, M_bind_apply, dw3000_write_reg_eq _ _ _ _ _ _ h4 hv1,
        forcetrxoff_reset_cbs_eq, get_inst, dpl_mutex_release, hr, c_assert, modify_inst,
        dpl_sem_get_count, h0, dpl_sem_release, hs, Nat.add_sub_cancel, forcetrxoff_sem_step,
        forcetrxoff_locked_events, entry_mask, List.append_assoc]
    · simp only [hd, if_true, emit, M_bind_apply, dw3000_write_reg_eq _ _ _ _ _ _ h4 hv1,
        forcetrxoff_reset_cbs_eq, get_inst, dpl_mutex_release, hr, c_assert, modify_inst,
        dpl_sem_get_count, h0, if_false, M_pure_apply, Nat.add_sub_cancel, forcetrxoff_sem_step,
        forcetrxoff_locked_events, entry_mask, List.append_assoc]
  · by_cases h0 : w.tx_sem = 0
    · simp only [hd, Bool.false_eq_true, if_false, M_pure_apply, M_bind_apply,
        dw3000_write_reg_eq _ _ _ _ _ _ h4 hv1,
        forcetrxoff_reset_cbs_eq, get_inst, dpl_mutex_release, hr, c_assert, modify_inst,
        dpl_sem_get_count, h0, if_true, dpl_sem_release, hs, Nat.add_sub_cancel,
        forcetrxoff_sem_step, forcetrxoff_locked_events, entry_mask, List.append_assoc,
        List.nil_append]
    · simp only [hd, Bool.false_eq_true, if_false, M_pure_apply, M_bind_apply,
        dw3000_write_reg_eq _ _ _ _ _ _ h4 hv1,
        forcetrxoff_reset_cbs_eq, get_inst, dpl_mutex_release, hr, c_assert, modify_inst,
        dpl_sem_get_count, h0, if_true, Nat.add_sub_cancel,
        forcetrxoff_sem_step, forcetrxoff_locked_events, entry_mask, List.append_assoc,
        List.nil_append]

theorem le_bytes_le_value_rx_bytes_4 (resp : List Nat) :
    le_bytes (le_value (rx_bytes 4 resp)) 4 = rx_bytes 4 resp := by
  have h0 := Nat.mod_lt (resp.getD 0 0) (show 256 > 0 by decide)
  have h1 := Nat.mod_lt (resp.getD 1 0) (show 256 > 0 by decide)
  have h2 := Nat.mod_lt (resp.getD 2 0) (show 256 > 0 by decide)
  have h3 := Nat.mod_lt (resp.getD 3 0) (show 256 > 0 by decide)
  simp only [rx_bytes, le_bytes, List.range_succ, List.range_zero, List.nil_append,
    List.cons_append, List.map_cons, List.map_nil, le_value]
  generalize resp.getD 0 0 % 256 = b0 at h0 ⊢
  generalize resp.getD 1 0 % 256 = b1 at h1 ⊢
  generalize resp.getD 2 0 % 256 = b2 at h2 ⊢
  generalize resp.getD 3 0 % 256 = b3 at h3 ⊢
  have e0 : (b0 + 256 * (b1 + 256 * (b2 + 256 * (b3 + 256 * 0)))) % 2 ^ 64 / 256 ^ 0 % 256 = b0 := by
    norm_num; omega
  have e1 : (b0 + 256 * (b1 + 256 * (b2 + 256 * (b3 + 256 * 0)))) % 2 ^ 64 / 256 ^ 1 % 256 = b1 := by
    norm_num; omega
  have e2 : (b0 + 256 * (b1 + 256 * (b2 + 256 * (b3 + 256 * 0)))) % 2 ^ 64 / 256 ^ 2 % 256 = b2 := by
    norm_num; omega
  have e3 : (b0 + 256 * (b1 + 256 * (b2 + 256 * (b3 + 256 * 0)))) % 2 ^ 64 / 256 ^ 3 % 256 = b3 := by
    norm_num; omega
  rw [e0, e1, e2, e3]

theorem reg_writes_reset_cb_events (ifs : List uwb_mac_interface) :
    reg_writes (reset_cb_events ifs) = [] := by
  induction ifs with
  | nil => rfl
  | cons cbs next ih =>
    unfold reset_cb_events at ih ⊢
    rw [List.filterMap_cons]
    cases cbs.reset_cb with
    | none => simpa using ih
    | some cb =>
      simp only [Option.map_some']
      rw [← List.singleton_append, reg_writes_append, ih]
      rfl

theorem reg_writes_forcetrxoff_locked_events (c : Ctx) (inst : dw3000_dev_instance_t)
    (t : List Event) :
    reg_writes (forcetrxoff_locked_events c inst t)
      = [(tx_header 1 c.regs.SYS_MASK_ID 0, le_bytes 0 4),
         (tx_header 1 c.regs.SYS_CTRL_ID c.regs.SYS_CTRL_OFFSET, le_bytes c.regs.SYS_CTRL_TRXOFF 1),
         (tx_header 1 c.regs.SYS_STATUS_ID 0,
            le_bytes (c.regs.SYS_STATUS_ALL_TX ||| c.regs.SYS_STATUS_ALL_RX_ERR
              ||| c.regs.SYS_STATUS_ALL_RX_TO ||| c.regs.SYS_STATUS_ALL_RX_GOOD
              ||| c.regs.SYS_STATUS_TXBERR) 4),
         (tx_header 1 c.regs.SYS_MASK_ID 0, read_reg_data c t c.regs.SYS_MASK_ID 0 4)] := by
  have h1 : reg_writes [Event.dpl_mutex_pend] = [] := rfl
  have h2 : reg_writes [Event.dpl_mutex_release] = [] := rfl
  have h3 : reg_writes (if inst.config.dblbuffon_enabled = true
      then [Event.dw3000_sync_rxbufptrs] else []) = [] := by
    split <;> rfl
  have h4 : reg_writes [read_reg_event c t inst.config.blocking_spi_transfers
      c.regs.SYS_MASK_ID 0 4] = [] := by
    simp only [reg_writes, List.filterMap_cons, List.filterMap_nil, reg_write_read_reg_event]
  have h5 : le_bytes (entry_mask c t) 4 = read_reg_data c t c.regs.SYS_MASK_ID 0 4 :=
    le_bytes_le_value_rx_bytes_4 _
  unfold forcetrxoff_locked_events
  simp only [reg_writes_append, h1, h2, h3, h4, h5,
    reg_writes_reset_cb_events, reg_writes_write_reg_events _ _ _ _ _ _ (show 4 ≤ 8 by decide),
    reg_writes_write_reg_events _ _ _ _ _ _ (show 1 ≤ 8 by decide), List.append_nil,
    List.nil_append]
  simp only [List.append_assoc, List.singleton_append, List.cons_append, List.nil_append]

theorem last_write_of_writes_end (header d : List Nat) (t : List Event)
    (l : List (List Nat × List Nat)) (h : reg_writes t = l ++ [(header, d)]) :
    last_write header t = some d := by
  unfold last_write
  rw [h, List.filter_append]
  simp

theorem forcetrxoff_sem_step_trace (w : World) :
    (forcetrxoff_sem_step w).trace
      = w.trace ++ (if w.tx_sem = 0 then [Event.dpl_sem_release] else []) := by
  unfold forcetrxoff_sem_step
  split <;> simp

/-- C10: with the mutex acquired, `dw3000_phy_forcetrxoff` returns; its register
writes are, in order, 0 to the interrupt-mask register, the transceiver-off
command, the status clear, and the bytes it read from the interrupt-mask
register at entry back to that register; this restoring write is its last
register write, so it is the last write to the interrupt-mask register in the
trace, and a chip that answers a mask read with the last payload written gives
after the call the value read at entry. -/
theorem forcetrxoff_restores_mask (c : Ctx) (w : World) (hv : forcetrxoff_regs_ok c.regs)
    (hp : c.env.mutex_pend (w.trace
        ++ [read_reg_event c w.trace w.inst.config.blocking_spi_transfers c.regs.SYS_MASK_ID 0 4])
      = dpl_error_t.DPL_OK)
    (hr : ∀ t, c.env.mutex_release t = dpl_error_t.DPL_OK)
    (hs : ∀ t, c.env.sem_release t = dpl_error_t.DPL_OK) :
    (dw3000_phy_forcetrxoff c w).isFault = false
    ∧ ((dw3000_phy_forcetrxoff c w).world.trace.drop w.trace.length).head?
        = some (read_reg_event c w.trace w.inst.config.blocking_spi_transfers
            c.regs.SYS_MASK_ID 0 4)
    ∧ reg_writes ((dw3000_phy_forcetrxoff c w).world.trace.drop w.trace.length)
        = [(tx_header 1 c.regs.SYS_MASK_ID 0, le_bytes 0 4),
           (tx_header 1 c.regs.SYS_CTRL_ID c.regs.SYS_CTRL_OFFSET,
              le_bytes c.regs.SYS_CTRL_TRXOFF 1),
           (tx_header 1 c.regs.SYS_STATUS_ID 0,
              le_bytes (c.regs.SYS_STATUS_ALL_TX ||| c.regs.SYS_STATUS_ALL_RX_ERR
                ||| c.regs.SYS_STATUS_ALL_RX_TO ||| c.regs.SYS_STATUS_ALL_RX_GOOD
                ||| c.regs.SYS_STATUS_TXBERR) 4),
           (tx_header 1 c.regs.SYS_MASK_ID 0, read_reg_data c w.trace c.regs.SYS_MASK_ID 0 4)]
    ∧ last_write (tx_header 1 c.regs.SYS_MASK_ID 0) (dw3000_phy_forcetrxoff c w).world.trace
        = some (read_reg_data c w.trace c.regs.SYS_MASK_ID 0 4)
    ∧ ((∀ d, last_write (tx_header 1 c.regs.SYS_MASK_ID 0)
              (dw3000_phy_forcetrxoff c w).world.trace = some d →
            read_reg_data c (dw3000_phy_forcetrxoff c w).world.trace c.regs.SYS_MASK_ID 0 4 = d) →
        (dw3000_read_reg c c.regs.SYS_MASK_ID 0 4 (dw3000_phy_forcetrxoff c w).world).value
          = (dw3000_read_reg c c.regs.SYS_MASK_ID 0 4 w).value) := by
  have h4 : (4 : Nat) ≤ 8 := by decide
  have hsem : reg_writes (if w.tx_sem = 0 then [Event.dpl_sem_release] else []) = [] := by
    split <;> rfl
  have htrace : (dw3000_phy_forcetrxoff c w).world.trace
      = w.trace ++ (forcetrxoff_locked_events c w.inst w.trace
          ++ (if w.tx_sem = 0 then [Event.dpl_sem_release] else [])) := by
    rw [dw3000_phy_forcetrxoff_acquired c w hv hp hr hs]
    simp only [Res.world, forcetrxoff_sem_step_trace, List.append_assoc]
  have hwr : reg_writes (forcetrxoff_locked_events c w.inst w.trace
      ++ (if w.tx_sem = 0 then [Event.dpl_sem_release] else []))
      = [(tx_header 1 c.regs.SYS_MASK_ID 0, le_bytes 0 4),
           (tx_header 1 c.regs.SYS_CTRL_ID c.regs.SYS_CTRL_OFFSET,
              le_bytes c.regs.SYS_CTRL_TRXOFF 1),
           (tx_header 1 c.regs.SYS_STATUS_ID 0,
              le_bytes (c.regs.SYS_STATUS_ALL_TX ||| c.regs.SYS_STATUS_ALL_RX_ERR
                ||| c.regs.SYS_STATUS_ALL_RX_TO ||| c.regs.SYS_STATUS_ALL_RX_GOOD
                ||| c.regs.SYS_STATUS_TXBERR) 4),
           (tx_header 1 c.regs.SYS_MASK_ID 0, read_reg_data c w.trace c.regs.SYS_MASK_ID 0 4)] := by
    rw [reg_writes_append, hsem, List.append_nil, reg_writes_forcetrxoff_locked_events]
  have hlast : last_write (tx_header 1 c.regs.SYS_MASK_ID 0)
      (dw3000_phy_forcetrxoff c w).world.trace
        = some (read_reg_data c w.trace c.regs.SYS_MASK_ID 0 4) := by
    apply last_write_of_writes_end _ _ _
      (reg_writes w.trace ++ [(tx_header 1 c.regs.SYS_MASK_ID 0, le_bytes 0 4),
           (tx_header 1 c.regs.SYS_CTRL_ID c.regs.SYS_CTRL_OFFSET,
              le_bytes c.regs.SYS_CTRL_TRXOFF 1),
           (tx_header 1 c.regs.SYS_STATUS_ID 0,
              le_bytes (c.regs.SYS_STATUS_ALL_TX ||| c.regs.SYS_STATUS_ALL_RX_ERR
                ||| c.regs.SYS_STATUS_ALL_RX_TO ||| c.regs.SYS_STATUS_ALL_RX_GOOD
                ||| c.regs.SYS_STATUS_TXBERR) 4)])
    rw [htrace, reg_writes_append, hwr]
    simp
  refine ⟨?_, ?_, ?_, hlast, ?_⟩
  · rw [dw3000_phy_forcetrxoff_acquired c w hv hp hr hs]; rfl
  · rw [htrace, List.drop_left]
    simp [forcetrxoff_locked_events]
  · rw [htrace, List.drop_left, hwr]
  · intro hchip
    rw [dw3000_read_reg_eq c _ _ _ _ h4 hv.1, dw3000_read_reg_eq c w _ _ _ h4 hv.1]
    simp only [Res.value]
    rw [hchip _ hlast]

/-- Example for C10: on the example chip that reads the interrupt mask back, a
mask read after `dw3000_phy_forcetrxoff` gives the value read before it. -/
theorem forcetrxoff_restores_mask_witness :
    (dw3000_read_reg example_ctx_mask 0x0E 0 4
        (dw3000_phy_forcetrxoff example_ctx_mask example_world).world).value
      = (dw3000_read_reg example_ctx_mask 0x0E 0 4 example_world).value :=
  (forcetrxoff_restores_mask example_ctx_mask example_world (by decide) rfl (fun _ => rfl)
    (fun _ => rfl)).2.2.2.2 (by decide)

theorem valid_access_mono {reg subaddress n m : Nat} (h : valid_access reg subaddress n)
    (hm : m ≤ n) : valid_access reg subaddress m :=
  ⟨h.1, le_trans (Nat.add_le_add_left hm _) h.2⟩

theorem runs_ok_pure {α : Type} (a : α) : runs_ok (pure a : M α) :=
  fun w => ⟨a, w, rfl, rfl⟩

theorem runs_ok_bind {α β : Type} {m : M α} {f : α → M β} (hm : runs_ok m)
    (hf : ∀ a, runs_ok (f a)) : runs_ok (m >>= f) := by
  intro w
  obtain ⟨a, w1, h1, r1⟩ := hm w
  obtain ⟨b, w2, h2, r2⟩ := hf a w1
  refine ⟨b, w2, ?_, ?_⟩
  · rw [M_bind_apply, h1]; exact h2
  · unfold same_initialized at *
    rw [r2, r1]

theorem runs_ok_ite {α : Type} (p : Prop) [Decidable p] {a b : M α} (ha : runs_ok a)
    (hb : runs_ok b) : runs_ok (if p then a else b) := by
  split
  · exact ha
  · exact hb

theorem runs_ok_emit (ev : Event) : runs_ok (emit ev) :=
  fun _ => ⟨(), _, rfl, rfl⟩

theorem runs_ok_get_inst : runs_ok get_inst :=
  fun w => ⟨w.inst, w, rfl, rfl⟩

theorem runs_ok_modify_inst (f : dw3000_dev_instance_t → dw3000_dev_instance_t)
    (hf : ∀ i, (f i).status.initialized = i.status.initialized) : runs_ok (modify_inst f) :=
  fun w => ⟨(), _, rfl, hf w.inst⟩

theorem runs_ok_write_reg (c : Ctx) (reg subaddress val nbytes : Nat) (hn : nbytes ≤ 8)
    (hv : valid_access reg subaddress nbytes) :
    runs_ok (dw3000_write_reg c reg subaddress val nbytes) :=
  fun w => ⟨(), _, dw3000_write_reg_eq c w reg subaddress val nbytes hn hv, rfl⟩

theorem runs_ok_read_reg (c : Ctx) (reg subaddress nbytes : Nat) (hn : nbytes ≤ 8)
    (hv : valid_access reg subaddress nbytes) :
    runs_ok (dw3000_read_reg c reg subaddress nbytes) :=
  fun w => ⟨_, _, dw3000_read_reg_eq c w reg subaddress nbytes hn hv, rfl⟩

theorem runs_ok_sysclk_XTAL (c : Ctx) (hv : phy_init_regs_ok c.regs) :
    runs_ok (dw3000_phy_sysclk_XTAL c) := by
  unfold dw3000_phy_sysclk_XTAL
  exact runs_ok_bind (runs_ok_read_reg c _ _ _ (by decide) (valid_access_mono hv.pmsc_ctrl0 (by decide)))
    (fun _ => runs_ok_write_reg c _ _ _ _ (by decide) (valid_access_mono hv.pmsc_ctrl0 (by decide)))

theorem runs_ok_sysclk_SEQ (c : Ctx) (hv : phy_init_regs_ok c.regs) :
    runs_ok (dw3000_phy_sysclk_SEQ c) := by
  unfold dw3000_phy_sysclk_SEQ
  exact runs_ok_bind (runs_ok_read_reg c _ _ _ (by decide) (valid_access_mono hv.pmsc_ctrl0 (by decide)))
    (fun _ => runs_ok_write_reg c _ _ _ _ (by decide) (valid_access_mono hv.pmsc_ctrl0 (by decide)))

theorem runs_ok_sysclk_LDE (c : Ctx) (hv : phy_init_regs_ok c.regs) :
    runs_ok (dw3000_phy_sysclk_LDE c) := by
  unfold dw3000_phy_sysclk_LDE
  exact runs_ok_bind (runs_ok_write_reg c _ _ _ _ (by decide) (valid_access_mono hv.pmsc_ctrl0 (by decide)))
    (fun _ => runs_ok_write_reg c _ _ _ _ (by decide) hv.pmsc_ctrl0_hi)

theorem runs_ok_softreset (c : Ctx) (hv : phy_init_regs_ok c.regs) :
    runs_ok (dw3000_softreset c) := by
  unfold dw3000_softreset dpl_cputime_delay_usecs
  have h1 := valid_access_mono hv.aon_ctrl (show 1 ≤ 1 by decide)
  have h2 := hv.pmsc_ctrl1
  have h3 := hv.aon_wcfg
  have h4 := hv.aon_cfg0
  have h5 := hv.pmsc_softreset
  repeat' first
    | exact runs_ok_sysclk_XTAL c hv
    | exact runs_ok_emit _
    | exact runs_ok_write_reg c _ _ _ _ (by decide) (by assumption)
    | apply runs_ok_bind
    | intro _

theorem runs_ok_otp_read (c : Ctx) (hv : phy_init_regs_ok c.regs) (address : Nat) :
    runs_ok (_dw3000_otp_read c address) := by
  unfold _dw3000_otp_read dpl_cputime_delay_usecs
  have h1 := hv.otp_addr
  have h2 := valid_access_mono hv.otp_ctrl (show 1 ≤ 2 by decide)
  have h3 := hv.otp_rdat
  repeat' first
    | exact runs_ok_emit _
    | exact runs_ok_pure _
    | exact runs_ok_write_reg c _ _ _ _ (by decide) (by assumption)
    | exact runs_ok_read_reg c _ _ _ (by decide) (by assumption)
    | apply runs_ok_bind
    | intro _

theorem runs_ok_gpio5 (c : Ctx) (hv : phy_init_regs_ok c.regs) :
    runs_ok (dw3000_gpio5_config_ext_txe c) := by
  unfold dw3000_gpio5_config_ext_txe
  exact runs_ok_bind (runs_ok_read_reg c _ _ _ (by decide) hv.gpio_mode)
    (fun _ => runs_ok_write_reg c _ _ _ _ (by decide) hv.gpio_mode)

theorem runs_ok_gpio6 (c : Ctx) (hv : phy_init_regs_ok c.regs) :
    runs_ok (dw3000_gpio6_config_ext_rxe c) := by
  unfold dw3000_gpio6_config_ext_rxe
  exact runs_ok_bind (runs_ok_read_reg c _ _ _ (by decide) hv.gpio_mode)
    (fun _ => runs_ok_write_reg c _ _ _ _ (by decide) hv.gpio_mode)

theorem runs_ok_gpio_config_leds (c : Ctx) (hv : phy_init_regs_ok c.regs) (mode : Nat) :
    runs_ok (dw3000_gpio_config_leds c mode) := by
  unfold dw3000_gpio_config_leds dpl_cputime_delay_usecs
  have h1 := hv.gpio_mode
  have h2 := hv.pmsc_ctrl0
  have h3 := hv.pmsc_ledc
  repeat' first
    | exact runs_ok_emit _
    | exact runs_ok_pure _
    | exact runs_ok_write_reg c _ _ _ _ (by decide) (by assumption)
    | exact runs_ok_read_reg c _ _ _ (by decide) (by assumption)
    | apply runs_ok_ite
    | apply runs_ok_bind
    | intro _

theorem runs_ok_load_microcode (c : Ctx) (hv : phy_init_regs_ok c.regs) :
    runs_ok (_dw3000_phy_load_microcode c) := by
  unfold _dw3000_phy_load_microcode dpl_cputime_delay_usecs
  have h1 := hv.otp_ctrl
  repeat' first
    | exact runs_ok_sysclk_LDE c hv
    | exact runs_ok_sysclk_SEQ c hv
    | exact runs_ok_emit _
    | exact runs_ok_modify_inst _ (fun _ => rfl)
    | exact runs_ok_write_reg c _ _ _ _ (by decide) (by assumption)
    | apply runs_ok_bind
    | intro _

theorem runs_ok_config_txrf (c : Ctx) (hv : phy_init_regs_ok c.regs)
    (config : uwb_dev_txrf_config) : runs_ok (dw3000_phy_config_txrf c config) := by
  unfold dw3000_phy_config_txrf
  exact runs_ok_bind (runs_ok_write_reg c _ _ _ _ (by decide) hv.tc_pgdelay)
    (fun _ => runs_ok_write_reg c _ _ _ _ (by decide) hv.tx_power)

theorem runs_ok_phy_init (c : Ctx) (hv : phy_init_regs_ok c.regs)
    (txrf_config : Option uwb_dev_txrf_config) : runs_ok (dw3000_phy_init c txrf_config) := by
  unfold dw3000_phy_init
  have h1 := hv.ec_ctrl
  have h2 := hv.otp_sf
  have h3 := hv.fs_xtalt
  have h4 := hv.aon_cfg1
  have h5 := hv.aon_wcfg
  have h6 := hv.lde_rxantd
  have h7 := hv.tx_antd
  have h8 := hv.sys_cfg
  refine runs_ok_bind ?_ (fun _ => ?_)
  · cases txrf_config
    · exact runs_ok_pure _
    · exact runs_ok_modify_inst _ (fun _ => rfl)
  refine runs_ok_bind runs_ok_get_inst (fun _ => ?_)
  refine runs_ok_bind (runs_ok_softreset c hv) (fun _ => ?_)
  refine runs_ok_bind (runs_ok_sysclk_XTAL c hv) (fun _ => ?_)
  refine runs_ok_bind (runs_ok_ite _ (runs_ok_gpio_config_leds c hv _) (runs_ok_pure _))
    (fun _ => ?_)
  refine runs_ok_bind (runs_ok_ite _
    (runs_ok_bind (runs_ok_gpio5 c hv) (fun _ => runs_ok_gpio6 c hv)) (runs_ok_pure _))
    (fun _ => ?_)
  refine runs_ok_bind (runs_ok_read_reg c _ _ _ (by decide) h1) (fun _ => ?_)
  refine runs_ok_bind (runs_ok_write_reg c _ _ _ _ (by decide) h1) (fun _ => ?_)
  refine runs_ok_bind (runs_ok_otp_read c hv _) (fun _ => ?_)
  refine runs_ok_bind (runs_ok_modify_inst _ (fun _ => rfl)) (fun _ => ?_)
  refine runs_ok_bind (runs_ok_otp_read c hv _) (fun _ => ?_)
  refine runs_ok_bind (runs_ok_ite _
    (runs_ok_bind (runs_ok_write_reg c _ _ _ _ (by decide) h2)
      (fun _ => runs_ok_modify_inst _ (fun _ => rfl))) (runs_ok_pure _)) (fun _ => ?_)
  refine runs_ok_bind (runs_ok_otp_read c hv _) (fun _ => ?_)
  refine runs_ok_bind (runs_ok_modify_inst _ (fun _ => rfl)) (fun _ => ?_)
  refine runs_ok_bind (runs_ok_otp_read c hv _) (fun _ => ?_)
  refine runs_ok_bind (runs_ok_modify_inst _ (fun _ => rfl)) (fun _ => ?_)
  refine runs_ok_bind (runs_ok_otp_read c hv _) (fun _ => ?_)
  refine runs_ok_bind (runs_ok_modify_inst _ (fun _ => rfl)) (fun _ => ?_)
  refine runs_ok_bind (runs_ok_otp_read c hv _) (fun _ => ?_)
  refine runs_ok_bind (runs_ok_modify_inst _ (fun _ => rfl)) (fun _ => ?_)
  refine runs_ok_bind (runs_ok_modify_inst _ (fun _ => rfl)) (fun _ => ?_)
  refine runs_ok_bind (runs_ok_modify_inst _ (fun _ => by split <;> rfl)) (fun _ => ?_)
  refine runs_ok_bind runs_ok_get_inst (fun _ => ?_)
  refine runs_ok_bind (runs_ok_write_reg c _ _ _ _ (by decide) h3) (fun _ => ?_)
  refine runs_ok_bind runs_ok_get_inst (fun _ => ?_)
  refine runs_ok_bind (runs_ok_ite _ (runs_ok_load_microcode c hv) (runs_ok_pure _))
    (fun _ => ?_)
  refine runs_ok_bind (runs_ok_sysclk_SEQ c hv) (fun _ => ?_)
  refine runs_ok_bind (runs_ok_read_reg c _ _ _ (by decide) h4) (fun _ => ?_)
  refine runs_ok_bind (runs_ok_write_reg c _ _ _ _ (by decide) h4) (fun _ => ?_)
  refine runs_ok_bind (runs_ok_write_reg c _ _ _ _ (by decide) h5) (fun _ => ?_)
  refine runs_ok_bind runs_ok_get_inst (fun _ => ?_)
  refine runs_ok_bind (runs_ok_write_reg c _ _ _ _ (by decide) h6) (fun _ => ?_)
  refine runs_ok_bind runs_ok_get_inst (fun _ => ?_)
  refine runs_ok_bind (runs_ok_write_reg c _ _ _ _ (by decide) h7) (fun _ => ?_)
  refine runs_ok_bind (runs_ok_config_txrf c hv _) (fun _ => ?_)
  refine runs_ok_bind (runs_ok_read_reg c _ _ _ (by decide) h8) (fun _ => ?_)
  refine runs_ok_bind (runs_ok_modify_inst _ (fun _ => rfl)) (fun _ => ?_)
  refine runs_ok_bind runs_ok_get_inst (fun _ => ?_)
  exact runs_ok_pure _

theorem res_ok_of_not_fault {α : Type} (r : Res α) (h : r.isFault = false) :
    ∃ a, r = Res.ok a r.world := by
  cases r with
  | ok a w => exact ⟨a, rfl⟩
  | fault w => simp [Res.isFault] at h

theorem dev_config_probe_eq (c : Ctx) (w : World) (hv : valid_access c.regs.DEV_ID_ID 0 4)
    (hspi : ∀ t, c.env.spi_rc t = 0) :
    dev_config_probe c w
      = Res.ok ()
          { w with
            inst := { w.inst with
              spi_settings_baudrate := w.inst.spi_baudrate_low
              device_id := devid_read c (w.trace ++ probe_events w.inst.spi_baudrate_low)
              status := { w.inst.status with
                initialized := decide (devid_read c
                  (w.trace ++ probe_events w.inst.spi_baudrate_low) = c.regs.DWT_DEVICE_ID) } }
            trace := w.trace ++ probe_events w.inst.spi_baudrate_low
              ++ [read_reg_event c (w.trace ++ probe_events w.inst.spi_baudrate_low)
                    w.inst.config.blocking_spi_transfers c.regs.DEV_ID_ID 0 4] } := by
  have h4 : (4 : Nat) ≤ 8 := by decide
  simp only [dev_config_probe, M_bind_apply, modify_inst, hal_dw3000_reset, emit, hal_spi_disable,
    hal_spi_config, hal_spi_enable, hspi, c_assert, if_true, get_inst,
    dw3000_read_reg_eq _ _ _ _ _ h4 hv, read_reg_data_4_mod, probe_events, devid_read,
    List.append_assoc, List.singleton_append, List.cons_append, List.nil_append]

theorem after_probe_of_reg_read (e : Event) (h : e.reg_read.isSome = true) :
    e.after_probe = false := by
  cases e <;> simp_all [Event.reg_read, Event.after_probe]

theorem after_probe_write_reg_events (c : Ctx) (blocking : Bool) (reg subaddress val nbytes : Nat) :
    ∀ e ∈ write_reg_events c blocking reg subaddress val nbytes, e.after_probe = false := by
  unfold write_reg_events
  split <;> simp [Event.after_probe]

theorem after_probe_read_reg_event (c : Ctx) (t : List Event) (blocking : Bool)
    (reg subaddress nbytes : Nat) :
    (read_reg_event c t blocking reg subaddress nbytes).after_probe = false := by
  unfold read_reg_event
  split <;> rfl

theorem after_probe_wakeup_write_events (c : Ctx) (inst : dw3000_dev_instance_t) :
    ∀ e ∈ wakeup_write_events c inst, e.after_probe = false := by
  intro e he
  simp only [wakeup_write_events, List.mem_append] at he
  rcases he with ((he | he) | he) | he <;> exact after_probe_write_reg_events _ _ _ _ _ _ e he

theorem after_probe_wakeup_poll_events (c : Ctx) (blocking : Bool) (t : List Event) :
    ∀ e ∈ wakeup_poll_events c blocking t, e.after_probe = false := by
  intro e he
  have honly := (poll_spec c blocking 5 (devid_read c (t ++ [Event.dpl_mutex_pend]))
      (t ++ [Event.dpl_mutex_pend,
        read_reg_event c (t ++ [Event.dpl_mutex_pend]) blocking c.regs.DEV_ID_ID 0 4])).2.2.2.2.1
  unfold wakeup_poll_events at he
  rcases List.mem_cons.mp he with he | he
  · rw [he]; exact after_probe_read_reg_event _ _ _ _ _ _
  · rcases honly e he with h | h
    · rw [h]; rfl
    · exact after_probe_of_reg_read e h

theorem wakeup_frame (c : Ctx) (w : World) (hv : wakeup_regs_ok c.regs)
    (hr : ∀ t, c.env.mutex_release t = dpl_error_t.DPL_OK) :
    (dw3000_dev_wakeup c w).isFault = false ∧ wake_frame w (dw3000_dev_wakeup c w).world := by
  by_cases hp : c.env.mutex_pend w.trace = dpl_error_t.DPL_OK
  · rw [dw3000_dev_wakeup_acquired c w hv hp hr]
    refine ⟨rfl, ?_, ?_, ?_, ?_, ?_⟩
    · simp only [Res.world, wakeup_sem_step_inst]
    · simp only [Res.world, wakeup_sem_step_inst]
    · simp only [Res.world, wakeup_sem_step_inst]
    · simp only [Res.world, wakeup_sem_step_inst]
    · refine ⟨[Event.dpl_mutex_pend]
          ++ wakeup_poll_events c w.inst.config.blocking_spi_transfers w.trace
          ++ wakeup_write_events c w.inst ++ [Event.dpl_mutex_release]
          ++ (if w.tx_sem = 0 then [Event.dpl_sem_release] else []), ?_, ?_⟩
      · simp only [Res.world, wakeup_sem_step_trace, List.append_assoc]
      · intro e he
        simp only [List.mem_append, List.mem_singleton] at he
        rcases he with (((he | he) | he) | he) | he
        · rw [he]; rfl
        · exact after_probe_wakeup_poll_events _ _ _ e he
        · exact after_probe_wakeup_write_events _ _ e he
        · rw [he]; rfl
        · split at he
          · rw [List.mem_singleton.mp he]; rfl
          · simp at he
  · have heq : dw3000_dev_wakeup c w
        = Res.ok { w.inst.status with mtx_error := true }
            (mtx_error_world w [Event.dpl_mutex_pend]) := by
      simp only [dw3000_dev_wakeup, M_bind_apply, dpl_mutex_pend, hp, ne_eq,
        not_false_eq_true, if_true, if_false, modify_inst, get_inst, M_pure_apply,
        mtx_error_world]
    rw [heq]
    refine ⟨rfl, rfl, rfl, rfl, rfl, [Event.dpl_mutex_pend], rfl, ?_⟩
    intro e he
    rw [List.mem_singleton.mp he]; rfl

theorem runs_with_of_ok {α : Type} {m : M α} (h : runs_ok m) : runs_with m (fun _ => True) := by
  intro w
  obtain ⟨a, w1, h1, r1⟩ := h w
  exact ⟨a, w1, h1, r1, trivial⟩

theorem runs_with_bind {α β : Type} {m : M α} {f : α → M β} {Q : α → Prop} {Q' : β → Prop}
    (hm : runs_with m Q) (hf : ∀ a, Q a → runs_with (f a) Q') : runs_with (m >>= f) Q' := by
  intro w
  obtain ⟨a, w1, h1, r1, q1⟩ := hm w
  obtain ⟨b, w2, h2, r2, q2⟩ := hf a q1 w1
  refine ⟨b, w2, ?_, ?_, q2⟩
  · rw [M_bind_apply, h1]; exact h2
  · unfold same_initialized at *
    rw [r2, r1]

theorem runs_with_pure {α : Type} (a : α) {Q : α → Prop} (h : Q a) : runs_with (pure a : M α) Q :=
  fun w => ⟨a, w, rfl, rfl, h⟩

theorem runs_with_assert (p : Prop) [Decidable p] (h : p) :
    runs_with (c_assert p) (fun _ => True) :=
  fun w => ⟨(), w, by simp [c_assert, h], rfl, trivial⟩

theorem runs_with_spi_disable (c : Ctx) (hspi : ∀ t, c.env.spi_rc t = 0) :
    runs_with (hal_spi_disable c) (fun rc => rc = 0) :=
  fun _ => ⟨_, _, rfl, rfl, hspi _⟩

theorem runs_with_spi_config (c : Ctx) (hspi : ∀ t, c.env.spi_rc t = 0) (baudrate : Nat) :
    runs_with (hal_spi_config c baudrate) (fun rc => rc = 0) :=
  fun _ => ⟨_, _, rfl, rfl, hspi _⟩

theorem runs_with_spi_enable (c : Ctx) (hspi : ∀ t, c.env.spi_rc t = 0) :
    runs_with (hal_spi_enable c) (fun rc => rc = 0) :=
  fun _ => ⟨_, _, rfl, rfl, hspi _⟩

theorem dev_config_finish_ok (c : Ctx) (hv : phy_init_regs_ok c.regs)
    (hspi : ∀ t, c.env.spi_rc t = 0) :
    runs_with (dev_config_finish c) (fun rc => rc = dpl_error_t.DPL_OK) := by
  unfold dev_config_finish
  refine runs_with_bind (runs_with_of_ok (runs_ok_phy_init c hv none)) (fun _ _ => ?_)
  refine runs_with_bind (runs_with_of_ok (runs_ok_modify_inst _ (fun _ => rfl))) (fun _ _ => ?_)
  refine runs_with_bind (runs_with_spi_disable c hspi) (fun _ h => ?_)
  refine runs_with_bind (runs_with_assert _ h) (fun _ _ => ?_)
  refine runs_with_bind (runs_with_of_ok runs_ok_get_inst) (fun _ _ => ?_)
  refine runs_with_bind (runs_with_spi_config c hspi _) (fun _ h => ?_)
  refine runs_with_bind (runs_with_assert _ h) (fun _ _ => ?_)
  refine runs_with_bind (runs_with_spi_enable c hspi) (fun _ h => ?_)
  refine runs_with_bind (runs_with_assert _ h) (fun _ _ => ?_)
  refine runs_with_bind (runs_with_of_ok (runs_ok_modify_inst _ (fun _ => rfl))) (fun _ _ => ?_)
  refine runs_with_bind (runs_with_of_ok (runs_ok_modify_inst _ (fun _ => rfl))) (fun _ _ => ?_)
  refine runs_with_bind (Q := fun _ => True) ?_ (fun _ _ => ?_)
  · apply runs_with_of_ok
    repeat' first
      | exact runs_ok_pure _
      | exact runs_ok_modify_inst _ (fun _ => rfl)
      | apply runs_ok_ite
  refine runs_with_bind (runs_with_of_ok (runs_ok_modify_inst _ (fun _ => rfl))) (fun _ _ => ?_)
  refine runs_with_bind (runs_with_of_ok (runs_ok_emit _)) (fun _ _ => ?_)
  refine runs_with_bind (runs_with_of_ok runs_ok_get_inst) (fun _ _ => ?_)
  refine runs_with_bind (Q := fun _ => True) ?_ (fun _ _ => ?_)
  · apply runs_with_of_ok
    exact runs_ok_ite _ (runs_ok_modify_inst _ (fun _ => rfl)) (runs_ok_pure _)
  refine runs_with_bind (runs_with_of_ok runs_ok_get_inst) (fun _ _ => ?_)
  refine runs_with_bind (runs_with_of_ok (runs_ok_emit _)) (fun _ _ => ?_)
  refine runs_with_bind (runs_with_of_ok runs_ok_get_inst) (fun _ _ => ?_)
  refine runs_with_bind (runs_with_of_ok (runs_ok_emit _)) (fun _ _ => ?_)
  refine runs_with_bind (runs_with_of_ok runs_ok_get_inst) (fun _ _ => ?_)
  refine runs_with_bind (runs_with_of_ok (runs_ok_emit _)) (fun _ _ => ?_)
  exact runs_with_pure _ rfl

theorem dev_config_probe_facts (c : Ctx) (w : World) (hv : valid_access c.regs.DEV_ID_ID 0 4)
    (hspi : ∀ t, c.env.spi_rc t = 0) :
    dev_config_probe c w = Res.ok () (dev_config_probe c w).world
    ∧ (dev_config_probe c w).world.inst.status.initialized
        = decide ((dev_config_probe c w).world.inst.device_id = c.regs.DWT_DEVICE_ID)
    ∧ (dev_config_probe c w).world.inst.device_id
        = devid_read c (w.trace ++ probe_events w.inst.spi_baudrate_low)
    ∧ (dev_config_probe c w).world.inst.spi_settings_baudrate = w.inst.spi_baudrate_low
    ∧ (dev_config_probe c w).world.inst.spi_baudrate_low = w.inst.spi_baudrate_low
    ∧ (dev_config_probe c w).world.trace
        = w.trace ++ (probe_events w.inst.spi_baudrate_low
          ++ [read_reg_event c (w.trace ++ probe_events w.inst.spi_baudrate_low)
                w.inst.config.blocking_spi_transfers c.regs.DEV_ID_ID 0 4]) := by
  rw [dev_config_probe_eq c w hv hspi]
  refine ⟨rfl, rfl, rfl, rfl, rfl, ?_⟩
  simp only [Res.world, List.append_assoc]

theorem after_probe_probe_trace (c : Ctx) (t : List Event) (blocking : Bool) (baudrate : Nat) :
    ∀ e ∈ probe_events baudrate ++ [read_reg_event c t blocking c.regs.DEV_ID_ID 0 4],
      e.after_probe = false := by
  intro e he
  simp only [probe_events, List.mem_append, List.mem_cons, List.mem_singleton,
    List.not_mem_nil, or_false] at he
  rcases he with (he | he | he | he) | he
  · rw [he]; rfl
  · rw [he]; rfl
  · rw [he]; rfl
  · rw [he]; rfl
  · rw [he]; exact after_probe_read_reg_event _ _ _ _ _ _

theorem dev_config_retry_eq (c : Ctx) (w w1 w2 w3 : World) (hv : wakeup_regs_ok c.regs)
    (hspi : ∀ t, c.env.spi_rc t = 0) (hr : ∀ t, c.env.mutex_release t = dpl_error_t.DPL_OK)
    (h1 : w1 = (dev_config_probe c w).world)
    (h2 : w2 = (dev_config_probe c (dw3000_dev_wakeup c w1).world).world)
    (h3 : w3 = (dev_config_probe c (dw3000_dev_wakeup c w2).world).world) :
    dev_config_retry c 3 w
      = Res.ok () (if w1.inst.status.initialized = true then w1
          else if w2.inst.status.initialized = true then w2 else w3) := by
  have p1 := (dev_config_probe_facts c w hv.1 hspi).1
  have p2 := (dev_config_probe_facts c (dw3000_dev_wakeup c w1).world hv.1 hspi).1
  have p3 := (dev_config_probe_facts c (dw3000_dev_wakeup c w2).world hv.1 hspi).1
  obtain ⟨s1, k1⟩ := res_ok_of_not_fault _ (wakeup_frame c w1 hv hr).1
  obtain ⟨s2, k2⟩ := res_ok_of_not_fault _ (wakeup_frame c w2 hv hr).1
  rw [← h1] at p1
  rw [← h2] at p2
  rw [← h3] at p3
  generalize (dw3000_dev_wakeup c w1).world = u1 at k1 p2
  generalize (dw3000_dev_wakeup c w2).world = u2 at k2 p3
  rw [dev_config_retry]
  simp only [M_bind_apply, p1, get_inst]
  by_cases i1 : w1.inst.status.initialized = true
  · rw [if_neg (fun h => by rw [i1] at h; exact Bool.noConfusion h.1), if_pos i1]
    rfl
  · have i1' : w1.inst.status.initialized = false := by simpa using i1
    simp only [i1', true_and, ne_eq, OfNat.ofNat_ne_zero, not_false_eq_true, if_true,
      M_bind_apply, k1, Bool.false_eq_true, if_false]
    rw [dev_config_retry]
    simp only [M_bind_apply, p2, get_inst]
    by_cases i2 : w2.inst.status.initialized = true
    · rw [if_neg (fun h => by rw [i2] at h; exact Bool.noConfusion h.1), if_pos i2]
      rfl
    · have i2' : w2.inst.status.initialized = false := by simpa using i2
      simp only [i2', true_and, ne_eq, one_ne_zero, not_false_eq_true, if_true,
        M_bind_apply, k2, Bool.false_eq_true, if_false]
      rw [dev_config_retry]
      simp only [M_bind_apply, p3, get_inst]
      rw [if_neg (fun h => h.2 rfl)]
      rfl

theorem dev_config_of_retry (c : Ctx) (w u : World) (h : dev_config_retry c 3 w = Res.ok () u) :
    dw3000_dev_config c w
      = if u.inst.status.initialized = false then Res.ok dpl_error_t.DPL_TIMEOUT u
        else dev_config_finish c u := by
  unfold dw3000_dev_config
  simp only [M_bind_apply, h, get_inst]
  by_cases hi : u.inst.status.initialized = false
  · rw [if_pos hi, if_pos hi]; rfl
  · rw [if_neg hi, if_neg hi]

theorem dev_config_finish_facts (c : Ctx) (w : World) (hv : phy_init_regs_ok c.regs)
    (hspi : ∀ t, c.env.spi_rc t = 0) :
    (dev_config_finish c w).isFault = false
    ∧ (dev_config_finish c w).value = some dpl_error_t.DPL_OK
    ∧ (dev_config_finish c w).world.inst.status.initialized = w.inst.status.initialized := by
  obtain ⟨a, w', e, hs, ha⟩ := dev_config_finish_ok c hv hspi w
  rw [e, ha]
  exact ⟨rfl, rfl, hs⟩

theorem dev_config_probe_frame (c : Ctx) (w : World) (hv : valid_access c.regs.DEV_ID_ID 0 4)
    (hspi : ∀ t, c.env.spi_rc t = 0) :
    (dev_config_probe c w).world.inst.spi_settings_baudrate = w.inst.spi_baudrate_low
    ∧ (dev_config_probe c w).world.inst.spi_baudrate_low = w.inst.spi_baudrate_low
    ∧ ∃ evs, (dev_config_probe c w).world.trace = w.trace ++ evs
        ∧ ∀ e ∈ evs, e.after_probe = false := by
  obtain ⟨_, _, _, hb, hl, ht⟩ := dev_config_probe_facts c w hv hspi
  exact ⟨hb, hl, _, ht, after_probe_probe_trace c _ _ _⟩

theorem dev_config_third_probe_frame (c : Ctx) (w w1 w2 w3 : World) (hv : wakeup_regs_ok c.regs)
    (hspi : ∀ t, c.env.spi_rc t = 0) (hr : ∀ t, c.env.mutex_release t = dpl_error_t.DPL_OK)
    (h1 : w1 = (dev_config_probe c w).world)
    (h2 : w2 = (dev_config_probe c (dw3000_dev_wakeup c w1).world).world)
    (h3 : w3 = (dev_config_probe c (dw3000_dev_wakeup c w2).world).world) :
    w3.inst.spi_settings_baudrate = w.inst.spi_baudrate_low
    ∧ ∃ evs, w3.trace = w.trace ++ evs ∧ ∀ e ∈ evs, e.after_probe = false := by
  obtain ⟨_, l1, e1, t1, a1⟩ := dev_config_probe_frame c w hv.1 hspi
  obtain ⟨_, l2, e2, t2, a2⟩ := dev_config_probe_frame c (dw3000_dev_wakeup c w1).world hv.1 hspi
  obtain ⟨b3, _, e3, t3, a3⟩ := dev_config_probe_frame c (dw3000_dev_wakeup c w2).world hv.1 hspi
  obtain ⟨_, k1, _, _, f1, u1, b1⟩ := (wakeup_frame c w1 hv hr).2
  obtain ⟨_, k2, _, _, f2, u2, b2⟩ := (wakeup_frame c w2 hv hr).2
  rw [← h1] at l1 t1
  rw [← h2] at l2 t2
  rw [← h3] at b3 t3
  refine ⟨?_, e1 ++ (f1 ++ (e2 ++ (f2 ++ e3))), ?_, ?_⟩
  · rw [b3, k2, l2, k1, l1]
  · rw [t3, u2, t2, u1, t1]
    simp only [List.append_assoc]
  · intro e he
    simp only [List.mem_append] at he
    rcases he with he | he | he | he | he
    · exact a1 e he
    · exact b1 e he
    · exact a2 e he
    · exact b2 e he
    · exact a3 e he

/-- C8: `dw3000_dev_config` returns without abort after at most three probes
(physical reset, bus set-up at the low baud rate, device-ID read), `w1`, `w2`
and `w3` being the states after the first, second and third probe, each later
probe starting from the state left by `dw3000_dev_wakeup` after the previous
one. Every probe stores the value read and sets `status.initialized` to
whether it equals `DWT_DEVICE_ID`. The result is `DPL_TIMEOUT` exactly when all
three values read differ from `DWT_DEVICE_ID`; the call then ends in `w3`, with
`status.initialized` false, the bus at the low baud rate and no event of the
PHY initialisation delays, MAC initialisation or PAN id, extended id or short
address programming since entry. In every other case the result is `DPL_OK`,
the call continues from the first matching probe and `status.initialized` is
true at the end. -/
theorem dev_config_attempts (c : Ctx) (w w1 w2 w3 : World)
    (hv : dev_config_regs_ok c.regs)
    (hspi : ∀ t, c.env.spi_rc t = 0)
    (hr : ∀ t, c.env.mutex_release t = dpl_error_t.DPL_OK)
    (h1 : w1 = (dev_config_probe c w).world)
    (h2 : w2 = (dev_config_probe c (dw3000_dev_wakeup c w1).world).world)
    (h3 : w3 = (dev_config_probe c (dw3000_dev_wakeup c w2).world).world) :
    (dw3000_dev_config c w).isFault = false
    ∧ ((dw3000_dev_config c w).value = some dpl_error_t.DPL_TIMEOUT ↔
        (w1.inst.device_id ≠ c.regs.DWT_DEVICE_ID ∧ w2.inst.device_id ≠ c.regs.DWT_DEVICE_ID
          ∧ w3.inst.device_id ≠ c.regs.DWT_DEVICE_ID))
    ∧ ((dw3000_dev_config c w).value = some dpl_error_t.DPL_TIMEOUT →
        dw3000_dev_config c w = Res.ok dpl_error_t.DPL_TIMEOUT w3
        ∧ w3.inst.status.initialized = false
        ∧ w3.inst.spi_settings_baudrate = w.inst.spi_baudrate_low
        ∧ ∃ evs, w3.trace = w.trace ++ evs ∧ ∀ e ∈ evs, e.after_probe = false)
    ∧ ((dw3000_dev_config c w).value ≠ some dpl_error_t.DPL_TIMEOUT →
        (dw3000_dev_config c w).value = some dpl_error_t.DPL_OK
        ∧ (dw3000_dev_config c w).world.inst.status.initialized = true)
    ∧ (w1.inst.device_id = c.regs.DWT_DEVICE_ID →
        w1.inst.status.initialized = true
        ∧ dw3000_dev_config c w = dev_config_finish c w1)
    ∧ (w1.inst.device_id ≠ c.regs.DWT_DEVICE_ID → w2.inst.device_id = c.regs.DWT_DEVICE_ID →
        w2.inst.status.initialized = true
        ∧ dw3000_dev_config c w = dev_config_finish c w2)
    ∧ (w1.inst.device_id ≠ c.regs.DWT_DEVICE_ID → w2.inst.device_id ≠ c.regs.DWT_DEVICE_ID →
        w3.inst.device_id = c.regs.DWT_DEVICE_ID →
        w3.inst.status.initialized = true
        ∧ dw3000_dev_config c w = dev_config_finish c w3)
    ∧ w1.inst.device_id = devid_read c (w.trace ++ probe_events w.inst.spi_baudrate_low)
    ∧ w2.inst.device_id = devid_read c ((dw3000_dev_wakeup c w1).world.trace
        ++ probe_events (dw3000_dev_wakeup c w1).world.inst.spi_baudrate_low)
    ∧ w3.inst.device_id = devid_read c ((dw3000_dev_wakeup c w2).world.trace
        ++ probe_events (dw3000_dev_wakeup c w2).world.inst.spi_baudrate_low) := by
  have hcfg := dev_config_of_retry c w _ (dev_config_retry_eq c w w1 w2 w3 hv.1 hspi hr h1 h2 h3)
  obtain ⟨hb3, htr⟩ := dev_config_third_probe_frame c w w1 w2 w3 hv.1 hspi hr h1 h2 h3
  obtain ⟨_, i1, r1, _⟩ := dev_config_probe_facts c w hv.1.1 hspi
  obtain ⟨_, i2, r2, _⟩ := dev_config_probe_facts c (dw3000_dev_wakeup c w1).world hv.1.1 hspi
  obtain ⟨_, i3, r3, _⟩ := dev_config_probe_facts c (dw3000_dev_wakeup c w2).world hv.1.1 hspi
  rw [← h1] at i1 r1
  rw [← h2] at i2 r2
  rw [← h3] at i3 r3
  have fin := fun u => dev_config_finish_facts c u hv.2 hspi
  have ne : some dpl_error_t.DPL_OK ≠ some dpl_error_t.DPL_TIMEOUT := by decide
  by_cases d1 : w1.inst.device_id = c.regs.DWT_DEVICE_ID
  · have j1 : w1.inst.status.initialized = true := by rw [i1]; exact decide_eq_true d1
    have e : dw3000_dev_config c w = dev_config_finish c w1 := by
      rw [hcfg, if_pos j1, if_neg (by rw [j1]; decide)]
    obtain ⟨f1, f2, f3⟩ := fin w1
    rw [e, f2, f3]
    exact ⟨f1, ⟨fun h => absurd h ne, fun h => absurd d1 h.1⟩, fun h => absurd h ne,
      fun _ => ⟨rfl, j1⟩, fun _ => ⟨j1, rfl⟩, fun h => absurd d1 h, fun h => absurd d1 h,
      r1, r2, r3⟩
  · have j1 : ¬ w1.inst.status.initialized = true := by rw [i1]; simpa using d1
    by_cases d2 : w2.inst.device_id = c.regs.DWT_DEVICE_ID
    · have j2 : w2.inst.status.initialized = true := by rw [i2]; exact decide_eq_true d2
      have e : dw3000_dev_config c w = dev_config_finish c w2 := by
        rw [hcfg, if_neg j1, if_pos j2, if_neg (by rw [j2]; decide)]
      obtain ⟨f1, f2, f3⟩ := fin w2
      rw [e, f2, f3]
      exact ⟨f1, ⟨fun h => absurd h ne, fun h => absurd d2 h.2.1⟩, fun h => absurd h ne,
        fun _ => ⟨rfl, j2⟩, fun h => absurd h d1, fun _ _ => ⟨j2, rfl⟩,
        fun _ h => absurd d2 h, r1, r2, r3⟩
    · have j2 : ¬ w2.inst.status.initialized = true := by rw [i2]; simpa using d2
      by_cases d3 : w3.inst.device_id = c.regs.DWT_DEVICE_ID
      · have j3 : w3.inst.status.initialized = true := by rw [i3]; exact decide_eq_true d3
        have e : dw3000_dev_config c w = dev_config_finish c w3 := by
          rw [hcfg, if_neg j1, if_neg j2, if_neg (by rw [j3]; decide)]
        obtain ⟨f1, f2, f3⟩ := fin w3
        rw [e, f2, f3]
        exact ⟨f1, ⟨fun h => absurd h ne, fun h => absurd d3 h.2.2⟩, fun h => absurd h ne,
          fun _ => ⟨rfl, j3⟩, fun h => absurd h d1, fun _ h => absurd h d2,
          fun _ _ _ => ⟨j3, rfl⟩, r1, r2, r3⟩
      · have j3 : w3.inst.status.initialized = false := by rw [i3]; simpa using d3
        have e : dw3000_dev_config c w = Res.ok dpl_error_t.DPL_TIMEOUT w3 := by
          rw [hcfg, if_neg j1, if_neg j2, if_pos j3]
        rw [e]
        exact ⟨rfl, ⟨fun _ => ⟨d1, d2, d3⟩, fun _ => rfl⟩, fun _ => ⟨rfl, j3, hb3, htr⟩,
          fun h => absurd rfl h, fun h => absurd h d1, fun _ h => absurd h d2,
          fun _ _ h => absurd h d3, r1, r2, r3⟩

theorem example_regs_phy_init_ok : phy_init_regs_ok example_regs where
  pmsc_ctrl0 := by decide
  pmsc_ctrl0_hi := by decide
  pmsc_ctrl1 := by decide
  pmsc_softreset := by decide
  pmsc_ledc := by decide
  aon_wcfg := by decide
  aon_cfg0 := by decide
  aon_cfg1 := by decide
  aon_ctrl := by decide
  gpio_mode := by decide
  ec_ctrl := by decide
  otp_addr := by decide
  otp_ctrl := by decide
  otp_rdat := by decide
  otp_sf := by decide
  fs_xtalt := by decide
  lde_rxantd := by decide
  tx_antd := by decide
  tc_pgdelay := by decide
  tx_power := by decide
  sys_cfg := by decide

/-- Examples for C8: in the example setting, whose chip answers 0xDECA0130, the
first probe matches and the call returns DPL_OK with the instance initialised;
with a chip that answers nothing, the call returns DPL_TIMEOUT. -/
theorem dev_config_attempts_witness :
    ((dw3000_dev_config example_ctx example_world).value = some dpl_error_t.DPL_OK
      ∧ (dw3000_dev_config example_ctx example_world).world.inst.status.initialized = true)
    ∧ (dw3000_dev_config example_ctx_silent example_world).value
        = some dpl_error_t.DPL_TIMEOUT :=
  ⟨(dev_config_attempts example_ctx example_world _ _ _
      ⟨by decide, example_regs_phy_init_ok⟩ (fun _ => rfl) (fun _ => rfl) rfl rfl rfl).2.2.2.1
      (by decide),
   (dev_config_attempts example_ctx_silent example_world _ _ _
      ⟨by decide, example_regs_phy_init_ok⟩ (fun _ => rfl) (fun _ => rfl) rfl rfl rfl).2.1.2
      ⟨by decide, by decide, by decide⟩⟩

theorem ensures_bind {α β : Type} (m : M α) (f : α → M β) (Q : World → Prop)
    (h : ∀ a, ensures (f a) Q) : ensures (m >>= f) Q := by
  intro w b w' hb
  rw [M_bind_apply] at hb
  cases hm : m w with
  | fault _ => rw [hm] at hb; cases hb
  | ok a u => rw [hm] at hb; exact h a u b w' hb

theorem M_ite_apply {α : Type} (p : Prop) [Decidable p] (a b : M α) (w : World) :
    (if p then a else b) w = if p then a w else b w := by
  split <;> rfl

theorem res_ok_ite {α : Type} (p : Prop) [Decidable p] (a : α) (u v : World) :
    (if p then Res.ok a u else Res.ok a v) = Res.ok a (if p then u else v) := by
  split <;> rfl

theorem and_ffff_mod (x : Nat) : (x &&& 0xffff) % 2 ^ 16 = x % 2 ^ 16 := by
  have h : x &&& 0xffff = x % 2 ^ 16 := Nat.and_pow_two_sub_one_eq_mod x 16
  rw [h, Nat.mod_mod]

theorem dev_config_uid_chain (c : Ctx) (v : World) :
    (if c.hal_inst = some 0 then
      (if c.cfg.DW_DEVICE_ID_0 ≠ 0 then
        modify_inst (fun i => { i with uid := c.cfg.DW_DEVICE_ID_0 % 2 ^ 16 })
      else pure ())
    else if c.hal_inst = some 1 then
      (if c.cfg.DW_DEVICE_ID_1 ≠ 0 then
        modify_inst (fun i => { i with uid := c.cfg.DW_DEVICE_ID_1 % 2 ^ 16 })
      else pure ())
    else if c.hal_inst = some 2 then
      (if c.cfg.DW_DEVICE_ID_2 ≠ 0 then
        modify_inst (fun i => { i with uid := c.cfg.DW_DEVICE_ID_2 % 2 ^ 16 })
      else pure ())
    else pure ()) v
      = Res.ok () { v with inst := { v.inst with
          uid := if configured_device_id c ≠ 0 then configured_device_id c % 2 ^ 16
            else v.inst.uid } } := by
  unfold configured_device_id
  split_ifs <;> first | rfl | contradiction

theorem dev_config_uid_check (uid : Nat) (v : World) :
    (if uid = 0 ∨ uid = 0xFFFF then modify_inst (fun i => { i with uid := 0x1 }) else pure ()) v
      = Res.ok () { v with inst := { v.inst with
          uid := if uid = 0 ∨ uid = 0xFFFF then 1 else v.inst.uid } } := by
  split_ifs <;> rfl

theorem dev_config_finish_uid (c : Ctx) :
    ensures (dev_config_finish c) (fun w' =>
      w'.inst.uid = valid_address (derived_address c w'.inst.part_id)
      ∧ w'.trace.getLast? = some (Event.dw3000_set_address16 w'.inst.uid)) := by
  unfold dev_config_finish
  refine ensures_bind _ _ _ (fun _ => ?_)
  refine ensures_bind _ _ _ (fun _ => ?_)
  refine ensures_bind _ _ _ (fun _ => ?_)
  refine ensures_bind _ _ _ (fun _ => ?_)
  refine ensures_bind _ _ _ (fun _ => ?_)
  refine ensures_bind _ _ _ (fun _ => ?_)
  refine ensures_bind _ _ _ (fun _ => ?_)
  refine ensures_bind _ _ _ (fun _ => ?_)
  refine ensures_bind _ _ _ (fun _ => ?_)
  refine ensures_bind _ _ _ (fun _ => ?_)
  intro w a w' h
  simp only [M_bind_apply, dev_config_uid_chain, dev_config_uid_check] at h
  simp only [modify_inst, emit, get_inst, M_pure_apply] at h
  have hw := congrArg Res.world h
  simp only [Res.world] at hw
  subst hw
  clear h
  simp only [valid_address, derived_address, and_ffff_mod, List.getLast?_concat, and_true]

theorem dev_config_ok_finish (c : Ctx) (w w' : World)
    (h : dw3000_dev_config c w = Res.ok dpl_error_t.DPL_OK w') :
    ∃ u, dev_config_finish c u = Res.ok dpl_error_t.DPL_OK w' := by
  unfold dw3000_dev_config at h
  simp only [M_bind_apply, get_inst] at h
  cases hr : dev_config_retry c 3 w with
  | fault _ => rw [hr] at h; cases h
  | ok a u =>
    rw [hr] at h
    simp only [] at h
    by_cases hi : u.inst.status.initialized = false
    · rw [if_pos hi] at h
      cases h
    · rw [if_neg hi] at h
      exact ⟨u, h⟩

/-- C9: when `dw3000_dev_config` returns `DPL_OK`, the short address stored in
the instance is neither 0 nor 0xFFFF; it is 1 when the derived address (the
device id configured for the instance if that is set, otherwise the factory
part id, either one taken to 16 bits) is 0 or 0xFFFF, and the derived address
otherwise; and the last call made is `dw3000_set_address16` with this
address. -/
theorem dev_config_short_address (c : Ctx) (w w' : World)
    (h : dw3000_dev_config c w = Res.ok dpl_error_t.DPL_OK w') :
    w'.inst.uid ≠ 0 ∧ w'.inst.uid ≠ 0xFFFF
    ∧ (derived_address c w'.inst.part_id = 0 ∨ derived_address c w'.inst.part_id = 0xFFFF →
        w'.inst.uid = 1)
    ∧ (derived_address c w'.inst.part_id ≠ 0 → derived_address c w'.inst.part_id ≠ 0xFFFF →
        w'.inst.uid = derived_address c w'.inst.part_id)
    ∧ w'.trace.getLast? = some (Event.dw3000_set_address16 w'.inst.uid) := by
  obtain ⟨u, hu⟩ := dev_config_ok_finish c w w' h
  obtain ⟨h1, h2⟩ := dev_config_finish_uid c u _ w' hu
  refine ⟨?_, ?_, ?_, ?_, h2⟩
  · rw [h1, valid_address]; split_ifs with hd
    · decide
    · exact fun h0 => hd (Or.inl h0)
  · rw [h1, valid_address]; split_ifs with hd
    · decide
    · exact fun h0 => hd (Or.inr h0)
  · intro hd
    rw [h1, valid_address, if_pos hd]
  · intro hd0 hd1
    rw [h1, valid_address, if_neg (fun hd => hd.elim hd0 hd1)]

/-- Examples for C9: in the example setting no device id is configured and the
part id read is 0xDECA0130, so the short address is 0x0130; with the device id
0xFFFF configured, the short address is 1. -/
theorem dev_config_short_address_witness :
    (derived_address example_ctx
        (dw3000_dev_config example_ctx example_world).world.inst.part_id = 0x0130
      ∧ (dw3000_dev_config example_ctx example_world).world.inst.uid = 0x0130)
    ∧ (dw3000_dev_config example_ctx_broadcast_id example_world).world.inst.uid = 1 :=
  ⟨⟨by decide,
    (dev_config_short_address example_ctx example_world _ rfl).2.2.2.1
      (by decide) (by decide)⟩,
   (dev_config_short_address example_ctx_broadcast_id example_world _ rfl).2.2.1
      (Or.inr (by decide))⟩

theorem to_uint8_natCast (n : Nat) : to_uint8 (n : Int) = n % 256 := by
  unfold to_uint8
  omega

theorem to_uint16_natCast (n : Nat) : to_uint16 (n : Int) = n % 65536 := by
  unfold to_uint16
  omega

theorem and_fffff_small (n : Nat) (h : n < 2 ^ 20) : 0xFFFFF &&& n = n := by
  have h1 : (0xFFFFF : Nat) = 2 ^ 20 - 1 := by norm_num
  rw [h1, Nat.and_comm, Nat.and_pow_two_sub_one_eq_mod, Nat.mod_eq_of_lt h]

theorem dw3000_power_valuef_eq {F : Type} (ops : float32_ops F) (COARSE : Nat) (fine : F)
    (k : Nat) (hk : ops.DPL_FLOAT32_INT (ops.DPL_FLOAT32_MUL fine ops.DPL_FLOAT32_INIT_2) = k) :
    to_uint8 (dw3000_power_valuef ops (COARSE : Int) fine) = (COARSE <<< 5 + k % 65536) % 256 := by
  unfold dw3000_power_valuef
  rw [hk, to_uint16_natCast, and_fffff_small _ (lt_of_lt_of_le (Nat.mod_lt _ (by norm_num))
    (by norm_num)), Nat.shiftLeft_eq]
  have h : ((COARSE : Int) * 2 ^ 5 + ((k % 65536 : Nat) : Int))
      = ((COARSE * 2 ^ 5 + k % 65536 : Nat) : Int) := by push_cast; ring
  rw [h, to_uint8_natCast]

theorem txrf_power_value_accepted {F : Type} (ops : float32_ops F) (b : Nat) (coarse fine : F)
    (idx k : Nat) (hc : coarse_index (ops.DPL_FLOAT32_INT coarse) = some idx)
    (hf0 : 0 ≤ ops.DPL_FLOAT32_INT fine) (hf32 : ops.DPL_FLOAT32_INT fine ≤ 32)
    (hk : ops.DPL_FLOAT32_INT (ops.DPL_FLOAT32_MUL fine ops.DPL_FLOAT32_INIT_2) = k) :
    dw3000_phy_txrf_power_value ops (some b) coarse fine
      = (true, some ((idx <<< 5 + k % 65536) % 256)) := by
  have hfine : ¬ (ops.DPL_FLOAT32_INT fine < 0 ∨ ops.DPL_FLOAT32_INT fine > 32) := by omega
  unfold coarse_index at hc
  unfold dw3000_phy_txrf_power_value
  simp only [hfine, if_false]
  split_ifs at hc with h18 h15 h12 h9 h6 h3 h0 <;> injection hc with hc <;> subst hc
  · rw [if_pos h18]
    exact congrArg (fun x => (true, some x)) (dw3000_power_valuef_eq ops 0 fine k hk)
  · rw [if_neg h18, if_pos h15]
    exact congrArg (fun x => (true, some x)) (dw3000_power_valuef_eq ops 1 fine k hk)
  · rw [if_neg h18, if_neg h15, if_pos h12]
    exact congrArg (fun x => (true, some x)) (dw3000_power_valuef_eq ops 2 fine k hk)
  · rw [if_neg h18, if_neg h15, if_neg h12, if_pos h9]
    exact congrArg (fun x => (true, some x)) (dw3000_power_valuef_eq ops 3 fine k hk)
  · rw [if_neg h18, if_neg h15, if_neg h12, if_neg h9, if_pos h6]
    exact congrArg (fun x => (true, some x)) (dw3000_power_valuef_eq ops 4 fine k hk)
  · rw [if_neg h18, if_neg h15, if_neg h12, if_neg h9, if_neg h6, if_pos h3]
    exact congrArg (fun x => (true, some x)) (dw3000_power_valuef_eq ops 5 fine k hk)
  · rw [if_neg h18, if_neg h15, if_neg h12, if_neg h9, if_neg h6, if_neg h3, if_pos h0]
    exact congrArg (fun x => (true, some x)) (dw3000_power_valuef_eq ops 6 fine k hk)

/-- C11 (amended): for a non-null target, a coarse level with index `idx` in
18, 15, 12, 9, 6, 3, 0 dB and a fine trim accepted by the range check whose
double converts to the integer `k` in 0..64 (a trim of `k` half-dB steps),
`dw3000_phy_txrf_power_value` returns true and stores the byte
`((idx << 5) + k) mod 256`. This is `(idx << 5) + k` itself in every case but
0 dB with 32.0 dB of trim (`idx = 6`, `k = 64`), where the sum is 256 and the
byte stored is 0. -/
theorem txrf_power_value_byte {F : Type} (ops : float32_ops F) (b : Nat) (coarse fine : F)
    (idx k : Nat) (hc : coarse_index (ops.DPL_FLOAT32_INT coarse) = some idx)
    (hf0 : 0 ≤ ops.DPL_FLOAT32_INT fine) (hf32 : ops.DPL_FLOAT32_INT fine ≤ 32)
    (hk : ops.DPL_FLOAT32_INT (ops.DPL_FLOAT32_MUL fine ops.DPL_FLOAT32_INIT_2) = k)
    (hk64 : k ≤ 64) :
    dw3000_phy_txrf_power_value ops (some b) coarse fine
      = (true, some ((idx <<< 5 + k) % 256))
    ∧ (¬ (idx = 6 ∧ k = 64) → (idx <<< 5 + k) % 256 = idx <<< 5 + k)
    ∧ (idx = 6 ∧ k = 64 → (idx <<< 5 + k) % 256 = 0) := by
  have hidx : idx ≤ 6 := by
    unfold coarse_index at hc
    split_ifs at hc <;> injection hc with hc <;> omega
  have hmod : k % 65536 = k := Nat.mod_eq_of_lt (by omega)
  refine ⟨?_, ?_, ?_⟩
  · rw [txrf_power_value_accepted ops b coarse fine idx k hc hf0 hf32 hk, hmod]
  · intro h
    rw [Nat.shiftLeft_eq]
    apply Nat.mod_eq_of_lt
    omega
  · rintro ⟨h6, h64⟩
    subst h6 h64
    rfl

/-- Example for C11: 18 dB with 16.0 dB of trim stores 32. -/
theorem txrf_power_value_byte_witness :
    dw3000_phy_txrf_power_value exact_float_ops (some 7) ⟨18, 0⟩ (half_steps 32)
      = (true, some 32) :=
  (txrf_power_value_byte exact_float_ops 7 ⟨18, 0⟩ (half_steps 32) 0 32 rfl (by decide)
    (by decide) rfl (by decide)).1

/-- C11 as stated fails: 0 dB (index 6) with 32.0 dB of trim is accepted, and
the byte stored is 0, not `(6 << 5) + 2 * 32 = 256`. -/
theorem txrf_power_value_byte_wraps :
    dw3000_phy_txrf_power_value exact_float_ops (some 7) ⟨0, 0⟩ (half_steps 64)
      = (true, some 0)
    ∧ (dw3000_phy_txrf_power_value exact_float_ops (some 7) ⟨0, 0⟩ (half_steps 64)).2
      ≠ some ((6 <<< 5) + 2 * 32) := by
  decide

/-- C12 (amended): `dw3000_phy_txrf_power_value` returns false and leaves the
target as it was whenever the fine trim converts to an integer below 0 or above
32, and whenever the coarse level converts to an integer that is not one of 18,
15, 12, 9, 6, 3, 0; it returns true for a non-null target when the coarse level
converts to one of these and the fine trim to an integer in 0..32. Whenever it
returns false the target is as it was. -/
theorem txrf_power_value_accepts {F : Type} (ops : float32_ops F) (reg : Option Nat)
    (coarse fine : F) :
    (ops.DPL_FLOAT32_INT fine < 0 ∨ 32 < ops.DPL_FLOAT32_INT fine →
      dw3000_phy_txrf_power_value ops reg coarse fine = (false, reg))
    ∧ (coarse_index (ops.DPL_FLOAT32_INT coarse) = none →
      dw3000_phy_txrf_power_value ops reg coarse fine = (false, reg))
    ∧ (reg ≠ none → coarse_index (ops.DPL_FLOAT32_INT coarse) ≠ none →
        0 ≤ ops.DPL_FLOAT32_INT fine → ops.DPL_FLOAT32_INT fine ≤ 32 →
      (dw3000_phy_txrf_power_value ops reg coarse fine).1 = true)
    ∧ ((dw3000_phy_txrf_power_value ops reg coarse fine).1 = false →
      (dw3000_phy_txrf_power_value ops reg coarse fine).2 = reg) := by
  cases reg with
  | none => exact ⟨fun _ => rfl, fun _ => rfl, fun h => absurd rfl h, fun _ => rfl⟩
  | some b =>
    refine ⟨?_, ?_, ?_, ?_⟩
    · intro h
      unfold dw3000_phy_txrf_power_value
      simp only [gt_iff_lt, h, if_true]
    · intro h
      unfold coarse_index at h
      unfold dw3000_phy_txrf_power_value
      split_ifs at h with h18 h15 h12 h9 h6 h3 h0
      simp only [h18, h15, h12, h9, h6, h3, h0, if_false, ite_self]
    · intro _ hc hf0 hf32
      have hfine : ¬ (ops.DPL_FLOAT32_INT fine < 0 ∨ ops.DPL_FLOAT32_INT fine > 32) := by omega
      unfold coarse_index at hc
      unfold dw3000_phy_txrf_power_value
      simp only [hfine, if_false]
      split_ifs at hc ⊢ <;> first | rfl | exact absurd rfl hc
    · intro h
      unfold dw3000_phy_txrf_power_value at h ⊢
      simp only [] at h ⊢
      split_ifs at h ⊢ <;> rfl

/-- Examples for C12: a trim of 33.0 dB is refused at 18 dB and the target
keeps its byte; 17 dB is refused; 18 dB with 16.0 dB of trim is accepted. -/
theorem txrf_power_value_accepts_witness :
    dw3000_phy_txrf_power_value exact_float_ops (some 7) ⟨18, 0⟩ (half_steps 66)
      = (false, some 7)
    ∧ dw3000_phy_txrf_power_value exact_float_ops (some 7) ⟨17, 0⟩ (half_steps 32)
      = (false, some 7)
    ∧ (dw3000_phy_txrf_power_value exact_float_ops (some 7) ⟨18, 0⟩ (half_steps 32)).1 = true :=
  ⟨(txrf_power_value_accepts exact_float_ops (some 7) ⟨18, 0⟩ (half_steps 66)).1
      (Or.inr (by decide)),
   (txrf_power_value_accepts exact_float_ops (some 7) ⟨17, 0⟩ (half_steps 32)).2.1 rfl,
   (txrf_power_value_accepts exact_float_ops (some 7) ⟨18, 0⟩ (half_steps 32)).2.2.1
      (by decide) (by decide) (by decide) (by decide)⟩

/-- C12 as stated fails: a fine trim of 32.5 dB lies outside the range 0 to 32,
yet with 18 dB the call returns true and overwrites the target with 65. -/
theorem txrf_power_value_accepts_fraction :
    half_steps 65 = (⟨65, 1⟩ : dyadic)
    ∧ dw3000_phy_txrf_power_value exact_float_ops (some 7) ⟨18, 0⟩ (half_steps 65)
      = (true, some 65)
    ∧ ¬ ((dw3000_phy_txrf_power_value exact_float_ops (some 7) ⟨18, 0⟩ (half_steps 65)).1 = false
        ∧ (dw3000_phy_txrf_power_value exact_float_ops (some 7) ⟨18, 0⟩ (half_steps 65)).2
          = some 7) := by
  decide

theorem to_uint16_lt (x : Int) : to_uint16 x < 2 ^ 16 := by
  unfold to_uint16
  omega

/-- C13 (amended): `dw3000_phy_frame_duration(attrib, n)` is the sum of
`dw3000_phy_SHR_duration(attrib)` and `dw3000_phy_data_duration(attrib, n)`
reduced modulo 65536, the three results being `uint16_t`; it is the sum itself
whenever the sum is below 65536. Each of the three is a function of its
arguments alone: equal inputs give equal results. -/
theorem frame_duration_sum {F : Type} (ops : float32_ops F) (attrib : uwb_phy_attributes F)
    (nlen : Nat) :
    dw3000_phy_frame_duration ops attrib nlen
      = (dw3000_phy_SHR_duration ops attrib + dw3000_phy_data_duration ops attrib nlen) % 2 ^ 16
    ∧ dw3000_phy_SHR_duration ops attrib < 2 ^ 16
    ∧ dw3000_phy_data_duration ops attrib nlen < 2 ^ 16
    ∧ (dw3000_phy_SHR_duration ops attrib + dw3000_phy_data_duration ops attrib nlen < 2 ^ 16 →
        dw3000_phy_frame_duration ops attrib nlen
          = dw3000_phy_SHR_duration ops attrib + dw3000_phy_data_duration ops attrib nlen)
    ∧ (∀ (attrib' : uwb_phy_attributes F) (nlen' : Nat), attrib' = attrib → nlen' = nlen →
        dw3000_phy_SHR_duration ops attrib' = dw3000_phy_SHR_duration ops attrib
        ∧ dw3000_phy_data_duration ops attrib' nlen' = dw3000_phy_data_duration ops attrib nlen
        ∧ dw3000_phy_frame_duration ops attrib' nlen'
          = dw3000_phy_frame_duration ops attrib nlen) := by
  refine ⟨rfl, to_uint16_lt _, to_uint16_lt _, fun h => Nat.mod_eq_of_lt h, ?_⟩
  intro attrib' nlen' ha hn
  subst ha hn
  exact ⟨rfl, rfl, rfl⟩

/-- Example for C13: with the example attributes and a 100-byte payload the SHR
lasts 4160 us, the data part 981 us and the frame 5141 us. -/
theorem frame_duration_sum_witness :
    dw3000_phy_SHR_duration exact_float_ops example_attrib = 4160
    ∧ dw3000_phy_data_duration exact_float_ops example_attrib 100 = 981
    ∧ dw3000_phy_frame_duration exact_float_ops example_attrib 100 = 4160 + 981 :=
  ⟨by decide, by decide,
   ((frame_duration_sum exact_float_ops example_attrib 100).2.2.2.1 (by decide)).trans
     (by decide)⟩

/-- C13 as stated fails: with the example attributes and a payload length of
6798 the SHR lasts 4160 and the data part 62341, whose sum is 66501, and the
frame duration returned is 965. -/
theorem frame_duration_sum_wraps :
    dw3000_phy_SHR_duration exact_float_ops example_attrib = 4160
    ∧ dw3000_phy_data_duration exact_float_ops example_attrib 6798 = 62341
    ∧ dw3000_phy_frame_duration exact_float_ops example_attrib 6798 = 965
    ∧ dw3000_phy_frame_duration exact_float_ops example_attrib 6798
      ≠ dw3000_phy_SHR_duration exact_float_ops example_attrib
        + dw3000_phy_data_duration exact_float_ops example_attrib 6798 := by
  decide

theorem wrap_int32_of_range (x : Int) (h0 : -2 ^ 31 ≤ x) (h1 : x < 2 ^ 31) : wrap_int32 x = x := by
  unfold wrap_int32
  omega

theorem data_duration_parity_data_bits_eq (n : Nat) (hn : n ≤ 65535) :
    data_duration_parity_data_bits n = 48 + 48 * ((8 * ((n : Int) + 2)) / 330) := by
  unfold data_duration_parity_data_bits
  have hmod : n % 2 ^ 16 = n := Nat.mod_eq_of_lt (by omega)
  rw [hmod]
  have h1 : wrap_int32 ((n : Int) + 2) = (n : Int) + 2 := wrap_int32_of_range _ (by omega) (by omega)
  rw [h1]
  have h2 : wrap_int32 (8 * ((n : Int) + 2)) = 8 * ((n : Int) + 2) :=
    wrap_int32_of_range _ (by omega) (by omega)
  rw [h2, Int.tdiv_eq_ediv (by omega) (by norm_num)]
  have h3 : wrap_int32 (8 * ((n : Int) + 2) / 330 * 48) = 8 * ((n : Int) + 2) / 330 * 48 :=
    wrap_int32_of_range _ (by omega) (by omega)
  rw [h3, wrap_int32_of_range _ (by omega) (by omega)]
  ring

theorem data_duration_total_payload_bits_eq (n : Nat) (hn : n ≤ 65535) :
    data_duration_total_payload_bits n
      = 8 * ((n : Int) + 2) + data_duration_parity_data_bits n := by
  unfold data_duration_total_payload_bits
  have hmod : n % 2 ^ 16 = n := Nat.mod_eq_of_lt (by omega)
  rw [hmod]
  have h1 : wrap_int32 ((n : Int) + 2) = (n : Int) + 2 := wrap_int32_of_range _ (by omega) (by omega)
  rw [h1]
  have h2 : wrap_int32 (8 * ((n : Int) + 2)) = 8 * ((n : Int) + 2) :=
    wrap_int32_of_range _ (by omega) (by omega)
  rw [h2, data_duration_parity_data_bits_eq n hn]
  exact wrap_int32_of_range _ (by omega) (by omega)

/-- C14: for every payload length `n` in 0..65535 the 32-bit signed arithmetic
of `dw3000_phy_data_duration` does not wrap: `parity_data_bits` is
`48 + 48 * floor(8 * (n + 2) / 330)` and `total_payload_bits` is
`8 * (n + 2) + parity_data_bits`, below `2 ^ 31`. For `n = 0` the total is 64;
`parity_data_bits` is 48 while `8 * (n + 2) < 330`, which holds exactly for
`n < 40`, and is 96 at `n = 40`; from `n` to `n + 1` it stays or grows by 48,
and it never decreases as `n` grows. -/
theorem data_duration_payload_bits (n : Nat) (hn : n ≤ 65535) :
    data_duration_parity_data_bits n = 48 + 48 * ((8 * ((n : Int) + 2)) / 330)
    ∧ data_duration_total_payload_bits n
        = 8 * ((n : Int) + 2) + data_duration_parity_data_bits n
    ∧ 0 ≤ data_duration_total_payload_bits n
    ∧ data_duration_total_payload_bits n < 2 ^ 31
    ∧ data_duration_total_payload_bits 0 = 16 + 48
    ∧ (8 * (n + 2) < 330 → data_duration_parity_data_bits n = 48)
    ∧ (8 * (n + 2) < 330 ↔ n < 40)
    ∧ data_duration_parity_data_bits 40 = 96
    ∧ (n < 65535 →
        data_duration_parity_data_bits (n + 1) = data_duration_parity_data_bits n
        ∨ data_duration_parity_data_bits (n + 1) = data_duration_parity_data_bits n + 48)
    ∧ (∀ m, m ≤ n → data_duration_parity_data_bits m ≤ data_duration_parity_data_bits n) := by
  have hp := data_duration_parity_data_bits_eq n hn
  have ht := data_duration_total_payload_bits_eq n hn
  refine ⟨hp, ht, ?_, ?_, by decide, ?_, by omega, by decide, ?_, ?_⟩
  · rw [ht, hp]; omega
  · rw [ht, hp]; omega
  · intro h; rw [hp]; omega
  · intro h
    rw [data_duration_parity_data_bits_eq (n + 1) (by omega), hp]
    push_cast
    omega
  · intro m hm
    rw [data_duration_parity_data_bits_eq m (by omega), hp]
    omega

/-- Examples for C14: an empty payload gives 64 bits in total; at `n = 39` the
parity is 48 and at `n = 40` it is 96, the total being 432. -/
theorem data_duration_payload_bits_witness :
    data_duration_total_payload_bits 0 = 64
    ∧ data_duration_parity_data_bits 39 = 48
    ∧ data_duration_parity_data_bits 40 = 96
    ∧ data_duration_total_payload_bits 40 = 432 :=
  ⟨(data_duration_payload_bits 40 (by decide)).2.2.2.2.1,
   (data_duration_payload_bits 39 (by decide)).2.2.2.2.2.1 (by decide),
   (data_duration_payload_bits 40 (by decide)).2.2.2.2.2.2.2.1,
   ((data_duration_payload_bits 40 (by decide)).2.1).trans (by decide)⟩

theorem le_value_lt (l : List Nat) (h : ∀ b ∈ l, b < 256) : le_value l < 256 ^ l.length := by
  induction l with
  | nil => simp [le_value]
  | cons b bs ih =>
    have hb : b < 256 := h b (List.mem_cons_self _ _)
    have hbs := ih (fun x hx => h x (List.mem_cons_of_mem _ hx))
    rw [le_value, List.length_cons, pow_succ]
    omega

theorem rx_bytes_lt (n : Nat) (resp : List Nat) : ∀ b ∈ rx_bytes n resp, b < 256 := by
  intro b hb
  unfold rx_bytes at hb
  simp only [List.mem_map, List.mem_range] at hb
  obtain ⟨i, _, rfl⟩ := hb
  exact Nat.mod_lt _ (by norm_num)

theorem evc_raw_lt (c : Ctx) (t : List Event) (i : Nat) : evc_raw c t i < 2 ^ 32 := by
  unfold evc_raw buffer_word read_reg_data
  have h := le_value_lt ((List.drop (4 * i) (rx_bytes 24 (c.env.spi_rx t
      (tx_header 0 c.regs.DIG_DIAG_ID c.regs.EVC_PHE_OFFSET) 24))).take 4)
    (fun b hb => rx_bytes_lt _ _ b (List.mem_of_mem_drop (List.mem_of_mem_take hb)))
  have hl : ((List.drop (4 * i) (rx_bytes 24 (c.env.spi_rx t
      (tx_header 0 c.regs.DIG_DIAG_ID c.regs.EVC_PHE_OFFSET) 24))).take 4).length ≤ 4 :=
    List.length_take_le _ _
  calc _ < 256 ^ _ := h
    _ ≤ 256 ^ 4 := Nat.pow_le_pow_right (by norm_num) hl
    _ = 2 ^ 32 := by norm_num

theorem and_mod_two_pow_32 (x m : Nat) (hx : x < 2 ^ 32) : x &&& (m % 2 ^ 32) = x &&& m := by
  apply Nat.eq_of_testBit_eq
  intro j
  rw [Nat.testBit_and, Nat.testBit_and, Nat.testBit_mod_two_pow]
  by_cases hj : j < 32
  · simp [hj]
  · have hxj : x.testBit j = false :=
      Nat.testBit_eq_false_of_lt (lt_of_lt_of_le hx (Nat.pow_le_pow_right (by norm_num) (by omega)))
    simp [hxj]

/-- C15: with a non-null result and the burst read passing the transport
assertions, `dw3000_phy_event_cnt_read` issues one read of 24 bytes at the
first counter register and returns the status snapshot; each of
`event_count0` .. `event_count5` is then the raw 32-bit register content ANDed
with `(high-field mask << 16) | low-field mask` of that register, whatever the
chip answered, so every bit set in it is a bit of that mask. With a null
result the call returns the status snapshot and leaves the state, trace
included, as it was. -/
theorem event_cnt_read_masks (c : Ctx) (w : World) (res : uwb_dev_evcnt)
    (hv : valid_access c.regs.DIG_DIAG_ID c.regs.EVC_PHE_OFFSET 24) :
    dw3000_phy_event_cnt_read c (some res) w
      = Res.ok (w.inst.status, some
          { event_count0 := evc_raw c w.trace 0
              &&& evc_mask c.regs.EVC_RSE_MASK c.regs.EVC_PHE_MASK
            event_count1 := evc_raw c w.trace 1
              &&& evc_mask c.regs.EVC_FCE_MASK c.regs.EVC_FCG_MASK
            event_count2 := evc_raw c w.trace 2
              &&& evc_mask c.regs.EVC_OVR_MASK c.regs.EVC_FFR_MASK
            event_count3 := evc_raw c w.trace 3
              &&& evc_mask c.regs.EVC_PTO_MASK c.regs.EVC_STO_MASK
            event_count4 := evc_raw c w.trace 4
              &&& evc_mask c.regs.EVC_TXFS_MASK c.regs.EVC_FWTO_MASK
            event_count5 := evc_raw c w.trace 5
              &&& evc_mask c.regs.EVC_TPW_MASK c.regs.EVC_HPW_MASK })
          { w with trace := w.trace ++ [read_event c w.trace
              w.inst.config.blocking_spi_transfers c.regs.DIG_DIAG_ID c.regs.EVC_PHE_OFFSET 24] }
    ∧ (∀ i, evc_raw c w.trace i < 2 ^ 32)
    ∧ (∀ raw high low j, (raw &&& evc_mask high low).testBit j = true →
        (evc_mask high low).testBit j = true)
    ∧ dw3000_phy_event_cnt_read c none w = Res.ok (w.inst.status, none) w := by
  refine ⟨?_, evc_raw_lt c w.trace, ?_, rfl⟩
  · unfold dw3000_phy_event_cnt_read
    simp only [M_bind_apply, dw3000_read_eq _ _ _ _ _ hv, get_inst, M_pure_apply]
    simp only [← evc_raw.eq_1, evc_mask, and_mod_two_pow_32 _ _ (evc_raw_lt c w.trace _)]
  · intro raw high low j h
    rw [Nat.testBit_and] at h
    exact (Bool.and_eq_true _ _ ▸ h).2

/-- Example for C15: when the chip answers 0xFF for every byte, each counter
word read with the 12-bit field masks of the example register map is
0x0FFF0FFF, and the words held before the call are gone. -/
theorem event_cnt_read_masks_witness :
    (dw3000_phy_event_cnt_read example_ctx_ones (some example_evcnt) example_world).value
      = some (example_inst.status, some
          { event_count0 := 0x0FFF0FFF, event_count1 := 0x0FFF0FFF, event_count2 := 0x0FFF0FFF,
            event_count3 := 0x0FFF0FFF, event_count4 := 0x0FFF0FFF,
            event_count5 := 0x0FFF0FFF }) :=
  (congrArg Res.value
    (event_cnt_read_masks example_ctx_ones example_world example_evcnt (by decide)).1).trans
    (by decide)

theorem dw3000_phy_sysclk_XTAL_eq (c : Ctx) (w : World)
    (hv : valid_access c.regs.PMSC_ID c.regs.PMSC_CTRL0_OFFSET 1) :
    dw3000_phy_sysclk_XTAL c w
      = Res.ok () { w with trace := (w.trace ++ sysclk_events c
          w.inst.config.blocking_spi_transfers w.trace (sysclk_XTAL_value c.regs)) } := by
  have h1 : (1 : Nat) ≤ 8 := by decide
  unfold dw3000_phy_sysclk_XTAL sysclk_events sysclk_XTAL_value pmsc_ctrl0_read
  simp only [M_bind_apply, dw3000_read_reg_eq _ _ _ _ _ h1 hv, dw3000_write_reg_eq _ _ _ _ _ _ h1 hv,
    List.append_assoc]

theorem dw3000_phy_sysclk_PLL_eq (c : Ctx) (w : World)
    (hv : valid_access c.regs.PMSC_ID c.regs.PMSC_CTRL0_OFFSET 1) :
    dw3000_phy_sysclk_PLL c w
      = Res.ok () { w with trace := (w.trace ++ sysclk_events c
          w.inst.config.blocking_spi_transfers w.trace (sysclk_PLL_value c.regs)) } := by
  have h1 : (1 : Nat) ≤ 8 := by decide
  unfold dw3000_phy_sysclk_PLL sysclk_events sysclk_PLL_value pmsc_ctrl0_read
  simp only [M_bind_apply, dw3000_read_reg_eq _ _ _ _ _ h1 hv, dw3000_write_reg_eq _ _ _ _ _ _ h1 hv,
    List.append_assoc]

theorem dw3000_phy_sysclk_SEQ_eq (c : Ctx) (w : World)
    (hv : valid_access c.regs.PMSC_ID c.regs.PMSC_CTRL0_OFFSET 1) :
    dw3000_phy_sysclk_SEQ c w
      = Res.ok () { w with trace := (w.trace ++ sysclk_events c
          w.inst.config.blocking_spi_transfers w.trace (sysclk_SEQ_value c.regs)) } := by
  have h1 : (1 : Nat) ≤ 8 := by decide
  unfold dw3000_phy_sysclk_SEQ sysclk_events sysclk_SEQ_value pmsc_ctrl0_read
  simp only [M_bind_apply, dw3000_read_reg_eq _ _ _ _ _ h1 hv, dw3000_write_reg_eq _ _ _ _ _ _ h1 hv,
    List.append_assoc]

theorem dw3000_dev_configure_sleep_eq (c : Ctx) (w : World) (hv : configure_sleep_regs_ok c.regs) :
    dw3000_dev_configure_sleep c w
      = Res.ok ()
          { w with
            inst := { w.inst with
              status := { w.inst.status with sleep_enabled := w.inst.config.sleep_enable } }
            trace := (w.trace ++ (configure_sleep_wcfg_events c w.inst w.trace
              ++ configure_sleep_cfg0_events c w.inst
                  (w.trace ++ configure_sleep_wcfg_events c w.inst w.trace))) } := by
  have h2 : (2 : Nat) ≤ 8 := by decide
  unfold dw3000_dev_configure_sleep configure_sleep_wcfg_events configure_sleep_cfg0_events
    configure_sleep_wcfg configure_sleep_cfg0
  simp only [M_bind_apply, dw3000_read_reg_eq _ _ _ _ _ h2 hv.1,
    dw3000_read_reg_eq _ _ _ _ _ h2 hv.2.1, dw3000_write_reg_eq _ _ _ _ _ _ h2 hv.1,
    dw3000_write_reg_eq _ _ _ _ _ _ h2 hv.2.1, get_inst, modify_inst, List.append_assoc]

theorem testBit_ffff (j : Nat) : (0xFFFF : Nat).testBit j = decide (j < 16) := by
  have h : (0xFFFF : Nat) = 2 ^ 16 - 1 := by norm_num
  rw [h, Nat.testBit_two_pow_sub_one]

theorem testBit_u16_not (x j : Nat) :
    (u16_not x).testBit j = (decide (j < 16) && !x.testBit j) := by
  unfold u16_not
  rw [Nat.testBit_xor, testBit_ffff, Nat.testBit_mod_two_pow]
  cases decide (j < 16) <;> cases x.testBit j <;> rfl

theorem configure_sleep_wcfg_idem (k : dw3000_regs) (inst : dw3000_dev_instance_t) (r : Nat) :
    configure_sleep_wcfg k inst (configure_sleep_wcfg k inst r) = configure_sleep_wcfg k inst r := by
  apply Nat.eq_of_testBit_eq
  intro j
  unfold configure_sleep_wcfg
  cases inst.status.LDE_enabled <;> cases inst.status.LDO_enabled <;>
    cases inst.config.wakeup_rx_enable <;>
    simp only [Bool.false_eq_true, if_false, if_true, Nat.testBit_and, Nat.testBit_or,
      Nat.testBit_mod_two_pow, testBit_u16_not] <;>
    cases decide (j < 16) <;> cases r.testBit j <;> cases k.AON_WCFG_ONW_L64P.testBit j <;>
    cases k.AON_WCFG_ONW_LDC.testBit j <;> cases k.AON_WCFG_ONW_LLDE.testBit j <;>
    cases k.AON_WCFG_ONW_LLDO.testBit j <;> cases k.AON_WCFG_ONW_RX.testBit j <;> rfl

theorem configure_sleep_cfg0_idem (k : dw3000_regs) (inst : dw3000_dev_instance_t) (r : Nat) :
    configure_sleep_cfg0 k inst (configure_sleep_cfg0 k inst r) = configure_sleep_cfg0 k inst r := by
  apply Nat.eq_of_testBit_eq
  intro j
  unfold configure_sleep_cfg0
  cases inst.config.sleep_enable <;>
    simp only [Bool.false_eq_true, if_false, if_true, Nat.testBit_and, Nat.testBit_or,
      Nat.testBit_mod_two_pow, testBit_u16_not] <;>
    cases decide (j < 16) <;> cases r.testBit j <;> cases k.AON_CFG0_WAKE_SPI.testBit j <;>
    cases k.AON_CFG0_WAKE_PIN.testBit j <;> cases k.AON_CFG0_WAKE_CNT.testBit j <;>
    cases k.AON_CFG0_SLEEP_EN.testBit j <;> rfl

theorem configure_sleep_wcfg_lt (k : dw3000_regs) (inst : dw3000_dev_instance_t) (r : Nat) :
    configure_sleep_wcfg k inst r < 2 ^ 16 := by
  apply Nat.lt_pow_two_of_testBit
  intro j hj
  have hj16 : decide (j < 16) = false := decide_eq_false (by omega)
  unfold configure_sleep_wcfg
  cases inst.status.LDE_enabled <;> cases inst.status.LDO_enabled <;>
    cases inst.config.wakeup_rx_enable <;>
    simp only [Bool.false_eq_true, if_false, if_true, Nat.testBit_and, Nat.testBit_or,
      Nat.testBit_mod_two_pow, testBit_u16_not, hj16, Bool.false_and, Bool.and_false]

theorem configure_sleep_cfg0_lt (k : dw3000_regs) (inst : dw3000_dev_instance_t) (r : Nat) :
    configure_sleep_cfg0 k inst r < 2 ^ 16 := by
  apply Nat.lt_pow_two_of_testBit
  intro j hj
  have hj16 : decide (j < 16) = false := decide_eq_false (by omega)
  unfold configure_sleep_cfg0
  cases inst.config.sleep_enable <;>
    simp only [Bool.false_eq_true, if_false, if_true, Nat.testBit_and, Nat.testBit_or,
      Nat.testBit_mod_two_pow, testBit_u16_not, hj16, Bool.false_and, Bool.and_false]

theorem le_value_le_bytes_2 (v : Nat) (h : v < 2 ^ 16) : le_value (le_bytes v 2) = v := by
  simp only [le_bytes, List.range_succ, List.range_zero, List.nil_append, List.cons_append,
    List.map_cons, List.map_nil, le_value]
  omega

theorem last_write_append_some (header d : List Nat) (t u : List Event)
    (h : last_write header u = some d) : last_write header (t ++ u) = some d := by
  unfold last_write at h ⊢
  rw [reg_writes_append, List.filter_append]
  cases hl : ((reg_writes u).filter (fun x => decide (x.1 = header))).getLast? with
  | none => rw [hl] at h; cases h
  | some x =>
    rw [hl] at h
    have hne : (reg_writes u).filter (fun x => decide (x.1 = header)) ≠ [] := by
      intro hnil; rw [hnil] at hl; cases hl
    rw [List.getLast?_append_of_ne_nil _ hne, hl]
    exact h

theorem last_write_append_none (header : List Nat) (t u : List Event)
    (h : (reg_writes u).filter (fun x => decide (x.1 = header)) = []) :
    last_write header (t ++ u) = last_write header t := by
  unfold last_write
  rw [reg_writes_append, List.filter_append, h, List.append_nil]

theorem tx_header_subaddress_ne (op reg s1 s2 : Nat) (hreg : reg ≤ 0x3F) (h1 : s1 ≤ 0x7FFF)
    (h2 : s2 ≤ 0x7FFF) (hop : op ≤ 1) (hne : s1 ≠ s2) :
    tx_header op reg s1 ≠ tx_header op reg s2 := by
  intro heq
  have d1 := (tx_header_decode op reg s1 hreg h1 hop).2.2.2
  have d2 := (tx_header_decode op reg s2 hreg h2 hop).2.2.2
  rw [heq] at d1
  exact hne (d1.trans d2.symm)

theorem reg_writes_configure_sleep_wcfg_events (c : Ctx) (inst : dw3000_dev_instance_t)
    (t : List Event) :
    reg_writes (configure_sleep_wcfg_events c inst t)
      = [(tx_header 1 c.regs.AON_ID c.regs.AON_WCFG_OFFSET,
          le_bytes (configure_sleep_wcfg c.regs inst
            (le_value (read_reg_data c t c.regs.AON_ID c.regs.AON_WCFG_OFFSET 2))) 2)] := by
  unfold configure_sleep_wcfg_events
  rw [reg_writes_append, reg_writes_write_reg_events _ _ _ _ _ _ (by decide)]
  simp [reg_writes, reg_write_read_reg_event]

theorem reg_writes_configure_sleep_cfg0_events (c : Ctx) (inst : dw3000_dev_instance_t)
    (t : List Event) :
    reg_writes (configure_sleep_cfg0_events c inst t)
      = [(tx_header 1 c.regs.AON_ID c.regs.AON_CFG0_OFFSET,
          le_bytes (configure_sleep_cfg0 c.regs inst
            (le_value (read_reg_data c t c.regs.AON_ID c.regs.AON_CFG0_OFFSET 2))) 2)] := by
  unfold configure_sleep_cfg0_events
  rw [reg_writes_append, reg_writes_write_reg_events _ _ _ _ _ _ (by decide)]
  simp [reg_writes, reg_write_read_reg_event]

theorem last_write_configure_sleep (c : Ctx) (inst : dw3000_dev_instance_t) (t : List Event)
    (hv : configure_sleep_regs_ok c.regs) :
    last_write (tx_header 1 c.regs.AON_ID c.regs.AON_WCFG_OFFSET)
        (t ++ (configure_sleep_wcfg_events c inst t
          ++ configure_sleep_cfg0_events c inst (t ++ configure_sleep_wcfg_events c inst t)))
      = some (le_bytes (configure_sleep_wcfg c.regs inst
          (le_value (read_reg_data c t c.regs.AON_ID c.regs.AON_WCFG_OFFSET 2))) 2)
    ∧ last_write (tx_header 1 c.regs.AON_ID c.regs.AON_CFG0_OFFSET)
        (t ++ (configure_sleep_wcfg_events c inst t
          ++ configure_sleep_cfg0_events c inst (t ++ configure_sleep_wcfg_events c inst t)))
      = some (le_bytes (configure_sleep_cfg0 c.regs inst
          (le_value (read_reg_data c (t ++ configure_sleep_wcfg_events c inst t)
            c.regs.AON_ID c.regs.AON_CFG0_OFFSET 2))) 2)
    ∧ last_write (tx_header 1 c.regs.AON_ID c.regs.AON_CFG0_OFFSET)
        (t ++ configure_sleep_wcfg_events c inst t)
      = last_write (tx_header 1 c.regs.AON_ID c.regs.AON_CFG0_OFFSET) t := by
  obtain ⟨⟨hreg, hw⟩, ⟨_, hc⟩, hne⟩ := hv
  have hdr := tx_header_subaddress_ne 1 c.regs.AON_ID c.regs.AON_WCFG_OFFSET
    c.regs.AON_CFG0_OFFSET hreg (by omega) (by omega) (by decide) hne
  refine ⟨?_, ?_, ?_⟩
  · rw [← List.append_assoc]
    rw [last_write_append_none _ _ _ (by
      rw [reg_writes_configure_sleep_cfg0_events]
      simp [Ne.symm hdr])]
    exact last_write_append_some _ _ _ _
      (last_write_of_writes_end _ _ _ [] (reg_writes_configure_sleep_wcfg_events c inst t))
  · rw [← List.append_assoc]
    exact last_write_append_some _ _ _ _
      (last_write_of_writes_end _ _ _ [] (reg_writes_configure_sleep_cfg0_events c inst _))
  · exact last_write_append_none _ _ _ (by
      rw [reg_writes_configure_sleep_wcfg_events]
      simp [hdr])

/-- C16: let `w1` be the state after one call of `dw3000_dev_configure_sleep`
and `w2` the state after a second call made from `w1`, on a chip that for the
two reads of the second call answers with the payload last written to the
register read (`AON_WCFG`, then `AON_CFG0`). Both calls return; after the first
call each of the two registers has a last written value, after the second call
the last value written to each register is the same as after the first, and
the status flags, `sleep_enabled` among them, are the same; `sleep_enabled` is
the configured `sleep_enable`. -/
theorem configure_sleep_idempotent (c : Ctx) (w w1 w2 : World)
    (hv : configure_sleep_regs_ok c.regs)
    (h1 : w1 = (dw3000_dev_configure_sleep c w).world)
    (h2 : w2 = (dw3000_dev_configure_sleep c w1).world)
    (hb1 : reads_back c w1.trace c.regs.AON_ID c.regs.AON_WCFG_OFFSET 2)
    (hb2 : reads_back c (w1.trace ++ configure_sleep_wcfg_events c w1.inst w1.trace)
      c.regs.AON_ID c.regs.AON_CFG0_OFFSET 2) :
    (dw3000_dev_configure_sleep c w).isFault = false
    ∧ (dw3000_dev_configure_sleep c w1).isFault = false
    ∧ (last_write (tx_header 1 c.regs.AON_ID c.regs.AON_WCFG_OFFSET) w1.trace).isSome = true
    ∧ (last_write (tx_header 1 c.regs.AON_ID c.regs.AON_CFG0_OFFSET) w1.trace).isSome = true
    ∧ last_write (tx_header 1 c.regs.AON_ID c.regs.AON_WCFG_OFFSET) w2.trace
        = last_write (tx_header 1 c.regs.AON_ID c.regs.AON_WCFG_OFFSET) w1.trace
    ∧ last_write (tx_header 1 c.regs.AON_ID c.regs.AON_CFG0_OFFSET) w2.trace
        = last_write (tx_header 1 c.regs.AON_ID c.regs.AON_CFG0_OFFSET) w1.trace
    ∧ w2.inst.status = w1.inst.status
    ∧ w2.inst.config = w1.inst.config
    ∧ w1.inst.status.sleep_enabled = w.inst.config.sleep_enable := by
  have e1 := dw3000_dev_configure_sleep_eq c w hv
  have e2 := dw3000_dev_configure_sleep_eq c w1 hv
  have hi1 : w1.inst = { w.inst with
      status := { w.inst.status with sleep_enabled := w.inst.config.sleep_enable } } := by
    rw [h1, e1]; rfl
  have ht1 : w1.trace = w.trace ++ (configure_sleep_wcfg_events c w.inst w.trace
      ++ configure_sleep_cfg0_events c w.inst
        (w.trace ++ configure_sleep_wcfg_events c w.inst w.trace)) := by
    rw [h1, e1]; rfl
  have hiw : ∀ r, configure_sleep_wcfg c.regs w1.inst r = configure_sleep_wcfg c.regs w.inst r := by
    intro r; rw [hi1]; rfl
  have hic : ∀ r, configure_sleep_cfg0 c.regs w1.inst r = configure_sleep_cfg0 c.regs w.inst r := by
    intro r; rw [hi1]; rfl
  obtain ⟨lW1, lC1, _⟩ := last_write_configure_sleep c w.inst w.trace hv
  rw [← ht1] at lW1 lC1
  obtain ⟨lW2, lC2, lCmid⟩ := last_write_configure_sleep c w1.inst w1.trace hv
  have ht2 : w2.trace = w1.trace ++ (configure_sleep_wcfg_events c w1.inst w1.trace
      ++ configure_sleep_cfg0_events c w1.inst
        (w1.trace ++ configure_sleep_wcfg_events c w1.inst w1.trace)) := by
    rw [h2, e2]; rfl
  rw [← ht2] at lW2 lC2
  have r1 := hb1 _ lW1
  have r2 := hb2 _ (lCmid.trans lC1)
  rw [r1, le_value_le_bytes_2 _ (configure_sleep_wcfg_lt _ _ _), hiw,
    configure_sleep_wcfg_idem] at lW2
  rw [r2, le_value_le_bytes_2 _ (configure_sleep_cfg0_lt _ _ _), hic,
    configure_sleep_cfg0_idem] at lC2
  refine ⟨by rw [e1]; rfl, by rw [e2]; rfl, by rw [lW1]; rfl, by rw [lC1]; rfl,
    lW2.trans lW1.symm, lC2.trans lC1.symm, ?_, ?_, by rw [hi1]⟩
  · have hi2 : w2.inst = { w1.inst with
        status := { w1.inst.status with sleep_enabled := w1.inst.config.sleep_enable } } := by
      rw [h2, e2]; rfl
    rw [hi2, hi1]
  · have hi2 : w2.inst = { w1.inst with
        status := { w1.inst.status with sleep_enabled := w1.inst.config.sleep_enable } } := by
      rw [h2, e2]; rfl
    rw [hi2]

/-- Example for C16: on the example chip that reads back what was written,
starting from the example instance (no flag set), the second call leaves C0 00
as the last value written to `AON_WCFG` and 06 00 as the last value written to
`AON_CFG0`, as the first call did. -/
theorem configure_sleep_idempotent_witness :
    last_write (tx_header 1 example_regs.AON_ID example_regs.AON_WCFG_OFFSET)
        (dw3000_dev_configure_sleep example_ctx_memory
          (dw3000_dev_configure_sleep example_ctx_memory example_world).world).world.trace
      = some [0xC0, 0x00]
    ∧ last_write (tx_header 1 example_regs.AON_ID example_regs.AON_CFG0_OFFSET)
        (dw3000_dev_configure_sleep example_ctx_memory
          (dw3000_dev_configure_sleep example_ctx_memory example_world).world).world.trace
      = some [0x06, 0x00] :=
  ⟨(configure_sleep_idempotent example_ctx_memory example_world _ _ (by decide) rfl rfl
      (by decide) (by decide)).2.2.2.2.1.trans (by decide),
   (configure_sleep_idempotent example_ctx_memory example_world _ _ (by decide) rfl rfl
      (by decide) (by decide)).2.2.2.2.2.1.trans (by decide)⟩

theorem _dw3000_otp_read_eq (c : Ctx) (w : World) (address : Nat) (hv : otp_read_regs_ok c.regs) :
    _dw3000_otp_read c address w
      = Res.ok (otp_word c w.inst.config.blocking_spi_transfers w.trace (address % 2 ^ 16))
          { w with trace := (w.trace
              ++ otp_word_events c w.inst.config.blocking_spi_transfers w.trace
                  (address % 2 ^ 16)) } := by
  have h1 : (1 : Nat) ≤ 8 := by decide
  have h2 : (2 : Nat) ≤ 8 := by decide
  have h4 : (4 : Nat) ≤ 8 := by decide
  unfold _dw3000_otp_read otp_word otp_word_events otp_word_setup
  simp only [M_bind_apply, dw3000_write_reg_eq _ _ _ _ _ _ h2 hv.2.1,
    dw3000_write_reg_eq _ _ _ _ _ _ h1 hv.2.2.1, dw3000_read_reg_eq _ _ _ _ _ h4 hv.2.2.2,
    dpl_cputime_delay_usecs, emit, M_pure_apply, List.append_assoc]

theorem otp_read_loop_eq (c : Ctx) (address : Nat) (hv : otp_read_regs_ok c.regs) :
    ∀ (remaining i : Nat) (w : World),
      otp_read_loop c address i remaining w
        = Res.ok (otp_loop_words c w.inst.config.blocking_spi_transfers address i remaining w.trace)
            { w with trace := (w.trace
                ++ otp_loop_events c w.inst.config.blocking_spi_transfers address i remaining
                    w.trace) } := by
  intro remaining
  induction remaining with
  | zero =>
    intro i w
    simp [otp_read_loop, otp_loop_words, otp_loop_events, M_pure_apply]
  | succ k ih =>
    intro i w
    rw [otp_read_loop]
    simp only [M_bind_apply, _dw3000_otp_read_eq c _ _ hv, ih, M_pure_apply, otp_loop_words,
      otp_loop_events, List.append_assoc]

theorem reg_writes_otp_word_events (c : Ctx) (blocking : Bool) (t : List Event) (a : Nat) :
    reg_writes (otp_word_events c blocking t a) = otp_read_writes c.regs a := by
  unfold otp_word_events otp_word_setup otp_read_writes
  simp only [reg_writes_append, reg_writes_write_reg_events _ _ _ _ _ _ (show 2 ≤ 8 by decide),
    reg_writes_write_reg_events _ _ _ _ _ _ (show 1 ≤ 8 by decide)]
  have hd : Event.reg_write (Event.dpl_cputime_delay_usecs 1) = none := rfl
  simp [reg_writes, reg_write_read_reg_event, hd]

theorem reg_reads_otp_word_events (c : Ctx) (blocking : Bool) (t : List Event) (a : Nat) :
    reg_reads (otp_word_events c blocking t a)
      = [(tx_header 0 c.regs.OTP_IF_ID c.regs.OTP_RDAT,
          read_reg_data c (t ++ otp_word_setup c blocking a) c.regs.OTP_IF_ID c.regs.OTP_RDAT 4)] := by
  unfold otp_word_events otp_word_setup
  simp only [reg_reads_append, reg_reads_write_reg_events]
  have hd : Event.reg_read (Event.dpl_cputime_delay_usecs 1) = none := rfl
  simp [reg_reads, reg_read_read_reg_event, hd]

theorem otp_address_mod (address i : Nat) :
    (address % 2 ^ 32 + i) % 2 ^ 32 % 2 ^ 16 = (address + i) % 2 ^ 16 := by
  omega

theorem reg_writes_otp_loop_events (c : Ctx) (blocking : Bool) (address : Nat) :
    ∀ (remaining i : Nat) (t : List Event),
      reg_writes (otp_loop_events c blocking address i remaining t)
        = (List.range remaining).flatMap
            (fun j => otp_read_writes c.regs ((address + (i + j)) % 2 ^ 16)) := by
  intro remaining
  induction remaining with
  | zero => intro i t; rfl
  | succ k ih =>
    intro i t
    rw [otp_loop_events, reg_writes_append, reg_writes_otp_word_events, ih, otp_address_mod,
      List.range_succ_eq_map, List.flatMap_cons, List.flatMap_map]
    simp only [Nat.add_zero, Nat.succ_eq_add_one, Function.comp_def]
    congr 2
    funext j
    congr 3
    omega

theorem reg_reads_otp_loop_events (c : Ctx) (blocking : Bool) (address : Nat) :
    ∀ (remaining i : Nat) (t : List Event),
      (reg_reads (otp_loop_events c blocking address i remaining t)).map
          (fun x => le_value x.2 % 2 ^ 32)
        = otp_loop_words c blocking address i remaining t
      ∧ (reg_reads (otp_loop_events c blocking address i remaining t)).map Prod.fst
        = List.replicate remaining (tx_header 0 c.regs.OTP_IF_ID c.regs.OTP_RDAT) := by
  intro remaining
  induction remaining with
  | zero => intro i t; exact ⟨rfl, rfl⟩
  | succ k ih =>
    intro i t
    rw [otp_loop_events, reg_reads_append, reg_reads_otp_word_events, otp_loop_words]
    simp only [List.singleton_append, List.map_cons, List.replicate_succ]
    exact ⟨congrArg₂ List.cons rfl (ih _ _).1, congrArg₂ List.cons rfl (ih _ _).2⟩

theorem otp_loop_words_length (c : Ctx) (blocking : Bool) (address : Nat) :
    ∀ (remaining i : Nat) (t : List Event),
      (otp_loop_words c blocking address i remaining t).length = remaining := by
  intro remaining
  induction remaining with
  | zero => intro i t; rfl
  | succ k ih => intro i t; rw [otp_loop_words, List.length_cons, ih]

/-- C17 (amended): for every start address `address` and count `length` (a
`uint16_t`), `dw3000_phy_otp_read` returns after these accesses, in order: the
crystal clock selection; then the events `loop` of `length` single-word OTP
reads, whose register writes are, for `j = 0, 1, .., length - 1` in ascending
order, the address `(address + j) mod 65536`, the read command and the command
clear, and whose register reads are `length` reads of the OTP data register;
then the sequenced clock selection. The word of the `j`-th data read is stored
in `buffer[j]`. With `length = 0` there is no OTP access and no buffer element,
and the call still ends with the sequenced clock selection. -/
theorem otp_read_sequence (c : Ctx) (w : World) (address length : Nat)
    (hv : otp_read_regs_ok c.regs) (hl : length ≤ 65535) :
    ∃ (loop : List Event) (buffer : List Nat),
      dw3000_phy_otp_read c address length w
        = Res.ok buffer
            { w with trace := (w.trace
                ++ (sysclk_events c w.inst.config.blocking_spi_transfers w.trace
                      (sysclk_XTAL_value c.regs)
                ++ (loop
                ++ sysclk_events c w.inst.config.blocking_spi_transfers
                      (w.trace ++ (sysclk_events c w.inst.config.blocking_spi_transfers w.trace
                        (sysclk_XTAL_value c.regs) ++ loop))
                      (sysclk_SEQ_value c.regs)))) }
      ∧ buffer.length = length
      ∧ reg_writes loop
          = (List.range length).flatMap
              (fun j => otp_read_writes c.regs ((address + j) % 2 ^ 16))
      ∧ (reg_reads loop).map Prod.fst
          = List.replicate length (tx_header 0 c.regs.OTP_IF_ID c.regs.OTP_RDAT)
      ∧ (reg_reads loop).map (fun x => le_value x.2 % 2 ^ 32) = buffer
      ∧ (length = 0 → loop = [] ∧ buffer = []) := by
  have hmod : length % 2 ^ 16 = length := Nat.mod_eq_of_lt (by omega)
  refine ⟨otp_loop_events c w.inst.config.blocking_spi_transfers address 0 length
      (w.trace ++ sysclk_events c w.inst.config.blocking_spi_transfers w.trace
        (sysclk_XTAL_value c.regs)),
    otp_loop_words c w.inst.config.blocking_spi_transfers address 0 length
      (w.trace ++ sysclk_events c w.inst.config.blocking_spi_transfers w.trace
        (sysclk_XTAL_value c.regs)), ?_, ?_, ?_, ?_, ?_, ?_⟩
  · unfold dw3000_phy_otp_read
    simp only [M_bind_apply, dw3000_phy_sysclk_XTAL_eq c _ hv.1, otp_read_loop_eq c address hv,
      dw3000_phy_sysclk_SEQ_eq c _ hv.1, M_pure_apply, hmod, List.append_assoc]
  · exact otp_loop_words_length c _ address length 0 _
  · rw [reg_writes_otp_loop_events]
    simp only [Nat.zero_add]
  · exact (reg_reads_otp_loop_events c _ address length 0 _).2
  · exact (reg_reads_otp_loop_events c _ address length 0 _).1
  · intro h0
    subst h0
    exact ⟨rfl, rfl⟩

/-- Example for C17: in the example setting a read of two words from address 6
returns a buffer of two words. -/
theorem otp_read_sequence_witness :
    ((dw3000_phy_otp_read example_ctx 6 2 example_world).value).map List.length = some 2 :=
  match otp_read_sequence example_ctx example_world 6 2 (by decide) (by decide) with
  | ⟨_, _, h, hlen, _⟩ => by rw [h]; exact congrArg some hlen

/-- C17 as stated fails: for the start address 0x10000 and one word, the
address written to the OTP address register is 0, and the whole trace is that
of a read from the start address 0. -/
theorem otp_read_sequence_wraps :
    ((reg_writes (dw3000_phy_otp_read example_ctx 0x10000 1 example_world).world.trace).filter
        (fun x => decide (x.1 = tx_header 1 example_regs.OTP_IF_ID example_regs.OTP_ADDR))).map
        (fun x => le_value x.2) = [0]
    ∧ ((reg_writes (dw3000_phy_otp_read example_ctx 0x10000 1 example_world).world.trace).filter
        (fun x => decide (x.1 = tx_header 1 example_regs.OTP_IF_ID example_regs.OTP_ADDR))).map
        (fun x => le_value x.2) ≠ [0x10000]
    ∧ (dw3000_phy_otp_read example_ctx 0x10000 1 example_world).world.trace
        = (dw3000_phy_otp_read example_ctx 0 1 example_world).world.trace := by
  decide

theorem testBit_u8_not (x j : Nat) :
    (u8_not x).testBit j = (decide (j < 8) && !x.testBit j) := by
  have h255 : (0xFF : Nat) = 2 ^ 8 - 1 := by norm_num
  have h256 : (256 : Nat) = 2 ^ 8 := by norm_num
  unfold u8_not
  rw [Nat.testBit_xor, h255, Nat.testBit_two_pow_sub_one, h256, Nat.testBit_mod_two_pow]
  cases decide (j < 8) <;> cases x.testBit j <;> rfl

theorem testBit_mod_256 (x j : Nat) : (x % 256).testBit j = (decide (j < 8) && x.testBit j) := by
  have h256 : (256 : Nat) = 2 ^ 8 := by norm_num
  rw [h256, Nat.testBit_mod_two_pow]

theorem testBit_sysclk_XTAL_value (k : dw3000_regs) (r j : Nat) :
    (sysclk_XTAL_value k r).testBit j
      = (decide (j < 8) && (k.PMSC_CTRL0_SYSCLKS_19M.testBit j
          || (r.testBit j && !k.PMSC_CTRL0_SYSCLKS_125M.testBit j))) := by
  unfold sysclk_XTAL_value
  simp only [testBit_mod_256, Nat.testBit_or, Nat.testBit_and, testBit_u8_not]
  cases decide (j < 8) <;> cases r.testBit j <;> cases k.PMSC_CTRL0_SYSCLKS_19M.testBit j <;>
    cases k.PMSC_CTRL0_SYSCLKS_125M.testBit j <;> rfl

theorem testBit_sysclk_PLL_value (k : dw3000_regs) (r j : Nat) :
    (sysclk_PLL_value k r).testBit j
      = (decide (j < 8) && (k.PMSC_CTRL0_SYSCLKS_125M.testBit j
          || (r.testBit j && !k.PMSC_CTRL0_SYSCLKS_19M.testBit j))) := by
  unfold sysclk_PLL_value
  simp only [testBit_mod_256, Nat.testBit_or, Nat.testBit_and, testBit_u8_not]
  cases decide (j < 8) <;> cases r.testBit j <;> cases k.PMSC_CTRL0_SYSCLKS_19M.testBit j <;>
    cases k.PMSC_CTRL0_SYSCLKS_125M.testBit j <;> rfl

theorem testBit_sysclk_SEQ_value (k : dw3000_regs) (r j : Nat) :
    (sysclk_SEQ_value k r).testBit j
      = (decide (j < 8) && (r.testBit j && !k.PMSC_CTRL0_SYSCLKS_19M.testBit j
          && !k.PMSC_CTRL0_SYSCLKS_125M.testBit j)) := by
  unfold sysclk_SEQ_value
  simp only [testBit_mod_256, Nat.testBit_and, testBit_u8_not]
  cases decide (j < 8) <;> cases r.testBit j <;> cases k.PMSC_CTRL0_SYSCLKS_19M.testBit j <;>
    cases k.PMSC_CTRL0_SYSCLKS_125M.testBit j <;> rfl

theorem testBit_of_lt_256 (x j : Nat) (hx : x < 256) (h : x.testBit j = true) : j < 8 := by
  by_contra hj
  have hlt : x < 2 ^ j := lt_of_lt_of_le hx (by
    have : (256 : Nat) = 2 ^ 8 := by norm_num
    rw [this]
    exact Nat.pow_le_pow_right (by norm_num) (by omega))
  rw [Nat.testBit_eq_false_of_lt hlt] at h
  cases h

theorem testBit_disjoint (a b j : Nat) (h : a &&& b = 0) :
    (a.testBit j && b.testBit j) = false := by
  rw [← Nat.testBit_and, h, Nat.zero_testBit]

theorem sysclk_values_bits (k : dw3000_regs) (r : Nat)
    (hA : k.PMSC_CTRL0_SYSCLKS_19M < 256) (hB : k.PMSC_CTRL0_SYSCLKS_125M < 256)
    (hAB : k.PMSC_CTRL0_SYSCLKS_19M &&& k.PMSC_CTRL0_SYSCLKS_125M = 0) :
    (sysclk_XTAL_value k r &&& k.PMSC_CTRL0_SYSCLKS_19M = k.PMSC_CTRL0_SYSCLKS_19M
      ∧ sysclk_XTAL_value k r &&& k.PMSC_CTRL0_SYSCLKS_125M = 0)
    ∧ (sysclk_PLL_value k r &&& k.PMSC_CTRL0_SYSCLKS_19M = 0
      ∧ sysclk_PLL_value k r &&& k.PMSC_CTRL0_SYSCLKS_125M = k.PMSC_CTRL0_SYSCLKS_125M)
    ∧ (sysclk_SEQ_value k r &&& k.PMSC_CTRL0_SYSCLKS_19M = 0
      ∧ sysclk_SEQ_value k r &&& k.PMSC_CTRL0_SYSCLKS_125M = 0) := by
  have key : ∀ j, (k.PMSC_CTRL0_SYSCLKS_19M.testBit j = true → decide (j < 8) = true)
      ∧ (k.PMSC_CTRL0_SYSCLKS_125M.testBit j = true → decide (j < 8) = true)
      ∧ (k.PMSC_CTRL0_SYSCLKS_19M.testBit j && k.PMSC_CTRL0_SYSCLKS_125M.testBit j) = false :=
    fun j => ⟨fun h => decide_eq_true (testBit_of_lt_256 _ j hA h),
      fun h => decide_eq_true (testBit_of_lt_256 _ j hB h), testBit_disjoint _ _ j hAB⟩
  refine ⟨⟨?_, ?_⟩, ⟨?_, ?_⟩, ⟨?_, ?_⟩⟩ <;>
  · apply Nat.eq_of_testBit_eq
    intro j
    obtain ⟨h1, h2, h3⟩ := key j
    simp only [Nat.testBit_and, testBit_sysclk_XTAL_value, testBit_sysclk_PLL_value,
      testBit_sysclk_SEQ_value, Nat.zero_testBit]
    revert h1 h2 h3
    cases decide (j < 8) <;> cases r.testBit j <;> cases k.PMSC_CTRL0_SYSCLKS_19M.testBit j <;>
      cases k.PMSC_CTRL0_SYSCLKS_125M.testBit j <;> simp

theorem sysclk_values_other_bits (k : dw3000_regs) (r : Nat) :
    sysclk_XTAL_value k r &&& u8_not (k.PMSC_CTRL0_SYSCLKS_19M ||| k.PMSC_CTRL0_SYSCLKS_125M)
      = r % 256 &&& u8_not (k.PMSC_CTRL0_SYSCLKS_19M ||| k.PMSC_CTRL0_SYSCLKS_125M)
    ∧ sysclk_PLL_value k r &&& u8_not (k.PMSC_CTRL0_SYSCLKS_19M ||| k.PMSC_CTRL0_SYSCLKS_125M)
      = r % 256 &&& u8_not (k.PMSC_CTRL0_SYSCLKS_19M ||| k.PMSC_CTRL0_SYSCLKS_125M)
    ∧ sysclk_SEQ_value k r &&& u8_not (k.PMSC_CTRL0_SYSCLKS_19M ||| k.PMSC_CTRL0_SYSCLKS_125M)
      = r % 256 &&& u8_not (k.PMSC_CTRL0_SYSCLKS_19M ||| k.PMSC_CTRL0_SYSCLKS_125M) := by
  refine ⟨?_, ?_, ?_⟩ <;>
  · apply Nat.eq_of_testBit_eq
    intro j
    simp only [Nat.testBit_and, testBit_sysclk_XTAL_value, testBit_sysclk_PLL_value,
      testBit_sysclk_SEQ_value, testBit_u8_not, Nat.testBit_or, testBit_mod_256]
    cases decide (j < 8) <;> cases r.testBit j <;> cases k.PMSC_CTRL0_SYSCLKS_19M.testBit j <;>
      cases k.PMSC_CTRL0_SYSCLKS_125M.testBit j <;> rfl

theorem sysclk_values_independent (k : dw3000_regs) (r r' : Nat)
    (h : r' % 256 &&& u8_not (k.PMSC_CTRL0_SYSCLKS_19M ||| k.PMSC_CTRL0_SYSCLKS_125M)
      = r % 256 &&& u8_not (k.PMSC_CTRL0_SYSCLKS_19M ||| k.PMSC_CTRL0_SYSCLKS_125M)) :
    sysclk_XTAL_value k r' = sysclk_XTAL_value k r
    ∧ sysclk_PLL_value k r' = sysclk_PLL_value k r
    ∧ sysclk_SEQ_value k r' = sysclk_SEQ_value k r := by
  have hbit : ∀ j, (decide (j < 8) && r'.testBit j
        && !(k.PMSC_CTRL0_SYSCLKS_19M.testBit j || k.PMSC_CTRL0_SYSCLKS_125M.testBit j))
      = (decide (j < 8) && r.testBit j
        && !(k.PMSC_CTRL0_SYSCLKS_19M.testBit j || k.PMSC_CTRL0_SYSCLKS_125M.testBit j)) := by
    intro j
    have hj := congrArg (fun x => Nat.testBit x j) h
    simp only [Nat.testBit_and, testBit_u8_not, Nat.testBit_or, testBit_mod_256] at hj
    revert hj
    cases decide (j < 8) <;> cases r.testBit j <;> cases r'.testBit j <;>
      cases k.PMSC_CTRL0_SYSCLKS_19M.testBit j <;>
      cases k.PMSC_CTRL0_SYSCLKS_125M.testBit j <;> simp
  refine ⟨?_, ?_, ?_⟩ <;>
  · apply Nat.eq_of_testBit_eq
    intro j
    have hj := hbit j
    simp only [testBit_sysclk_XTAL_value, testBit_sysclk_PLL_value, testBit_sysclk_SEQ_value]
    revert hj
    cases decide (j < 8) <;> cases r.testBit j <;> cases r'.testBit j <;>
      cases k.PMSC_CTRL0_SYSCLKS_19M.testBit j <;>
      cases k.PMSC_CTRL0_SYSCLKS_125M.testBit j <;> simp

/-- C18: with the select masks `PMSC_CTRL0_SYSCLKS_19M` (crystal) and
`PMSC_CTRL0_SYSCLKS_125M` (PLL) disjoint and within the low byte, each of
`dw3000_phy_sysclk_XTAL`, `dw3000_phy_sysclk_PLL` and `dw3000_phy_sysclk_SEQ`
returns after one read of the low byte of `PMSC_CTRL0` and one write of one
byte to it. For the byte `r` read, the byte written has the crystal bit set and
the PLL bit clear (XTAL), the crystal bit clear and the PLL bit set (PLL), or
both clear (SEQ); all its other bits are those of `r`; and it is the same for
any two bytes read that differ only in the select bits. -/
theorem sysclk_select_bits (c : Ctx) (w : World) (r : Nat)
    (hv : valid_access c.regs.PMSC_ID c.regs.PMSC_CTRL0_OFFSET 1)
    (hA : c.regs.PMSC_CTRL0_SYSCLKS_19M < 256) (hB : c.regs.PMSC_CTRL0_SYSCLKS_125M < 256)
    (hAB : c.regs.PMSC_CTRL0_SYSCLKS_19M &&& c.regs.PMSC_CTRL0_SYSCLKS_125M = 0) :
    (dw3000_phy_sysclk_XTAL c w
        = Res.ok () { w with trace := (w.trace ++ sysclk_events c
            w.inst.config.blocking_spi_transfers w.trace (sysclk_XTAL_value c.regs)) }
      ∧ dw3000_phy_sysclk_PLL c w
        = Res.ok () { w with trace := (w.trace ++ sysclk_events c
            w.inst.config.blocking_spi_transfers w.trace (sysclk_PLL_value c.regs)) }
      ∧ dw3000_phy_sysclk_SEQ c w
        = Res.ok () { w with trace := (w.trace ++ sysclk_events c
            w.inst.config.blocking_spi_transfers w.trace (sysclk_SEQ_value c.regs)) })
    ∧ (sysclk_XTAL_value c.regs r &&& c.regs.PMSC_CTRL0_SYSCLKS_19M
          = c.regs.PMSC_CTRL0_SYSCLKS_19M
      ∧ sysclk_XTAL_value c.regs r &&& c.regs.PMSC_CTRL0_SYSCLKS_125M = 0)
    ∧ (sysclk_PLL_value c.regs r &&& c.regs.PMSC_CTRL0_SYSCLKS_19M = 0
      ∧ sysclk_PLL_value c.regs r &&& c.regs.PMSC_CTRL0_SYSCLKS_125M
          = c.regs.PMSC_CTRL0_SYSCLKS_125M)
    ∧ (sysclk_SEQ_value c.regs r &&& c.regs.PMSC_CTRL0_SYSCLKS_19M = 0
      ∧ sysclk_SEQ_value c.regs r &&& c.regs.PMSC_CTRL0_SYSCLKS_125M = 0)
    ∧ (sysclk_XTAL_value c.regs r
          &&& u8_not (c.regs.PMSC_CTRL0_SYSCLKS_19M ||| c.regs.PMSC_CTRL0_SYSCLKS_125M)
        = r % 256 &&& u8_not (c.regs.PMSC_CTRL0_SYSCLKS_19M ||| c.regs.PMSC_CTRL0_SYSCLKS_125M)
      ∧ sysclk_PLL_value c.regs r
          &&& u8_not (c.regs.PMSC_CTRL0_SYSCLKS_19M ||| c.regs.PMSC_CTRL0_SYSCLKS_125M)
        = r % 256 &&& u8_not (c.regs.PMSC_CTRL0_SYSCLKS_19M ||| c.regs.PMSC_CTRL0_SYSCLKS_125M)
      ∧ sysclk_SEQ_value c.regs r
          &&& u8_not (c.regs.PMSC_CTRL0_SYSCLKS_19M ||| c.regs.PMSC_CTRL0_SYSCLKS_125M)
        = r % 256 &&& u8_not (c.regs.PMSC_CTRL0_SYSCLKS_19M ||| c.regs.PMSC_CTRL0_SYSCLKS_125M))
    ∧ (∀ r', r' % 256 &&& u8_not (c.regs.PMSC_CTRL0_SYSCLKS_19M ||| c.regs.PMSC_CTRL0_SYSCLKS_125M)
          = r % 256 &&& u8_not (c.regs.PMSC_CTRL0_SYSCLKS_19M ||| c.regs.PMSC_CTRL0_SYSCLKS_125M) →
        sysclk_XTAL_value c.regs r' = sysclk_XTAL_value c.regs r
        ∧ sysclk_PLL_value c.regs r' = sysclk_PLL_value c.regs r
        ∧ sysclk_SEQ_value c.regs r' = sysclk_SEQ_value c.regs r) := by
  obtain ⟨hx, hp, hs⟩ := sysclk_values_bits c.regs r hA hB hAB
  exact ⟨⟨dw3000_phy_sysclk_XTAL_eq c w hv, dw3000_phy_sysclk_PLL_eq c w hv,
      dw3000_phy_sysclk_SEQ_eq c w hv⟩, hx, hp, hs, sysclk_values_other_bits c.regs r,
    fun r' h => sysclk_values_independent c.regs r r' h⟩

/-- Example for C18: with the example register map (crystal bit 0x01, PLL bit
0x02) and the byte 0xF2 read (PLL selected), XTAL writes 0xF1, PLL writes 0xF2
and SEQ writes 0xF0. -/
theorem sysclk_select_bits_witness :
    (sysclk_XTAL_value example_regs 0xF2 = 0xF1 ∧ sysclk_PLL_value example_regs 0xF2 = 0xF2
      ∧ sysclk_SEQ_value example_regs 0xF2 = 0xF0)
    ∧ sysclk_XTAL_value example_regs 0xF2 &&& 0x02 = 0 :=
  ⟨by decide,
   (sysclk_select_bits example_ctx example_world 0xF2 (by decide) (by decide) (by decide)
      (by decide)).2.1.2⟩

theorem dw3000_softreset_eq (c : Ctx) (w : World) (hv : softreset_regs_ok c.regs) :
    dw3000_softreset c w
      = Res.ok () { w with trace := (w.trace
          ++ softreset_events c w.inst.config.blocking_spi_transfers w.trace) } := by
  have h1 : (1 : Nat) ≤ 8 := by decide
  have h2 : (2 : Nat) ≤ 8 := by decide
  obtain ⟨v0, v1, v2, v3, v4, v5⟩ := hv
  unfold dw3000_softreset softreset_events
  simp only [M_bind_apply, dw3000_phy_sysclk_XTAL_eq c _ v0,
    dw3000_write_reg_eq _ _ _ _ _ _ h2 v1, dw3000_write_reg_eq _ _ _ _ _ _ h2 v2,
    dw3000_write_reg_eq _ _ _ _ _ _ h1 v3, dw3000_write_reg_eq _ _ _ _ _ _ h1 v4,
    dw3000_write_reg_eq _ _ _ _ _ _ h1 v5, dpl_cputime_delay_usecs, emit, List.append_assoc]

theorem writes_and_delays_append (t u : List Event) :
    writes_and_delays (t ++ u) = writes_and_delays t ++ writes_and_delays u := by
  simp [writes_and_delays]

theorem writes_and_delays_write_reg_events (c : Ctx) (blocking : Bool)
    (reg subaddress val nbytes : Nat) (hn : nbytes ≤ 8) :
    writes_and_delays (write_reg_events c blocking reg subaddress val nbytes)
      = [Sum.inl (tx_header 1 reg subaddress, le_bytes val nbytes)] := by
  unfold write_reg_events writes_and_delays
  rw [tx_bytes_le_bytes val nbytes hn]
  split <;> simp [Event.write_or_delay]

theorem write_or_delay_read_reg_event (c : Ctx) (t : List Event) (blocking : Bool)
    (reg subaddress nbytes : Nat) :
    (read_reg_event c t blocking reg subaddress nbytes).write_or_delay = none := by
  unfold read_reg_event
  split <;> rfl

theorem writes_and_delays_sysclk_events (c : Ctx) (blocking : Bool) (t : List Event)
    (value : Nat → Nat) :
    writes_and_delays (sysclk_events c blocking t value)
      = [Sum.inl (tx_header 1 c.regs.PMSC_ID c.regs.PMSC_CTRL0_OFFSET,
          le_bytes (value (pmsc_ctrl0_read c t)) 1)] := by
  unfold sysclk_events
  rw [writes_and_delays_append, writes_and_delays_write_reg_events _ _ _ _ _ _ (by decide)]
  simp [writes_and_delays, write_or_delay_read_reg_event]

/-- C19: when its accesses pass the transport assertions, `dw3000_softreset`
returns after exactly these chip accesses, in this order: the read of the low
byte of `PMSC_CTRL0` and the write of the byte with the crystal clock selected
(`dw3000_phy_sysclk_XTAL`); the write of `PMSC_CTRL1_PKTSEQ_DISABLE` to
`PMSC_CTRL1`; the write of 0 to `AON_WCFG`; the write of 0 to `AON_CFG0`; the
writes of 0 and then of `AON_CTRL_SAVE` to `AON_CTRL`; the write of
`PMSC_CTRL0_RESET_ALL` to the soft-reset register; a delay of 10 microseconds;
the write of `PMSC_CTRL0_RESET_CLEAR` to the soft-reset register. -/
theorem softreset_sequence (c : Ctx) (w : World) (hv : softreset_regs_ok c.regs) :
    dw3000_softreset c w
      = Res.ok () { w with trace := (w.trace
          ++ softreset_events c w.inst.config.blocking_spi_transfers w.trace) }
    ∧ (softreset_events c w.inst.config.blocking_spi_transfers w.trace).head?
      = some (read_reg_event c w.trace w.inst.config.blocking_spi_transfers
          c.regs.PMSC_ID c.regs.PMSC_CTRL0_OFFSET 1)
    ∧ reg_reads (softreset_events c w.inst.config.blocking_spi_transfers w.trace)
      = [(tx_header 0 c.regs.PMSC_ID c.regs.PMSC_CTRL0_OFFSET,
          read_reg_data c w.trace c.regs.PMSC_ID c.regs.PMSC_CTRL0_OFFSET 1)]
    ∧ writes_and_delays (softreset_events c w.inst.config.blocking_spi_transfers w.trace)
      = [Sum.inl (tx_header 1 c.regs.PMSC_ID c.regs.PMSC_CTRL0_OFFSET,
            le_bytes (sysclk_XTAL_value c.regs (pmsc_ctrl0_read c w.trace)) 1),
         Sum.inl (tx_header 1 c.regs.PMSC_ID c.regs.PMSC_CTRL1_OFFSET,
            le_bytes c.regs.PMSC_CTRL1_PKTSEQ_DISABLE 2),
         Sum.inl (tx_header 1 c.regs.AON_ID c.regs.AON_WCFG_OFFSET, le_bytes 0x0 2),
         Sum.inl (tx_header 1 c.regs.AON_ID c.regs.AON_CFG0_OFFSET, le_bytes 0x0 1),
         Sum.inl (tx_header 1 c.regs.AON_ID c.regs.AON_CTRL_OFFSET, le_bytes 0x0 1),
         Sum.inl (tx_header 1 c.regs.AON_ID c.regs.AON_CTRL_OFFSET,
            le_bytes c.regs.AON_CTRL_SAVE 1),
         Sum.inl (tx_header 1 c.regs.PMSC_ID c.regs.PMSC_CTRL0_SOFTRESET_OFFSET,
            le_bytes c.regs.PMSC_CTRL0_RESET_ALL 1),
         Sum.inr 10,
         Sum.inl (tx_header 1 c.regs.PMSC_ID c.regs.PMSC_CTRL0_SOFTRESET_OFFSET,
            le_bytes c.regs.PMSC_CTRL0_RESET_CLEAR 1)] := by
  refine ⟨dw3000_softreset_eq c w hv, rfl, ?_, ?_⟩
  · unfold softreset_events sysclk_events
    simp only [reg_reads_append, reg_reads_write_reg_events, List.append_nil]
    have hd : Event.reg_read (Event.dpl_cputime_delay_usecs 10) = none := rfl
    simp [reg_reads, reg_read_read_reg_event, hd]
  · unfold softreset_events
    simp only [writes_and_delays_append, writes_and_delays_sysclk_events,
      writes_and_delays_write_reg_events _ _ _ _ _ _ (show 1 ≤ 8 by decide),
      writes_and_delays_write_reg_events _ _ _ _ _ _ (show 2 ≤ 8 by decide)]
    rfl

/-- Example for C19: in the example setting the soft reset returns, and its
trace holds eight register writes and one delay. -/
theorem softreset_sequence_witness :
    (dw3000_softreset example_ctx example_world).isFault = false
    ∧ (writes_and_delays (dw3000_softreset example_ctx example_world).world.trace).length = 9 :=
  ⟨(congrArg Res.isFault (softreset_sequence example_ctx example_world (by decide)).1).trans rfl,
   by decide⟩

theorem gpio_command_payload (p v : Nat) (hp : p < 9) (hv : v < 2) :
    le_value (tx_bytes 3 (gpio_command_buf (gpio_command p v)))
      = if p < 8 then 2 ^ gpio_mask_bit p + v * 2 ^ gpio_value_bit p
        else v * 2 ^ gpio_value_bit p := by
  interval_cases p <;> interval_cases v <;> decide

theorem gpio_bits_disjoint (p q : Nat) (hp : p < 9) (hq : q < 9) (hpq : p ≠ q) :
    gpio_value_bit p ≠ gpio_value_bit q ∧ gpio_value_bit p ≠ gpio_mask_bit q
    ∧ gpio_mask_bit p ≠ gpio_value_bit q ∧ gpio_mask_bit p ≠ gpio_mask_bit q := by
  unfold gpio_value_bit gpio_mask_bit
  refine ⟨?_, ?_, ?_, ?_⟩ <;> split_ifs <;> omega

theorem dw3000_gpio_set_value_eq (c : Ctx) (w : World) (p v : Nat) (hv : gpio_regs_ok c.regs)
    (hp : p < 9) (hvv : v < 2) :
    dw3000_gpio_set_value c p v w
      = Res.ok () { w with trace := (w.trace
          ++ [write_event c w.inst.config.blocking_spi_transfers c.regs.GPIO_CTRL_ID
                c.regs.GPIO_DOUT_OFFSET (gpio_command_buf (gpio_command p v)) 3]) } := by
  obtain ⟨_, _, hdout, _, hlen⟩ := hv
  have hp256 : p % 256 = p := Nat.mod_eq_of_lt (by omega)
  have hv256 : v % 256 = v := Nat.mod_eq_of_lt (by omega)
  unfold dw3000_gpio_set_value
  simp only [M_bind_apply, hp256, hv256, c_assert, hp, if_true, hlen,
    dw3000_write_eq _ _ _ _ _ _ hdout, M_pure_apply]

theorem dw3000_gpio_set_direction_eq (c : Ctx) (w : World) (p v : Nat) (hv : gpio_regs_ok c.regs)
    (hp : p < 9) (hvv : v < 2) :
    dw3000_gpio_set_direction c p v w
      = Res.ok () { w with trace := (w.trace
          ++ (gpio_clock_events c w.inst.config.blocking_spi_transfers w.trace
          ++ [write_event c w.inst.config.blocking_spi_transfers c.regs.GPIO_CTRL_ID
                c.regs.GPIO_DIR_OFFSET (gpio_command_buf (gpio_command p v)) 3])) } := by
  obtain ⟨hpm, hdir, _, hlen, _⟩ := hv
  have h4 : (4 : Nat) ≤ 8 := by decide
  have hp256 : p % 256 = p := Nat.mod_eq_of_lt (by omega)
  have hv256 : v % 256 = v := Nat.mod_eq_of_lt (by omega)
  unfold dw3000_gpio_set_direction gpio_clock_events
  simp only [M_bind_apply, hp256, hv256, c_assert, hp, if_true, hlen,
    dw3000_read_reg_eq _ _ _ _ _ h4 hpm, M_ite_apply]
  generalize le_value (read_reg_data c w.trace c.regs.PMSC_ID c.regs.PMSC_CTRL0_OFFSET 4)
    % 2 ^ 32 = r
  by_cases hc : r &&& c.regs.PMSC_CTRL0_GPCE = 0 ∨ r &&& c.regs.PMSC_CTRL0_GPRN = 0
  · simp only [hc, if_true, dw3000_write_reg_eq _ _ _ _ _ _ h4 hpm,
      dw3000_write_eq _ _ _ _ _ _ hdir, M_pure_apply, List.append_assoc]
  · simp only [hc, if_false, M_pure_apply, dw3000_write_eq _ _ _ _ _ _ hdir, List.append_assoc,
      List.append_nil]

/-- C20: for a pin `p` in 0..8 and a bit `v`, with three-byte command arrays,
`dw3000_gpio_set_direction` (after its clock activation) and
`dw3000_gpio_set_value` each write the three bytes `buf` of the command word
`gpio_command p v` to the direction and output-value register. For `p` in 0..7
these bytes hold exactly the mask bit of the pin, set, and its value bit, equal
to `v`. For `p = 8` the command word has the mask bit 24 set, but the three
bytes written hold the value bit 20 only: bit 24 is not sent. The value and
mask positions of different pins are pairwise different. -/
theorem gpio_command_bits (c : Ctx) (w : World) (p v : Nat) (hv : gpio_regs_ok c.regs)
    (hp : p < 9) (hvv : v < 2) :
    dw3000_gpio_set_direction c p v w
      = Res.ok () { w with trace := (w.trace
          ++ (gpio_clock_events c w.inst.config.blocking_spi_transfers w.trace
          ++ [write_event c w.inst.config.blocking_spi_transfers c.regs.GPIO_CTRL_ID
                c.regs.GPIO_DIR_OFFSET (gpio_command_buf (gpio_command p v)) 3])) }
    ∧ dw3000_gpio_set_value c p v w
      = Res.ok () { w with trace := (w.trace
          ++ [write_event c w.inst.config.blocking_spi_transfers c.regs.GPIO_CTRL_ID
                c.regs.GPIO_DOUT_OFFSET (gpio_command_buf (gpio_command p v)) 3]) }
    ∧ (p < 8 → le_value (tx_bytes 3 (gpio_command_buf (gpio_command p v)))
        = 2 ^ gpio_mask_bit p + v * 2 ^ gpio_value_bit p)
    ∧ (p = 8 → le_value (tx_bytes 3 (gpio_command_buf (gpio_command p v)))
          = v * 2 ^ gpio_value_bit p
        ∧ (gpio_command p v).testBit (gpio_mask_bit p) = true
        ∧ (le_value (tx_bytes 3 (gpio_command_buf (gpio_command p v)))).testBit
            (gpio_mask_bit p) = false)
    ∧ (∀ q, q < 9 → p ≠ q →
        gpio_value_bit p ≠ gpio_value_bit q ∧ gpio_value_bit p ≠ gpio_mask_bit q
        ∧ gpio_mask_bit p ≠ gpio_value_bit q ∧ gpio_mask_bit p ≠ gpio_mask_bit q) := by
  refine ⟨dw3000_gpio_set_direction_eq c w p v hv hp hvv, dw3000_gpio_set_value_eq c w p v hv hp hvv,
    ?_, ?_, fun q hq hpq => gpio_bits_disjoint p q hp hq hpq⟩
  · intro h8
    rw [gpio_command_payload p v hp hvv, if_pos h8]
  · intro h8
    subst h8
    interval_cases v <;> decide

/-- Evaluation for C20 at pin 8 with value 1 in the example setting: the
command word is 0x1100000, the three bytes written are 00 00 10, the value
0x100000, and bit 24 is not among them. -/
theorem gpio_command_bits_witness :
    gpio_command 8 1 = 0x1100000
    ∧ tx_bytes 3 (gpio_command_buf (gpio_command 8 1)) = [0x00, 0x00, 0x10]
    ∧ (le_value (tx_bytes 3 (gpio_command_buf (gpio_command 8 1)))).testBit (gpio_mask_bit 8)
        = false :=
  ⟨by decide, by decide,
   ((gpio_command_bits example_ctx example_world 8 1 (by decide) (by decide) (by decide)).2.2.2.1
      rfl).2.2⟩

theorem dw3000_gpio_set_mode_eq (c : Ctx) (w : World) (p m : Nat)
    (hv : valid_access c.regs.GPIO_CTRL_ID c.regs.GPIO_MODE_OFFSET 4)
    (hp : p ≤ 8) (hm : m ≤ 3) :
    dw3000_gpio_set_mode c p m w
      = Res.ok () { w with trace := (w.trace
          ++ ([read_reg_event c w.trace w.inst.config.blocking_spi_transfers
                c.regs.GPIO_CTRL_ID c.regs.GPIO_MODE_OFFSET 4]
          ++ write_reg_events c w.inst.config.blocking_spi_transfers
                c.regs.GPIO_CTRL_ID c.regs.GPIO_MODE_OFFSET
                (gpio_mode_value p m (le_value (read_reg_data c w.trace
                  c.regs.GPIO_CTRL_ID c.regs.GPIO_MODE_OFFSET 4))) 4)) } := by
  have h4 : (4 : Nat) ≤ 8 := by decide
  have hp256 : p % 256 = p := Nat.mod_eq_of_lt (by omega)
  have hm256 : m % 256 = m := Nat.mod_eq_of_lt (by omega)
  unfold dw3000_gpio_set_mode gpio_mode_value
  simp only [M_bind_apply, hp256, hm256, dw3000_read_reg_eq _ _ _ _ _ h4 hv,
    dw3000_write_reg_eq _ _ _ _ _ _ h4 hv, List.append_assoc]

theorem dw3000_gpio_get_mode_eq (c : Ctx) (w : World) (p : Nat)
    (hv : valid_access c.regs.GPIO_CTRL_ID c.regs.GPIO_MODE_OFFSET 4) (hp : p ≤ 8) :
    dw3000_gpio_get_mode c p w
      = Res.ok (gpio_mode_field p (le_value (read_reg_data c w.trace
            c.regs.GPIO_CTRL_ID c.regs.GPIO_MODE_OFFSET 4)))
          { w with trace := (w.trace
            ++ [read_reg_event c w.trace w.inst.config.blocking_spi_transfers
                  c.regs.GPIO_CTRL_ID c.regs.GPIO_MODE_OFFSET 4]) } := by
  have h4 : (4 : Nat) ≤ 8 := by decide
  have hp256 : p % 256 = p := Nat.mod_eq_of_lt (by omega)
  unfold dw3000_gpio_get_mode gpio_mode_field
  simp only [M_bind_apply, hp256, dw3000_read_reg_eq _ _ _ _ _ h4 hv, M_pure_apply]

theorem testBit_three (k : Nat) : (0x3 : Nat).testBit k = decide (k < 2) := by
  have h : (0x3 : Nat) = 2 ^ 2 - 1 := by norm_num
  rw [h, Nat.testBit_two_pow_sub_one]

theorem testBit_u32_not (x j : Nat) :
    (u32_not x).testBit j = (decide (j < 32) && !x.testBit j) := by
  have h : (0xFFFFFFFF : Nat) = 2 ^ 32 - 1 := by norm_num
  unfold u32_not
  rw [Nat.testBit_xor, h, Nat.testBit_two_pow_sub_one, Nat.testBit_mod_two_pow]
  cases decide (j < 32) <;> cases x.testBit j <;> rfl

theorem testBit_le_three (m k : Nat) (hm : m ≤ 3) (h : m.testBit k = true) : k < 2 := by
  by_contra hk
  have hlt : m < 2 ^ k := lt_of_lt_of_le (show m < 2 ^ 2 by omega)
    (Nat.pow_le_pow_right (by norm_num) (by omega))
  rw [Nat.testBit_eq_false_of_lt hlt] at h
  cases h

theorem testBit_gpio_mode_value (p m r j : Nat) :
    (gpio_mode_value p m r).testBit j
      = (decide (j < 32)
          && ((r.testBit j && !(decide (6 + p * 2 ≤ j) && decide (j - (6 + p * 2) < 2)))
            || (decide (6 + p * 2 ≤ j) && m.testBit (j - (6 + p * 2))))) := by
  unfold gpio_mode_value
  simp only [Nat.testBit_mod_two_pow, Nat.testBit_or, Nat.testBit_and, testBit_u32_not,
    Nat.testBit_shiftLeft, testBit_three, ge_iff_le]
  cases decide (j < 32) <;> cases r.testBit j <;> cases decide (6 + p * 2 ≤ j) <;>
    cases decide (j - (6 + p * 2) < 2) <;> cases m.testBit (j - (6 + p * 2)) <;> rfl

theorem testBit_gpio_mode_field (q v k : Nat) :
    (gpio_mode_field q v).testBit k
      = (decide (k < 2) && (decide (6 + q * 2 + k < 32) && v.testBit (6 + q * 2 + k))) := by
  have h256 : (256 : Nat) = 2 ^ 8 := by norm_num
  unfold gpio_mode_field
  rw [h256]
  simp only [Nat.testBit_mod_two_pow, Nat.testBit_and, Nat.testBit_shiftRight,
    Nat.testBit_shiftLeft, testBit_three, ge_iff_le, Nat.le_add_right, decide_True,
    Nat.add_sub_cancel_left, Bool.true_and]
  by_cases hk : k < 2
  · have hk8 : k < 8 := by omega
    simp only [hk, hk8, decide_True, Bool.true_and, Bool.and_true]
    cases decide (6 + q * 2 + k < 32) <;> cases v.testBit (6 + q * 2 + k) <;> rfl
  · simp [hk]

theorem le_value_le_bytes_4 (v : Nat) (h : v < 2 ^ 32) : le_value (le_bytes v 4) = v := by
  simp only [le_bytes, List.range_succ, List.range_zero, List.nil_append, List.cons_append,
    List.map_cons, List.map_nil, le_value]
  omega

theorem gpio_mode_value_lt (p m r : Nat) : gpio_mode_value p m r < 2 ^ 32 :=
  Nat.mod_lt _ (by norm_num)

theorem gpio_mode_field_set (p m r : Nat) (hp : p ≤ 8) (hm : m ≤ 3) :
    gpio_mode_field p (gpio_mode_value p m r) = m := by
  apply Nat.eq_of_testBit_eq
  intro k
  rw [testBit_gpio_mode_field, testBit_gpio_mode_value]
  by_cases hk : k < 2
  · have h1 : 6 + p * 2 + k < 32 := by omega
    have h2 : 6 + p * 2 ≤ 6 + p * 2 + k := by omega
    have h3 : 6 + p * 2 + k - (6 + p * 2) = k := by omega
    simp only [hk, h1, h2, h3, decide_True, Bool.true_and, Bool.not_true, Bool.and_false,
      Bool.false_or]
  · have hf : m.testBit k = false := by
      cases h : m.testBit k with
      | false => rfl
      | true => exact absurd (testBit_le_three m k hm h) hk
    simp only [hk, decide_False, Bool.false_and, hf]

theorem gpio_mode_field_other (p q m r : Nat) (hm : m ≤ 3) (hq : q ≤ 8) (hqp : q ≠ p) :
    gpio_mode_field q (gpio_mode_value p m r) = gpio_mode_field q r := by
  apply Nat.eq_of_testBit_eq
  intro k
  rw [testBit_gpio_mode_field, testBit_gpio_mode_field, testBit_gpio_mode_value]
  by_cases hk : k < 2
  · have h1 : 6 + q * 2 + k < 32 := by omega
    have h2 : ¬ (6 + p * 2 ≤ 6 + q * 2 + k ∧ 6 + q * 2 + k - (6 + p * 2) < 2) := by omega
    have hf : (decide (6 + p * 2 ≤ 6 + q * 2 + k)
        && m.testBit (6 + q * 2 + k - (6 + p * 2))) = false := by
      cases h : m.testBit (6 + q * 2 + k - (6 + p * 2)) with
      | false => rw [Bool.and_false]
      | true =>
        have := testBit_le_three m _ hm h
        have hn : ¬ 6 + p * 2 ≤ 6 + q * 2 + k := fun hle => h2 ⟨hle, this⟩
        simp only [hn, decide_False, Bool.false_and]
    have hg : (decide (6 + p * 2 ≤ 6 + q * 2 + k)
        && decide (6 + q * 2 + k - (6 + p * 2) < 2)) = false := by
      rw [← Bool.decide_and]
      exact decide_eq_false h2
    rw [hf, hg]
    simp only [hk, h1, decide_True, Bool.true_and, Bool.not_false, Bool.and_true, Bool.or_false]
  · simp only [hk, decide_False, Bool.false_and]

theorem gpio_mode_value_other_bits (p m r j : Nat) (hm : m ≤ 3)
    (h0 : j ≠ 6 + p * 2) (h1 : j ≠ 7 + p * 2) :
    (gpio_mode_value p m r).testBit j = (r % 2 ^ 32).testBit j := by
  rw [testBit_gpio_mode_value, Nat.testBit_mod_two_pow]
  have h2 : ¬ (6 + p * 2 ≤ j ∧ j - (6 + p * 2) < 2) := by omega
  have hf : (decide (6 + p * 2 ≤ j) && m.testBit (j - (6 + p * 2))) = false := by
    cases h : m.testBit (j - (6 + p * 2)) with
    | false => rw [Bool.and_false]
    | true =>
      have := testBit_le_three m _ hm h
      have hn : ¬ 6 + p * 2 ≤ j := fun hle => h2 ⟨hle, this⟩
      simp only [hn, decide_False, Bool.false_and]
  have hg : (decide (6 + p * 2 ≤ j) && decide (j - (6 + p * 2) < 2)) = false := by
    rw [← Bool.decide_and]
    exact decide_eq_false h2
  rw [hf, hg]
  simp only [Bool.not_false, Bool.and_true, Bool.or_false]

theorem last_write_gpio_set_mode (c : Ctx) (t : List Event) (blocking : Bool) (v : Nat) :
    last_write (tx_header 1 c.regs.GPIO_CTRL_ID c.regs.GPIO_MODE_OFFSET)
        (t ++ ([read_reg_event c t blocking c.regs.GPIO_CTRL_ID c.regs.GPIO_MODE_OFFSET 4]
          ++ write_reg_events c blocking c.regs.GPIO_CTRL_ID c.regs.GPIO_MODE_OFFSET v 4))
      = some (le_bytes v 4) := by
  rw [← List.append_assoc]
  exact last_write_append_some _ _ _ _
    (last_write_of_writes_end _ _ _ []
      (reg_writes_write_reg_events c blocking _ _ v 4 (by decide)))

/-- C21: for a pin `p` in 0..8 and a mode `m` in 0..3, `dw3000_gpio_set_mode`
returns after one read and one write of the four-byte mode register; the word
written differs from the word read in no bit other than the two bits
`6 + 2p` and `7 + 2p` of the field of the pin. On a chip that answers the next
read of the mode register with the payload last written to it,
`dw3000_gpio_get_mode` for `p` then returns `m`, and for every other pin `q`
in 0..8 it returns what it returned before the mode was set. -/
theorem gpio_mode_roundtrip (c : Ctx) (w w1 : World) (p m : Nat)
    (hv : valid_access c.regs.GPIO_CTRL_ID c.regs.GPIO_MODE_OFFSET 4)
    (hp : p ≤ 8) (hm : m ≤ 3)
    (h1 : w1 = (dw3000_gpio_set_mode c p m w).world)
    (hb : reads_back c w1.trace c.regs.GPIO_CTRL_ID c.regs.GPIO_MODE_OFFSET 4) :
    (dw3000_gpio_set_mode c p m w).isFault = false
    ∧ reg_reads (w1.trace.drop w.trace.length)
        = [(tx_header 0 c.regs.GPIO_CTRL_ID c.regs.GPIO_MODE_OFFSET,
            read_reg_data c w.trace c.regs.GPIO_CTRL_ID c.regs.GPIO_MODE_OFFSET 4)]
    ∧ reg_writes (w1.trace.drop w.trace.length)
        = [(tx_header 1 c.regs.GPIO_CTRL_ID c.regs.GPIO_MODE_OFFSET,
            le_bytes (gpio_mode_value p m (le_value (read_reg_data c w.trace
              c.regs.GPIO_CTRL_ID c.regs.GPIO_MODE_OFFSET 4))) 4)]
    ∧ (∀ j, j ≠ 6 + p * 2 → j ≠ 7 + p * 2 →
        (gpio_mode_value p m (le_value (read_reg_data c w.trace
            c.regs.GPIO_CTRL_ID c.regs.GPIO_MODE_OFFSET 4))).testBit j
          = (le_value (read_reg_data c w.trace
              c.regs.GPIO_CTRL_ID c.regs.GPIO_MODE_OFFSET 4) % 2 ^ 32).testBit j)
    ∧ (dw3000_gpio_get_mode c p w1).value = some m
    ∧ (∀ q, q ≤ 8 → q ≠ p →
        (dw3000_gpio_get_mode c q w1).value = (dw3000_gpio_get_mode c q w).value) := by
  have e1 := dw3000_gpio_set_mode_eq c w p m hv hp hm
  have ht1 : w1.trace = w.trace
      ++ ([read_reg_event c w.trace w.inst.config.blocking_spi_transfers
            c.regs.GPIO_CTRL_ID c.regs.GPIO_MODE_OFFSET 4]
        ++ write_reg_events c w.inst.config.blocking_spi_transfers
            c.regs.GPIO_CTRL_ID c.regs.GPIO_MODE_OFFSET
            (gpio_mode_value p m (le_value (read_reg_data c w.trace
              c.regs.GPIO_CTRL_ID c.regs.GPIO_MODE_OFFSET 4))) 4) := by
    rw [h1, e1]; rfl
  have hl := last_write_gpio_set_mode c w.trace w.inst.config.blocking_spi_transfers
    (gpio_mode_value p m (le_value (read_reg_data c w.trace
      c.regs.GPIO_CTRL_ID c.regs.GPIO_MODE_OFFSET 4)))
  rw [← ht1] at hl
  have hr := hb _ hl
  have hd : w1.trace.drop w.trace.length
      = [read_reg_event c w.trace w.inst.config.blocking_spi_transfers
            c.regs.GPIO_CTRL_ID c.regs.GPIO_MODE_OFFSET 4]
        ++ write_reg_events c w.inst.config.blocking_spi_transfers
            c.regs.GPIO_CTRL_ID c.regs.GPIO_MODE_OFFSET
            (gpio_mode_value p m (le_value (read_reg_data c w.trace
              c.regs.GPIO_CTRL_ID c.regs.GPIO_MODE_OFFSET 4))) 4 := by
    rw [ht1, List.drop_left]
  refine ⟨by rw [e1]; rfl, ?_, ?_, fun j h0 h7 => gpio_mode_value_other_bits p m _ j hm h0 h7,
    ?_, ?_⟩
  · rw [hd, reg_reads_append, reg_reads_write_reg_events]
    simp [reg_reads, reg_read_read_reg_event]
  · rw [hd, reg_writes_append, reg_writes_write_reg_events _ _ _ _ _ _ (show 4 ≤ 8 by decide)]
    simp [reg_writes, reg_write_read_reg_event]
  · rw [dw3000_gpio_get_mode_eq c w1 p hv hp, hr, le_value_le_bytes_4 _ (gpio_mode_value_lt _ _ _),
      gpio_mode_field_set p m _ hp hm]
    rfl
  · intro q hq hqp
    rw [dw3000_gpio_get_mode_eq c w1 q hv hq, dw3000_gpio_get_mode_eq c w q hv hq, hr,
      le_value_le_bytes_4 _ (gpio_mode_value_lt _ _ _), gpio_mode_field_other p q m _ hm hq hqp]
    rfl

/-- Example for C21: on the example chip that reads back what was written,
starting from the example state, after pin 3 is set to mode 2 the mode read
for pin 3 is 2, and the mode read for pin 4 is what it was before, 0. -/
theorem gpio_mode_roundtrip_witness :
    (dw3000_gpio_get_mode example_ctx_memory 3
        (dw3000_gpio_set_mode example_ctx_memory 3 2 example_world).world).value = some 2
    ∧ (dw3000_gpio_get_mode example_ctx_memory 4
        (dw3000_gpio_set_mode example_ctx_memory 3 2 example_world).world).value = some 0 :=
  ⟨(gpio_mode_roundtrip example_ctx_memory example_world _ 3 2 (by decide) (by decide)
      (by decide) rfl (by decide)).2.2.2.2.1,
   ((gpio_mode_roundtrip example_ctx_memory example_world _ 3 2 (by decide) (by decide)
      (by decide) rfl (by decide)).2.2.2.2.2 4 (by decide) (by decide)).trans (by decide)⟩

theorem dw3000_phy_forcetrxoff_acquired_any (c : Ctx) (w : World)
    (hv : forcetrxoff_regs_ok c.regs)
    (hp : c.env.mutex_pend (w.trace
        ++ [read_reg_event c w.trace w.inst.config.blocking_spi_transfers c.regs.SYS_MASK_ID 0 4])
      = dpl_error_t.DPL_OK) :
    dw3000_phy_forcetrxoff c w
      = if c.env.mutex_release
            (w.trace ++ (forcetrxoff_locked_events c w.inst w.trace).dropLast)
          = dpl_error_t.DPL_OK then
          if w.tx_sem = 0 then
            if c.env.sem_release (w.trace ++ forcetrxoff_locked_events c w.inst w.trace)
                = dpl_error_t.DPL_OK then
              Res.ok ()
                { inst := { w.inst with
                    control := { w.inst.control with
                      wait4resp_enabled := false, rxauto_disable := false, abs_timeout := false }
                    status := { w.inst.status with sem_force_released := true } }
                  trace := w.trace ++ (forcetrxoff_locked_events c w.inst w.trace
                    ++ [Event.dpl_sem_release])
                  mutex_level := w.mutex_level
                  tx_sem := w.tx_sem + 1 }
            else
              Res.fault
                { inst := { w.inst with
                    control := { w.inst.control with
                      wait4resp_enabled := false, rxauto_disable := false, abs_timeout := false } }
                  trace := w.trace ++ (forcetrxoff_locked_events c w.inst w.trace
                    ++ [Event.dpl_sem_release])
                  mutex_level := w.mutex_level
                  tx_sem := w.tx_sem }
          else
            Res.ok ()
              { inst := { w.inst with
                  control := { w.inst.control with
                    wait4resp_enabled := false, rxauto_disable := false, abs_timeout := false } }
                trace := w.trace ++ forcetrxoff_locked_events c w.inst w.trace
                mutex_level := w.mutex_level
                tx_sem := w.tx_sem }
        else
          Res.fault
            { inst := w.inst
              trace := w.trace ++ forcetrxoff_locked_events c w.inst w.trace
              mutex_level := w.mutex_level + 1
              tx_sem := w.tx_sem } := by
  obtain ⟨hv1, hv2, hv3⟩ := hv
  have h4 : (4 : Nat) ≤ 8 := by decide
  have h1 : (1 : Nat) ≤ 8 := by decide
  have hdl : (forcetrxoff_locked_events c w.inst w.trace).dropLast
      = [read_reg_event c w.trace w.inst.config.blocking_spi_transfers c.regs.SYS_MASK_ID 0 4]
        ++ [Event.dpl_mutex_pend]
        ++ write_reg_events c w.inst.config.blocking_spi_transfers c.regs.SYS_MASK_ID 0 0 4
        ++ write_reg_events c w.inst.config.blocking_spi_transfers
            c.regs.SYS_CTRL_ID c.regs.SYS_CTRL_OFFSET c.regs.SYS_CTRL_TRXOFF 1
        ++ write_reg_events c w.inst.config.blocking_spi_transfers c.regs.SYS_STATUS_ID 0
            (c.regs.SYS_STATUS_ALL_TX ||| c.regs.SYS_STATUS_ALL_RX_ERR
              ||| c.regs.SYS_STATUS_ALL_RX_TO ||| c.regs.SYS_STATUS_ALL_RX_GOOD
              ||| c.regs.SYS_STATUS_TXBERR) 4
        ++ (if w.inst.config.dblbuffon_enabled = true then [Event.dw3000_sync_rxbufptrs] else [])
        ++ write_reg_events c w.inst.config.blocking_spi_transfers c.regs.SYS_MASK_ID 0
            (entry_mask c w.trace) 4
        ++ reset_cb_events w.inst.interface_cbs := by
    unfold forcetrxoff_locked_events
    rw [List.dropLast_concat]
  rw [hdl]
  simp only [dw3000_phy_forcetrxoff, M_bind_apply, dw3000_read_reg_eq _ _ _ _ _ h4 hv1,
    read_reg_data_4_mod, dpl_mutex_pend, hp, ne_eq, not_true_eq_false, if_false, if_true,
    dw3000_write_reg_eq _ _ _ _ _ _ h4 hv1, dw3000_write_reg_eq _ _ _ _ _ _ h1 hv2,
    dw3000_write_reg_eq _ _ _ _ _ _ h4 hv3, get_inst]
  by_cases hd : w.inst.config.dblbuffon_enabled = true
  · simp only [hd, if_true, emit, M_bind_apply, dw3000_write_reg_eq _ _ _ _ _ _ h4 hv1,
      forcetrxoff_reset_cbs_eq, get_inst, dpl_mutex_release, c_assert, modify_inst,
      dpl_sem_get_count, forcetrxoff_locked_events, entry_mask,
      List.append_assoc]
    generalize c.env.mutex_release _ = r
    cases r
    · by_cases h0 : w.tx_sem = 0
      · simp only [h0, if_true, M_bind_apply, dpl_sem_release, c_assert, modify_inst,
          Nat.add_sub_cancel, List.append_assoc]
        generalize c.env.sem_release _ = s
        cases s <;> simp
      · simp [h0, M_pure_apply]
    · simp
    · simp
  · simp only [hd, Bool.false_eq_true, if_false, M_pure_apply, M_bind_apply,
      dw3000_write_reg_eq _ _ _ _ _ _ h4 hv1,
      forcetrxoff_reset_cbs_eq, get_inst, dpl_mutex_release, c_assert, modify_inst,
      dpl_sem_get_count, forcetrxoff_locked_events, entry_mask,
      List.append_assoc, List.nil_append]
    generalize c.env.mutex_release _ = r
    cases r
    · by_cases h0 : w.tx_sem = 0
      · simp only [h0, if_true, M_bind_apply, dpl_sem_release, c_assert, modify_inst,
          Nat.add_sub_cancel, List.append_assoc]
        generalize c.env.sem_release _ = s
        cases s <;> simp
      · simp [h0, M_pure_apply]
    · simp
    · simp

theorem reset_cb_calls_append (t u : List Event) :
    reset_cb_calls (t ++ u) = reset_cb_calls t ++ reset_cb_calls u := by
  simp [reset_cb_calls]

theorem reset_cb_calls_write_reg_events (c : Ctx) (blocking : Bool)
    (reg subaddress val nbytes : Nat) :
    reset_cb_calls (write_reg_events c blocking reg subaddress val nbytes) = [] := by
  unfold write_reg_events reset_cb_calls
  split <;> simp [Event.reset_cb_id]

theorem reset_cb_id_read_reg_event (c : Ctx) (t : List Event) (blocking : Bool)
    (reg subaddress nbytes : Nat) :
    (read_reg_event c t blocking reg subaddress nbytes).reset_cb_id = none := by
  unfold read_reg_event
  split <;> rfl

theorem reset_cb_calls_reset_cb_events (ifs : List uwb_mac_interface) :
    reset_cb_calls (reset_cb_events ifs)
      = (ifs.filter (fun cbs => cbs.reset_cb.isSome)).map (fun cbs => cbs.id) := by
  induction ifs with
  | nil => rfl
  | cons cbs next ih =>
    unfold reset_cb_events reset_cb_calls at ih ⊢
    cases hcb : cbs.reset_cb with
    | none => simp [hcb, ih]
    | some cb => simp [hcb, ih, Event.reset_cb_id]

theorem reset_cb_calls_forcetrxoff_locked_events (c : Ctx) (inst : dw3000_dev_instance_t)
    (t : List Event) :
    reset_cb_calls (forcetrxoff_locked_events c inst t)
      = (inst.interface_cbs.filter (fun cbs => cbs.reset_cb.isSome)).map (fun cbs => cbs.id) := by
  unfold forcetrxoff_locked_events
  simp only [reset_cb_calls_append, reset_cb_calls_write_reg_events,
    reset_cb_calls_reset_cb_events]
  have h1 : reset_cb_calls [read_reg_event c t inst.config.blocking_spi_transfers
      c.regs.SYS_MASK_ID 0 4] = [] := by
    simp [reset_cb_calls, reset_cb_id_read_reg_event]
  have h2 : reset_cb_calls (if inst.config.dblbuffon_enabled = true
      then [Event.dw3000_sync_rxbufptrs] else []) = [] := by
    split <;> rfl
  have h3 : reset_cb_calls [Event.dpl_mutex_pend] = [] := rfl
  have h4 : reset_cb_calls [Event.dpl_mutex_release] = [] := rfl
  rw [h1, h2, h3, h4]
  simp

theorem forcetrxoff_trace_any (c : Ctx) (w : World) (hv : forcetrxoff_regs_ok c.regs)
    (hp : c.env.mutex_pend (w.trace
        ++ [read_reg_event c w.trace w.inst.config.blocking_spi_transfers c.regs.SYS_MASK_ID 0 4])
      = dpl_error_t.DPL_OK) :
    (dw3000_phy_forcetrxoff c w).world.trace
        = w.trace ++ forcetrxoff_locked_events c w.inst w.trace
    ∨ (dw3000_phy_forcetrxoff c w).world.trace
        = w.trace ++ (forcetrxoff_locked_events c w.inst w.trace ++ [Event.dpl_sem_release]) := by
  rw [dw3000_phy_forcetrxoff_acquired_any c w hv hp]
  split_ifs
  · exact Or.inr rfl
  · exact Or.inr rfl
  · exact Or.inl rfl
  · exact Or.inl rfl

/-- C22: when `dw3000_phy_forcetrxoff` acquires the mutex, the reset callbacks
it calls are, in list order and once each, those of the registered interfaces
that have one, whatever the callbacks return and whether or not the later
release of the mutex and of the semaphore succeed; the events of the locked
part end with these calls followed by the release of the mutex. -/
theorem forcetrxoff_reset_callbacks (c : Ctx) (w : World) (hv : forcetrxoff_regs_ok c.regs)
    (hp : c.env.mutex_pend (w.trace
        ++ [read_reg_event c w.trace w.inst.config.blocking_spi_transfers c.regs.SYS_MASK_ID 0 4])
      = dpl_error_t.DPL_OK) :
    reset_cb_calls ((dw3000_phy_forcetrxoff c w).world.trace.drop w.trace.length)
        = (w.inst.interface_cbs.filter (fun cbs => cbs.reset_cb.isSome)).map (fun cbs => cbs.id)
    ∧ (∃ pre, forcetrxoff_locked_events c w.inst w.trace
          = pre ++ reset_cb_events w.inst.interface_cbs ++ [Event.dpl_mutex_release]
        ∧ reset_cb_calls pre = [])
    ∧ (∀ ifs u, forcetrxoff_reset_cbs ifs u
        = Res.ok () { u with trace := u.trace ++ reset_cb_events ifs }) := by
  refine ⟨?_, ⟨_, rfl, ?_⟩, forcetrxoff_reset_cbs_eq⟩
  · rcases forcetrxoff_trace_any c w hv hp with h | h
    · rw [h, List.drop_left, reset_cb_calls_forcetrxoff_locked_events]
    · rw [h, List.drop_left, reset_cb_calls_append, reset_cb_calls_forcetrxoff_locked_events]
      exact List.append_nil _
  · simp only [reset_cb_calls_append, reset_cb_calls_write_reg_events]
    have h1 : reset_cb_calls [read_reg_event c w.trace w.inst.config.blocking_spi_transfers
        c.regs.SYS_MASK_ID 0 4] = [] := by
      simp [reset_cb_calls, reset_cb_id_read_reg_event]
    have h2 : reset_cb_calls (if w.inst.config.dblbuffon_enabled = true
        then [Event.dw3000_sync_rxbufptrs] else []) = [] := by
      split <;> rfl
    have h3 : reset_cb_calls [Event.dpl_mutex_pend] = [] := rfl
    rw [h1, h2, h3]
    rfl

/-- Example for C22: with four registered interfaces, of which the first, third
and fourth have a reset callback (returning true, false, true), the callbacks
called are those of interfaces 1, 3 and 4, in this order. -/
theorem forcetrxoff_reset_callbacks_witness :
    reset_cb_calls ((dw3000_phy_forcetrxoff example_ctx example_world_cbs).world.trace.drop
        example_world_cbs.trace.length) = [1, 3, 4] :=
  (forcetrxoff_reset_callbacks example_ctx example_world_cbs (by decide) rfl).1.trans
    (by decide)

theorem sem_calls_append (t u : List Event) : sem_calls (t ++ u) = sem_calls t ++ sem_calls u := by
  simp [sem_calls]

theorem sem_calls_write_reg_events (c : Ctx) (blocking : Bool)
    (reg subaddress val nbytes : Nat) :
    sem_calls (write_reg_events c blocking reg subaddress val nbytes) = [] := by
  unfold write_reg_events sem_calls
  split <;> simp [Event.sem_call]

theorem sem_call_read_reg_event (c : Ctx) (t : List Event) (blocking : Bool)
    (reg subaddress nbytes : Nat) :
    (read_reg_event c t blocking reg subaddress nbytes).sem_call = false := by
  unfold read_reg_event
  split <;> rfl

theorem sem_calls_reset_cb_events (ifs : List uwb_mac_interface) :
    sem_calls (reset_cb_events ifs) = [] := by
  induction ifs with
  | nil => rfl
  | cons cbs next ih =>
    unfold reset_cb_events sem_calls at ih ⊢
    cases hcb : cbs.reset_cb with
    | none => simp only [List.filterMap_cons, hcb, Option.map_none', ih]
    | some cb =>
      simp only [List.filterMap_cons, hcb, Option.map_some', List.filter_cons, Event.sem_call,
        Bool.false_eq_true, if_false, ih]

theorem sem_calls_forcetrxoff_locked_events (c : Ctx) (inst : dw3000_dev_instance_t)
    (t : List Event) : sem_calls (forcetrxoff_locked_events c inst t) = [] := by
  unfold forcetrxoff_locked_events
  simp only [sem_calls_append, sem_calls_write_reg_events, sem_calls_reset_cb_events]
  have h1 : sem_calls [read_reg_event c t inst.config.blocking_spi_transfers
      c.regs.SYS_MASK_ID 0 4] = [] := by
    simp [sem_calls, sem_call_read_reg_event]
  have h2 : sem_calls (if inst.config.dblbuffon_enabled = true
      then [Event.dw3000_sync_rxbufptrs] else []) = [] := by
    split <;> rfl
  have h3 : sem_calls [Event.dpl_mutex_pend] = [] := rfl
  have h4 : sem_calls [Event.dpl_mutex_release] = [] := rfl
  rw [h1, h2, h3, h4]
  rfl

/-- C23: when `dw3000_phy_forcetrxoff` acquires the mutex and returns, the
control flags `wait4resp_enabled`, `rxauto_disable` and `abs_timeout` are
false and the count of the TX semaphore is at least 1. If the count was 0,
`dpl_sem_release` was called exactly once, the count is 1 and
`status.sem_force_released` is set; if the count was positive,
`dpl_sem_release` was not called and the count and the flag are as before. -/
theorem forcetrxoff_flags_semaphore (c : Ctx) (w : World) (hv : forcetrxoff_regs_ok c.regs)
    (hp : c.env.mutex_pend (w.trace
        ++ [read_reg_event c w.trace w.inst.config.blocking_spi_transfers c.regs.SYS_MASK_ID 0 4])
      = dpl_error_t.DPL_OK)
    (hret : (dw3000_phy_forcetrxoff c w).isFault = false) :
    (dw3000_phy_forcetrxoff c w).world.inst.control.wait4resp_enabled = false
    ∧ (dw3000_phy_forcetrxoff c w).world.inst.control.rxauto_disable = false
    ∧ (dw3000_phy_forcetrxoff c w).world.inst.control.abs_timeout = false
    ∧ 1 ≤ (dw3000_phy_forcetrxoff c w).world.tx_sem
    ∧ (w.tx_sem = 0 →
        sem_calls ((dw3000_phy_forcetrxoff c w).world.trace.drop w.trace.length)
          = [Event.dpl_sem_release]
        ∧ (dw3000_phy_forcetrxoff c w).world.tx_sem = 1
        ∧ (dw3000_phy_forcetrxoff c w).world.inst.status.sem_force_released = true)
    ∧ (0 < w.tx_sem →
        sem_calls ((dw3000_phy_forcetrxoff c w).world.trace.drop w.trace.length) = []
        ∧ (dw3000_phy_forcetrxoff c w).world.tx_sem = w.tx_sem
        ∧ (dw3000_phy_forcetrxoff c w).world.inst.status.sem_force_released
            = w.inst.status.sem_force_released) := by
  have e := dw3000_phy_forcetrxoff_acquired_any c w hv hp
  by_cases hrel : c.env.mutex_release
      (w.trace ++ (forcetrxoff_locked_events c w.inst w.trace).dropLast) = dpl_error_t.DPL_OK
  · by_cases h0 : w.tx_sem = 0
    · by_cases hsem : c.env.sem_release (w.trace ++ forcetrxoff_locked_events c w.inst w.trace)
          = dpl_error_t.DPL_OK
      · rw [if_pos hrel, if_pos h0, if_pos hsem] at e
        rw [e]
        refine ⟨rfl, rfl, rfl, Nat.le_add_left _ _, fun _ => ⟨?_, ?_, rfl⟩,
          fun hpos => absurd h0 (Nat.pos_iff_ne_zero.mp hpos)⟩
        · simp only [Res.world, List.drop_left, sem_calls_append,
            sem_calls_forcetrxoff_locked_events]
          rfl
        · simp only [Res.world, h0]
      · rw [if_pos hrel, if_pos h0, if_neg hsem] at e
        rw [e] at hret
        cases hret
    · rw [if_pos hrel, if_neg h0] at e
      rw [e]
      refine ⟨rfl, rfl, rfl, Nat.pos_iff_ne_zero.mpr h0, fun h => absurd h h0,
        fun _ => ⟨?_, rfl, rfl⟩⟩
      simp only [Res.world, List.drop_left, sem_calls_forcetrxoff_locked_events]
  · rw [if_neg hrel] at e
    rw [e] at hret
    cases hret

/-- Example for C23: from the example state, whose three control flags are set
and whose semaphore count is 0, the call returns with the flags cleared, the
count 1, the forced-release flag set and one call of `dpl_sem_release`. -/
theorem forcetrxoff_flags_semaphore_witness :
    (dw3000_phy_forcetrxoff example_ctx example_world).world.inst.control.wait4resp_enabled
        = false
    ∧ (dw3000_phy_forcetrxoff example_ctx example_world).world.tx_sem = 1
    ∧ (dw3000_phy_forcetrxoff example_ctx example_world).world.inst.status.sem_force_released
        = true :=
  ⟨(forcetrxoff_flags_semaphore example_ctx example_world (by decide) rfl (by decide)).1,
   ((forcetrxoff_flags_semaphore example_ctx example_world (by decide) rfl
      (by decide)).2.2.2.2.1 rfl).2.1,
   ((forcetrxoff_flags_semaphore example_ctx example_world (by decide) rfl
      (by decide)).2.2.2.2.1 rfl).2.2⟩

theorem dw3000_dev_wakeup_acquired_any (c : Ctx) (w : World) (hv : wakeup_regs_ok c.regs)
    (hp : c.env.mutex_pend w.trace = dpl_error_t.DPL_OK) :
    dw3000_dev_wakeup c w
      = if c.env.mutex_release (w.trace ++ ([Event.dpl_mutex_pend]
            ++ (wakeup_poll_events c w.inst.config.blocking_spi_transfers w.trace
            ++ wakeup_write_events c w.inst))) = dpl_error_t.DPL_OK then
          Res.ok
            { w.inst.status with
              sleeping := wakeup_sleeping c w.inst.config.blocking_spi_transfers w.trace }
            (wakeup_sem_step c
              { inst := { w.inst with status := { w.inst.status with
                  sleeping := wakeup_sleeping c w.inst.config.blocking_spi_transfers w.trace } }
                trace := w.trace ++ [Event.dpl_mutex_pend]
                  ++ wakeup_poll_events c w.inst.config.blocking_spi_transfers w.trace
                  ++ wakeup_write_events c w.inst
                  ++ [Event.dpl_mutex_release]
                mutex_level := w.mutex_level
                tx_sem := w.tx_sem })
        else
          Res.fault
            { inst := { w.inst with status := { w.inst.status with
                sleeping := wakeup_sleeping c w.inst.config.blocking_spi_transfers w.trace } }
              trace := w.trace ++ [Event.dpl_mutex_pend]
                ++ wakeup_poll_events c w.inst.config.blocking_spi_transfers w.trace
                ++ wakeup_write_events c w.inst
                ++ [Event.dpl_mutex_release]
              mutex_level := w.mutex_level + 1
              tx_sem := w.tx_sem } := by
  obtain ⟨hv1, hv2, hv3, hv4⟩ := hv
  have h4 : (4 : Nat) ≤ 8 := by decide
  have h2 : (2 : Nat) ≤ 8 := by decide
  simp only [dw3000_dev_wakeup, M_bind_apply, dpl_mutex_pend, hp, ne_eq, not_true_eq_false,
    if_false, if_true, modify_inst, dw3000_read_reg_eq _ _ _ _ _ h4 hv1, read_reg_data_4_mod,
    wakeup_poll_eq c hv1, dw3000_write_reg_eq _ _ _ _ _ _ h4 hv2,
    dw3000_write_reg_eq _ _ _ _ _ _ h2 hv3, dw3000_write_reg_eq _ _ _ _ _ _ h2 hv4, get_inst,
    dpl_mutex_release, c_assert, dpl_sem_get_count, wakeup_sem_step,
    wakeup_sleeping, wakeup_last, wakeup_poll_events, wakeup_write_events, devid_read,
    List.append_assoc, List.singleton_append, List.cons_append, List.nil_append]
  generalize c.env.mutex_release _ = r
  cases r
  · by_cases hs : w.tx_sem = 0
    · simp only [hs, if_true, M_bind_apply, dpl_sem_release, M_pure_apply, get_inst, Res.world,
        Nat.add_sub_cancel]
    · simp only [hs, if_true, if_false, M_bind_apply, M_pure_apply, get_inst,
        Nat.add_sub_cancel]
  · simp
  · simp

theorem no_os_call_of_reg_read (e : Event) (h : e.reg_read.isSome = true) :
    e.sem_call = false ∧ e.mutex_call = false := by
  cases e <;> first | exact ⟨rfl, rfl⟩ | (simp [Event.reg_read] at h)

theorem testBit_of_lt_two_pow_16 (x j : Nat) (hx : x < 2 ^ 16) (h : x.testBit j = true) :
    decide (j < 16) = true := by
  apply decide_eq_true
  by_contra hj
  have hlt : x < 2 ^ j := lt_of_lt_of_le hx (Nat.pow_le_pow_right (by norm_num) (by omega))
  rw [Nat.testBit_eq_false_of_lt hlt] at h
  cases h

theorem testBit_mask_step (flag : Bool) (x m j : Nat) :
    (mask_step flag x m).testBit j
      = (if flag = true then decide (j < 16) && (x.testBit j || m.testBit j)
          else x.testBit j && (decide (j < 16) && !m.testBit j)) := by
  unfold mask_step
  cases flag <;>
    simp only [Bool.false_eq_true, if_false, if_true, Nat.testBit_and, Nat.testBit_or,
      Nat.testBit_mod_two_pow, testBit_u16_not]

theorem mask_step_own (flag : Bool) (x m : Nat) (hx : x < 2 ^ 16) (hm : m < 2 ^ 16) :
    mask_step flag x m &&& m = (if flag = true then m else 0)
    ∧ mask_step flag x m < 2 ^ 16 := by
  constructor
  · apply Nat.eq_of_testBit_eq
    intro j
    have h1 := testBit_of_lt_two_pow_16 m j hm
    rw [Nat.testBit_and, testBit_mask_step]
    revert h1
    cases flag <;> simp only [Bool.false_eq_true, if_false, if_true, Nat.zero_testBit] <;>
      cases decide (j < 16) <;> cases x.testBit j <;> cases m.testBit j <;> simp
  · apply Nat.lt_pow_two_of_testBit
    intro j hj
    have hj16 : decide (j < 16) = false := decide_eq_false (by omega)
    have hxj : x.testBit j = false :=
      Nat.testBit_eq_false_of_lt (lt_of_lt_of_le hx (Nat.pow_le_pow_right (by norm_num) hj))
    rw [testBit_mask_step, hj16, hxj]
    cases flag <;> simp

theorem mask_step_other (flag : Bool) (x m n : Nat) (hn : n < 2 ^ 16) (hd : m &&& n = 0) :
    mask_step flag x m &&& n = x &&& n := by
  apply Nat.eq_of_testBit_eq
  intro j
  have h1 := testBit_of_lt_two_pow_16 n j hn
  have h2 := testBit_disjoint m n j hd
  rw [Nat.testBit_and, Nat.testBit_and, testBit_mask_step]
  revert h1 h2
  cases flag <;> simp only [Bool.false_eq_true, if_false, if_true] <;>
    cases decide (j < 16) <;> cases x.testBit j <;> cases m.testBit j <;>
    cases n.testBit j <;> simp

theorem or_and_right_zero (a b n : Nat) (h : (a ||| b) &&& n = 0) : a &&& n = 0 ∧ b &&& n = 0 := by
  constructor <;>
  · apply Nat.eq_of_testBit_eq
    intro j
    have hj := congrArg (fun x => Nat.testBit x j) h
    simp only [Nat.testBit_and, Nat.testBit_or, Nat.zero_testBit] at hj ⊢
    revert hj
    cases a.testBit j <;> cases b.testBit j <;> cases n.testBit j <;> simp

theorem always_set_bits (r a b : Nat) (ha : a < 2 ^ 16) (hb : b < 2 ^ 16) :
    (r % 2 ^ 16 ||| (a ||| b)) % 2 ^ 16 &&& a = a
    ∧ (r % 2 ^ 16 ||| (a ||| b)) % 2 ^ 16 &&& b = b
    ∧ (r % 2 ^ 16 ||| (a ||| b)) % 2 ^ 16 < 2 ^ 16 := by
  refine ⟨?_, ?_, Nat.mod_lt _ (by norm_num)⟩ <;>
  · apply Nat.eq_of_testBit_eq
    intro j
    have h1 := testBit_of_lt_two_pow_16 a j ha
    have h2 := testBit_of_lt_two_pow_16 b j hb
    simp only [Nat.testBit_and, Nat.testBit_or, Nat.testBit_mod_two_pow]
    revert h1 h2
    cases decide (j < 16) <;> cases r.testBit j <;> cases a.testBit j <;>
      cases b.testBit j <;> simp

theorem configure_sleep_wcfg_steps (k : dw3000_regs) (inst : dw3000_dev_instance_t) (r : Nat) :
    configure_sleep_wcfg k inst r
      = mask_step inst.config.wakeup_rx_enable
          (mask_step inst.status.LDO_enabled
            (mask_step inst.status.LDE_enabled
              ((r % 2 ^ 16 ||| (k.AON_WCFG_ONW_L64P ||| k.AON_WCFG_ONW_LDC)) % 2 ^ 16)
              k.AON_WCFG_ONW_LLDE)
            k.AON_WCFG_ONW_LLDO)
          k.AON_WCFG_ONW_RX := rfl

theorem configure_sleep_cfg0_steps (k : dw3000_regs) (inst : dw3000_dev_instance_t) (r : Nat) :
    configure_sleep_cfg0 k inst r
      = mask_step inst.config.sleep_enable
          ((r % 2 ^ 16 ||| (k.AON_CFG0_WAKE_SPI ||| k.AON_CFG0_WAKE_PIN)) % 2 ^ 16)
          (k.AON_CFG0_WAKE_CNT ||| k.AON_CFG0_SLEEP_EN) := rfl

theorem configure_sleep_wcfg_bits (k : dw3000_regs) (inst : dw3000_dev_instance_t) (r : Nat)
    (hm : configure_sleep_masks_ok k) :
    configure_sleep_wcfg k inst r &&& k.AON_WCFG_ONW_L64P = k.AON_WCFG_ONW_L64P
    ∧ configure_sleep_wcfg k inst r &&& k.AON_WCFG_ONW_LDC = k.AON_WCFG_ONW_LDC
    ∧ configure_sleep_wcfg k inst r &&& k.AON_WCFG_ONW_LLDE
        = (if inst.status.LDE_enabled = true then k.AON_WCFG_ONW_LLDE else 0)
    ∧ configure_sleep_wcfg k inst r &&& k.AON_WCFG_ONW_LLDO
        = (if inst.status.LDO_enabled = true then k.AON_WCFG_ONW_LLDO else 0)
    ∧ configure_sleep_wcfg k inst r &&& k.AON_WCFG_ONW_RX
        = (if inst.config.wakeup_rx_enable = true then k.AON_WCFG_ONW_RX else 0) := by
  obtain ⟨⟨b1, b2, b3, b4, b5⟩, ⟨d1, d2, d3, d4, d5, d6⟩, _, _⟩ := hm
  obtain ⟨a1, a2, a3⟩ := always_set_bits r _ _ b1 b2
  have s1 := mask_step_own inst.status.LDE_enabled _ k.AON_WCFG_ONW_LLDE a3 b3
  have s2 := mask_step_own inst.status.LDO_enabled _ k.AON_WCFG_ONW_LLDO s1.2 b4
  have s3 := mask_step_own inst.config.wakeup_rx_enable _ k.AON_WCFG_ONW_RX s2.2 b5
  have c1 : k.AON_WCFG_ONW_LLDE &&& k.AON_WCFG_ONW_L64P = 0 := by
    rw [Nat.land_comm]; exact (or_and_right_zero _ _ _ d1).1
  have c2 : k.AON_WCFG_ONW_LLDE &&& k.AON_WCFG_ONW_LDC = 0 := by
    rw [Nat.land_comm]; exact (or_and_right_zero _ _ _ d1).2
  have c3 : k.AON_WCFG_ONW_LLDO &&& k.AON_WCFG_ONW_L64P = 0 := by
    rw [Nat.land_comm]; exact (or_and_right_zero _ _ _ d2).1
  have c4 : k.AON_WCFG_ONW_LLDO &&& k.AON_WCFG_ONW_LDC = 0 := by
    rw [Nat.land_comm]; exact (or_and_right_zero _ _ _ d2).2
  have c5 : k.AON_WCFG_ONW_RX &&& k.AON_WCFG_ONW_L64P = 0 := by
    rw [Nat.land_comm]; exact (or_and_right_zero _ _ _ d3).1
  have c6 : k.AON_WCFG_ONW_RX &&& k.AON_WCFG_ONW_LDC = 0 := by
    rw [Nat.land_comm]; exact (or_and_right_zero _ _ _ d3).2
  have c7 : k.AON_WCFG_ONW_LLDO &&& k.AON_WCFG_ONW_LLDE = 0 := by
    rw [Nat.land_comm]; exact d4
  have c8 : k.AON_WCFG_ONW_RX &&& k.AON_WCFG_ONW_LLDE = 0 := by
    rw [Nat.land_comm]; exact d5
  have c9 : k.AON_WCFG_ONW_RX &&& k.AON_WCFG_ONW_LLDO = 0 := by
    rw [Nat.land_comm]; exact d6
  rw [configure_sleep_wcfg_steps]
  refine ⟨?_, ?_, ?_, ?_, s3.1⟩
  · rw [mask_step_other _ _ _ _ b1 c5, mask_step_other _ _ _ _ b1 c3,
      mask_step_other _ _ _ _ b1 c1, a1]
  · rw [mask_step_other _ _ _ _ b2 c6, mask_step_other _ _ _ _ b2 c4,
      mask_step_other _ _ _ _ b2 c2, a2]
  · rw [mask_step_other _ _ _ _ b3 c8, mask_step_other _ _ _ _ b3 c7, s1.1]
  · rw [mask_step_other _ _ _ _ b4 c9, s2.1]

theorem configure_sleep_cfg0_bits (k : dw3000_regs) (inst : dw3000_dev_instance_t) (r : Nat)
    (hm : configure_sleep_masks_ok k) :
    configure_sleep_cfg0 k inst r &&& k.AON_CFG0_WAKE_SPI = k.AON_CFG0_WAKE_SPI
    ∧ configure_sleep_cfg0 k inst r &&& k.AON_CFG0_WAKE_PIN = k.AON_CFG0_WAKE_PIN
    ∧ configure_sleep_cfg0 k inst r &&& (k.AON_CFG0_WAKE_CNT ||| k.AON_CFG0_SLEEP_EN)
        = (if inst.config.sleep_enable = true
            then k.AON_CFG0_WAKE_CNT ||| k.AON_CFG0_SLEEP_EN else 0) := by
  obtain ⟨_, _, ⟨b1, b2, b3, b4⟩, d⟩ := hm
  obtain ⟨a1, a2, a3⟩ := always_set_bits r _ _ b1 b2
  have hor : k.AON_CFG0_WAKE_CNT ||| k.AON_CFG0_SLEEP_EN < 2 ^ 16 := Nat.or_lt_two_pow b3 b4
  have s1 := mask_step_own inst.config.sleep_enable _ _ a3 hor
  have c1 : (k.AON_CFG0_WAKE_CNT ||| k.AON_CFG0_SLEEP_EN) &&& k.AON_CFG0_WAKE_SPI = 0 := by
    rw [Nat.land_comm]; exact (or_and_right_zero _ _ _ d).1
  have c2 : (k.AON_CFG0_WAKE_CNT ||| k.AON_CFG0_SLEEP_EN) &&& k.AON_CFG0_WAKE_PIN = 0 := by
    rw [Nat.land_comm]; exact (or_and_right_zero _ _ _ d).2
  rw [configure_sleep_cfg0_steps]
  exact ⟨by rw [mask_step_other _ _ _ _ b1 c1, a1], by rw [mask_step_other _ _ _ _ b2 c2, a2],
    s1.1⟩

theorem mask_step_outside (flag : Bool) (x m n : Nat)
    (hsub : ∀ j, m.testBit j = true → n.testBit j = true) :
    mask_step flag x m &&& u16_not n = x &&& u16_not n := by
  apply Nat.eq_of_testBit_eq
  intro j
  have h1 := hsub j
  rw [Nat.testBit_and, Nat.testBit_and, testBit_mask_step, testBit_u16_not]
  revert h1
  cases flag <;> simp only [Bool.false_eq_true, if_false, if_true] <;>
    cases decide (j < 16) <;> cases x.testBit j <;> cases m.testBit j <;>
    cases n.testBit j <;> simp

theorem always_set_outside (r a b n : Nat)
    (ha : ∀ j, a.testBit j = true → n.testBit j = true)
    (hb : ∀ j, b.testBit j = true → n.testBit j = true) :
    (r % 2 ^ 16 ||| (a ||| b)) % 2 ^ 16 &&& u16_not n = r % 2 ^ 16 &&& u16_not n := by
  apply Nat.eq_of_testBit_eq
  intro j
  have h1 := ha j
  have h2 := hb j
  simp only [Nat.testBit_and, Nat.testBit_or, Nat.testBit_mod_two_pow, testBit_u16_not]
  revert h1 h2
  cases decide (j < 16) <;> cases r.testBit j <;> cases a.testBit j <;>
    cases b.testBit j <;> cases n.testBit j <;> simp

theorem configure_sleep_wcfg_other_bits (k : dw3000_regs) (inst : dw3000_dev_instance_t)
    (r : Nat) :
    configure_sleep_wcfg k inst r
        &&& u16_not (k.AON_WCFG_ONW_L64P ||| k.AON_WCFG_ONW_LDC ||| k.AON_WCFG_ONW_LLDE
          ||| k.AON_WCFG_ONW_LLDO ||| k.AON_WCFG_ONW_RX)
      = r % 2 ^ 16
        &&& u16_not (k.AON_WCFG_ONW_L64P ||| k.AON_WCFG_ONW_LDC ||| k.AON_WCFG_ONW_LLDE
          ||| k.AON_WCFG_ONW_LLDO ||| k.AON_WCFG_ONW_RX) := by
  rw [configure_sleep_wcfg_steps,
    mask_step_outside _ _ _ _ (fun j h => by simp only [Nat.testBit_or, h, Bool.or_true]),
    mask_step_outside _ _ _ _ (fun j h => by
      simp only [Nat.testBit_or, h, Bool.or_true, Bool.true_or]),
    mask_step_outside _ _ _ _ (fun j h => by
      simp only [Nat.testBit_or, h, Bool.or_true, Bool.true_or]),
    always_set_outside _ _ _ _
      (fun j h => by simp only [Nat.testBit_or, h, Bool.or_true, Bool.true_or])
      (fun j h => by simp only [Nat.testBit_or, h, Bool.or_true, Bool.true_or])]

theorem configure_sleep_cfg0_other_bits (k : dw3000_regs) (inst : dw3000_dev_instance_t)
    (r : Nat) :
    configure_sleep_cfg0 k inst r
        &&& u16_not (k.AON_CFG0_WAKE_SPI ||| k.AON_CFG0_WAKE_PIN
          ||| (k.AON_CFG0_WAKE_CNT ||| k.AON_CFG0_SLEEP_EN))
      = r % 2 ^ 16
        &&& u16_not (k.AON_CFG0_WAKE_SPI ||| k.AON_CFG0_WAKE_PIN
          ||| (k.AON_CFG0_WAKE_CNT ||| k.AON_CFG0_SLEEP_EN)) := by
  rw [configure_sleep_cfg0_steps,
    mask_step_outside _ _ _ _ (fun j h => by
      simp only [Nat.testBit_or] at h ⊢
      simp only [h, Bool.or_true]),
    always_set_outside _ _ _ _
      (fun j h => by simp only [Nat.testBit_or, h, Bool.or_true, Bool.true_or])
      (fun j h => by simp only [Nat.testBit_or, h, Bool.or_true, Bool.true_or])]

/-- C25: `dw3000_dev_configure_sleep` returns after reading and writing
`AON_WCFG` and then `AON_CFG0`, and sets `status.sleep_enabled` to
`config.sleep_enable`. With 16-bit masks that share no bit between different
settings, the value written to `AON_WCFG` for any value `r` read has the bits
of `AON_WCFG_ONW_L64P` and of `AON_WCFG_ONW_LDC` set, the bits of
`AON_WCFG_ONW_LLDE` set if `status.LDE_enabled` and clear if not, likewise
`AON_WCFG_ONW_LLDO` for `status.LDO_enabled` and `AON_WCFG_ONW_RX` for
`config.wakeup_rx_enable`, and outside these masks the bits of `r`. The value
written to `AON_CFG0` has the bits of `AON_CFG0_WAKE_SPI` and of
`AON_CFG0_WAKE_PIN` set, the bits of `AON_CFG0_WAKE_CNT | AON_CFG0_SLEEP_EN`
all set if `config.sleep_enable` and all clear if not, and outside these masks
the bits of `r`. -/
theorem configure_sleep_bits (c : Ctx) (w : World) (hv : configure_sleep_regs_ok c.regs)
    (hm : configure_sleep_masks_ok c.regs) :
    (dw3000_dev_configure_sleep c w).isFault = false
    ∧ reg_writes ((dw3000_dev_configure_sleep c w).world.trace.drop w.trace.length)
        = [(tx_header 1 c.regs.AON_ID c.regs.AON_WCFG_OFFSET,
            le_bytes (configure_sleep_wcfg c.regs w.inst
              (le_value (read_reg_data c w.trace c.regs.AON_ID c.regs.AON_WCFG_OFFSET 2))) 2),
           (tx_header 1 c.regs.AON_ID c.regs.AON_CFG0_OFFSET,
            le_bytes (configure_sleep_cfg0 c.regs w.inst
              (le_value (read_reg_data c (w.trace ++ configure_sleep_wcfg_events c w.inst w.trace)
                c.regs.AON_ID c.regs.AON_CFG0_OFFSET 2))) 2)]
    ∧ (dw3000_dev_configure_sleep c w).world.inst.status.sleep_enabled
        = w.inst.config.sleep_enable
    ∧ (∀ r, configure_sleep_wcfg c.regs w.inst r < 2 ^ 16
        ∧ configure_sleep_wcfg c.regs w.inst r &&& c.regs.AON_WCFG_ONW_L64P
            = c.regs.AON_WCFG_ONW_L64P
        ∧ configure_sleep_wcfg c.regs w.inst r &&& c.regs.AON_WCFG_ONW_LDC
            = c.regs.AON_WCFG_ONW_LDC
        ∧ configure_sleep_wcfg c.regs w.inst r &&& c.regs.AON_WCFG_ONW_LLDE
            = (if w.inst.status.LDE_enabled = true then c.regs.AON_WCFG_ONW_LLDE else 0)
        ∧ configure_sleep_wcfg c.regs w.inst r &&& c.regs.AON_WCFG_ONW_LLDO
            = (if w.inst.status.LDO_enabled = true then c.regs.AON_WCFG_ONW_LLDO else 0)
        ∧ configure_sleep_wcfg c.regs w.inst r &&& c.regs.AON_WCFG_ONW_RX
            = (if w.inst.config.wakeup_rx_enable = true then c.regs.AON_WCFG_ONW_RX else 0)
        ∧ configure_sleep_wcfg c.regs w.inst r
            &&& u16_not (c.regs.AON_WCFG_ONW_L64P ||| c.regs.AON_WCFG_ONW_LDC
              ||| c.regs.AON_WCFG_ONW_LLDE ||| c.regs.AON_WCFG_ONW_LLDO
              ||| c.regs.AON_WCFG_ONW_RX)
          = r % 2 ^ 16
            &&& u16_not (c.regs.AON_WCFG_ONW_L64P ||| c.regs.AON_WCFG_ONW_LDC
              ||| c.regs.AON_WCFG_ONW_LLDE ||| c.regs.AON_WCFG_ONW_LLDO
              ||| c.regs.AON_WCFG_ONW_RX))
    ∧ (∀ r, configure_sleep_cfg0 c.regs w.inst r < 2 ^ 16
        ∧ configure_sleep_cfg0 c.regs w.inst r &&& c.regs.AON_CFG0_WAKE_SPI
            = c.regs.AON_CFG0_WAKE_SPI
        ∧ configure_sleep_cfg0 c.regs w.inst r &&& c.regs.AON_CFG0_WAKE_PIN
            = c.regs.AON_CFG0_WAKE_PIN
        ∧ configure_sleep_cfg0 c.regs w.inst r
            &&& (c.regs.AON_CFG0_WAKE_CNT ||| c.regs.AON_CFG0_SLEEP_EN)
          = (if w.inst.config.sleep_enable = true
              then c.regs.AON_CFG0_WAKE_CNT ||| c.regs.AON_CFG0_SLEEP_EN else 0)
        ∧ configure_sleep_cfg0 c.regs w.inst r
            &&& u16_not (c.regs.AON_CFG0_WAKE_SPI ||| c.regs.AON_CFG0_WAKE_PIN
              ||| (c.regs.AON_CFG0_WAKE_CNT ||| c.regs.AON_CFG0_SLEEP_EN))
          = r % 2 ^ 16
            &&& u16_not (c.regs.AON_CFG0_WAKE_SPI ||| c.regs.AON_CFG0_WAKE_PIN
              ||| (c.regs.AON_CFG0_WAKE_CNT ||| c.regs.AON_CFG0_SLEEP_EN))) := by
  have e := dw3000_dev_configure_sleep_eq c w hv
  refine ⟨by rw [e]; rfl, ?_, by rw [e]; rfl, fun r => ?_, fun r => ?_⟩
  · have ht : (dw3000_dev_configure_sleep c w).world.trace
        = w.trace ++ (configure_sleep_wcfg_events c w.inst w.trace
          ++ configure_sleep_cfg0_events c w.inst
            (w.trace ++ configure_sleep_wcfg_events c w.inst w.trace)) := by
      rw [e]; rfl
    rw [ht, List.drop_left, reg_writes_append, reg_writes_configure_sleep_wcfg_events,
      reg_writes_configure_sleep_cfg0_events]
    rfl
  · obtain ⟨h1, h2, h3, h4, h5⟩ := configure_sleep_wcfg_bits c.regs w.inst r hm
    exact ⟨configure_sleep_wcfg_lt _ _ _, h1, h2, h3, h4, h5,
      configure_sleep_wcfg_other_bits _ _ _⟩
  · obtain ⟨h1, h2, h3⟩ := configure_sleep_cfg0_bits c.regs w.inst r hm
    exact ⟨configure_sleep_cfg0_lt _ _ _, h1, h2, h3, configure_sleep_cfg0_other_bits _ _ _⟩

/-- Example for C25 with the example register map and instance (no status flag
set, RX on wake and sleep not enabled): for the value 0x1F0F read, the value
written to `AON_WCFG` keeps 0x070D of it and has 0x80 and 0x40 set, and the
call leaves `status.sleep_enabled` false. -/
theorem configure_sleep_bits_witness :
    configure_sleep_wcfg example_regs example_inst 0x1F0F = 0x07CD
    ∧ (dw3000_dev_configure_sleep example_ctx example_world).world.inst.status.sleep_enabled
        = false :=
  ⟨by decide,
   (configure_sleep_bits example_ctx example_world (by decide) (by decide)).2.2.1⟩

theorem M_bind_assoc {α β γ : Type} (m : M α) (f : α → M β) (g : β → M γ) :
    (m >>= f) >>= g = m >>= fun a => f a >>= g := by
  funext w
  simp only [M_bind_apply]
  cases m w <;> rfl

theorem M_pure_bind {α β : Type} (a : α) (f : α → M β) : (pure a : M α) >>= f = f a := rfl

theorem dw3000_phy_init_blocks (c : Ctx) (txrf_config : Option uwb_dev_txrf_config) :
    dw3000_phy_init c txrf_config
      = (do
          let txrf ← phy_init_setup c txrf_config
          let otp_addr ← phy_init_otp_rev c
          phy_init_ldo c
          phy_init_ids c
          phy_init_xtal c otp_addr
          phy_init_lde c
          phy_init_aon_cfg1 c
          phy_init_tail c txrf) := by
  simp only [dw3000_phy_init, phy_init_setup, phy_init_otp_rev, phy_init_ldo, phy_init_ids,
    phy_init_xtal, phy_init_lde, phy_init_aon_cfg1, phy_init_tail, M_bind_assoc, M_pure_bind]

theorem phy_frame_refl (w : World) : phy_frame w w :=
  ⟨⟨[], (List.append_nil _).symm⟩, rfl, rfl⟩

theorem phy_frame_trans {u v w : World} (h1 : phy_frame u v) (h2 : phy_frame v w) :
    phy_frame u w := by
  obtain ⟨⟨e1, t1⟩, l1, x1⟩ := h1
  obtain ⟨⟨e2, t2⟩, l2, x2⟩ := h2
  exact ⟨⟨e1 ++ e2, by rw [t2, t1, List.append_assoc]⟩, l2.trans l1, x2.trans x1⟩

theorem keeps_frame_pure {α : Type} (a : α) : keeps_frame (pure a : M α) :=
  fun w => ⟨a, w, rfl, phy_frame_refl w⟩

theorem keeps_frame_bind {α β : Type} {m : M α} {f : α → M β} (hm : keeps_frame m)
    (hf : ∀ a, keeps_frame (f a)) : keeps_frame (m >>= f) := by
  intro w
  obtain ⟨a, w1, h1, r1⟩ := hm w
  obtain ⟨b, w2, h2, r2⟩ := hf a w1
  refine ⟨b, w2, ?_, phy_frame_trans r1 r2⟩
  rw [M_bind_apply, h1]; exact h2

theorem keeps_frame_ite {α : Type} (p : Prop) [Decidable p] {a b : M α} (ha : keeps_frame a)
    (hb : keeps_frame b) : keeps_frame (if p then a else b) := by
  split
  · exact ha
  · exact hb

theorem keeps_frame_emit (ev : Event) : keeps_frame (emit ev) :=
  fun _ => ⟨(), _, rfl, ⟨_, rfl⟩, rfl, rfl⟩

theorem keeps_frame_get_inst : keeps_frame get_inst :=
  fun w => ⟨w.inst, w, rfl, phy_frame_refl w⟩

theorem keeps_frame_modify_inst (f : dw3000_dev_instance_t → dw3000_dev_instance_t)
    (hf : ∀ i, (f i).status.LDO_enabled = i.status.LDO_enabled
      ∧ (f i).config.rx_xtalTrim = i.config.rx_xtalTrim) : keeps_frame (modify_inst f) :=
  fun w => ⟨(), _, rfl, ⟨[], (List.append_nil _).symm⟩, (hf w.inst).1, (hf w.inst).2⟩

theorem keeps_frame_write_reg (c : Ctx) (reg subaddress val nbytes : Nat) (hn : nbytes ≤ 8)
    (hv : valid_access reg subaddress nbytes) :
    keeps_frame (dw3000_write_reg c reg subaddress val nbytes) :=
  fun w => ⟨(), _, dw3000_write_reg_eq c w reg subaddress val nbytes hn hv, ⟨_, rfl⟩, rfl, rfl⟩

theorem keeps_frame_read_reg (c : Ctx) (reg subaddress nbytes : Nat) (hn : nbytes ≤ 8)
    (hv : valid_access reg subaddress nbytes) :
    keeps_frame (dw3000_read_reg c reg subaddress nbytes) :=
  fun w => ⟨_, _, dw3000_read_reg_eq c w reg subaddress nbytes hn hv, ⟨_, rfl⟩, rfl, rfl⟩

theorem keeps_frame_of_steps (c : Ctx) (hv : phy_init_regs_ok c.regs) :
    keeps_frame (dw3000_phy_sysclk_XTAL c) ∧ keeps_frame (dw3000_phy_sysclk_SEQ c)
    ∧ keeps_frame (dw3000_phy_sysclk_LDE c)
    ∧ keeps_frame (dw3000_gpio5_config_ext_txe c)
    ∧ keeps_frame (dw3000_gpio6_config_ext_rxe c)
    ∧ (∀ config, keeps_frame (dw3000_phy_config_txrf c config))
    ∧ (∀ address, keeps_frame (_dw3000_otp_read c address)) := by
  have h0 := valid_access_mono hv.pmsc_ctrl0 (show 1 ≤ 4 by decide)
  have h1 := hv.pmsc_ctrl0_hi
  have h2 := hv.gpio_mode
  have h3 := hv.tc_pgdelay
  have h4 := hv.tx_power
  have h5 := hv.otp_addr
  have h6 := valid_access_mono hv.otp_ctrl (show 1 ≤ 2 by decide)
  have h7 := hv.otp_rdat
  refine ⟨?_, ?_, ?_, ?_, ?_, fun config => ?_, fun address => ?_⟩
  · unfold dw3000_phy_sysclk_XTAL
    exact keeps_frame_bind (keeps_frame_read_reg c _ _ _ (by decide) h0)
      (fun _ => keeps_frame_write_reg c _ _ _ _ (by decide) h0)
  · unfold dw3000_phy_sysclk_SEQ
    exact keeps_frame_bind (keeps_frame_read_reg c _ _ _ (by decide) h0)
      (fun _ => keeps_frame_write_reg c _ _ _ _ (by decide) h0)
  · unfold dw3000_phy_sysclk_LDE
    exact keeps_frame_bind (keeps_frame_write_reg c _ _ _ _ (by decide) h0)
      (fun _ => keeps_frame_write_reg c _ _ _ _ (by decide) h1)
  · unfold dw3000_gpio5_config_ext_txe
    exact keeps_frame_bind (keeps_frame_read_reg c _ _ _ (by decide) h2)
      (fun _ => keeps_frame_write_reg c _ _ _ _ (by decide) h2)
  · unfold dw3000_gpio6_config_ext_rxe
    exact keeps_frame_bind (keeps_frame_read_reg c _ _ _ (by decide) h2)
      (fun _ => keeps_frame_write_reg c _ _ _ _ (by decide) h2)
  · unfold dw3000_phy_config_txrf
    exact keeps_frame_bind (keeps_frame_write_reg c _ _ _ _ (by decide) h3)
      (fun _ => keeps_frame_write_reg c _ _ _ _ (by decide) h4)
  · unfold _dw3000_otp_read dpl_cputime_delay_usecs
    repeat' first
      | exact keeps_frame_emit _
      | exact keeps_frame_pure _
      | exact keeps_frame_write_reg c _ _ _ _ (by decide) (by assumption)
      | exact keeps_frame_read_reg c _ _ _ (by decide) (by assumption)
      | apply keeps_frame_bind
      | intro _

theorem keeps_frame_softreset (c : Ctx) (hv : phy_init_regs_ok c.regs) :
    keeps_frame (dw3000_softreset c) := by
  unfold dw3000_softreset dpl_cputime_delay_usecs
  have h1 := valid_access_mono hv.aon_ctrl (show 1 ≤ 1 by decide)
  have h2 := hv.pmsc_ctrl1
  have h3 := hv.aon_wcfg
  have h4 := hv.aon_cfg0
  have h5 := hv.pmsc_softreset
  repeat' first
    | exact (keeps_frame_of_steps c hv).1
    | exact keeps_frame_emit _
    | exact keeps_frame_write_reg c _ _ _ _ (by decide) (by assumption)
    | apply keeps_frame_bind
    | intro _

theorem keeps_frame_gpio_config_leds (c : Ctx) (hv : phy_init_regs_ok c.regs) (mode : Nat) :
    keeps_frame (dw3000_gpio_config_leds c mode) := by
  unfold dw3000_gpio_config_leds dpl_cputime_delay_usecs
  have h1 := hv.gpio_mode
  have h2 := hv.pmsc_ctrl0
  have h3 := hv.pmsc_ledc
  repeat' first
    | exact keeps_frame_emit _
    | exact keeps_frame_pure _
    | exact keeps_frame_write_reg c _ _ _ _ (by decide) (by assumption)
    | exact keeps_frame_read_reg c _ _ _ (by decide) (by assumption)
    | apply keeps_frame_ite
    | apply keeps_frame_bind
    | intro _

theorem keeps_frame_load_microcode (c : Ctx) (hv : phy_init_regs_ok c.regs) :
    keeps_frame (_dw3000_phy_load_microcode c) := by
  unfold _dw3000_phy_load_microcode dpl_cputime_delay_usecs
  have h1 := hv.otp_ctrl
  repeat' first
    | exact (keeps_frame_of_steps c hv).2.2.1
    | exact (keeps_frame_of_steps c hv).2.1
    | exact keeps_frame_emit _
    | exact keeps_frame_modify_inst _ (fun _ => ⟨rfl, rfl⟩)
    | exact keeps_frame_write_reg c _ _ _ _ (by decide) (by assumption)
    | apply keeps_frame_bind
    | intro _

theorem keeps_frame_phy_init_setup (c : Ctx) (hv : phy_init_regs_ok c.regs)
    (txrf_config : Option uwb_dev_txrf_config) : keeps_frame (phy_init_setup c txrf_config) := by
  unfold phy_init_setup
  have h1 := hv.ec_ctrl
  refine keeps_frame_bind ?_ (fun _ => ?_)
  · cases txrf_config
    · exact keeps_frame_pure _
    · exact keeps_frame_modify_inst _ (fun _ => ⟨rfl, rfl⟩)
  repeat' first
    | exact keeps_frame_softreset c hv
    | exact (keeps_frame_of_steps c hv).1
    | exact (keeps_frame_of_steps c hv).2.2.2.1
    | exact (keeps_frame_of_steps c hv).2.2.2.2.1
    | exact keeps_frame_gpio_config_leds c hv _
    | exact keeps_frame_get_inst
    | exact keeps_frame_pure _
    | exact keeps_frame_write_reg c _ _ _ _ (by decide) (by assumption)
    | exact keeps_frame_read_reg c _ _ _ (by decide) (by assumption)
    | apply keeps_frame_ite
    | apply keeps_frame_bind
    | intro _

theorem keeps_frame_phy_init_ids (c : Ctx) (hv : phy_init_regs_ok c.regs) :
    keeps_frame (phy_init_ids c) := by
  unfold phy_init_ids
  repeat' first
    | exact (keeps_frame_of_steps c hv).2.2.2.2.2.2 _
    | exact keeps_frame_modify_inst _ (fun _ => ⟨rfl, rfl⟩)
    | apply keeps_frame_bind
    | intro _

theorem keeps_frame_phy_init_lde (c : Ctx) (hv : phy_init_regs_ok c.regs) :
    keeps_frame (phy_init_lde c) := by
  unfold phy_init_lde
  repeat' first
    | exact keeps_frame_load_microcode c hv
    | exact (keeps_frame_of_steps c hv).2.1
    | exact keeps_frame_get_inst
    | exact keeps_frame_pure _
    | apply keeps_frame_ite
    | apply keeps_frame_bind
    | intro _

theorem keeps_frame_phy_init_tail (c : Ctx) (hv : phy_init_regs_ok c.regs)
    (txrf_config : uwb_dev_txrf_config) : keeps_frame (phy_init_tail c txrf_config) := by
  unfold phy_init_tail
  have h5 := hv.aon_wcfg
  have h6 := hv.lde_rxantd
  have h7 := hv.tx_antd
  have h8 := hv.sys_cfg
  repeat' first
    | exact (keeps_frame_of_steps c hv).2.2.2.2.2.1 _
    | exact keeps_frame_get_inst
    | exact keeps_frame_pure _
    | exact keeps_frame_modify_inst _ (fun _ => ⟨rfl, rfl⟩)
    | exact keeps_frame_write_reg c _ _ _ _ (by decide) (by assumption)
    | exact keeps_frame_read_reg c _ _ _ (by decide) (by assumption)
    | apply keeps_frame_bind
    | intro _

theorem otp_read_regs_ok_of_phy_init {k : dw3000_regs} (hv : phy_init_regs_ok k) :
    otp_read_regs_ok k :=
  ⟨valid_access_mono hv.pmsc_ctrl0 (by decide), hv.otp_addr,
    valid_access_mono hv.otp_ctrl (by decide), hv.otp_rdat⟩

theorem phy_init_otp_rev_eq (c : Ctx) (u : World) (hv : phy_init_regs_ok c.regs) :
    phy_init_otp_rev c u = Res.ok (phy_init_otp_addr c u) (otp_rev_world c u) := by
  unfold phy_init_otp_rev phy_init_otp_addr otp_rev_world phy_init_otp_addr
  simp only [M_bind_apply, _dw3000_otp_read_eq c _ _ (otp_read_regs_ok_of_phy_init hv),
    modify_inst, M_pure_apply]

theorem phy_init_ldo_eq (c : Ctx) (u : World) (hv : phy_init_regs_ok c.regs) :
    phy_init_ldo c u = Res.ok () (ldo_world c u) := by
  have h1 : (1 : Nat) ≤ 8 := by decide
  unfold phy_init_ldo ldo_world ldo_events phy_init_ldo_tune
  simp only [M_bind_apply, _dw3000_otp_read_eq c _ _ (otp_read_regs_ok_of_phy_init hv)]
  by_cases hz : otp_word c u.inst.config.blocking_spi_transfers u.trace
      (c.regs.OTP_LDOTUNE_ADDRESS % 2 ^ 16) &&& 0xFF ≠ 0
  · simp only [if_pos hz, M_bind_apply, dw3000_write_reg_eq _ _ _ _ _ _ h1 hv.otp_sf,
      modify_inst, List.append_assoc]
  · simp only [if_neg hz, M_pure_apply, List.append_nil]

theorem phy_init_xtal_eq (c : Ctx) (otp_addr : Nat) (u : World)
    (hv : phy_init_regs_ok c.regs) :
    phy_init_xtal c otp_addr u = Res.ok () (xtal_world c otp_addr u) := by
  have h1 : (1 : Nat) ≤ 8 := by decide
  unfold phy_init_xtal xtal_world xtal_trim_byte xtal_trim_choice
  by_cases hz : otp_addr &&& 0x1F ≠ 0 ∧ u.inst.config.rx_xtalTrim = 0xff
  · simp only [M_bind_apply, modify_inst, get_inst, if_pos hz,
      dw3000_write_reg_eq _ _ _ _ _ _ h1 hv.fs_xtalt]
  · simp only [M_bind_apply, modify_inst, get_inst, if_neg hz,
      dw3000_write_reg_eq _ _ _ _ _ _ h1 hv.fs_xtalt]

theorem phy_init_aon_cfg1_eq (c : Ctx) (u : World) (hv : phy_init_regs_ok c.regs) :
    phy_init_aon_cfg1 c u = Res.ok () (aon_cfg1_world c u) := by
  have h1 : (1 : Nat) ≤ 8 := by decide
  unfold phy_init_aon_cfg1 aon_cfg1_world aon_cfg1_events aon_cfg1_value
  simp only [M_bind_apply, dw3000_read_reg_eq _ _ _ _ _ h1 hv.aon_cfg1,
    dw3000_write_reg_eq _ _ _ _ _ _ h1 hv.aon_cfg1, List.append_assoc]

theorem dw3000_phy_init_chain (c : Ctx) (txrf_config : Option uwb_dev_txrf_config) (w : World)
    (hv : phy_init_regs_ok c.regs) :
    ∃ u0 u3 u5 u7,
      phy_frame w u0
      ∧ phy_frame (ldo_world c (otp_rev_world c u0)) u3
      ∧ phy_frame (xtal_world c (phy_init_otp_addr c u0) u3) u5
      ∧ phy_frame (aon_cfg1_world c u5) u7
      ∧ dw3000_phy_init c txrf_config w = Res.ok u7.inst.status u7 := by
  obtain ⟨txrf, u0, e0, f0⟩ := keeps_frame_phy_init_setup c hv txrf_config w
  obtain ⟨_, u3, e3, f3⟩ := keeps_frame_phy_init_ids c hv (ldo_world c (otp_rev_world c u0))
  obtain ⟨_, u5, e5, f5⟩ := keeps_frame_phy_init_lde c hv
    (xtal_world c (phy_init_otp_addr c u0) u3)
  obtain ⟨st, u7, e7, f7⟩ := keeps_frame_phy_init_tail c hv txrf (aon_cfg1_world c u5)
  have hst : st = u7.inst.status := by
    have h := e7
    unfold phy_init_tail at h
    have h5 := hv.aon_wcfg
    have h6 := hv.lde_rxantd
    have h7 := hv.tx_antd
    have h8 := hv.sys_cfg
    simp only [M_bind_apply, dw3000_write_reg_eq _ _ _ _ _ _ (show 2 ≤ 8 by decide) h5,
      dw3000_write_reg_eq _ _ _ _ _ _ (show 2 ≤ 8 by decide) h6,
      dw3000_write_reg_eq _ _ _ _ _ _ (show 2 ≤ 8 by decide) h7, get_inst,
      dw3000_phy_config_txrf, dw3000_write_reg_eq _ _ _ _ _ _ (show 1 ≤ 8 by decide) hv.tc_pgdelay,
      dw3000_write_reg_eq _ _ _ _ _ _ (show 4 ≤ 8 by decide) hv.tx_power,
      dw3000_read_reg_eq _ _ _ _ _ (show 4 ≤ 8 by decide) h8, modify_inst, M_pure_apply,
      Res.ok.injEq] at h
    obtain ⟨h1, h2⟩ := h
    rw [← h1, ← h2]
  refine ⟨u0, u3, u5, u7, f0, f3, f5, f7, ?_⟩
  rw [dw3000_phy_init_blocks]
  simp only [M_bind_apply, e0, phy_init_otp_rev_eq c _ hv, phy_init_ldo_eq c _ hv, e3,
    phy_init_xtal_eq c _ _ hv, e5, phy_init_aon_cfg1_eq c _ hv, e7, hst]

theorem phy_init_aon_cfg1_run (c : Ctx) (txrf_config : Option uwb_dev_txrf_config) (w : World)
    (hv : phy_init_regs_ok c.regs) :
    (dw3000_phy_init c txrf_config w).isFault = false
    ∧ ∃ u post, (∃ pre, u.trace = w.trace ++ pre)
      ∧ (dw3000_phy_init c txrf_config w).world.trace = u.trace ++ aon_cfg1_events c u ++ post := by
  obtain ⟨u0, u3, u5, u7, f0, f3, f5, f7, e⟩ := dw3000_phy_init_chain c txrf_config w hv
  obtain ⟨⟨p0, t0⟩, _, _⟩ := f0
  obtain ⟨⟨p3, t3⟩, _, _⟩ := f3
  obtain ⟨⟨p5, t5⟩, _, _⟩ := f5
  obtain ⟨⟨p7, t7⟩, _, _⟩ := f7
  refine ⟨by rw [e]; rfl, u5, p7, ⟨p0 ++ (otp_word_events c u0.inst.config.blocking_spi_transfers
      u0.trace (c.regs.OTP_XTRIM_ADDRESS % 2 ^ 16) ++ (ldo_events c (otp_rev_world c u0)
      ++ (p3 ++ (write_reg_events c u3.inst.config.blocking_spi_transfers
        c.regs.FS_CTRL_ID c.regs.FS_XTALT_OFFSET
        (xtal_trim_byte c.regs (xtal_trim_choice (phy_init_otp_addr c u0)
          u3.inst.config.rx_xtalTrim)) 1 ++ p5)))), ?_⟩, ?_⟩
  · rw [t5]
    show u3.trace ++ _ ++ p5 = _
    rw [t3]
    show (u0.trace ++ _) ++ _ ++ p3 ++ _ ++ p5 = _
    rw [t0]
    simp only [List.append_assoc]
  · rw [e]
    show u7.trace = _
    rw [t7]
    rfl

theorem phy_init_ldo_run (c : Ctx) (txrf_config : Option uwb_dev_txrf_config) (w : World)
    (hv : phy_init_regs_ok c.regs) :
    (dw3000_phy_init c txrf_config w).isFault = false
    ∧ ∃ u post, (∃ pre, u.trace = w.trace ++ pre)
      ∧ u.inst.status.LDO_enabled = w.inst.status.LDO_enabled
      ∧ (dw3000_phy_init c txrf_config w).world.trace = u.trace ++ ldo_events c u ++ post
      ∧ (dw3000_phy_init c txrf_config w).world.inst.status.LDO_enabled
          = (if phy_init_ldo_tune c u &&& 0xFF ≠ 0 then true else w.inst.status.LDO_enabled) := by
  obtain ⟨u0, u3, u5, u7, f0, f3, f5, f7, e⟩ := dw3000_phy_init_chain c txrf_config w hv
  obtain ⟨⟨p0, t0⟩, l0, _⟩ := f0
  obtain ⟨⟨p3, t3⟩, l3, _⟩ := f3
  obtain ⟨⟨p5, t5⟩, l5, _⟩ := f5
  obtain ⟨⟨p7, t7⟩, l7, _⟩ := f7
  refine ⟨by rw [e]; rfl, otp_rev_world c u0,
    p3 ++ (write_reg_events c u3.inst.config.blocking_spi_transfers
        c.regs.FS_CTRL_ID c.regs.FS_XTALT_OFFSET
        (xtal_trim_byte c.regs (xtal_trim_choice (phy_init_otp_addr c u0)
          u3.inst.config.rx_xtalTrim)) 1 ++ (p5 ++ (aon_cfg1_events c u5 ++ p7))),
    ⟨p0 ++ otp_word_events c u0.inst.config.blocking_spi_transfers
      u0.trace (c.regs.OTP_XTRIM_ADDRESS % 2 ^ 16), ?_⟩, l0, ?_, ?_⟩
  · show u0.trace ++ _ = _
    rw [t0, List.append_assoc]
  · rw [e]
    show u7.trace = _
    rw [t7]
    show u5.trace ++ _ ++ p7 = _
    rw [t5]
    show u3.trace ++ _ ++ p5 ++ _ ++ p7 = _
    rw [t3]
    show (otp_rev_world c u0).trace ++ _ ++ p3 ++ _ ++ p5 ++ _ ++ p7 = _
    simp only [List.append_assoc]
  · rw [e]
    show u7.inst.status.LDO_enabled = _
    rw [l7]
    show u5.inst.status.LDO_enabled = _
    rw [l5]
    show u3.inst.status.LDO_enabled = _
    rw [l3]
    show (if phy_init_ldo_tune c (otp_rev_world c u0) &&& 0xFF ≠ 0 then true
      else u0.inst.status.LDO_enabled) = _
    rw [l0]

theorem phy_init_xtal_run (c : Ctx) (txrf_config : Option uwb_dev_txrf_config) (w : World)
    (hv : phy_init_regs_ok c.regs) :
    (dw3000_phy_init c txrf_config w).isFault = false
    ∧ ∃ u0 u : World, ∃ post, (∃ pre, u0.trace = w.trace ++ pre)
      ∧ (∃ mid, u.trace = u0.trace ++ otp_word_events c u0.inst.config.blocking_spi_transfers
            u0.trace (c.regs.OTP_XTRIM_ADDRESS % 2 ^ 16) ++ mid)
      ∧ (dw3000_phy_init c txrf_config w).world.trace
          = u.trace ++ write_reg_events c u.inst.config.blocking_spi_transfers
              c.regs.FS_CTRL_ID c.regs.FS_XTALT_OFFSET
              (xtal_trim_byte c.regs (xtal_trim_choice (phy_init_otp_addr c u0)
                w.inst.config.rx_xtalTrim)) 1 ++ post
      ∧ (dw3000_phy_init c txrf_config w).world.inst.config.rx_xtalTrim
          = xtal_trim_choice (phy_init_otp_addr c u0) w.inst.config.rx_xtalTrim := by
  obtain ⟨u0, u3, u5, u7, f0, f3, f5, f7, e⟩ := dw3000_phy_init_chain c txrf_config w hv
  obtain ⟨⟨p0, t0⟩, _, x0⟩ := f0
  obtain ⟨⟨p3, t3⟩, _, x3⟩ := f3
  obtain ⟨⟨p5, t5⟩, _, x5⟩ := f5
  obtain ⟨⟨p7, t7⟩, _, x7⟩ := f7
  have hx : u3.inst.config.rx_xtalTrim = w.inst.config.rx_xtalTrim := by
    rw [x3]
    show u0.inst.config.rx_xtalTrim = _
    exact x0
  refine ⟨by rw [e]; rfl, u0, u3, p5 ++ (aon_cfg1_events c u5 ++ p7), ⟨p0, t0⟩,
    ⟨ldo_events c (otp_rev_world c u0) ++ p3, ?_⟩, ?_, ?_⟩
  · rw [t3]
    show (u0.trace ++ _) ++ _ ++ p3 = _
    simp only [List.append_assoc]
  · rw [e]
    show u7.trace = _
    rw [t7]
    show u5.trace ++ _ ++ p7 = _
    rw [t5]
    show u3.trace ++ _ ++ p5 ++ _ ++ p7 = _
    rw [hx]
    simp only [List.append_assoc]
  · rw [e]
    show u7.inst.config.rx_xtalTrim = _
    rw [x7]
    show u5.inst.config.rx_xtalTrim = _
    rw [x5]
    show xtal_trim_choice (phy_init_otp_addr c u0) u3.inst.config.rx_xtalTrim = _
    rw [hx]

theorem aon_cfg1_value_bits (k : dw3000_regs) (r : Nat) :
    aon_cfg1_value k r < 256
    ∧ aon_cfg1_value k r &&& (k.AON_CFG1_SMXX % 256) = r &&& (k.AON_CFG1_SMXX % 256)
    ∧ aon_cfg1_value k r &&& u8_not k.AON_CFG1_SMXX = u8_not k.AON_CFG1_SMXX := by
  have h256 : (256 : Nat) = 2 ^ 8 := by norm_num
  refine ⟨?_, ?_, ?_⟩
  · rw [h256]
    apply Nat.lt_pow_two_of_testBit
    intro j hj
    have hj8 : decide (j < 8) = false := decide_eq_false (by omega)
    unfold aon_cfg1_value
    simp only [Nat.testBit_or, testBit_mod_256, testBit_u8_not, hj8, Bool.false_and,
      Bool.or_self]
  · apply Nat.eq_of_testBit_eq
    intro j
    unfold aon_cfg1_value
    simp only [Nat.testBit_and, Nat.testBit_or, testBit_mod_256, testBit_u8_not]
    cases decide (j < 8) <;> cases r.testBit j <;> cases k.AON_CFG1_SMXX.testBit j <;> rfl
  · apply Nat.eq_of_testBit_eq
    intro j
    unfold aon_cfg1_value
    simp only [Nat.testBit_and, Nat.testBit_or, testBit_mod_256, testBit_u8_not]
    cases decide (j < 8) <;> cases r.testBit j <;> cases k.AON_CFG1_SMXX.testBit j <;> rfl

theorem reg_accesses_aon_cfg1_events (c : Ctx) (u : World) :
    reg_reads (aon_cfg1_events c u)
        = [(tx_header 0 c.regs.AON_ID c.regs.AON_CFG1_OFFSET,
            read_reg_data c u.trace c.regs.AON_ID c.regs.AON_CFG1_OFFSET 1)]
    ∧ reg_writes (aon_cfg1_events c u)
        = [(tx_header 1 c.regs.AON_ID c.regs.AON_CFG1_OFFSET,
            le_bytes (aon_cfg1_value c.regs (le_value (read_reg_data c u.trace
              c.regs.AON_ID c.regs.AON_CFG1_OFFSET 1))) 1)] := by
  unfold aon_cfg1_events
  constructor
  · rw [reg_reads_append, reg_reads_write_reg_events]
    simp [reg_reads, reg_read_read_reg_event]
  · rw [reg_writes_append, reg_writes_write_reg_events _ _ _ _ _ _ (show 1 ≤ 8 by decide)]
    simp [reg_writes, reg_write_read_reg_event]

/-- C26, what the code does: `dw3000_phy_init` returns, and its trace has the
read of `AON_CFG1` directly followed by the write to `AON_CFG1` of the byte
`aon_cfg1_value r` for the byte `r` read. In this byte, whatever was read, the
bits of `AON_CFG1_SMXX` are the bits read, not cleared, and every other bit is
set: the statement `reg |= ~AON_CFG1_SMXX` clears no bit. -/
theorem phy_init_aon_cfg1_sets_bits (c : Ctx) (txrf_config : Option uwb_dev_txrf_config)
    (w : World) (hv : phy_init_regs_ok c.regs) :
    (dw3000_phy_init c txrf_config w).isFault = false
    ∧ (∃ u post, (∃ pre, u.trace = w.trace ++ pre)
        ∧ (dw3000_phy_init c txrf_config w).world.trace = u.trace ++ aon_cfg1_events c u ++ post
        ∧ reg_reads (aon_cfg1_events c u)
            = [(tx_header 0 c.regs.AON_ID c.regs.AON_CFG1_OFFSET,
                read_reg_data c u.trace c.regs.AON_ID c.regs.AON_CFG1_OFFSET 1)]
        ∧ reg_writes (aon_cfg1_events c u)
            = [(tx_header 1 c.regs.AON_ID c.regs.AON_CFG1_OFFSET,
                le_bytes (aon_cfg1_value c.regs (le_value (read_reg_data c u.trace
                  c.regs.AON_ID c.regs.AON_CFG1_OFFSET 1))) 1)])
    ∧ (∀ r, aon_cfg1_value c.regs r < 256
        ∧ aon_cfg1_value c.regs r &&& (c.regs.AON_CFG1_SMXX % 256)
            = r &&& (c.regs.AON_CFG1_SMXX % 256)
        ∧ aon_cfg1_value c.regs r &&& u8_not c.regs.AON_CFG1_SMXX
            = u8_not c.regs.AON_CFG1_SMXX) := by
  obtain ⟨hf, u, post, hpre, ht⟩ := phy_init_aon_cfg1_run c txrf_config w hv
  exact ⟨hf, ⟨u, post, hpre, ht, (reg_accesses_aon_cfg1_events c u).1,
    (reg_accesses_aon_cfg1_events c u).2⟩, fun r => aon_cfg1_value_bits c.regs r⟩

/-- Evaluation for C26 with `AON_CFG1_SMXX = 0x02`: for the byte 0xFF read the
byte written is 0xFF, with the reserved bit still set, and for the byte 0x30
read it is 0xFD; clearing the reserved bit and keeping the others would give
0xFD and 0x30. On the example chip that answers 0xFF bytes the call returns and
writes 0xFF to `AON_CFG1`. -/
theorem phy_init_aon_cfg1_sets_bits_witness :
    aon_cfg1_value example_regs 0xFF = 0xFF
    ∧ aon_cfg1_value example_regs 0x30 = 0xFD
    ∧ (dw3000_phy_init example_ctx_ones none example_world).isFault = false
    ∧ ∃ u post,
        (dw3000_phy_init example_ctx_ones none example_world).world.trace
          = u.trace ++ aon_cfg1_events example_ctx_ones u ++ post
        ∧ reg_writes (aon_cfg1_events example_ctx_ones u)
          = [(tx_header 1 example_regs.AON_ID example_regs.AON_CFG1_OFFSET, [0xFF])] :=
  ⟨by decide, by decide,
   (phy_init_aon_cfg1_sets_bits example_ctx_ones none example_world example_regs_phy_init_ok).1,
   match (phy_init_aon_cfg1_sets_bits example_ctx_ones none example_world
      example_regs_phy_init_ok).2.1 with
   | ⟨u, post, _, ht, _, hw⟩ => ⟨u, post, ht, hw.trans (by
      have hd : read_reg_data example_ctx_ones u.trace example_ctx_ones.regs.AON_ID
          example_ctx_ones.regs.AON_CFG1_OFFSET 1 = [0xFF] := by
        simp only [read_reg_data, example_ctx_ones, example_env_ones]
        decide
      rw [hd]
      decide)⟩⟩

theorem reg_accesses_ldo_events (c : Ctx) (u : World) :
    reg_reads (ldo_events c u)
        = [(tx_header 0 c.regs.OTP_IF_ID c.regs.OTP_RDAT,
            read_reg_data c (u.trace ++ otp_word_setup c u.inst.config.blocking_spi_transfers
              (c.regs.OTP_LDOTUNE_ADDRESS % 2 ^ 16)) c.regs.OTP_IF_ID c.regs.OTP_RDAT 4)]
    ∧ reg_writes (ldo_events c u)
        = otp_read_writes c.regs (c.regs.OTP_LDOTUNE_ADDRESS % 2 ^ 16)
          ++ (if phy_init_ldo_tune c u &&& 0xFF ≠ 0 then
                [(tx_header 1 c.regs.OTP_IF_ID c.regs.OTP_SF, le_bytes c.regs.OTP_SF_LDO_KICK 1)]
              else []) := by
  unfold ldo_events
  constructor
  · rw [reg_reads_append, reg_reads_otp_word_events]
    split
    · rw [reg_reads_write_reg_events]; rfl
    · rfl
  · rw [reg_writes_append, reg_writes_otp_word_events]
    split
    · rw [reg_writes_write_reg_events _ _ _ _ _ _ (show 1 ≤ 8 by decide)]
    · rfl

/-- C27: `dw3000_phy_init` returns, and its trace has the events of the OTP
read of the LDO-tune word directly followed, if the low byte of the word read
is not 0, by the LDO-kick write to `OTP_SF`, and by no write of this statement
if the low byte is 0. At the end `status.LDO_enabled` is set if the low byte of
the word is not 0 and is what it was at entry if the low byte is 0. -/
theorem phy_init_ldo_kick (c : Ctx) (txrf_config : Option uwb_dev_txrf_config)
    (w : World) (hv : phy_init_regs_ok c.regs) :
    (dw3000_phy_init c txrf_config w).isFault = false
    ∧ ∃ u post, (∃ pre, u.trace = w.trace ++ pre)
      ∧ (dw3000_phy_init c txrf_config w).world.trace = u.trace ++ ldo_events c u ++ post
      ∧ (∃ data, reg_reads (ldo_events c u) = [(tx_header 0 c.regs.OTP_IF_ID c.regs.OTP_RDAT, data)]
          ∧ phy_init_ldo_tune c u = le_value data % 2 ^ 32)
      ∧ reg_writes (ldo_events c u)
          = otp_read_writes c.regs (c.regs.OTP_LDOTUNE_ADDRESS % 2 ^ 16)
            ++ (if phy_init_ldo_tune c u &&& 0xFF ≠ 0 then
                  [(tx_header 1 c.regs.OTP_IF_ID c.regs.OTP_SF,
                    le_bytes c.regs.OTP_SF_LDO_KICK 1)]
                else [])
      ∧ (dw3000_phy_init c txrf_config w).world.inst.status.LDO_enabled
          = (if phy_init_ldo_tune c u &&& 0xFF ≠ 0 then true
              else w.inst.status.LDO_enabled) := by
  obtain ⟨hf, u, post, hpre, _, ht, hl⟩ := phy_init_ldo_run c txrf_config w hv
  exact ⟨hf, u, post, hpre, ht, ⟨_, (reg_accesses_ldo_events c u).1, rfl⟩,
    (reg_accesses_ldo_events c u).2, hl⟩

theorem phy_init_ldo_tune_word_0x100 (u : World) :
    phy_init_ldo_tune example_ctx_word_0x100 u = 0x100 := by
  simp only [phy_init_ldo_tune, otp_word, read_reg_data, example_ctx_word_0x100,
    example_env_word_0x100]
  decide

/-- Example for C27 on the example chip, whose LDO-tune word reads 0xDECA0130
with low byte 0x30: from the example state, where `status.LDO_enabled` is
false, the call leaves it true. -/
theorem phy_init_ldo_kick_witness :
    (dw3000_phy_init example_ctx none example_world).world.inst.status.LDO_enabled = true :=
  match (phy_init_ldo_kick example_ctx none example_world example_regs_phy_init_ok).2 with
  | ⟨u, _, _, _, _, _, hl⟩ => hl.trans (by
      have hw : phy_init_ldo_tune example_ctx u = 0xDECA0130 := by
        simp only [phy_init_ldo_tune, otp_word, read_reg_data, example_ctx, example_env]
        decide
      rw [hw]
      decide)

/-- Counterexample for C27 as stated: on the chip whose words read 0x100 the
LDO-tune word is not 0, yet `dw3000_phy_init` leaves `status.LDO_enabled`
false and its LDO statement writes nothing after the OTP read. -/
theorem phy_init_ldo_kick_word_0x100 :
    (∀ u, phy_init_ldo_tune example_ctx_word_0x100 u = 0x100)
    ∧ (dw3000_phy_init example_ctx_word_0x100 none example_world).isFault = false
    ∧ (dw3000_phy_init example_ctx_word_0x100 none example_world).world.inst.status.LDO_enabled
        = false
    ∧ (∀ u, reg_writes (ldo_events example_ctx_word_0x100 u)
        = otp_read_writes example_regs (example_regs.OTP_LDOTUNE_ADDRESS % 2 ^ 16)) :=
  ⟨phy_init_ldo_tune_word_0x100,
   (phy_init_ldo_run example_ctx_word_0x100 none example_world example_regs_phy_init_ok).1,
   match (phy_init_ldo_run example_ctx_word_0x100 none example_world
      example_regs_phy_init_ok).2 with
   | ⟨u, _, _, _, _, hl⟩ => hl.trans (by rw [phy_init_ldo_tune_word_0x100]; decide),
   fun u => (reg_accesses_ldo_events example_ctx_word_0x100 u).2.trans (by
     rw [phy_init_ldo_tune_word_0x100]; decide)⟩

theorem le_bytes_one (v : Nat) (h : v < 256) : le_bytes v 1 = [v] := by
  simp only [le_bytes, List.range_succ, List.range_zero, List.nil_append, List.map_cons,
    List.map_nil, pow_zero, Nat.div_one]
  congr 1
  omega

theorem xtal_trim_byte_bits (k : dw3000_regs) (x : Nat) (hmask : k.FS_XTALT_MASK = 0x1F) :
    xtal_trim_byte k x >>> 5 = 0b011
    ∧ xtal_trim_byte k x &&& 0x1F = x &&& 0x1F
    ∧ xtal_trim_byte k x = 0x60 + x % 32 := by
  have hx : x &&& 0x1F = x % 32 := Nat.and_pow_two_sub_one_eq_mod x 5
  have hlt : x % 32 < 32 := Nat.mod_lt _ (by decide)
  have key : ∀ y < 32, (((3 <<< 5) ||| y) % 256) >>> 5 = 0b011
      ∧ (((3 <<< 5) ||| y) % 256) &&& 0x1F = y ∧ ((3 <<< 5) ||| y) % 256 = 0x60 + y := by
    decide
  unfold xtal_trim_byte
  rw [hmask, hx]
  exact key _ hlt

theorem phy_init_otp_addr_trim (c : Ctx) (u : World) :
    phy_init_otp_addr c u &&& 0x1F
      = otp_word c u.inst.config.blocking_spi_transfers u.trace
          (c.regs.OTP_XTRIM_ADDRESS % 2 ^ 16) % 32 := by
  have h1 : ∀ x : Nat, x &&& 0x1F = x % 32 := fun x => Nat.and_pow_two_sub_one_eq_mod x 5
  have h2 : ∀ x : Nat, x &&& 0xffff = x % 65536 := fun x => Nat.and_pow_two_sub_one_eq_mod x 16
  unfold phy_init_otp_addr
  rw [h1, h2]
  omega

/-- C28: with `FS_XTALT_MASK = 0x1F`, `dw3000_phy_init` returns, and its trace
has, after the OTP read of the crystal-trim word, the write to the trim
register of one byte whose upper 3 bits are 0b011 and whose lower 5 bits are
the low 5 bits of the effective trim; `config.rx.xtalTrim` ends as the
effective trim. The effective trim is the OTP trim, the low 5 bits of the OTP
word, when that is not 0 and the configured trim at entry is 0xff, and the
configured trim at entry in every other case. -/
theorem phy_init_xtal_trim (c : Ctx) (txrf_config : Option uwb_dev_txrf_config)
    (w : World) (hv : phy_init_regs_ok c.regs) (hmask : c.regs.FS_XTALT_MASK = 0x1F) :
    (dw3000_phy_init c txrf_config w).isFault = false
    ∧ (∃ u0 u : World, ∃ post, (∃ pre, u0.trace = w.trace ++ pre)
      ∧ (∃ mid, u.trace = u0.trace ++ otp_word_events c u0.inst.config.blocking_spi_transfers
            u0.trace (c.regs.OTP_XTRIM_ADDRESS % 2 ^ 16) ++ mid)
      ∧ phy_init_otp_addr c u0 &&& 0x1F
          = otp_word c u0.inst.config.blocking_spi_transfers u0.trace
              (c.regs.OTP_XTRIM_ADDRESS % 2 ^ 16) % 32
      ∧ (∃ events, (dw3000_phy_init c txrf_config w).world.trace = u.trace ++ events ++ post
          ∧ reg_writes events
            = [(tx_header 1 c.regs.FS_CTRL_ID c.regs.FS_XTALT_OFFSET,
                [xtal_trim_byte c.regs (xtal_trim_choice (phy_init_otp_addr c u0)
                  w.inst.config.rx_xtalTrim)])])
      ∧ (dw3000_phy_init c txrf_config w).world.inst.config.rx_xtalTrim
          = xtal_trim_choice (phy_init_otp_addr c u0) w.inst.config.rx_xtalTrim)
    ∧ (∀ x, xtal_trim_byte c.regs x >>> 5 = 0b011
        ∧ xtal_trim_byte c.regs x &&& 0x1F = x &&& 0x1F)
    ∧ (∀ otp_addr xtalTrim,
        (otp_addr &&& 0x1F ≠ 0 ∧ xtalTrim = 0xff →
          xtal_trim_choice otp_addr xtalTrim = otp_addr &&& 0x1F)
        ∧ (¬ (otp_addr &&& 0x1F ≠ 0 ∧ xtalTrim = 0xff) →
          xtal_trim_choice otp_addr xtalTrim = xtalTrim)) := by
  obtain ⟨hf, u0, u, post, hpre, hmid, ht, hx⟩ := phy_init_xtal_run c txrf_config w hv
  refine ⟨hf, ⟨u0, u, post, hpre, hmid, phy_init_otp_addr_trim c u0, ⟨_, ht, ?_⟩, hx⟩,
    fun x => ⟨(xtal_trim_byte_bits c.regs x hmask).1, (xtal_trim_byte_bits c.regs x hmask).2.1⟩,
    fun otp_addr xtalTrim => ⟨fun h => by unfold xtal_trim_choice; rw [if_pos h],
      fun h => by unfold xtal_trim_choice; rw [if_neg h]⟩⟩
  rw [reg_writes_write_reg_events _ _ _ _ _ _ (show 1 ≤ 8 by decide)]
  have hb := (xtal_trim_byte_bits c.regs (xtal_trim_choice (phy_init_otp_addr c u0)
    w.inst.config.rx_xtalTrim) hmask).2.2
  have hlt : xtal_trim_byte c.regs (xtal_trim_choice (phy_init_otp_addr c u0)
      w.inst.config.rx_xtalTrim) < 256 := by
    rw [hb]
    have := Nat.mod_lt (xtal_trim_choice (phy_init_otp_addr c u0) w.inst.config.rx_xtalTrim)
      (show 32 > 0 by decide)
    omega
  rw [le_bytes_one _ hlt]

/-- Example for C28 on the example chip, whose OTP crystal-trim word reads
0xDECA0130, from the example state, whose configured trim is 0xff: the OTP trim
is 0x10, the effective trim is 0x10, the byte written is 0x70, and
`config.rx.xtalTrim` ends as 0x10. With a configured trim of 0x05 the byte is
0x65, and with an OTP trim of 0 and the configured trim 0xff it is 0x7F. -/
theorem phy_init_xtal_trim_witness :
    (dw3000_phy_init example_ctx none example_world).world.inst.config.rx_xtalTrim = 0x10
    ∧ xtal_trim_byte example_regs (xtal_trim_choice 0x0130 0xff) = 0x70
    ∧ xtal_trim_byte example_regs (xtal_trim_choice 0x0130 0x05) = 0x65
    ∧ xtal_trim_byte example_regs (xtal_trim_choice 0x0100 0xff) = 0x7F :=
  ⟨match (phy_init_xtal_trim example_ctx none example_world example_regs_phy_init_ok rfl).2.1
      with
   | ⟨u0, _, _, _, _, _, _, hx⟩ => hx.trans (by
      have hw : phy_init_otp_addr example_ctx u0 = 0x0130 := by
        simp only [phy_init_otp_addr, otp_word, read_reg_data, example_ctx, example_env]
        decide
      rw [hw]
      decide),
   by decide, by decide, by decide⟩

theorem coarse_index_le {c : Int} {idx : Nat} (h : coarse_index c = some idx) : idx ≤ 6 := by
  unfold coarse_index at h
  split_ifs at h <;> injection h with h <;> omega

theorem coarse_index_level {c : Int} {idx : Nat} (h : coarse_index c = some idx) :
    c = 18 - 3 * (idx : Int) := by
  unfold coarse_index at h
  split_ifs at h <;> injection h with h <;> omega

theorem coarse_index_injective {c c' : Int} {idx : Nat} (h : coarse_index c = some idx)
    (h' : coarse_index c' = some idx) : c = c' := by
  rw [coarse_index_level h, coarse_index_level h']

/-- C29 (amended): for a non-null target, a coarse level with index `idx` and
an accepted fine trim of `k` half-dB steps with `k ≤ 31` (at most 15.5 dB),
`dw3000_phy_txrf_power_value` stores a byte whose top 3 bits are `idx` and
whose low 5 bits are `k`; and if a second such input, with coarse index `idx'`
and `k' ≤ 31` half-dB steps, stores the same byte, then the two coarse levels
and the two numbers of half-dB steps are the same. -/
theorem txrf_power_value_fields {F : Type} (ops : float32_ops F) (b b' : Nat)
    (coarse fine coarse' fine' : F) (idx k idx' k' : Nat)
    (hc : coarse_index (ops.DPL_FLOAT32_INT coarse) = some idx)
    (hf0 : 0 ≤ ops.DPL_FLOAT32_INT fine) (hf32 : ops.DPL_FLOAT32_INT fine ≤ 32)
    (hk : ops.DPL_FLOAT32_INT (ops.DPL_FLOAT32_MUL fine ops.DPL_FLOAT32_INIT_2) = k)
    (hk31 : k ≤ 31)
    (hc' : coarse_index (ops.DPL_FLOAT32_INT coarse') = some idx')
    (hf0' : 0 ≤ ops.DPL_FLOAT32_INT fine') (hf32' : ops.DPL_FLOAT32_INT fine' ≤ 32)
    (hk' : ops.DPL_FLOAT32_INT (ops.DPL_FLOAT32_MUL fine' ops.DPL_FLOAT32_INIT_2) = k')
    (hk31' : k' ≤ 31) :
    (∃ byte, dw3000_phy_txrf_power_value ops (some b) coarse fine = (true, some byte)
      ∧ byte < 256 ∧ byte >>> 5 = idx ∧ byte &&& 0x1F = k)
    ∧ ((dw3000_phy_txrf_power_value ops (some b) coarse fine).2
          = (dw3000_phy_txrf_power_value ops (some b') coarse' fine').2 →
        ops.DPL_FLOAT32_INT coarse = ops.DPL_FLOAT32_INT coarse' ∧ k = k') := by
  have hidx := coarse_index_le hc
  have hidx' := coarse_index_le hc'
  have e := txrf_power_value_accepted ops b coarse fine idx k hc hf0 hf32 hk
  have e' := txrf_power_value_accepted ops b' coarse' fine' idx' k' hc' hf0' hf32' hk'
  have hv : (idx <<< 5 + k % 65536) % 256 = idx * 32 + k := by
    rw [Nat.shiftLeft_eq]; omega
  have hv' : (idx' <<< 5 + k' % 65536) % 256 = idx' * 32 + k' := by
    rw [Nat.shiftLeft_eq]; omega
  rw [hv] at e
  rw [hv'] at e'
  refine ⟨⟨idx * 32 + k, e, by omega, ?_, ?_⟩, ?_⟩
  · rw [Nat.shiftRight_eq_div_pow]; omega
  · have h : ∀ x : Nat, x &&& 0x1F = x % 32 := fun x => Nat.and_pow_two_sub_one_eq_mod x 5
    rw [h]; omega
  · intro h
    rw [e, e'] at h
    have h2 : idx * 32 + k = idx' * 32 + k' := Option.some.inj h
    have hi : idx = idx' := by omega
    have hkk : k = k' := by omega
    subst hi
    exact ⟨coarse_index_injective hc hc', hkk⟩

/-- Example for C29: 12 dB (index 2) with 7.5 dB of trim (15 half-dB steps)
stores 79 = 0b010_01111, and an input storing the same byte as 12 dB with
7.5 dB has the same coarse level. -/
theorem txrf_power_value_fields_witness :
    (∃ byte, dw3000_phy_txrf_power_value exact_float_ops (some 7) ⟨12, 0⟩ (half_steps 15)
        = (true, some byte) ∧ byte < 256 ∧ byte >>> 5 = 2 ∧ byte &&& 0x1F = 15)
    ∧ dw3000_phy_txrf_power_value exact_float_ops (some 7) ⟨12, 0⟩ (half_steps 15)
        = (true, some 79) :=
  ⟨(txrf_power_value_fields exact_float_ops 7 7 ⟨12, 0⟩ (half_steps 15) ⟨12, 0⟩ (half_steps 15)
      2 15 2 15 rfl (by decide) (by decide) rfl (by decide) rfl (by decide) (by decide) rfl
      (by decide)).1,
   by decide⟩

/-- C29 as stated fails: 18 dB (index 0) with 16.0 dB of trim and 15 dB
(index 1) with no trim are two different accepted inputs that store the same
byte 32, whose top 3 bits are 1, not the index 0 of 18 dB, and whose low 5 bits
are 0, not the 32 half-dB steps of 16.0 dB. -/
theorem txrf_power_value_fields_collide :
    dw3000_phy_txrf_power_value exact_float_ops (some 7) ⟨18, 0⟩ (half_steps 32)
      = (true, some 32)
    ∧ dw3000_phy_txrf_power_value exact_float_ops (some 7) ⟨15, 0⟩ (half_steps 0)
      = (true, some 32)
    ∧ coarse_index 18 = some 0 ∧ coarse_index 15 = some 1
    ∧ (32 : Nat) >>> 5 = 1 ∧ (32 : Nat) &&& 0x1F = 0 := by
  decide

theorem mutex_calls_append (t u : List Event) :
    mutex_calls (t ++ u) = mutex_calls t ++ mutex_calls u := by
  simp [mutex_calls]

theorem mutex_calls_write_reg_events (c : Ctx) (blocking : Bool)
    (reg subaddress val nbytes : Nat) :
    mutex_calls (write_reg_events c blocking reg subaddress val nbytes) = [] := by
  unfold write_reg_events mutex_calls
  split <;> simp [Event.mutex_call]

theorem mutex_call_read_reg_event (c : Ctx) (t : List Event) (blocking : Bool)
    (reg subaddress nbytes : Nat) :
    (read_reg_event c t blocking reg subaddress nbytes).mutex_call = false := by
  unfold read_reg_event
  split <;> rfl

theorem mutex_calls_read_reg_event (c : Ctx) (t : List Event) (blocking : Bool)
    (reg subaddress nbytes : Nat) :
    mutex_calls [read_reg_event c t blocking reg subaddress nbytes] = [] := by
  simp [mutex_calls, mutex_call_read_reg_event]

theorem mutex_calls_reset_cb_events (ifs : List uwb_mac_interface) :
    mutex_calls (reset_cb_events ifs) = [] := by
  induction ifs with
  | nil => rfl
  | cons cbs next ih =>
    unfold reset_cb_events mutex_calls at ih ⊢
    cases hcb : cbs.reset_cb with
    | none => simp only [List.filterMap_cons, hcb, Option.map_none', ih]
    | some cb =>
      simp only [List.filterMap_cons, hcb, Option.map_some', List.filter_cons, Event.mutex_call,
        Bool.false_eq_true, if_false, ih]

theorem mutex_calls_wakeup_poll_events (c : Ctx) (blocking : Bool) (t : List Event) :
    mutex_calls (wakeup_poll_events c blocking t) = [] := by
  unfold wakeup_poll_events mutex_calls
  rw [List.filter_eq_nil_iff]
  intro e he
  rcases List.mem_cons.mp he with h | h
  · rw [h, mutex_call_read_reg_event]; decide
  · rcases (poll_spec c blocking 5 _ _).2.2.2.2.1 e h with h1 | h1
    · rw [h1]; decide
    · rw [(no_os_call_of_reg_read e h1).2]; decide

theorem mutex_calls_wakeup_write_events (c : Ctx) (inst : dw3000_dev_instance_t) :
    mutex_calls (wakeup_write_events c inst) = [] := by
  unfold wakeup_write_events
  simp only [mutex_calls_append, mutex_calls_write_reg_events, List.append_nil]

theorem mutex_calls_forcetrxoff_locked_events (c : Ctx) (inst : dw3000_dev_instance_t)
    (t : List Event) :
    mutex_calls (forcetrxoff_locked_events c inst t)
      = [Event.dpl_mutex_pend, Event.dpl_mutex_release] := by
  unfold forcetrxoff_locked_events
  simp only [mutex_calls_append, mutex_calls_write_reg_events, mutex_calls_reset_cb_events,
    mutex_calls_read_reg_event]
  have h2 : mutex_calls (if inst.config.dblbuffon_enabled = true
      then [Event.dw3000_sync_rxbufptrs] else []) = [] := by
    split <;> rfl
  rw [h2]
  rfl

theorem mutex_balanced_of_failed {α : Type} (c : Ctx) (w : World) (t0 : List Event)
    (r : Res α) (pre : List Event) (hp : c.env.mutex_pend t0 ≠ dpl_error_t.DPL_OK)
    (hpre : mutex_calls pre = [])
    (hw : r.world = mtx_error_world w (pre ++ [Event.dpl_mutex_pend])) :
    mutex_balanced c w t0 r := by
  intro _
  rw [hw, if_neg hp]
  constructor
  · show mutex_calls ((w.trace ++ (pre ++ [Event.dpl_mutex_pend])).drop w.trace.length) = _
    rw [List.drop_left, mutex_calls_append, hpre]
    rfl
  · rfl

theorem mutex_balanced_of_acquired {α : Type} (c : Ctx) (w : World) (t0 : List Event)
    (r : Res α) (evs : List Event) (hp : c.env.mutex_pend t0 = dpl_error_t.DPL_OK)
    (hevs : mutex_calls evs = [Event.dpl_mutex_pend, Event.dpl_mutex_release])
    (ht : r.isFault = false → r.world.trace = w.trace ++ evs)
    (hl : r.isFault = false → r.world.mutex_level = w.mutex_level) :
    mutex_balanced c w t0 r := by
  intro hret
  rw [ht hret, if_pos hp, List.drop_left, hevs]
  exact ⟨rfl, hl hret⟩

theorem dw3000_dev_enter_sleep_balanced (c : Ctx) (w : World)
    (hv : valid_access c.regs.AON_ID c.regs.AON_CTRL_OFFSET 2) :
    mutex_balanced c w w.trace (dw3000_dev_enter_sleep c w) := by
  have h8 : (2 : Nat) ≤ 8 := by decide
  by_cases hp : c.env.mutex_pend w.trace = dpl_error_t.DPL_OK
  · have key : (dw3000_dev_enter_sleep c w).isFault = false →
        (dw3000_dev_enter_sleep c w).world.trace
          = w.trace ++ ([Event.dpl_mutex_pend]
            ++ (write_reg_events c w.inst.config.blocking_spi_transfers
                c.regs.AON_ID c.regs.AON_CTRL_OFFSET 0 2
            ++ (write_reg_events c w.inst.config.blocking_spi_transfers
                c.regs.AON_ID c.regs.AON_CTRL_OFFSET c.regs.AON_CTRL_SAVE 2
            ++ [Event.dpl_mutex_release])))
        ∧ (dw3000_dev_enter_sleep c w).world.mutex_level = w.mutex_level := by
      simp only [dw3000_dev_enter_sleep, M_bind_apply, dpl_mutex_pend, hp, ne_eq,
        not_true_eq_false, if_false, if_true, dw3000_write_reg_eq _ _ _ _ _ _ h8 hv, modify_inst,
        dpl_mutex_release, c_assert, get_inst, M_pure_apply, List.append_assoc]
      generalize c.env.mutex_release _ = r
      cases r <;> simp [Res.isFault, Res.world]
    refine mutex_balanced_of_acquired c w _ _ _ hp ?_ (fun h => (key h).1) (fun h => (key h).2)
    simp only [mutex_calls_append, mutex_calls_write_reg_events]
    rfl
  · refine mutex_balanced_of_failed c w _ _ [] hp rfl ?_
    simp only [dw3000_dev_enter_sleep, M_bind_apply, dpl_mutex_pend, hp, ne_eq,
      not_false_eq_true, if_true, if_false, modify_inst, get_inst, M_pure_apply,
      mtx_error_world, Res.world, List.nil_append]

theorem dw3000_phy_rx_reset_balanced (c : Ctx) (w : World) (hv : rx_reset_regs_ok c.regs) :
    mutex_balanced c w w.trace (dw3000_phy_rx_reset c w) := by
  have h8 : (1 : Nat) ≤ 8 := by decide
  unfold rx_reset_regs_ok at hv
  by_cases hp : c.env.mutex_pend w.trace = dpl_error_t.DPL_OK
  · have key : (dw3000_phy_rx_reset c w).isFault = false →
        (dw3000_phy_rx_reset c w).world.trace
          = w.trace ++ ([Event.dpl_mutex_pend]
            ++ (write_reg_events c w.inst.config.blocking_spi_transfers
                c.regs.PMSC_ID c.regs.PMSC_CTRL0_SOFTRESET_OFFSET c.regs.PMSC_CTRL0_RESET_RX 1
            ++ (write_reg_events c w.inst.config.blocking_spi_transfers
                c.regs.PMSC_ID c.regs.PMSC_CTRL0_SOFTRESET_OFFSET c.regs.PMSC_CTRL0_RESET_CLEAR 1
            ++ [Event.dpl_mutex_release])))
        ∧ (dw3000_phy_rx_reset c w).world.mutex_level = w.mutex_level := by
      simp only [dw3000_phy_rx_reset, M_bind_apply, dpl_mutex_pend, hp, ne_eq,
        not_true_eq_false, if_false, if_true, dw3000_write_reg_eq _ _ _ _ _ _ h8 hv,
        dpl_mutex_release, c_assert, List.append_assoc]
      generalize c.env.mutex_release _ = r
      cases r <;> simp [Res.isFault, Res.world]
    refine mutex_balanced_of_acquired c w _ _ _ hp ?_ (fun h => (key h).1) (fun h => (key h).2)
    simp only [mutex_calls_append, mutex_calls_write_reg_events]
    rfl
  · refine mutex_balanced_of_failed c w _ _ [] hp rfl ?_
    simp only [dw3000_phy_rx_reset, M_bind_apply, dpl_mutex_pend, hp, ne_eq,
      not_false_eq_true, if_true, if_false, modify_inst, mtx_error_world, Res.world,
      List.nil_append]

theorem dw3000_phy_interrupt_mask_balanced (c : Ctx) (w : World) (bitmask enable : Nat)
    (hv : valid_access c.regs.SYS_MASK_ID 0 4) :
    mutex_balanced c w w.trace (dw3000_phy_interrupt_mask c bitmask enable w) := by
  have h8 : (4 : Nat) ≤ 8 := by decide
  by_cases hp : c.env.mutex_pend w.trace = dpl_error_t.DPL_OK
  · have key : (dw3000_phy_interrupt_mask c bitmask enable w).isFault = false →
        (∃ v, (dw3000_phy_interrupt_mask c bitmask enable w).world.trace
          = w.trace ++ ([Event.dpl_mutex_pend]
            ++ ([read_reg_event c (w.trace ++ [Event.dpl_mutex_pend])
                  w.inst.config.blocking_spi_transfers c.regs.SYS_MASK_ID 0 4]
            ++ (write_reg_events c w.inst.config.blocking_spi_transfers c.regs.SYS_MASK_ID 0 v 4
            ++ [Event.dpl_mutex_release]))))
        ∧ (dw3000_phy_interrupt_mask c bitmask enable w).world.mutex_level = w.mutex_level := by
      simp only [dw3000_phy_interrupt_mask, M_bind_apply, dpl_mutex_pend, hp, ne_eq,
        not_true_eq_false, if_false, if_true, dw3000_read_reg_eq _ _ _ _ _ h8 hv,
        dw3000_write_reg_eq _ _ _ _ _ _ h8 hv, dpl_mutex_release, c_assert, List.append_assoc]
      generalize c.env.mutex_release _ = r
      cases r
      · intro _
        exact ⟨⟨_, rfl⟩, by simp [Res.world]⟩
      · simp [Res.isFault]
      · simp [Res.isFault]
    intro hret
    obtain ⟨⟨v, ht⟩, hl⟩ := key hret
    refine mutex_balanced_of_acquired c w _ _ _ hp ?_ (fun _ => ht) (fun _ => hl) hret
    simp only [mutex_calls_append, mutex_calls_write_reg_events, mutex_calls_read_reg_event]
    rfl
  · refine mutex_balanced_of_failed c w _ _ [] hp rfl ?_
    simp only [dw3000_phy_interrupt_mask, M_bind_apply, dpl_mutex_pend, hp, ne_eq,
      not_false_eq_true, if_true, if_false, modify_inst, mtx_error_world, Res.world,
      List.nil_append]

theorem wakeup_sem_step_mutex_level (c : Ctx) (u : World) :
    (wakeup_sem_step c u).mutex_level = u.mutex_level := by
  unfold wakeup_sem_step
  split <;> rfl

theorem dw3000_dev_wakeup_balanced (c : Ctx) (w : World) (hv : wakeup_regs_ok c.regs) :
    mutex_balanced c w w.trace (dw3000_dev_wakeup c w) := by
  by_cases hp : c.env.mutex_pend w.trace = dpl_error_t.DPL_OK
  · have e := dw3000_dev_wakeup_acquired_any c w hv hp
    have hsem : mutex_calls (if w.tx_sem = 0 then [Event.dpl_sem_release] else []) = [] := by
      split <;> rfl
    by_cases hrel : c.env.mutex_release (w.trace ++ ([Event.dpl_mutex_pend]
        ++ (wakeup_poll_events c w.inst.config.blocking_spi_transfers w.trace
        ++ wakeup_write_events c w.inst))) = dpl_error_t.DPL_OK
    · rw [if_pos hrel] at e
      refine mutex_balanced_of_acquired c w _ _
        ([Event.dpl_mutex_pend]
          ++ wakeup_poll_events c w.inst.config.blocking_spi_transfers w.trace
          ++ wakeup_write_events c w.inst ++ [Event.dpl_mutex_release]
          ++ (if w.tx_sem = 0 then [Event.dpl_sem_release] else [])) hp ?_ (fun _ => ?_)
        (fun _ => ?_)
      · simp only [mutex_calls_append, mutex_calls_wakeup_poll_events,
          mutex_calls_wakeup_write_events, hsem]
        rfl
      · rw [e]
        simp only [Res.world, wakeup_sem_step_trace, List.append_assoc]
      · rw [e]
        simp only [Res.world, wakeup_sem_step_mutex_level]
    · rw [if_neg hrel] at e
      intro hret
      rw [e] at hret
      cases hret
  · refine mutex_balanced_of_failed c w _ _ [] hp rfl ?_
    simp only [dw3000_dev_wakeup, M_bind_apply, dpl_mutex_pend, hp, ne_eq,
      not_false_eq_true, if_true, if_false, modify_inst, get_inst, M_pure_apply,
      mtx_error_world, Res.world, List.nil_append]

theorem dw3000_phy_forcetrxoff_balanced (c : Ctx) (w : World)
    (hv : forcetrxoff_regs_ok c.regs) :
    mutex_balanced c w
      (w.trace ++ [read_reg_event c w.trace w.inst.config.blocking_spi_transfers
        c.regs.SYS_MASK_ID 0 4])
      (dw3000_phy_forcetrxoff c w) := by
  have h4 : (4 : Nat) ≤ 8 := by decide
  by_cases hp : c.env.mutex_pend (w.trace
      ++ [read_reg_event c w.trace w.inst.config.blocking_spi_transfers c.regs.SYS_MASK_ID 0 4])
      = dpl_error_t.DPL_OK
  · have e := dw3000_phy_forcetrxoff_acquired_any c w hv hp
    intro hret
    rw [if_pos hp]
    rw [e] at hret ⊢
    split_ifs at hret ⊢ with h1 h2 h3
    · constructor
      · show mutex_calls ((w.trace ++ (forcetrxoff_locked_events c w.inst w.trace
            ++ [Event.dpl_sem_release])).drop w.trace.length) = _
        rw [List.drop_left, mutex_calls_append, mutex_calls_forcetrxoff_locked_events]
        rfl
      · rfl
    · cases hret
    · constructor
      · show mutex_calls ((w.trace ++ forcetrxoff_locked_events c w.inst w.trace).drop
            w.trace.length) = _
        rw [List.drop_left, mutex_calls_forcetrxoff_locked_events]
      · rfl
    · cases hret
  · refine mutex_balanced_of_failed c w _ _
      [read_reg_event c w.trace w.inst.config.blocking_spi_transfers c.regs.SYS_MASK_ID 0 4]
      hp (mutex_calls_read_reg_event _ _ _ _ _ _) ?_
    simp only [dw3000_phy_forcetrxoff, M_bind_apply, dw3000_read_reg_eq _ _ _ _ _ h4 hv.1,
      dpl_mutex_pend, hp, ne_eq, not_false_eq_true, if_true, if_false, modify_inst,
      mtx_error_world, Res.world, List.append_assoc, List.singleton_append]

/-- C30: whenever one of `dw3000_dev_enter_sleep`, `dw3000_dev_wakeup`,
`dw3000_phy_rx_reset`, `dw3000_phy_forcetrxoff` and `dw3000_phy_interrupt_mask`
returns, it has called `dpl_mutex_pend` once, and after it `dpl_mutex_release`
once if the mutex was acquired and not at all if it was not; the nesting level
of the mutex is then what it was at entry, so a mutex that was free at entry is
free. This holds whatever the chip answers and whatever the OS calls return. -/
theorem mutex_released_once (c : Ctx) (w : World) (bitmask enable : Nat)
    (hsleep : valid_access c.regs.AON_ID c.regs.AON_CTRL_OFFSET 2)
    (hwake : wakeup_regs_ok c.regs) (hreset : rx_reset_regs_ok c.regs)
    (hforce : forcetrxoff_regs_ok c.regs) :
    mutex_balanced c w w.trace (dw3000_dev_enter_sleep c w)
    ∧ mutex_balanced c w w.trace (dw3000_dev_wakeup c w)
    ∧ mutex_balanced c w w.trace (dw3000_phy_rx_reset c w)
    ∧ mutex_balanced c w
        (w.trace ++ [read_reg_event c w.trace w.inst.config.blocking_spi_transfers
          c.regs.SYS_MASK_ID 0 4])
        (dw3000_phy_forcetrxoff c w)
    ∧ mutex_balanced c w w.trace (dw3000_phy_interrupt_mask c bitmask enable w)
    ∧ (w.mutex_level = 0 →
        ((dw3000_dev_enter_sleep c w).isFault = false →
          (dw3000_dev_enter_sleep c w).world.mutex_level = 0)
        ∧ ((dw3000_dev_wakeup c w).isFault = false →
          (dw3000_dev_wakeup c w).world.mutex_level = 0)
        ∧ ((dw3000_phy_rx_reset c w).isFault = false →
          (dw3000_phy_rx_reset c w).world.mutex_level = 0)
        ∧ ((dw3000_phy_forcetrxoff c w).isFault = false →
          (dw3000_phy_forcetrxoff c w).world.mutex_level = 0)
        ∧ ((dw3000_phy_interrupt_mask c bitmask enable w).isFault = false →
          (dw3000_phy_interrupt_mask c bitmask enable w).world.mutex_level = 0)) := by
  have b1 := dw3000_dev_enter_sleep_balanced c w hsleep
  have b2 := dw3000_dev_wakeup_balanced c w hwake
  have b3 := dw3000_phy_rx_reset_balanced c w hreset
  have b4 := dw3000_phy_forcetrxoff_balanced c w hforce
  have b5 := dw3000_phy_interrupt_mask_balanced c w bitmask enable hforce.1
  exact ⟨b1, b2, b3, b4, b5, fun h0 =>
    ⟨fun h => ((b1 h).2).trans h0, fun h => ((b2 h).2).trans h0, fun h => ((b3 h).2).trans h0,
      fun h => ((b4 h).2).trans h0, fun h => ((b5 h).2).trans h0⟩⟩

/-- Example for C30: in the example setting `dw3000_dev_enter_sleep` calls
`dpl_mutex_pend` and then `dpl_mutex_release`, and `dw3000_phy_forcetrxoff`
leaves the mutex free; with a mutex that cannot be acquired
`dw3000_phy_rx_reset` calls `dpl_mutex_pend` only. -/
theorem mutex_released_once_witness :
    mutex_calls ((dw3000_dev_enter_sleep example_ctx example_world).world.trace.drop
        example_world.trace.length) = [Event.dpl_mutex_pend, Event.dpl_mutex_release]
    ∧ (dw3000_phy_forcetrxoff example_ctx example_world).world.mutex_level = 0
    ∧ mutex_calls ((dw3000_phy_rx_reset example_ctx_mutex_fails example_world).world.trace.drop
        example_world.trace.length) = [Event.dpl_mutex_pend] :=
  ⟨((mutex_released_once example_ctx example_world 0 0 (by decide) (by decide) (by decide)
      (by decide)).1 (by decide)).1,
   ((mutex_released_once example_ctx example_world 0 0 (by decide) (by decide) (by decide)
      (by decide)).2.2.2.2.2 rfl).2.2.2.1 (by decide),
   ((mutex_released_once example_ctx_mutex_fails example_world 0 0 (by decide) (by decide)
      (by decide) (by decide)).2.2.1 (by decide)).1⟩

end DW3000
